import Mathlib

/-!
Verification of the GOES-R geostationary fixed-grid coordinate engine of the
`wx-scripts` repository.

This file contains a shallow embedding of the relevant parts of
`src/goes/grids.py` (fixed-grid catalog, pixel-footprint resolver, footprint
deduplicator) and `src/scripts/goes/proj_utils.py` (the scan-angle/geodetic
coordinate transforms), together with theorems settling the specification
claims about them.

Modelling conventions:

* Python float literals are modelled by their exact decimal values in `ℚ`
  (for the catalog, whose arithmetic was checked to agree with IEEE double
  evaluation on every table entry) or in `ℝ` (for the transforms).
* Python dictionaries and their aliasing/mutation behaviour are modelled by
  an explicit heap of association lists, so that frame conditions
  (configuration tables left unchanged, results freshly allocated) are real
  statements rather than artifacts of a purely functional translation.
* The transforms use numpy scalar semantics: `numpy.sqrt` of a negative
  number returns NaN (it does not raise `ValueError`), and no arithmetic
  primitive raises.  Non-finite IEEE values are modelled by dedicated
  constructors of the type `F` below.
* The scipy scattered-data interpolators used by `quads_from_corner_lookup`
  are third-party collaborators; they enter the embedding as function
  parameters (`LinearND` returns `none` for a query outside the convex hull,
  modelling its NaN; `NearestND` is total).
-/

set_option maxHeartbeats 1000000
set_option autoImplicit false

namespace Grids

/-! ### Python value / dictionary / heap model for `grids.py` -/

/-- A Python value stored in one of the `grids.py` dictionaries: a float
(modelled as `ℚ`), an int, or a reference to another (nested) dictionary. -/
inductive PyVal where
  | num (q : ℚ)
  | int (z : ℤ)
  | ref (a : ℕ)
  deriving DecidableEq

/-- A Python dictionary: an association list keyed by strings, in insertion
order. -/
abbrev PyDict := List (String × PyVal)

/-- Dictionary read: `d[k]`, as an `Option`. -/
def dget (d : PyDict) (k : String) : Option PyVal :=
  (d.find? (fun p => p.1 == k)).map (fun p => p.2)

/-- Dictionary write `d[k] = v`: replaces in place if the key is present,
appends otherwise (Python dicts preserve insertion order). -/
def dset (d : PyDict) (k : String) (v : PyVal) : PyDict :=
  if d.any (fun p => p.1 == k) then
    d.map (fun p => if p.1 == k then (k, v) else p)
  else d ++ [(k, v)]

/-- The heap: a map from addresses to dictionary objects.  Nested
dictionaries are stored as separate objects and referenced by address,
so `dict.copy()` is a shallow copy exactly as in Python. -/
abbrev Heap := List (ℕ × PyDict)

/-- Heap read. -/
def hget (h : Heap) (a : ℕ) : Option PyDict :=
  (h.find? (fun p => p.1 == a)).map (fun p => p.2)

/-- Heap write (in-place object mutation). -/
def hset (h : Heap) (a : ℕ) (d : PyDict) : Heap :=
  h.map (fun p => if p.1 == a then (a, d) else p)

/-- Allocation of a fresh object; the address is the current heap size,
which is fresh because the heap only grows. -/
def halloc (h : Heap) (d : PyDict) : Heap × ℕ :=
  (h ++ [(h.length, d)], h.length)

/-! ### The module-level configuration tables of `grids.py`

Addresses: 0 `goesr_nadir_lon`, 1 `goesr_full`, 2 `goesr_conus`,
3 `goesr_meso`, 4 `goeseast_full`, 5/6 its y/x image-bound dicts,
7 `goeswest_full`, 8 `goestest_full`, 9-11 the meso dicts,
12 `goeseast_conus`, 13/14 its y/x image-bound dicts, 15 `goeswest_conus`,
16 `goestest_conus`, 17 `goesr_resolutions`. -/

def goesr_nadir_lon : PyDict :=
  [("east", .num (-75.0)), ("west", .num (-137.0)), ("test", .num (-89.5))]

def goesr_full : PyDict :=
  [("span_EW", .num (0.151872 * 2.0)), ("span_NS", .num (0.151872 * 2.0)),
   ("center_EW", .num 0.0), ("center_NS", .num 0.0)]

def goesr_conus : PyDict :=
  [("span_EW", .num 0.14), ("span_NS", .num 0.084)]

def goesr_meso : PyDict :=
  [("span_EW", .num 0.028), ("span_NS", .num 0.028)]

def goeseast_full_y_img_bounds : PyDict :=
  [("n", .num 0.151872), ("s", .num (-0.151872))]

def goeseast_full_x_img_bounds : PyDict :=
  [("w", .num (-0.151872)), ("e", .num 0.151872)]

/-- `goeseast_full = goesr_full.copy()` followed by assignment of the two
image-bound keys (whose dict values live at addresses 5 and 6). -/
def goeseast_full : PyDict :=
  dset (dset goesr_full "y_img_bounds" (.ref 5)) "x_img_bounds" (.ref 6)

def goeswest_full : PyDict := goesr_full

def goestest_full : PyDict := goesr_full

def goeseast_meso : PyDict := goesr_meso

def goeswest_meso : PyDict := goesr_meso

def goestest_meso : PyDict := goesr_meso

def goeseast_conus_y_img_bounds : PyDict :=
  [("n", .num 0.128240), ("s", .num 0.044240)]

def goeseast_conus_x_img_bounds : PyDict :=
  [("w", .num (-0.101360)), ("e", .num 0.038640)]

def goeseast_conus : PyDict :=
  dset (dset (dset (dset goesr_conus "center_EW" (.num (-0.031360)))
    "center_NS" (.num 0.086240)) "y_img_bounds" (.ref 13)) "x_img_bounds" (.ref 14)

def goeswest_conus : PyDict :=
  dset (dset goesr_conus "center_EW" (.num 0.000000)) "center_NS" (.num 0.086240)

def goestest_conus : PyDict :=
  dset (dset goesr_conus "center_EW" (.num (-0.005040))) "center_NS" (.num 0.084560)

def goesr_resolutions : PyDict :=
  [("0.5", .num 14e-6), ("1.0", .num 28e-6), ("2.0", .num 56e-6),
   ("4.0", .num 112e-6), ("8.0", .num 224e-6), ("10.0", .num 280e-6),
   ("100.0", .num 2800e-6)]

/-- The module heap after `grids.py` has been imported. -/
def initHeap : Heap :=
  [(0, goesr_nadir_lon), (1, goesr_full), (2, goesr_conus), (3, goesr_meso),
   (4, goeseast_full), (5, goeseast_full_y_img_bounds), (6, goeseast_full_x_img_bounds),
   (7, goeswest_full), (8, goestest_full),
   (9, goeseast_meso), (10, goeswest_meso), (11, goestest_meso),
   (12, goeseast_conus), (13, goeseast_conus_y_img_bounds), (14, goeseast_conus_x_img_bounds),
   (15, goeswest_conus), (16, goestest_conus),
   (17, goesr_resolutions)]

/-- Addresses of the module-level configuration objects. -/
def staticAddrs : List ℕ :=
  [0, 1, 2, 3, 4, 5, 6, 7, 8, 9, 10, 11, 12, 13, 14, 15, 16, 17]

/-- The `globals()['goes' + position + '_' + view]` lookup. -/
def globalsAddr (name : String) : Option ℕ :=
  List.lookup name
    [("goeseast_full", 4), ("goeswest_full", 7), ("goestest_full", 8),
     ("goeseast_meso", 9), ("goeswest_meso", 10), ("goestest_meso", 11),
     ("goeseast_conus", 12), ("goeswest_conus", 15), ("goestest_conus", 16)]

/-! ### `get_GOESR_grid` -/

/-- Which of the three `assert` statements of `get_GOESR_grid` failed. -/
inductive Axis where
  | position
  | sector
  | resolution
  deriving DecidableEq

/-- Errors of the catalog component.  The three `assert` statements map to
`invalidConfiguration` (the failing assert identifies the axis); `keyError`
and `typeError` model the remaining dynamic failure modes of the function
body, and are proved unreachable. -/
inductive GridErr where
  | invalidConfiguration (axis : Axis)
  | keyError
  | typeError
  deriving DecidableEq

def asNum (v : PyVal) : Except GridErr ℚ :=
  match v with
  | .num q => .ok q
  | _ => .error .typeError

def dgetE (d : PyDict) (k : String) : Except GridErr PyVal :=
  match dget d k with
  | some v => .ok v
  | none => .error .keyError

def hgetE (h : Heap) (a : ℕ) : Except GridErr PyDict :=
  match hget h a with
  | some d => .ok d
  | none => .error .keyError

/-- Python `int()` applied to a float: truncation toward zero. -/
def pyInt (q : ℚ) : ℤ :=
  if 0 ≤ q then ⌊q⌋ else -⌊-q⌋

def positionKeys : List String := ["east", "west", "test"]

def viewKeys : List String := ["full", "conus", "meso"]

/-- The keys of `goesr_resolutions`. -/
def resolutionKeys : List String := goesr_resolutions.map (fun p => p.1)

/-- Embedding of `get_GOESR_grid(position, view, resolution)`.  Returns the
final heap together with the address of the freshly allocated result
dictionary.  The three asserts come first; then
`view = globals()['goes'+position+'_'+view].copy()` copies the selected
table and the four derived entries are assigned on the copy. -/
def get_GOESR_grid (h : Heap) (position view resolution : String) :
    Except GridErr (Heap × ℕ) :=
  if position ∉ positionKeys then .error (.invalidConfiguration .position) else
  if view ∉ viewKeys then .error (.invalidConfiguration .sector) else
  if resolution ∉ resolutionKeys then .error (.invalidConfiguration .resolution) else
  (match globalsAddr ("goes" ++ position ++ "_" ++ view) with
    | some a => (Except.ok a : Except GridErr ℕ)
    | none => Except.error GridErr.keyError).bind (fun a0 =>
  (hgetE h a0).bind (fun d0 =>
    let p := halloc h d0
    (dgetE goesr_resolutions resolution).bind (fun rv => (asNum rv).bind (fun resq =>
    let d1 := dset d0 "resolution" (.num resq)
    (dgetE d1 "span_EW").bind (fun sv => (asNum sv).bind (fun sEW =>
    (dgetE d1 "resolution").bind (fun rv1 => (asNum rv1).bind (fun r1 =>
    let d2 := dset d1 "pixels_EW" (.int (pyInt (sEW / r1)))
    (dgetE d2 "span_NS").bind (fun nv => (asNum nv).bind (fun sNS =>
    let d3 := dset d2 "pixels_NS" (.int (pyInt (sNS / r1)))
    (dgetE goesr_nadir_lon position).bind (fun av => (asNum av).bind (fun nad =>
    let d4 := dset d3 "nadir_lon" (.num nad)
    .ok (hset p.1 p.2 d4, p.2)))))))))))))

/-- A `(position, view, resolution)` request recognized by the static
tables. -/
def validKey (position view resolution : String) : Prop :=
  position ∈ positionKeys ∧ view ∈ viewKeys ∧ resolution ∈ resolutionKeys

instance (p v r : String) : Decidable (validKey p v r) := by
  unfold validKey; infer_instance

/-- Value of key `k` in the dictionary returned by a catalog call. -/
def resultVal (r : Except GridErr (Heap × ℕ)) (k : String) : Option PyVal :=
  match r with
  | .ok (h, a) => (hget h a).bind (fun d => dget d k)
  | .error _ => none

/-- Span value recorded in the static table selected by `(pos, view)`. -/
def tblSpan (pos view key : String) : Option ℚ :=
  (globalsAddr ("goes" ++ pos ++ "_" ++ view)).bind (fun a =>
    (hget initHeap a).bind (fun d =>
      match dget d key with
      | some (.num q) => some q
      | _ => none))

/-- Resolution value (radians per pixel) recorded in `goesr_resolutions`. -/
def tblRes (res : String) : Option ℚ :=
  match dget goesr_resolutions res with
  | some (.num q) => some q
  | _ => none

/-- Keys of a dictionary, in order. -/
def keysOf (d : PyDict) : List String := d.map (fun p => p.1)

/-! ### `count` (footprint deduplicator) -/

/-- A footprint: the serialized 4x2 corner array of one event.  Equality of
these values models the exact byte-pattern equality of `ndarray.tostring()`
(an injective serialization of the float array). -/
abbrev Corners := List (ℚ × ℚ)

/-- The `EventQuad` class of `grids.py`. -/
structure EventQuad where
  id : String
  corners : Corners
  count : ℕ
  deriving DecidableEq

/-- `str(id_num).zfill(6)`. -/
def zfill6 (n : ℕ) : String :=
  let s := toString n
  String.mk (List.replicate (6 - s.length) '0') ++ s

/-- Embedding of `count(listOfCorners)`: serialize each corner array
(injective, modelled as the identity), take the distinct values
(`list(set(...))`; the set's iteration order is unspecified in Python, the
model uses one deterministic order), and build one `EventQuad` per distinct
value whose `count` is its multiplicity, with sequential ids from 1. -/
def count (listOfCorners : List Corners) : List EventQuad :=
  letI : BEq Corners := instBEqOfDecidableEq
  let strs := listOfCorners
  let uniqueList := strs.dedup
  (uniqueList.enumFrom 1).map (fun p => ⟨zfill6 p.1, p.2, strs.count p.2⟩)

/-! ### `quads_from_corner_lookup` (pixel footprint resolver)

The scipy interpolators are modelled as function parameters:
`LinearND grid vals query` returns `none` when the triangulation-based
linear interpolator would return NaN (query outside the convex hull), and
`NearestND` is the total nearest-neighbour interpolator.  Both take the
flattened grid locations and the corresponding values, as in the source. -/

/-- Signature of `LinearNDInterpolator(grid_loc, vals)` applied to a query
point; `none` models the NaN returned outside the convex hull. -/
abbrev LinInterp := List (ℚ × ℚ) → List ℚ → (ℚ × ℚ) → Option ℚ

/-- Signature of `NearestNDInterpolator(grid_loc, vals)` applied to a query
point (total). -/
abbrev NearInterp := List (ℚ × ℚ) → List ℚ → (ℚ × ℚ) → ℚ

/-- Embedding of the per-corner body of the `for ci in range(n_corners)`
loop: linear interpolation of the corner offsets at every event location,
with NaN entries replaced by nearest-neighbour extrapolation when
`extrapolate` is set. -/
def cornerColumn (lin : LinInterp) (near : NearInterp)
    (grid_loc : List (ℚ × ℚ)) (vals : List ℚ) (pixel_loc : List (ℚ × ℚ))
    (extrapolate : Bool) : List (Option ℚ) :=
  let d := pixel_loc.map (lin grid_loc vals)
  if extrapolate && d.any Option.isNone then
    (pixel_loc.zip d).map (fun pd =>
      match pd.2 with
      | some v => some v
      | none => some (near grid_loc vals pd.1))
  else d

/-- Embedding of `quads_from_corner_lookup(g_lons, g_lats, corner_pts,
p_lon, p_lat, nadir_lon, inflate, extrapolate)`.  `corner_pts` holds, for
each flattened grid cell, the `(Δlon, Δlat)` offset of each of the 4
corners.  The result is one list per event of its 4 corner coordinates;
`none` models a NaN coordinate. -/
def quads_from_corner_lookup (lin : LinInterp) (near : NearInterp)
    (g_lons g_lats : List ℚ) (corner_pts : List (Fin 4 → ℚ × ℚ))
    (p_lon p_lat : List ℚ) (nadir_lon inflate : ℚ) (extrapolate : Bool) :
    List (List (Option ℚ × Option ℚ)) :=
  let lon_shift := g_lons.map (fun v => v + nadir_lon)
  let grid_loc := lon_shift.zip g_lats
  let pixel_loc := p_lon.zip p_lat
  let col := fun (ci : Fin 4) =>
    let dlon := cornerColumn lin near grid_loc (corner_pts.map (fun f => (f ci).1))
      pixel_loc extrapolate
    let dlat := cornerColumn lin near grid_loc (corner_pts.map (fun f => (f ci).2))
      pixel_loc extrapolate
    (pixel_loc.zip (dlon.zip dlat)).map (fun pdd =>
      (pdd.2.1.map (fun d => pdd.1.1 + d * inflate),
       pdd.2.2.map (fun d => pdd.1.2 + d * inflate)))
  (List.range pixel_loc.length).map (fun i =>
    (List.finRange 4).map (fun ci => (col ci).getD i (none, none)))

/-- The pointwise value produced for one event by linear interpolation with
nearest-neighbour fallback (the claim's "interpolated corner offset"). -/
def resolvedOffset (lin : LinInterp) (near : NearInterp)
    (grid_loc : List (ℚ × ℚ)) (vals : List ℚ) (pt : ℚ × ℚ) : ℚ :=
  match lin grid_loc vals pt with
  | some v => v
  | none => near grid_loc vals pt

end Grids

namespace Proj

noncomputable section

open scoped Classical

/-! ### numpy float64 scalar model

A scalar is either a finite real number or one of the IEEE special values.
All arithmetic helpers propagate the special values as numpy float64
scalars do (operations emit warnings, never exceptions).  The sign of an
IEEE zero is not modelled: a finite value divided by zero is given the sign
of its numerator. -/

/-- A numpy float64 scalar: finite (an exact real), NaN, or a signed
infinity. -/
inductive F where
  | nan
  | pinf
  | ninf
  | fin (x : ℝ)

namespace F

def neg : F → F
  | nan => nan
  | pinf => ninf
  | ninf => pinf
  | fin x => fin (-x)

def add : F → F → F
  | nan, _ => nan
  | _, nan => nan
  | pinf, ninf => nan
  | ninf, pinf => nan
  | pinf, _ => pinf
  | _, pinf => pinf
  | ninf, _ => ninf
  | _, ninf => ninf
  | fin a, fin b => fin (a + b)

def sub (a b : F) : F := a.add b.neg

def mul : F → F → F
  | nan, _ => nan
  | _, nan => nan
  | pinf, pinf => pinf
  | pinf, ninf => ninf
  | ninf, pinf => ninf
  | ninf, ninf => pinf
  | pinf, fin b => if 0 < b then pinf else if b < 0 then ninf else nan
  | fin a, pinf => if 0 < a then pinf else if a < 0 then ninf else nan
  | ninf, fin b => if 0 < b then ninf else if b < 0 then pinf else nan
  | fin a, ninf => if 0 < a then ninf else if a < 0 then pinf else nan
  | fin a, fin b => fin (a * b)

def div : F → F → F
  | nan, _ => nan
  | _, nan => nan
  | pinf, pinf => nan
  | pinf, ninf => nan
  | ninf, pinf => nan
  | ninf, ninf => nan
  | pinf, fin b => if 0 ≤ b then pinf else ninf
  | ninf, fin b => if 0 ≤ b then ninf else pinf
  | fin _, pinf => fin 0
  | fin _, ninf => fin 0
  | fin a, fin b =>
      if b = 0 then (if a = 0 then nan else if 0 < a then pinf else ninf)
      else fin (a / b)

/-- Squaring, the model of the Python `** 2`. -/
def sq (a : F) : F := a.mul a

def sqrt : F → F
  | nan => nan
  | pinf => pinf
  | ninf => nan
  | fin x => if x < 0 then nan else fin (Real.sqrt x)

def abs : F → F
  | nan => nan
  | pinf => pinf
  | ninf => pinf
  | fin x => fin |x|

def sin : F → F
  | fin x => fin (Real.sin x)
  | _ => nan

def cos : F → F
  | fin x => fin (Real.cos x)
  | _ => nan

def tan : F → F
  | fin x => fin (Real.tan x)
  | _ => nan

def arctan : F → F
  | nan => nan
  | pinf => fin (Real.pi / 2)
  | ninf => fin (-(Real.pi / 2))
  | fin x => fin (Real.arctan x)

/-- `numpy.radians`. -/
def radians (x : F) : F := x.mul (fin (Real.pi / 180))

/-- `numpy.degrees`. -/
def degrees (x : F) : F := x.mul (fin (180 / Real.pi))

end F

/-- Python exceptions relevant to `proj_utils.py`. -/
inductive PyExc where
  | valueError
  | other

/-! ### Constants of `scan_to_geod` / `geod_to_scan` (exact decimal values
of the source literals). -/

def r_eq : ℝ := 6378137

def r_pol : ℝ := 6356752.31414

def e_ecc : ℝ := 0.0818191910435

def Hgeo : ℝ := 42164160

def lambda_0 : ℝ := -1.308996939

/-! ### The helper functions of `proj_utils.py` over `F` -/

def _calc_a (x y r_eq' r_pol' : F) : F :=
  let f := ((F.sin x).sq).add ((F.cos x).sq)
  let g := ((F.cos y).sq).add (((r_eq'.sq).div (r_pol'.sq)).mul ((F.sin y).sq))
  f.mul g

def _calc_b (x y H' : F) : F :=
  (((F.fin (-2)).mul H').mul (F.cos x)).mul (F.cos y)

def _calc_c (H' r_eq' : F) : F :=
  (H'.sq).sub (r_eq'.sq)

/-- Embedding of `_calc_rs`.  The `try`/`except ValueError` of the source is
mirrored by the match on an `Except` value; since `numpy.sqrt` never raises
(it returns NaN on a negative argument), the tried computation is always
`Except.ok` and the handler arm is unreachable. -/
def _calc_rs (a b c : F) : Except PyExc F :=
  match (Except.ok ((b.neg).sub (F.sqrt ((b.sq).sub (((F.fin 4).mul a).mul c)))) :
      Except PyExc F) with
  | .ok num => .ok (num.div ((F.fin 2).mul a))
  | .error .valueError =>
      .ok (((b.neg).sub
            (F.sqrt (F.abs ((b.sq).sub (((F.fin 4).mul a).mul c))))).div
          ((F.fin 2).mul a))
  | .error e => .error e

def _calc_sx (r_s x y : F) : F := (r_s.mul (F.cos x)).mul (F.cos y)

def _calc_sy (r_s x : F) : F := (r_s.neg).mul (F.sin x)

def _calc_sz (r_s x y : F) : F := (r_s.mul (F.cos x)).mul (F.sin y)

def _calc_thetac (r_eq' r_pol' lat : F) : F :=
  F.arctan (((r_pol'.sq).div (r_eq'.sq)).mul (F.tan lat))

def _calc_rc (r_pol' e' theta_c : F) : F :=
  r_pol'.div (F.sqrt ((F.fin 1).sub ((e'.sq).mul ((F.cos theta_c).sq))))

def _calc_sx_inv (H' r_c theta_c lon lambda0' : F) : F :=
  H'.sub ((r_c.mul (F.cos theta_c)).mul (F.cos (lon.sub lambda0')))

def _calc_sy_inv (r_c theta_c lon lambda0' : F) : F :=
  ((r_c.neg).mul (F.cos theta_c)).mul (F.sin (lon.sub lambda0'))

def _calc_sz_inv (r_c theta_c : F) : F :=
  r_c.mul (F.sin theta_c)

/-- Embedding of `scan_to_geod(y, x)`.  The isinstance/float conversions of
the source are identities on float inputs.  The only potentially raising
callee is `_calc_rs`; its exception, if any, propagates. -/
def scan_to_geod (y x : F) : Except PyExc (F × F) :=
  let a := _calc_a x y (F.fin r_eq) (F.fin r_pol)
  let b := _calc_b x y (F.fin Hgeo)
  let c := _calc_c (F.fin Hgeo) (F.fin r_eq)
  match _calc_rs a b c with
  | .error exc => .error exc
  | .ok r_s =>
    let s_x := _calc_sx r_s x y
    let s_y := _calc_sy r_s x
    let s_z := _calc_sz r_s x y
    let lat1 := ((F.fin r_eq).sq).div ((F.fin r_pol).sq)
    let lat2 := s_z.div (F.sqrt ((((F.fin Hgeo).sub s_x).sq).add (s_y.sq)))
    let lat := F.arctan (lat1.mul lat2)
    let lon1 := F.arctan (s_y.div ((F.fin Hgeo).sub s_x))
    let lon := (F.fin lambda_0).sub lon1
    .ok (lat.degrees, lon.degrees)

/-- Embedding of `geod_to_scan(lat, lon)`.  No callee can raise. -/
def geod_to_scan (lat lon : F) : Except PyExc (F × F) :=
  let latr := lat.radians
  let lonr := lon.radians
  let theta_c := _calc_thetac (F.fin r_eq) (F.fin r_pol) latr
  let r_c := _calc_rc (F.fin r_pol) (F.fin e_ecc) theta_c
  let s_x := _calc_sx_inv (F.fin Hgeo) r_c theta_c lonr (F.fin lambda_0)
  let s_y := _calc_sy_inv r_c theta_c lonr (F.fin lambda_0)
  let s_z := _calc_sz_inv r_c theta_c
  let y := F.arctan (s_z.div s_x)
  let x := (s_y.neg).div (F.sqrt (((s_x.sq).add (s_y.sq)).add (s_z.sq)))
  .ok (y, x)

/-! ### Real-valued (all-finite) forms of the two transforms

These are the same formulas with plain real arithmetic, used to state and
prove numeric facts; lemmas below show they agree with the `F`-model
whenever no special value arises. -/

def aR (y x : ℝ) : ℝ :=
  (Real.sin x * Real.sin x + Real.cos x * Real.cos x) *
    (Real.cos y * Real.cos y + r_eq * r_eq / (r_pol * r_pol) * (Real.sin y * Real.sin y))

def bR (y x : ℝ) : ℝ := -2 * Hgeo * Real.cos x * Real.cos y

def cR : ℝ := Hgeo * Hgeo - r_eq * r_eq

def discR (y x : ℝ) : ℝ := bR y x * bR y x - 4 * aR y x * cR

def rsR (y x : ℝ) : ℝ := (-bR y x - Real.sqrt (discR y x)) / (2 * aR y x)

def sxR (y x : ℝ) : ℝ := rsR y x * Real.cos x * Real.cos y

def syR (y x : ℝ) : ℝ := -rsR y x * Real.sin x

def szR (y x : ℝ) : ℝ := rsR y x * Real.cos x * Real.sin y

def s2gLat (y x : ℝ) : ℝ :=
  Real.arctan (r_eq * r_eq / (r_pol * r_pol) *
    (szR y x / Real.sqrt ((Hgeo - sxR y x) * (Hgeo - sxR y x) + syR y x * syR y x))) *
  (180 / Real.pi)

def s2gLon (y x : ℝ) : ℝ :=
  (lambda_0 - Real.arctan (syR y x / (Hgeo - sxR y x))) * (180 / Real.pi)

/-- Geocentric latitude, as a function of the latitude in radians. -/
def thetacR (latr : ℝ) : ℝ :=
  Real.arctan (r_pol * r_pol / (r_eq * r_eq) * Real.tan latr)

def rcR (latr : ℝ) : ℝ :=
  r_pol / Real.sqrt (1 - e_ecc * e_ecc * (Real.cos (thetacR latr) * Real.cos (thetacR latr)))

def sxiR (latr lonr : ℝ) : ℝ :=
  Hgeo - rcR latr * Real.cos (thetacR latr) * Real.cos (lonr - lambda_0)

def syiR (latr lonr : ℝ) : ℝ :=
  -(rcR latr) * Real.cos (thetacR latr) * Real.sin (lonr - lambda_0)

def sziR (latr : ℝ) : ℝ := rcR latr * Real.sin (thetacR latr)

/-- The `y` output of `geod_to_scan`, as a function of the inputs in
radians. -/
def g2sY (latr lonr : ℝ) : ℝ := Real.arctan (sziR latr / sxiR latr lonr)

/-- The `x` output of `geod_to_scan`, as a function of the inputs in
radians. -/
def g2sX (latr lonr : ℝ) : ℝ :=
  -(syiR latr lonr) /
    Real.sqrt (sxiR latr lonr * sxiR latr lonr + syiR latr lonr * syiR latr lonr +
      sziR latr * sziR latr)

end

end Proj

namespace IA

/-! ### Rational-endpoint interval arithmetic

Infrastructure for the numeric claims: enclosures of the real values
computed by the transforms, with rational endpoints checked by `norm_num`. -/

/-- A closed interval with rational endpoints. -/
structure IQ where
  lo : ℚ
  hi : ℚ

/-- Membership of a real number in the interval. -/
def IQ.memR (I : IQ) (x : ℝ) : Prop := (I.lo : ℝ) ≤ x ∧ x ≤ (I.hi : ℝ)

/-- Degree-11 Taylor polynomial of sine, over `ℚ`. -/
def sinQ (t : ℚ) : ℚ :=
  t - t ^ 3 / 6 + t ^ 5 / 120 - t ^ 7 / 5040 + t ^ 9 / 362880 - t ^ 11 / 39916800

/-- Degree-10 Taylor polynomial of cosine, over `ℚ`. -/
def cosQ (t : ℚ) : ℚ :=
  1 - t ^ 2 / 2 + t ^ 4 / 24 - t ^ 6 / 720 + t ^ 8 / 40320 - t ^ 10 / 3628800

/-- Degree-11 Taylor polynomial of sine, over `ℝ`. -/
noncomputable def sinPR (x : ℝ) : ℝ :=
  x - x ^ 3 / 6 + x ^ 5 / 120 - x ^ 7 / 5040 + x ^ 9 / 362880 - x ^ 11 / 39916800

/-- Degree-10 Taylor polynomial of cosine, over `ℝ`. -/
noncomputable def cosPR (x : ℝ) : ℝ :=
  1 - x ^ 2 / 2 + x ^ 4 / 24 - x ^ 6 / 720 + x ^ 8 / 40320 - x ^ 10 / 3628800

/-- Remainder bound of the degree-11 partial sums on `[-1, 1]`, scaled by
the twelfth power of the argument bound. -/
def taylErr : ℚ := 13 / 5748019200

/-- Taylor error term for an interval argument: half-width plus the series
remainder at an explicit bound `m` on the absolute endpoints. -/
def errW (I : IQ) (m : ℚ) : ℚ := (I.hi - I.lo) / 2 + m ^ 12 * taylErr

end IA

namespace IA

open IQ

theorem memR_const {q : ℚ} {J : IQ} (h1 : J.lo ≤ q) (h2 : q ≤ J.hi) : J.memR (q : ℝ) :=
  ⟨by exact_mod_cast h1, by exact_mod_cast h2⟩

theorem memR_of_bounds {J : IQ} {x : ℝ} (h1 : (J.lo : ℝ) ≤ x) (h2 : x ≤ (J.hi : ℝ)) :
    J.memR x := ⟨h1, h2⟩

theorem memR_weaken {I J : IQ} {x : ℝ} (h : I.memR x) (h1 : J.lo ≤ I.lo) (h2 : I.hi ≤ J.hi) :
    J.memR x :=
  ⟨le_trans (by exact_mod_cast h1) h.1, le_trans h.2 (by exact_mod_cast h2)⟩

theorem add_mem {I J K : IQ} {x y : ℝ} (hx : I.memR x) (hy : J.memR y)
    (h1 : K.lo ≤ I.lo + J.lo) (h2 : I.hi + J.hi ≤ K.hi) : K.memR (x + y) := by
  have c1 : (K.lo : ℝ) ≤ (I.lo : ℝ) + (J.lo : ℝ) := by exact_mod_cast h1
  have c2 : (I.hi : ℝ) + (J.hi : ℝ) ≤ (K.hi : ℝ) := by exact_mod_cast h2
  exact ⟨by linarith [hx.1, hy.1], by linarith [hx.2, hy.2]⟩

theorem neg_mem {I K : IQ} {x : ℝ} (hx : I.memR x)
    (h1 : K.lo ≤ -I.hi) (h2 : -I.lo ≤ K.hi) : K.memR (-x) := by
  have c1 : (K.lo : ℝ) ≤ -(I.hi : ℝ) := by exact_mod_cast h1
  have c2 : -(I.lo : ℝ) ≤ (K.hi : ℝ) := by exact_mod_cast h2
  exact ⟨by linarith [hx.2], by linarith [hx.1]⟩

theorem sub_mem {I J K : IQ} {x y : ℝ} (hx : I.memR x) (hy : J.memR y)
    (h1 : K.lo ≤ I.lo - J.hi) (h2 : I.hi - J.lo ≤ K.hi) : K.memR (x - y) := by
  have c1 : (K.lo : ℝ) ≤ (I.lo : ℝ) - (J.hi : ℝ) := by exact_mod_cast h1
  have c2 : (I.hi : ℝ) - (J.lo : ℝ) ≤ (K.hi : ℝ) := by exact_mod_cast h2
  exact ⟨by linarith [hx.1, hy.2], by linarith [hx.2, hy.1]⟩

theorem mul_le_corner {x y a b c d : ℝ} (hx1 : a ≤ x) (hx2 : x ≤ b) (hy1 : c ≤ y) (hy2 : y ≤ d)
    {M : ℝ} (m1 : a * c ≤ M) (m2 : a * d ≤ M) (m3 : b * c ≤ M) (m4 : b * d ≤ M) :
    x * y ≤ M := by
  rcases le_total 0 x with h | h
  · have hxy : x * y ≤ x * d := mul_le_mul_of_nonneg_left hy2 h
    rcases le_total 0 d with hd | hd
    · exact hxy.trans ((mul_le_mul_of_nonneg_right hx2 hd).trans m4)
    · exact hxy.trans ((mul_le_mul_of_nonpos_right hx1 hd).trans m2)
  · have hxy : x * y ≤ x * c := mul_le_mul_of_nonpos_left hy1 h
    rcases le_total 0 c with hc | hc
    · exact hxy.trans ((mul_le_mul_of_nonneg_right hx2 hc).trans m3)
    · exact hxy.trans ((mul_le_mul_of_nonpos_right hx1 hc).trans m1)

theorem corner_le_mul {x y a b c d : ℝ} (hx1 : a ≤ x) (hx2 : x ≤ b) (hy1 : c ≤ y) (hy2 : y ≤ d)
    {M : ℝ} (m1 : M ≤ a * c) (m2 : M ≤ a * d) (m3 : M ≤ b * c) (m4 : M ≤ b * d) :
    M ≤ x * y := by
  rcases le_total 0 x with h | h
  · have hxy : x * c ≤ x * y := mul_le_mul_of_nonneg_left hy1 h
    rcases le_total 0 c with hc | hc
    · exact (m1.trans (mul_le_mul_of_nonneg_right hx1 hc)).trans hxy
    · exact (m3.trans (mul_le_mul_of_nonpos_right hx2 hc)).trans hxy
  · have hxy : x * d ≤ x * y := mul_le_mul_of_nonpos_left hy2 h
    rcases le_total 0 d with hd | hd
    · exact (m2.trans (mul_le_mul_of_nonneg_right hx1 hd)).trans hxy
    · exact (m4.trans (mul_le_mul_of_nonpos_right hx2 hd)).trans hxy

theorem mul_mem {I J K : IQ} {x y : ℝ} (hx : I.memR x) (hy : J.memR y)
    (h1 : K.lo ≤ I.lo * J.lo) (h2 : K.lo ≤ I.lo * J.hi)
    (h3 : K.lo ≤ I.hi * J.lo) (h4 : K.lo ≤ I.hi * J.hi)
    (h5 : I.lo * J.lo ≤ K.hi) (h6 : I.lo * J.hi ≤ K.hi)
    (h7 : I.hi * J.lo ≤ K.hi) (h8 : I.hi * J.hi ≤ K.hi) : K.memR (x * y) := by
  constructor
  · exact corner_le_mul hx.1 hx.2 hy.1 hy.2 (by exact_mod_cast h1) (by exact_mod_cast h2)
      (by exact_mod_cast h3) (by exact_mod_cast h4)
  · exact mul_le_corner hx.1 hx.2 hy.1 hy.2 (by exact_mod_cast h5) (by exact_mod_cast h6)
      (by exact_mod_cast h7) (by exact_mod_cast h8)

theorem div_mem {I J K : IQ} {x y : ℝ} (hx : I.memR x) (hy : J.memR y) (hpos : 0 < J.lo)
    (h1 : K.lo * J.lo ≤ I.lo) (h2 : K.lo * J.hi ≤ I.lo)
    (h3 : I.hi ≤ K.hi * J.lo) (h4 : I.hi ≤ K.hi * J.hi) : K.memR (x / y) := by
  have hy0 : (0 : ℝ) < y := lt_of_lt_of_le (by exact_mod_cast hpos) hy.1
  constructor
  · rw [le_div_iff₀ hy0]
    have : (K.lo : ℝ) * y ≤ (I.lo : ℝ) := by
      rcases le_total 0 (K.lo : ℝ) with h | h
      · exact (mul_le_mul_of_nonneg_left hy.2 h).trans (by exact_mod_cast h2)
      · exact (mul_le_mul_of_nonpos_left hy.1 h).trans (by exact_mod_cast h1)
    exact this.trans hx.1
  · rw [div_le_iff₀ hy0]
    have : (I.hi : ℝ) ≤ (K.hi : ℝ) * y := by
      rcases le_total 0 (K.hi : ℝ) with h | h
      · exact le_trans (by exact_mod_cast h3) (mul_le_mul_of_nonneg_left hy.1 h)
      · exact le_trans (by exact_mod_cast h4) (mul_le_mul_of_nonpos_left hy.2 h)
    exact hx.2.trans this

theorem sqrt_mem {I J : IQ} {x : ℝ} (hx : I.memR x) (hjhi : 0 ≤ J.hi)
    (h1 : J.lo ^ 2 ≤ I.lo) (h2 : I.hi ≤ J.hi ^ 2) : J.memR (Real.sqrt x) := by
  constructor
  · exact Real.le_sqrt_of_sq_le (le_trans (by exact_mod_cast h1) hx.1)
  · exact Real.sqrt_le_iff.2 ⟨by exact_mod_cast hjhi, le_trans hx.2 (by exact_mod_cast h2)⟩

theorem sin_lip (a b : ℝ) : |Real.sin a - Real.sin b| ≤ |a - b| := by
  rw [Real.sin_sub_sin, abs_mul, abs_mul]
  have m1 : |Real.sin ((a - b) / 2)| ≤ |(a - b) / 2| := Real.abs_sin_le_abs
  have m2 : |Real.cos ((a + b) / 2)| ≤ 1 := Real.abs_cos_le_one _
  calc |(2 : ℝ)| * |Real.sin ((a - b) / 2)| * |Real.cos ((a + b) / 2)|
      ≤ |(2 : ℝ)| * |(a - b) / 2| * |Real.cos ((a + b) / 2)| :=
        mul_le_mul_of_nonneg_right (mul_le_mul_of_nonneg_left m1 (abs_nonneg _)) (abs_nonneg _)
    _ ≤ |(2 : ℝ)| * |(a - b) / 2| * 1 := mul_le_mul_of_nonneg_left m2 (by positivity)
    _ = |a - b| := by rw [abs_two, abs_div, abs_two]; ring

theorem cos_lip (a b : ℝ) : |Real.cos a - Real.cos b| ≤ |a - b| := by
  rw [Real.cos_sub_cos, abs_mul, abs_mul]
  have m1 : |Real.sin ((a - b) / 2)| ≤ |(a - b) / 2| := Real.abs_sin_le_abs
  have m2 : |Real.sin ((a + b) / 2)| ≤ 1 := Real.abs_sin_le_one _
  calc |(-2 : ℝ)| * |Real.sin ((a + b) / 2)| * |Real.sin ((a - b) / 2)|
      ≤ |(-2 : ℝ)| * 1 * |Real.sin ((a - b) / 2)| :=
        mul_le_mul_of_nonneg_right (mul_le_mul_of_nonneg_left m2 (abs_nonneg _)) (abs_nonneg _)
    _ ≤ |(-2 : ℝ)| * 1 * |(a - b) / 2| := mul_le_mul_of_nonneg_left m1 (by positivity)
    _ = |a - b| := by rw [abs_neg, abs_two, abs_div, abs_two]; ring

end IA
namespace IA

open Finset Complex in
theorem partial_sum_exp_twelve (x : ℝ) :
    (∑ m ∈ range 12, ((x : ℂ) * I) ^ m / m.factorial) =
      ((cosPR x : ℝ) : ℂ) + ((sinPR x : ℝ) : ℂ) * I := by
  have p2 : ((x : ℂ) * I) ^ 2 = -((x : ℂ) ^ 2) := by
    rw [mul_pow, I_sq]; ring
  have p3 : ((x : ℂ) * I) ^ 3 = -((x : ℂ) ^ 3) * I := by
    rw [show (3 : ℕ) = 1 + 2 from rfl, pow_add, pow_one, p2]; ring
  have p4 : ((x : ℂ) * I) ^ 4 = (x : ℂ) ^ 4 := by
    rw [show (4 : ℕ) = 2 + 2 from rfl, pow_add, p2]; ring
  have p5 : ((x : ℂ) * I) ^ 5 = (x : ℂ) ^ 5 * I := by
    rw [show (5 : ℕ) = 3 + 2 from rfl, pow_add, p3, p2]; ring
  have p6 : ((x : ℂ) * I) ^ 6 = -((x : ℂ) ^ 6) := by
    rw [show (6 : ℕ) = 4 + 2 from rfl, pow_add, p4, p2]; ring
  have p7 : ((x : ℂ) * I) ^ 7 = -((x : ℂ) ^ 7) * I := by
    rw [show (7 : ℕ) = 5 + 2 from rfl, pow_add, p5, p2]; ring
  have p8 : ((x : ℂ) * I) ^ 8 = (x : ℂ) ^ 8 := by
    rw [show (8 : ℕ) = 6 + 2 from rfl, pow_add, p6, p2]; ring
  have p9 : ((x : ℂ) * I) ^ 9 = (x : ℂ) ^ 9 * I := by
    rw [show (9 : ℕ) = 7 + 2 from rfl, pow_add, p7, p2]; ring
  have p10 : ((x : ℂ) * I) ^ 10 = -((x : ℂ) ^ 10) := by
    rw [show (10 : ℕ) = 8 + 2 from rfl, pow_add, p8, p2]; ring
  have p11 : ((x : ℂ) * I) ^ 11 = -((x : ℂ) ^ 11) * I := by
    rw [show (11 : ℕ) = 9 + 2 from rfl, pow_add, p9, p2]; ring
  simp only [Finset.sum_range_succ, Finset.sum_range_zero, pow_zero, pow_one,
    p2, p3, p4, p5, p6, p7, p8, p9, p10, p11, Nat.factorial, sinPR, cosPR]
  push_cast
  ring

theorem sin_approx {x : ℝ} (hx : |x| ≤ 1) :
    |Real.sin x - sinPR x| ≤ |x| ^ 12 * (13 / 5748019200) := by
  have hb : Complex.abs ((x : ℂ) * Complex.I) ≤ 1 := by
    rwa [map_mul, Complex.abs_I, mul_one, Complex.abs_ofReal]
  have h := Complex.exp_bound (x := (x : ℂ) * Complex.I) hb (n := 12) (by norm_num)
  rw [partial_sum_exp_twelve] at h
  have him : |(Complex.exp ((x : ℂ) * Complex.I) -
      (((cosPR x : ℝ) : ℂ) + ((sinPR x : ℝ) : ℂ) * Complex.I)).im| ≤
      Complex.abs (Complex.exp ((x : ℂ) * Complex.I) -
      (((cosPR x : ℝ) : ℂ) + ((sinPR x : ℝ) : ℂ) * Complex.I)) :=
    Complex.abs_im_le_abs _
  have him2 : (Complex.exp ((x : ℂ) * Complex.I) -
      (((cosPR x : ℝ) : ℂ) + ((sinPR x : ℝ) : ℂ) * Complex.I)).im = Real.sin x - sinPR x := by
    simp [Complex.exp_ofReal_mul_I_im]
  rw [him2] at him
  refine him.trans (h.trans ?_)
  rw [map_mul, Complex.abs_I, mul_one, Complex.abs_ofReal]
  have hfac : ((Nat.succ 12 : ℕ) : ℝ) * ((Nat.factorial 12 * (12 : ℕ) : ℝ))⁻¹ =
      13 / 5748019200 := by
    norm_num [Nat.factorial]
  rw [hfac]

theorem cos_approx {x : ℝ} (hx : |x| ≤ 1) :
    |Real.cos x - cosPR x| ≤ |x| ^ 12 * (13 / 5748019200) := by
  have hb : Complex.abs ((x : ℂ) * Complex.I) ≤ 1 := by
    rwa [map_mul, Complex.abs_I, mul_one, Complex.abs_ofReal]
  have h := Complex.exp_bound (x := (x : ℂ) * Complex.I) hb (n := 12) (by norm_num)
  rw [partial_sum_exp_twelve] at h
  have hre : |(Complex.exp ((x : ℂ) * Complex.I) -
      (((cosPR x : ℝ) : ℂ) + ((sinPR x : ℝ) : ℂ) * Complex.I)).re| ≤
      Complex.abs (Complex.exp ((x : ℂ) * Complex.I) -
      (((cosPR x : ℝ) : ℂ) + ((sinPR x : ℝ) : ℂ) * Complex.I)) :=
    Complex.abs_re_le_abs _
  have hre2 : (Complex.exp ((x : ℂ) * Complex.I) -
      (((cosPR x : ℝ) : ℂ) + ((sinPR x : ℝ) : ℂ) * Complex.I)).re = Real.cos x - cosPR x := by
    simp [Complex.exp_ofReal_mul_I_re]
  rw [hre2] at hre
  refine hre.trans (h.trans ?_)
  rw [map_mul, Complex.abs_I, mul_one, Complex.abs_ofReal]
  have hfac : ((Nat.succ 12 : ℕ) : ℝ) * ((Nat.factorial 12 * (12 : ℕ) : ℝ))⁻¹ =
      13 / 5748019200 := by
    norm_num [Nat.factorial]
  rw [hfac]

theorem sinQ_cast (q : ℚ) : ((sinQ q : ℚ) : ℝ) = sinPR (q : ℝ) := by
  simp only [sinQ, sinPR]
  push_cast
  ring

theorem cosQ_cast (q : ℚ) : ((cosQ q : ℚ) : ℝ) = cosPR (q : ℝ) := by
  simp only [cosQ, cosPR]
  push_cast
  ring

theorem sin_mem {I J : IQ} {t : ℝ} (m : ℚ) (ht : I.memR t) (hlo : -1 ≤ I.lo) (hhi : I.hi ≤ 1)
    (hm1 : -m ≤ I.lo) (hm2 : I.hi ≤ m)
    (h1 : J.lo ≤ sinQ ((I.lo + I.hi) / 2) - errW I m)
    (h2 : sinQ ((I.lo + I.hi) / 2) + errW I m ≤ J.hi) :
    J.memR (Real.sin t) := by
  obtain ⟨ht1, ht2⟩ := ht
  have hlohi : (I.lo : ℝ) ≤ (I.hi : ℝ) := le_trans ht1 ht2
  have hlo' : (-1 : ℝ) ≤ (I.lo : ℝ) := by exact_mod_cast hlo
  have hhi' : (I.hi : ℝ) ≤ 1 := by exact_mod_cast hhi
  have hqa : |((((I.lo + I.hi) / 2 : ℚ)) : ℝ)| ≤ 1 := by
    push_cast
    rw [abs_le]
    constructor <;> linarith
  have happrox := sin_approx hqa
  have hlip := sin_lip t ((((I.lo + I.hi) / 2 : ℚ)) : ℝ)
  have htq : |t - ((((I.lo + I.hi) / 2 : ℚ)) : ℝ)| ≤ ((I.hi : ℝ) - (I.lo : ℝ)) / 2 := by
    push_cast
    rw [abs_le]
    constructor <;> push_cast <;> linarith
  have hm1' : -((m : ℚ) : ℝ) ≤ (I.lo : ℝ) := by exact_mod_cast hm1
  have hm2' : (I.hi : ℝ) ≤ ((m : ℚ) : ℝ) := by exact_mod_cast hm2
  have hqm : |((((I.lo + I.hi) / 2 : ℚ)) : ℝ)| ≤ ((m : ℚ) : ℝ) := by
    push_cast
    rw [abs_le]
    constructor <;> push_cast <;> linarith
  have hpow : |((((I.lo + I.hi) / 2 : ℚ)) : ℝ)| ^ 12 ≤ ((m : ℚ) : ℝ) ^ 12 :=
    pow_le_pow_left₀ (abs_nonneg _) hqm 12
  have herr : ((errW I m : ℚ) : ℝ) =
      ((I.hi : ℝ) - (I.lo : ℝ)) / 2 + ((m : ℚ) : ℝ) ^ 12 * (13 / 5748019200) := by
    simp only [errW, taylErr]
    push_cast
    ring
  have h1' : (J.lo : ℝ) ≤ sinPR ((((I.lo + I.hi) / 2 : ℚ)) : ℝ) - ((errW I m : ℚ) : ℝ) := by
    rw [← sinQ_cast]
    exact_mod_cast h1
  have h2' : sinPR ((((I.lo + I.hi) / 2 : ℚ)) : ℝ) + ((errW I m : ℚ) : ℝ) ≤ (J.hi : ℝ) := by
    rw [← sinQ_cast]
    exact_mod_cast h2
  have ha := abs_le.1 happrox
  have hb := abs_le.1 hlip
  have hc := abs_le.1 htq
  constructor
  · rw [herr] at h1'
    nlinarith [hc.1, hb.1, ha.1]
  · rw [herr] at h2'
    nlinarith [hc.2, hb.2, ha.2]

theorem cos_mem {I J : IQ} {t : ℝ} (m : ℚ) (ht : I.memR t) (hlo : -1 ≤ I.lo) (hhi : I.hi ≤ 1)
    (hm1 : -m ≤ I.lo) (hm2 : I.hi ≤ m)
    (h1 : J.lo ≤ cosQ ((I.lo + I.hi) / 2) - errW I m)
    (h2 : cosQ ((I.lo + I.hi) / 2) + errW I m ≤ J.hi) :
    J.memR (Real.cos t) := by
  obtain ⟨ht1, ht2⟩ := ht
  have hlohi : (I.lo : ℝ) ≤ (I.hi : ℝ) := le_trans ht1 ht2
  have hlo' : (-1 : ℝ) ≤ (I.lo : ℝ) := by exact_mod_cast hlo
  have hhi' : (I.hi : ℝ) ≤ 1 := by exact_mod_cast hhi
  have hqa : |((((I.lo + I.hi) / 2 : ℚ)) : ℝ)| ≤ 1 := by
    push_cast
    rw [abs_le]
    constructor <;> linarith
  have happrox := cos_approx hqa
  have hlip := cos_lip t ((((I.lo + I.hi) / 2 : ℚ)) : ℝ)
  have htq : |t - ((((I.lo + I.hi) / 2 : ℚ)) : ℝ)| ≤ ((I.hi : ℝ) - (I.lo : ℝ)) / 2 := by
    push_cast
    rw [abs_le]
    constructor <;> push_cast <;> linarith
  have hm1' : -((m : ℚ) : ℝ) ≤ (I.lo : ℝ) := by exact_mod_cast hm1
  have hm2' : (I.hi : ℝ) ≤ ((m : ℚ) : ℝ) := by exact_mod_cast hm2
  have hqm : |((((I.lo + I.hi) / 2 : ℚ)) : ℝ)| ≤ ((m : ℚ) : ℝ) := by
    push_cast
    rw [abs_le]
    constructor <;> push_cast <;> linarith
  have hpow : |((((I.lo + I.hi) / 2 : ℚ)) : ℝ)| ^ 12 ≤ ((m : ℚ) : ℝ) ^ 12 :=
    pow_le_pow_left₀ (abs_nonneg _) hqm 12
  have herr : ((errW I m : ℚ) : ℝ) =
      ((I.hi : ℝ) - (I.lo : ℝ)) / 2 + ((m : ℚ) : ℝ) ^ 12 * (13 / 5748019200) := by
    simp only [errW, taylErr]
    push_cast
    ring
  have h1' : (J.lo : ℝ) ≤ cosPR ((((I.lo + I.hi) / 2 : ℚ)) : ℝ) - ((errW I m : ℚ) : ℝ) := by
    rw [← cosQ_cast]
    exact_mod_cast h1
  have h2' : cosPR ((((I.lo + I.hi) / 2 : ℚ)) : ℝ) + ((errW I m : ℚ) : ℝ) ≤ (J.hi : ℝ) := by
    rw [← cosQ_cast]
    exact_mod_cast h2
  have ha := abs_le.1 happrox
  have hb := abs_le.1 hlip
  have hc := abs_le.1 htq
  constructor
  · rw [herr] at h1'
    nlinarith [hc.1, hb.1, ha.1]
  · rw [herr] at h2'
    nlinarith [hc.2, hb.2, ha.2]

theorem tan_mem {S C K : IQ} {t : ℝ} (hs : S.memR (Real.sin t)) (hc : C.memR (Real.cos t))
    (hpos : 0 < C.lo)
    (h1 : K.lo * C.lo ≤ S.lo) (h2 : K.lo * C.hi ≤ S.lo)
    (h3 : S.hi ≤ K.hi * C.lo) (h4 : S.hi ≤ K.hi * C.hi) : K.memR (Real.tan t) := by
  rw [Real.tan_eq_sin_div_cos]
  exact div_mem hs hc hpos h1 h2 h3 h4

theorem rat_lt_half_pi {t : ℚ} (h : t ≤ 1.57) : (t : ℝ) < Real.pi / 2 := by
  have hpi := Real.pi_gt_d6
  have ht : (t : ℝ) ≤ ((1.57 : ℚ) : ℝ) := by exact_mod_cast h
  have h157 : ((1.57 : ℚ) : ℝ) = 1.57 := by norm_num
  rw [h157] at ht
  nlinarith

theorem neg_half_pi_lt_rat {t : ℚ} (h : -1.57 ≤ t) : -(Real.pi / 2) < (t : ℝ) := by
  have hpi := Real.pi_gt_d6
  have ht : ((-1.57 : ℚ) : ℝ) ≤ (t : ℝ) := by exact_mod_cast h
  have h157 : ((-1.57 : ℚ) : ℝ) = -1.57 := by norm_num
  rw [h157] at ht
  nlinarith

theorem arctan_mem {V T1 T2 : IQ} {v : ℝ} (t1 t2 : ℚ)
    (hv : V.memR v) (h1 : T1.memR (Real.tan ((t1 : ℚ) : ℝ))) (h2 : T2.memR (Real.tan ((t2 : ℚ) : ℝ)))
    (hr1 : -1.57 ≤ t1) (hr1' : t1 ≤ 1.57) (hr2 : -1.57 ≤ t2) (hr2' : t2 ≤ 1.57)
    (hc1 : T1.hi ≤ V.lo) (hc2 : V.hi ≤ T2.lo) :
    (IQ.mk t1 t2).memR (Real.arctan v) := by
  have hb1 : -(Real.pi / 2) < ((t1 : ℚ) : ℝ) := neg_half_pi_lt_rat hr1
  have hb1' : ((t1 : ℚ) : ℝ) < Real.pi / 2 := rat_lt_half_pi hr1'
  have hb2 : -(Real.pi / 2) < ((t2 : ℚ) : ℝ) := neg_half_pi_lt_rat hr2
  have hb2' : ((t2 : ℚ) : ℝ) < Real.pi / 2 := rat_lt_half_pi hr2'
  constructor
  · have habove : Real.tan ((t1 : ℚ) : ℝ) ≤ v :=
      le_trans h1.2 (le_trans (by exact_mod_cast hc1) hv.1)
    have := Real.arctan_strictMono.monotone habove
    rwa [Real.arctan_tan hb1 hb1'] at this
  · have hbelow : v ≤ Real.tan ((t2 : ℚ) : ℝ) :=
      le_trans hv.2 (le_trans (by exact_mod_cast hc2) h2.1)
    have := Real.arctan_strictMono.monotone hbelow
    rwa [Real.arctan_tan hb2 hb2'] at this

theorem pi_mem : (IQ.mk 3.141592 3.141593).memR Real.pi := by
  constructor
  · have hgt := Real.pi_gt_d6
    show ((3.141592 : ℚ) : ℝ) ≤ Real.pi
    have hc : ((3.141592 : ℚ) : ℝ) = 3.141592 := by norm_num
    rw [hc]
    linarith
  · have hlt := Real.pi_lt_d6
    show Real.pi ≤ ((3.141593 : ℚ) : ℝ)
    have hc : ((3.141593 : ℚ) : ℝ) = 3.141593 := by norm_num
    rw [hc]
    linarith

/-- Twenty-digit enclosure of pi. -/
theorem pi_mem20 :
    (IQ.mk 3.14159265358979323846 3.14159265358979323847).memR Real.pi :=
  ⟨by exact_mod_cast Real.pi_gt_d20.le, by exact_mod_cast Real.pi_lt_d20.le⟩

theorem abs_lt_of_rat {x : ℝ} {c d : ℚ} {cr dr : ℝ} (h1 : |x - (c : ℝ)| < (d : ℝ))
    (h2 : (c : ℝ) = cr) (h3 : (d : ℝ) = dr) : |x - cr| < dr := by
  rw [← h2, ← h3]; exact h1

theorem abs_gt_of_rat {x : ℝ} {c d : ℚ} {cr dr : ℝ} (h1 : (d : ℝ) < |x - (c : ℝ)|)
    (h2 : (c : ℝ) = cr) (h3 : (d : ℝ) = dr) : dr < |x - cr| := by
  rw [← h2, ← h3]; exact h1

theorem abs_sub_lt_of_memR {I : IQ} {x : ℝ} (h : I.memR x) (c d : ℚ)
    (h1 : c - d < I.lo) (h2 : I.hi < c + d) : |x - (c : ℝ)| < (d : ℝ) := by
  have c1 : ((c : ℝ) - (d : ℝ)) < (I.lo : ℝ) := by exact_mod_cast h1
  have c2 : (I.hi : ℝ) < (c : ℝ) + (d : ℝ) := by exact_mod_cast h2
  rw [abs_lt]
  constructor <;> [linarith [h.1]; linarith [h.2]]

theorem abs_sub_gt_of_memR_above {I : IQ} {x : ℝ} (h : I.memR x) (c d : ℚ)
    (h1 : c + d < I.lo) : (d : ℝ) < |x - (c : ℝ)| := by
  have c1 : ((c : ℝ) + (d : ℝ)) < (I.lo : ℝ) := by exact_mod_cast h1
  have : (d : ℝ) < x - (c : ℝ) := by linarith [h.1]
  exact lt_of_lt_of_le this (le_abs_self _)

theorem abs_sub_gt_of_memR_below {I : IQ} {x : ℝ} (h : I.memR x) (c d : ℚ)
    (h1 : I.hi < c - d) : (d : ℝ) < |x - (c : ℝ)| := by
  have c1 : (I.hi : ℝ) < (c : ℝ) - (d : ℝ) := by exact_mod_cast h1
  have : (d : ℝ) < (c : ℝ) - x := by linarith [h.2]
  calc (d : ℝ) < (c : ℝ) - x := this
    _ ≤ |(c : ℝ) - x| := le_abs_self _
    _ = |x - (c : ℝ)| := abs_sub_comm _ _

end IA
namespace Proj

/-! ### Reduction lemmas for the scalar model -/

@[simp] theorem F.neg_nan : F.neg F.nan = F.nan := rfl

@[simp] theorem F.neg_fin (a : ℝ) : F.neg (F.fin a) = F.fin (-a) := rfl

@[simp] theorem F.add_nan_left (x : F) : F.add F.nan x = F.nan := by cases x <;> rfl

@[simp] theorem F.add_nan_right (x : F) : F.add x F.nan = F.nan := by cases x <;> rfl

@[simp] theorem F.add_fin_fin (a b : ℝ) : F.add (F.fin a) (F.fin b) = F.fin (a + b) := rfl

@[simp] theorem F.sub_nan_left (x : F) : F.sub F.nan x = F.nan := by cases x <;> rfl

@[simp] theorem F.sub_nan_right (x : F) : F.sub x F.nan = F.nan := by cases x <;> rfl

@[simp] theorem F.sub_fin_fin (a b : ℝ) : F.sub (F.fin a) (F.fin b) = F.fin (a - b) := by
  show F.fin (a + -b) = F.fin (a - b)
  rw [sub_eq_add_neg]

@[simp] theorem F.mul_nan_left (x : F) : F.mul F.nan x = F.nan := by cases x <;> rfl

@[simp] theorem F.mul_nan_right (x : F) : F.mul x F.nan = F.nan := by cases x <;> rfl

@[simp] theorem F.mul_fin_fin (a b : ℝ) : F.mul (F.fin a) (F.fin b) = F.fin (a * b) := rfl

@[simp] theorem F.sq_nan : F.sq F.nan = F.nan := rfl

@[simp] theorem F.sq_fin (a : ℝ) : F.sq (F.fin a) = F.fin (a * a) := rfl

@[simp] theorem F.div_nan_left (x : F) : F.div F.nan x = F.nan := by cases x <;> rfl

@[simp] theorem F.div_nan_right (x : F) : F.div x F.nan = F.nan := by cases x <;> rfl

@[simp] theorem F.div_fin_fin {b : ℝ} (a : ℝ) (h : b ≠ 0) :
    F.div (F.fin a) (F.fin b) = F.fin (a / b) := by
  simp [F.div, h]

@[simp] theorem F.sqrt_nan : F.sqrt F.nan = F.nan := rfl

@[simp] theorem F.sqrt_fin_of_nonneg {a : ℝ} (h : 0 ≤ a) :
    F.sqrt (F.fin a) = F.fin (Real.sqrt a) := by
  simp [F.sqrt, not_lt.2 h]

@[simp] theorem F.sqrt_fin_of_neg {a : ℝ} (h : a < 0) : F.sqrt (F.fin a) = F.nan := by
  simp [F.sqrt, h]

@[simp] theorem F.abs_nan : F.abs F.nan = F.nan := rfl

@[simp] theorem F.abs_fin (a : ℝ) : F.abs (F.fin a) = F.fin |a| := rfl

@[simp] theorem F.sin_nan : F.sin F.nan = F.nan := rfl

@[simp] theorem F.sin_fin (a : ℝ) : F.sin (F.fin a) = F.fin (Real.sin a) := rfl

@[simp] theorem F.cos_nan : F.cos F.nan = F.nan := rfl

@[simp] theorem F.cos_fin (a : ℝ) : F.cos (F.fin a) = F.fin (Real.cos a) := rfl

@[simp] theorem F.tan_nan : F.tan F.nan = F.nan := rfl

@[simp] theorem F.tan_fin (a : ℝ) : F.tan (F.fin a) = F.fin (Real.tan a) := rfl

@[simp] theorem F.arctan_nan : F.arctan F.nan = F.nan := rfl

@[simp] theorem F.arctan_fin (a : ℝ) : F.arctan (F.fin a) = F.fin (Real.arctan a) := rfl

@[simp] theorem F.radians_nan : F.radians F.nan = F.nan := rfl

@[simp] theorem F.radians_fin (a : ℝ) :
    F.radians (F.fin a) = F.fin (a * (Real.pi / 180)) := rfl

@[simp] theorem F.degrees_nan : F.degrees F.nan = F.nan := rfl

@[simp] theorem F.degrees_fin (a : ℝ) :
    F.degrees (F.fin a) = F.fin (a * (180 / Real.pi)) := rfl

/-- The tried branch of `_calc_rs` always succeeds (numpy's `sqrt` returns a
value for every input), so `_calc_rs` always returns it and the
`except ValueError` handler is dead. -/
theorem calc_rs_no_fallback (a b c : F) :
    _calc_rs a b c =
      .ok (((b.neg).sub (F.sqrt ((b.sq).sub (((F.fin 4).mul a).mul c)))).div
        ((F.fin 2).mul a)) := rfl

theorem r_pol_sq_ne : (r_pol * r_pol : ℝ) ≠ 0 := by norm_num [r_pol]

/-- With a negative discriminant, the square root inside `_calc_rs`
evaluates to NaN and the NaN propagates to both outputs. -/
theorem scan_to_geod_nan_of_neg_disc (y x : ℝ) (h : discR y x < 0) :
    scan_to_geod (F.fin y) (F.fin x) = .ok (F.nan, F.nan) := by
  unfold discR aR bR cR at h
  unfold scan_to_geod _calc_a _calc_b _calc_c _calc_rs _calc_sx _calc_sy _calc_sz
  simp only [F.sin_fin, F.cos_fin, F.sq_fin, F.mul_fin_fin, F.add_fin_fin,
    F.neg_fin, F.sub_fin_fin, F.div_fin_fin _ r_pol_sq_ne, F.mul_nan_left,
    F.mul_nan_right, F.add_nan_left, F.add_nan_right, F.sub_nan_left,
    F.sub_nan_right, F.div_nan_left, F.div_nan_right, F.sq_nan, F.sqrt_nan,
    F.arctan_nan, F.degrees_nan, F.neg_nan]
  rw [F.sqrt_fin_of_neg (by linarith)]
  simp only [F.sub_nan_right, F.div_nan_left, F.mul_nan_left, F.mul_nan_right,
    F.add_nan_left, F.add_nan_right, F.sub_nan_left, F.sq_nan, F.sqrt_nan,
    F.arctan_nan, F.degrees_nan, F.neg_nan]

end Proj
namespace Proj

theorem r_eq_sq_ne : (r_eq * r_eq : ℝ) ≠ 0 := by norm_num [r_eq]

theorem two_a_ne {y x : ℝ} (ha : aR y x ≠ 0) : (2 * aR y x : ℝ) ≠ 0 :=
  mul_ne_zero two_ne_zero ha

/-- Discriminant of the `scan_to_geod` quadratic at `(y, x) = (π/2, π/2)`:
there `cos` vanishes, so `b = 0` while `a > 0` and `c > 0`. -/
theorem disc_pi_half_neg : discR (Real.pi / 2) (Real.pi / 2) < 0 := by
  unfold discR aR bR cR
  rw [Real.cos_pi_div_two, Real.sin_pi_div_two]
  norm_num [r_eq, r_pol, Hgeo]

/-- Agreement of the `F`-model `scan_to_geod` with the real-valued form on
inputs where no NaN arises. -/
theorem scan_to_geod_agree (y x : ℝ) (hd : 0 ≤ discR y x) (ha : aR y x ≠ 0)
    (hhx : Hgeo - sxR y x ≠ 0)
    (hsq : Real.sqrt ((Hgeo - sxR y x) * (Hgeo - sxR y x) + syR y x * syR y x) ≠ 0) :
    scan_to_geod (F.fin y) (F.fin x) = .ok (F.fin (s2gLat y x), F.fin (s2gLon y x)) := by
  have h2a := two_a_ne ha
  have hnn : (0:ℝ) ≤ (Hgeo - sxR y x) * (Hgeo - sxR y x) + syR y x * syR y x :=
    add_nonneg (mul_self_nonneg _) (mul_self_nonneg _)
  unfold aR at h2a
  unfold discR aR bR cR at hd
  unfold sxR rsR discR aR bR cR at hhx
  unfold sxR syR rsR discR aR bR cR at hsq hnn
  unfold s2gLat s2gLon szR sxR syR rsR discR aR bR cR
  unfold scan_to_geod _calc_a _calc_b _calc_c _calc_rs _calc_sx _calc_sy _calc_sz
  simp only [F.sin_fin, F.cos_fin, F.sq_fin, F.mul_fin_fin, F.add_fin_fin,
    F.neg_fin, F.sub_fin_fin, F.div_fin_fin _ r_pol_sq_ne,
    F.sqrt_fin_of_nonneg hd, F.div_fin_fin _ h2a, F.arctan_fin, F.degrees_fin,
    F.sqrt_fin_of_nonneg hnn, F.div_fin_fin _ hsq, F.div_fin_fin _ hhx]

theorem one_sub_ecc_cos_pos (t : ℝ) :
    (0:ℝ) < 1 - e_ecc * e_ecc * (Real.cos t * Real.cos t) := by
  have hcc : Real.cos t * Real.cos t ≤ 1 := by
    nlinarith [Real.cos_le_one t, Real.neg_one_le_cos t]
  have he2 : (0:ℝ) ≤ e_ecc * e_ecc ∧ e_ecc * e_ecc ≤ 1/2 := by norm_num [e_ecc]
  nlinarith [he2.1, he2.2]

/-- Agreement of the `F`-model `geod_to_scan` with the real-valued form; the
only condition needed is that the satellite-frame `s_x` is nonzero. -/
theorem geod_to_scan_agree (lat lon : ℝ)
    (hsx : sxiR (lat * (Real.pi / 180)) (lon * (Real.pi / 180)) ≠ 0) :
    geod_to_scan (F.fin lat) (F.fin lon) =
      .ok (F.fin (g2sY (lat * (Real.pi / 180)) (lon * (Real.pi / 180))),
           F.fin (g2sX (lat * (Real.pi / 180)) (lon * (Real.pi / 180)))) := by
  have harg : (0:ℝ) ≤ 1 - e_ecc * e_ecc *
      (Real.cos (thetacR (lat * (Real.pi / 180))) *
       Real.cos (thetacR (lat * (Real.pi / 180)))) :=
    le_of_lt (one_sub_ecc_cos_pos _)
  have hden : Real.sqrt (1 - e_ecc * e_ecc *
      (Real.cos (thetacR (lat * (Real.pi / 180))) *
       Real.cos (thetacR (lat * (Real.pi / 180))))) ≠ 0 :=
    ne_of_gt (Real.sqrt_pos.2 (one_sub_ecc_cos_pos _))
  have hsum : (0:ℝ) <
      sxiR (lat * (Real.pi / 180)) (lon * (Real.pi / 180)) *
        sxiR (lat * (Real.pi / 180)) (lon * (Real.pi / 180)) +
      syiR (lat * (Real.pi / 180)) (lon * (Real.pi / 180)) *
        syiR (lat * (Real.pi / 180)) (lon * (Real.pi / 180)) +
      sziR (lat * (Real.pi / 180)) * sziR (lat * (Real.pi / 180)) := by
    have h1 := mul_self_pos.2 hsx
    have h2 := mul_self_nonneg (syiR (lat * (Real.pi / 180)) (lon * (Real.pi / 180)))
    have h3 := mul_self_nonneg (sziR (lat * (Real.pi / 180)))
    linarith
  have hsumnn : (0:ℝ) ≤
      sxiR (lat * (Real.pi / 180)) (lon * (Real.pi / 180)) *
        sxiR (lat * (Real.pi / 180)) (lon * (Real.pi / 180)) +
      syiR (lat * (Real.pi / 180)) (lon * (Real.pi / 180)) *
        syiR (lat * (Real.pi / 180)) (lon * (Real.pi / 180)) +
      sziR (lat * (Real.pi / 180)) * sziR (lat * (Real.pi / 180)) := le_of_lt hsum
  have hsq : Real.sqrt
      (sxiR (lat * (Real.pi / 180)) (lon * (Real.pi / 180)) *
        sxiR (lat * (Real.pi / 180)) (lon * (Real.pi / 180)) +
      syiR (lat * (Real.pi / 180)) (lon * (Real.pi / 180)) *
        syiR (lat * (Real.pi / 180)) (lon * (Real.pi / 180)) +
      sziR (lat * (Real.pi / 180)) * sziR (lat * (Real.pi / 180))) ≠ 0 :=
    ne_of_gt (Real.sqrt_pos.2 hsum)
  unfold thetacR at harg hden
  unfold sxiR rcR thetacR at hsx
  unfold sxiR syiR sziR rcR thetacR at hsq hsumnn
  unfold g2sY g2sX sziR sxiR syiR rcR thetacR
  unfold geod_to_scan _calc_thetac _calc_rc _calc_sx_inv _calc_sy_inv _calc_sz_inv
  simp only [F.radians_fin, F.tan_fin, F.cos_fin, F.sin_fin, F.sq_fin, F.mul_fin_fin,
    F.add_fin_fin, F.sub_fin_fin, F.neg_fin, F.arctan_fin,
    F.div_fin_fin _ r_eq_sq_ne, F.sqrt_fin_of_nonneg harg, F.div_fin_fin _ hden,
    F.div_fin_fin _ hsx, F.sqrt_fin_of_nonneg hsumnn, F.div_fin_fin _ hsq]

end Proj
namespace Grids

theorem map_enumFrom_snd {α β : Type _} (f : α → β) (n : ℕ) (l : List α) :
    ((l.enumFrom n).map (fun p => f p.2)) = l.map f := by
  induction l generalizing n with
  | nil => rfl
  | cons a t ih => simp only [List.enumFrom, List.map_cons, ih]

/-- C6: Deduplication conservation law: the counts of the unique footprints
returned by `count` sum to the length of the input list, and every unique
footprint's count is at least 1. -/
theorem count_conservation (l : List Corners) :
    ((count l).map EventQuad.count).sum = l.length ∧ ∀ u ∈ count l, 1 ≤ u.count := by
  constructor
  · have hmap : (count l).map EventQuad.count =
        l.dedup.map (fun c => @List.count Corners instBEqOfDecidableEq c l) := by
      unfold count
      rw [List.map_map]
      exact map_enumFrom_snd (fun c => @List.count Corners instBEqOfDecidableEq c l) 1 l.dedup
    rw [hmap]
    exact List.sum_map_count_dedup_eq_length l
  · intro u hu
    unfold count at hu
    rw [List.mem_map] at hu
    obtain ⟨p, hp, rfl⟩ := hu
    have hsnd : p.2 ∈ (l.dedup.enumFrom 1).map (fun q : ℕ × Corners => id q.2) :=
      List.mem_map_of_mem _ hp
    rw [map_enumFrom_snd id 1 l.dedup, List.map_id] at hsnd
    have hl : p.2 ∈ l := List.mem_dedup.1 hsnd
    exact (@List.count_pos_iff Corners instBEqOfDecidableEq _ p.2 l).2 hl

end Grids
namespace Grids

theorem zip_self_one {α β δ : Type _} (pl : List α) (f : α → β) (fn : α × β → δ) :
    (pl.zip (pl.map f)).map fn = pl.map (fun pt => fn (pt, f pt)) := by
  induction pl with
  | nil => rfl
  | cons a t ih => simp only [List.map_cons, List.zip_cons_cons, ih]

theorem zip_self_two {α β γ δ : Type _} (pl : List α) (f : α → β) (g : α → γ)
    (fn : α × β × γ → δ) :
    (pl.zip ((pl.map f).zip (pl.map g))).map fn = pl.map (fun pt => fn (pt, f pt, g pt)) := by
  induction pl with
  | nil => rfl
  | cons a t ih => simp only [List.map_cons, List.zip_cons_cons, ih]

/-- On the `extrapolate=True` path every entry of a corner column is the
linear interpolation when inside the hull, and the nearest-neighbour value
otherwise. -/
theorem cornerColumn_true_eq (lin : LinInterp) (near : NearInterp)
    (g : List (ℚ × ℚ)) (v : List ℚ) (pl : List (ℚ × ℚ)) :
    cornerColumn lin near g v pl true =
      pl.map (fun pt => some (resolvedOffset lin near g v pt)) := by
  unfold cornerColumn
  by_cases h : (pl.map (lin g v)).any Option.isNone
  · simp only [Bool.true_and, h, if_true]
    rw [zip_self_one (δ := Option ℚ) pl (lin g v) (fun pd =>
      match pd.2 with
      | some w => some w
      | none => some (near g v pd.1))]
    apply List.map_congr_left
    intro pt _
    unfold resolvedOffset
    rcases lin g v pt with _ | w <;> rfl
  · simp only [Bool.true_and, h, if_false]
    apply List.map_congr_left
    rintro ⟨p1, p2⟩ hpt
    have hne : lin g v (p1, p2) ≠ none := by
      intro hnone
      apply h
      rw [List.any_eq_true]
      exact ⟨lin g v (p1, p2), List.mem_map_of_mem _ hpt, by rw [hnone]; rfl⟩
    unfold resolvedOffset
    rcases hw : lin g v (p1, p2) with _ | w
    · exact absurd hw hne
    · rfl

/-- Full functional characterisation of the resolver on the default
`extrapolate=True` path: one footprint per event, in input order, each with
4 corners obtained by adding the inflated resolved offset to the event
coordinates. -/
theorem quads_from_corner_lookup_eq (lin : LinInterp) (near : NearInterp)
    (g_lons g_lats : List ℚ) (corner_pts : List (Fin 4 → ℚ × ℚ))
    (p_lon p_lat : List ℚ) (nadir_lon inflate : ℚ) :
    quads_from_corner_lookup lin near g_lons g_lats corner_pts p_lon p_lat
        nadir_lon inflate true =
      (p_lon.zip p_lat).map (fun pt =>
        (List.finRange 4).map (fun ci =>
          (some (pt.1 + resolvedOffset lin near
              ((g_lons.map (fun v => v + nadir_lon)).zip g_lats)
              (corner_pts.map (fun f => (f ci).1)) pt * inflate),
           some (pt.2 + resolvedOffset lin near
              ((g_lons.map (fun v => v + nadir_lon)).zip g_lats)
              (corner_pts.map (fun f => (f ci).2)) pt * inflate)))) := by
  unfold quads_from_corner_lookup
  simp only [cornerColumn_true_eq, zip_self_two]
  apply List.ext_getElem
  · rw [List.length_map, List.length_range, List.length_map]
  · intro i h1 h2
    rw [List.length_map, List.length_range] at h1
    rw [List.getElem_map, List.getElem_range, List.getElem_map]
    apply List.map_congr_left
    intro ci _
    rw [List.getD_eq_getElem _ _ (by rw [List.length_map]; exact h1), List.getElem_map]
    simp only [Option.map_some']

end Grids
namespace Grids

/-- C7: Footprint no-NaN coverage: with `extrapolate=True`, for a non-empty
event list and a well-formed lookup table (at least 3 distinct grid points;
entries are finite by the type of the model), every event receives exactly
4 corners and no corner coordinate is NaN (`none`); nearest-neighbour
extrapolation is the only fallback. -/
theorem resolver_no_nan (lin : LinInterp) (near : NearInterp)
    (g_lons g_lats : List ℚ) (corner_pts : List (Fin 4 → ℚ × ℚ))
    (p_lon p_lat : List ℚ) (nadir_lon inflate : ℚ)
    (hlen : p_lat.length = p_lon.length) (hne : p_lon ≠ [])
    (hwf : 3 ≤ (((g_lons.map (fun v => v + nadir_lon)).zip g_lats).dedup).length) :
    ∀ q ∈ quads_from_corner_lookup lin near g_lons g_lats corner_pts p_lon p_lat
        nadir_lon inflate true,
      q.length = 4 ∧ ∀ c ∈ q, c.1.isSome ∧ c.2.isSome := by
  intro q hq
  rw [quads_from_corner_lookup_eq, List.mem_map] at hq
  obtain ⟨pt, _, rfl⟩ := hq
  refine ⟨by rw [List.length_map, List.length_finRange], ?_⟩
  intro c hc
  rw [List.mem_map] at hc
  obtain ⟨ci, _, rfl⟩ := hc
  exact ⟨rfl, rfl⟩

/-- C7 witness: a concrete instantiation of `resolver_no_nan` at a one-event
input, evaluated on its single resulting quad. -/
theorem resolver_no_nan_witness :
    ∃ q, quads_from_corner_lookup (fun _ _ _ => none) (fun _ _ _ => 0)
        [0, 1, 2] [0, 1, 2] [] [1] [2] 0 1 true = [q] ∧
      q.length = 4 ∧ ∀ c ∈ q, c.1.isSome ∧ c.2.isSome := by
  obtain ⟨q, hq⟩ : ∃ q, quads_from_corner_lookup (fun _ _ _ => none) (fun _ _ _ => 0)
      [0, 1, 2] [0, 1, 2] [] [1] [2] 0 1 true = [q] := ⟨_, rfl⟩
  refine ⟨q, hq, resolver_no_nan (fun _ _ _ => none) (fun _ _ _ => 0)
    [0, 1, 2] [0, 1, 2] [] [1] [2] 0 1 rfl (by simp) ?_ q ?_⟩
  case _ =>
      rw [show ((([0, 1, 2] : List ℚ).map (fun v => v + (0 : ℚ))).zip ([0, 1, 2] : List ℚ)) =
          [((0 : ℚ) + 0, (0 : ℚ)), (1 + 0, 1), (2 + 0, 2)] from rfl]
      rw [List.dedup_cons_of_not_mem (by norm_num [List.mem_dedup, Prod.ext_iff]),
        List.dedup_cons_of_not_mem (by norm_num [List.mem_dedup, Prod.ext_iff]),
        List.dedup_cons_of_not_mem (by simp), List.dedup_nil]
      norm_num
  case _ => rw [hq]; exact List.mem_singleton.2 rfl

/-- C8: Footprint resolver output shape and corner formula: one footprint
per input event in input order, and each corner `ci` of event `pt` equals
`(pt.1 + dlon * inflate, pt.2 + dlat * inflate)` where `(dlon, dlat)` is the
interpolated (or nearest-neighbour extrapolated) corner offset. -/
theorem resolver_shape_and_corner_formula (lin : LinInterp) (near : NearInterp)
    (g_lons g_lats : List ℚ) (corner_pts : List (Fin 4 → ℚ × ℚ))
    (p_lon p_lat : List ℚ) (nadir_lon inflate : ℚ)
    (hlen : p_lat.length = p_lon.length) :
    (quads_from_corner_lookup lin near g_lons g_lats corner_pts p_lon p_lat
        nadir_lon inflate true).length = p_lon.length ∧
    quads_from_corner_lookup lin near g_lons g_lats corner_pts p_lon p_lat
        nadir_lon inflate true =
      (p_lon.zip p_lat).map (fun pt =>
        (List.finRange 4).map (fun ci =>
          (some (pt.1 + resolvedOffset lin near
              ((g_lons.map (fun v => v + nadir_lon)).zip g_lats)
              (corner_pts.map (fun f => (f ci).1)) pt * inflate),
           some (pt.2 + resolvedOffset lin near
              ((g_lons.map (fun v => v + nadir_lon)).zip g_lats)
              (corner_pts.map (fun f => (f ci).2)) pt * inflate)))) := by
  constructor
  · rw [quads_from_corner_lookup_eq, List.length_map, List.length_zip, hlen, min_self]
  · exact quads_from_corner_lookup_eq lin near g_lons g_lats corner_pts p_lon p_lat
      nadir_lon inflate

/-- C8 witness: a concrete instantiation of
`resolver_shape_and_corner_formula`. -/
theorem resolver_shape_and_corner_formula_witness :
    (quads_from_corner_lookup (fun _ _ _ => none) (fun _ _ _ => 0)
        [0] [0] [] [1] [2] 0 1 true).length = [(1 : ℚ)].length ∧
    quads_from_corner_lookup (fun _ _ _ => none) (fun _ _ _ => 0)
        [0] [0] [] [1] [2] 0 1 true =
      (([1] : List ℚ).zip ([2] : List ℚ)).map (fun pt =>
        (List.finRange 4).map (fun ci =>
          (some (pt.1 + resolvedOffset (fun _ _ _ => none) (fun _ _ _ => 0)
              ((([0] : List ℚ).map (fun v => v + 0)).zip ([0] : List ℚ))
              (([] : List (Fin 4 → ℚ × ℚ)).map (fun f => (f ci).1)) pt * 1),
           some (pt.2 + resolvedOffset (fun _ _ _ => none) (fun _ _ _ => 0)
              ((([0] : List ℚ).map (fun v => v + 0)).zip ([0] : List ℚ))
              (([] : List (Fin 4 → ℚ × ℚ)).map (fun f => (f ci).2)) pt * 1)))) :=
  resolver_shape_and_corner_formula (fun _ _ _ => none) (fun _ _ _ => 0)
    [0] [0] [] [1] [2] 0 1 rfl

end Grids
namespace Grids

/-- C4: Grid pixel-count truncation: for every valid key the returned grid
record's pixel counts are the truncating division `int(span/resolution)`,
which (spans and resolutions being positive) equals the mathematical floor
`⌊span/res⌋`; the hand-computable full-disk east case at resolution "2.0"
yields the truncated count 5424. -/
theorem pixel_count_truncation :
    (∀ p v r, validKey p v r →
      ∃ s1 s2 q, tblSpan p v "span_EW" = some s1 ∧ tblSpan p v "span_NS" = some s2 ∧
        tblRes r = some q ∧ 0 < q ∧
        resultVal (get_GOESR_grid initHeap p v r) "pixels_EW" =
          some (.int (pyInt (s1 / q))) ∧
        pyInt (s1 / q) = ⌊s1 / q⌋ ∧
        resultVal (get_GOESR_grid initHeap p v r) "pixels_NS" =
          some (.int (pyInt (s2 / q))) ∧
        pyInt (s2 / q) = ⌊s2 / q⌋) ∧
    resultVal (get_GOESR_grid initHeap "east" "full" "2.0") "pixels_EW" =
      some (.int 5424) ∧
    resultVal (get_GOESR_grid initHeap "east" "full" "2.0") "pixels_NS" =
      some (.int 5424) ∧
    (⌊(0.151872 * 2.0 : ℚ) / 56e-6⌋ : ℤ) = 5424 := by
  refine ⟨?_, ?_, ?_, by norm_num⟩
  · intro p v r hval
    obtain ⟨hp, hv, hr⟩ := hval
    simp only [positionKeys, viewKeys, resolutionKeys, goesr_resolutions, List.map_cons,
      List.map_nil, List.mem_cons, List.not_mem_nil, or_false] at hp hv hr
    obtain rfl | rfl | rfl := hp <;> obtain rfl | rfl | rfl := hv <;>
      obtain rfl | rfl | rfl | rfl | rfl | rfl | rfl := hr <;>
      exact ⟨_, _, _, rfl, rfl, rfl, by norm_num, rfl, by norm_num [pyInt], rfl,
        by norm_num [pyInt]⟩
  · show some (PyVal.int (pyInt (0.151872 * 2.0 / 56e-6))) = some (PyVal.int 5424)
    norm_num [pyInt]
  · show some (PyVal.int (pyInt (0.151872 * 2.0 / 56e-6))) = some (PyVal.int 5424)
    norm_num [pyInt]

/-- C4 witness: instantiation of `pixel_count_truncation` at the full-disk
east "2.0" key. -/
theorem pixel_count_truncation_witness :
    validKey "east" "full" "2.0" ∧
    (∃ s1 s2 q, tblSpan "east" "full" "span_EW" = some s1 ∧
      tblSpan "east" "full" "span_NS" = some s2 ∧
      tblRes "2.0" = some q ∧ 0 < q ∧
      resultVal (get_GOESR_grid initHeap "east" "full" "2.0") "pixels_EW" =
        some (.int (pyInt (s1 / q))) ∧
      pyInt (s1 / q) = ⌊s1 / q⌋ ∧
      resultVal (get_GOESR_grid initHeap "east" "full" "2.0") "pixels_NS" =
        some (.int (pyInt (s2 / q))) ∧
      pyInt (s2 / q) = ⌊s2 / q⌋) :=
  ⟨by decide, pixel_count_truncation.1 "east" "full" "2.0" (by decide)⟩

/-- C5: Catalog error behaviour: every recognized key succeeds; every
unrecognized key fails with the configuration error naming the first
invalid axis, and these are the only errors the component produces. -/
theorem catalog_error_behavior (p v r : String) :
    (validKey p v r → ∃ h a, get_GOESR_grid initHeap p v r = .ok (h, a)) ∧
    (¬ validKey p v r →
      ∃ ax, get_GOESR_grid initHeap p v r = .error (.invalidConfiguration ax) ∧
        ((ax = .position ∧ p ∉ positionKeys) ∨
         (ax = .sector ∧ v ∉ viewKeys) ∨
         (ax = .resolution ∧ r ∉ resolutionKeys))) := by
  by_cases hp : p ∈ positionKeys
  · by_cases hv : v ∈ viewKeys
    · by_cases hr : r ∈ resolutionKeys
      · constructor
        · intro _
          simp only [positionKeys, viewKeys, resolutionKeys, goesr_resolutions,
            List.map_cons, List.map_nil, List.mem_cons, List.not_mem_nil, or_false]
            at hp hv hr
          obtain rfl | rfl | rfl := hp <;> obtain rfl | rfl | rfl := hv <;>
            obtain rfl | rfl | rfl | rfl | rfl | rfl | rfl := hr <;>
            exact ⟨_, _, rfl⟩
        · intro hbad
          exact absurd ⟨hp, hv, hr⟩ hbad
      · refine ⟨fun hval => absurd hval.2.2 hr,
          fun _ => ⟨.resolution, ?_, Or.inr (Or.inr ⟨rfl, hr⟩)⟩⟩
        unfold get_GOESR_grid
        rw [if_neg (not_not_intro hp), if_neg (not_not_intro hv), if_pos hr]
    · refine ⟨fun hval => absurd hval.2.1 hv,
        fun _ => ⟨.sector, ?_, Or.inr (Or.inl ⟨rfl, hv⟩)⟩⟩
      unfold get_GOESR_grid
      rw [if_neg (not_not_intro hp), if_pos hv]
  · refine ⟨fun hval => absurd hval.1 hp,
      fun _ => ⟨.position, ?_, Or.inl ⟨rfl, hp⟩⟩⟩
    unfold get_GOESR_grid
    rw [if_pos hp]

/-- C5 witness: a recognized key succeeds, an unrecognized position fails
with the position axis identified. -/
theorem catalog_error_behavior_witness :
    (∃ h a, get_GOESR_grid initHeap "east" "full" "2.0" = .ok (h, a)) ∧
    (∃ ax, get_GOESR_grid initHeap "north" "full" "2.0" =
        .error (.invalidConfiguration ax) ∧
      ((ax = .position ∧ "north" ∉ positionKeys) ∨
       (ax = .sector ∧ "full" ∉ viewKeys) ∨
       (ax = .resolution ∧ "2.0" ∉ resolutionKeys))) :=
  ⟨(catalog_error_behavior "east" "full" "2.0").1 (by decide),
   (catalog_error_behavior "north" "full" "2.0").2 (by decide)⟩

/-- C10: Catalog lookup is read-only on the configuration tables: all
static objects are unchanged, the result is a freshly allocated record
consisting of the selected table augmented with the four derived fields,
and a second identical call returns an equal record. -/
theorem catalog_read_only (p v r : String) (hval : validKey p v r) :
    ∃ h1 a, get_GOESR_grid initHeap p v r = .ok (h1, a) ∧
      (∀ b ∈ staticAddrs, hget h1 b = hget initHeap b) ∧
      a ∉ staticAddrs ∧
      (∃ a0 d0 q zEW zNS nl,
        globalsAddr ("goes" ++ p ++ "_" ++ v) = some a0 ∧
        hget initHeap a0 = some d0 ∧ tblRes r = some q ∧
        hget h1 a = some (d0 ++
          [("resolution", .num q), ("pixels_EW", .int zEW),
           ("pixels_NS", .int zNS), ("nadir_lon", .num nl)])) ∧
      (∃ h2 a2, get_GOESR_grid h1 p v r = .ok (h2, a2) ∧ hget h2 a2 = hget h1 a) := by
  obtain ⟨hp, hv, hr⟩ := hval
  simp only [positionKeys, viewKeys, resolutionKeys, goesr_resolutions, List.map_cons,
    List.map_nil, List.mem_cons, List.not_mem_nil, or_false] at hp hv hr
  obtain rfl | rfl | rfl := hp <;> obtain rfl | rfl | rfl := hv <;>
    obtain rfl | rfl | rfl | rfl | rfl | rfl | rfl := hr <;>
    exact ⟨_, _, rfl, fun b hb => by fin_cases hb <;> rfl, by decide,
      ⟨_, _, _, _, _, _, rfl, rfl, rfl, rfl⟩, _, _, rfl, rfl⟩

/-- C10 witness: instantiation of `catalog_read_only` at the full-disk east
"2.0" key. -/
theorem catalog_read_only_witness :
    ∃ h1 a, get_GOESR_grid initHeap "east" "full" "2.0" = .ok (h1, a) ∧
      (∀ b ∈ staticAddrs, hget h1 b = hget initHeap b) ∧
      a ∉ staticAddrs ∧
      (∃ a0 d0 q zEW zNS nl,
        globalsAddr ("goes" ++ "east" ++ "_" ++ "full") = some a0 ∧
        hget initHeap a0 = some d0 ∧ tblRes "2.0" = some q ∧
        hget h1 a = some (d0 ++
          [("resolution", .num q), ("pixels_EW", .int zEW),
           ("pixels_NS", .int zNS), ("nadir_lon", .num nl)])) ∧
      (∃ h2 a2, get_GOESR_grid h1 "east" "full" "2.0" = .ok (h2, a2) ∧
        hget h2 a2 = hget h1 a) :=
  catalog_read_only "east" "full" "2.0" (by decide)

end Grids
namespace Proj

/-- C9: Transform totality: on every pair of finite inputs both
`scan_to_geod` and `geod_to_scan` return a value (never an exception);
degenerate geometry surfaces only as NaN/Inf payloads inside the returned
pair, never as an error. -/
theorem transform_totality (y x : ℝ) :
    (∃ p, scan_to_geod (F.fin y) (F.fin x) = .ok p) ∧
    (∃ p, geod_to_scan (F.fin y) (F.fin x) = .ok p) :=
  ⟨⟨_, rfl⟩, ⟨_, rfl⟩⟩

/-- C3 is false as stated: at `(y, x) = (π/2, π/2)` the discriminant is
negative, yet no absolute value is taken before the square root — the
square root of the negative discriminant is NaN, and `scan_to_geod`
returns `(NaN, NaN)`, not a real-valued pair. -/
theorem neg_disc_counterexample :
    discR (Real.pi / 2) (Real.pi / 2) < 0 ∧
    scan_to_geod (F.fin (Real.pi / 2)) (F.fin (Real.pi / 2)) = .ok (F.nan, F.nan) ∧
    ∀ la lo : ℝ, scan_to_geod (F.fin (Real.pi / 2)) (F.fin (Real.pi / 2)) ≠
      .ok (F.fin la, F.fin lo) := by
  refine ⟨disc_pi_half_neg, scan_to_geod_nan_of_neg_disc _ _ disc_pi_half_neg, ?_⟩
  intro la lo h
  rw [scan_to_geod_nan_of_neg_disc _ _ disc_pi_half_neg] at h
  exact absurd h (by simp)

/-- C3 (amended): the `except ValueError` fallback in `_calc_rs` is dead
code — `numpy.sqrt` raises on no input, so the tried branch always
produces a value and the absolute-value recomputation never executes —
and on a negative discriminant the square root evaluates to NaN, which
propagates so that `scan_to_geod` returns `(NaN, NaN)` instead of a
real-valued pair. -/
theorem neg_disc_yields_nan :
    (∀ a b c : F, _calc_rs a b c =
      .ok (((b.neg).sub (F.sqrt ((b.sq).sub (((F.fin 4).mul a).mul c)))).div
        ((F.fin 2).mul a))) ∧
    ∀ y x : ℝ, discR y x < 0 →
      scan_to_geod (F.fin y) (F.fin x) = .ok (F.nan, F.nan) :=
  ⟨fun _ _ _ => rfl, scan_to_geod_nan_of_neg_disc⟩

/-- C3 (amended) witness: the hypothesis `discR y x < 0` holds at
`(π/2, π/2)` and there the transform returns `(NaN, NaN)`. -/
theorem neg_disc_yields_nan_witness :
    discR (Real.pi / 2) (Real.pi / 2) < 0 ∧
    scan_to_geod (F.fin (Real.pi / 2)) (F.fin (Real.pi / 2)) = .ok (F.nan, F.nan) :=
  ⟨disc_pi_half_neg, neg_disc_yields_nan.2 (Real.pi / 2) (Real.pi / 2) disc_pi_half_neg⟩

end Proj
namespace Proj

set_option maxHeartbeats 4000000 in
/-- First worked example of `geod_to_scan`: the documented fixture (48.0563, -70.1242) maps to (0.12390, 0.00950) radians to four decimal places. -/
theorem g2s_fixture_one :
    ∃ ry rx, geod_to_scan (F.fin 48.0563) (F.fin (-70.1242)) = .ok (F.fin ry, F.fin rx) ∧
      |ry - 0.12390| < 0.00005 ∧ |rx - 0.00950| < 0.00005 := by
  have h1 : (IA.IQ.mk 180 180).memR ((180 : ℝ)) :=
    IA.memR_of_bounds (by norm_num) (by norm_num)
  have h2 : (IA.IQ.mk 1745329251994329576922222e-26 1745329251994329576927778e-26).memR (Real.pi / 180) :=
    IA.div_mem IA.pi_mem20 h1 (by norm_num) (by norm_num) (by norm_num)
      (by norm_num) (by norm_num)
  have h3 : (IA.IQ.mk 480563e-4 480563e-4).memR ((48.0563 : ℝ)) :=
    IA.memR_of_bounds (by norm_num) (by norm_num)
  have h4 : (IA.IQ.mk (-701242e-4) (-701242e-4)).memR (((-70.1242) : ℝ)) :=
    IA.memR_of_bounds (by norm_num) (by norm_num)
  have h5 : (IA.IQ.mk 8387406613261510044744737e-25 8387406613261510044771438e-25).memR ((48.0563 : ℝ) * (Real.pi / 180)) :=
    IA.mul_mem h3 h2 (by norm_num) (by norm_num) (by norm_num) (by norm_num)
      (by norm_num) (by norm_num) (by norm_num) (by norm_num)
  have h6 : (IA.IQ.mk (-1223898175327007661183989e-24) (-1223898175327007661180092e-24)).memR (((-70.1242) : ℝ) * (Real.pi / 180)) :=
    IA.mul_mem h4 h2 (by norm_num) (by norm_num) (by norm_num) (by norm_num)
      (by norm_num) (by norm_num) (by norm_num) (by norm_num)
  have h7 : (IA.IQ.mk 9933056199769880028595027e-25 9933056199769880028595028e-25).memR (r_pol * r_pol / (r_eq * r_eq)) :=
    IA.memR_of_bounds (by norm_num [r_pol, r_eq]) (by norm_num [r_pol, r_eq])
  have h8 : (IA.IQ.mk 7438019676753940384201621e-25 7438019682236552358059677e-25).memR (Real.sin ((48.0563 : ℝ) * (Real.pi / 180))) :=
    IA.sin_mem 8387406613261510044771438e-25 h5 (by norm_num) (by norm_num) (by norm_num) (by norm_num)
      (by norm_num [IA.sinQ, IA.cosQ, IA.errW, IA.taylErr]) (by norm_num [IA.sinQ, IA.cosQ, IA.errW, IA.taylErr])
  have h9 : (IA.IQ.mk 6684000536705439081879778e-25 6684000542188051055737834e-25).memR (Real.cos ((48.0563 : ℝ) * (Real.pi / 180))) :=
    IA.cos_mem 8387406613261510044771438e-25 h5 (by norm_num) (by norm_num) (by norm_num) (by norm_num)
      (by norm_num [IA.sinQ, IA.cosQ, IA.errW, IA.taylErr]) (by norm_num [IA.sinQ, IA.cosQ, IA.errW, IA.taylErr])
  have h10 : (IA.IQ.mk 1112809556164257320661626e-24 1112809557897308493757063e-24).memR (Real.tan ((48.0563 : ℝ) * (Real.pi / 180))) :=
    IA.tan_mem h8 h9 (by norm_num) (by norm_num) (by norm_num)
      (by norm_num) (by norm_num)
  have h11 : (IA.IQ.mk 1105359986102054469414965e-24 1105359987823503939358375e-24).memR ((r_pol * r_pol / (r_eq * r_eq)) * (Real.tan ((48.0563 : ℝ) * (Real.pi / 180)))) :=
    IA.mul_mem h7 h10 (by norm_num) (by norm_num) (by norm_num) (by norm_num)
      (by norm_num) (by norm_num) (by norm_num) (by norm_num)
  have h17p1 : (IA.IQ.mk 83540014078650701115e-20 83540014078650701115e-20).memR ((83540014078650701115e-20 : ℚ) : ℝ) :=
    IA.memR_const le_rfl le_rfl
  have h17p2 : (IA.IQ.mk 7415650176639269747477282e-25 7415650181865513570601512e-25).memR (Real.sin ((83540014078650701115e-20 : ℚ) : ℝ)) :=
    IA.sin_mem 83540014078650701115e-20 h17p1 (by norm_num) (by norm_num) (by norm_num) (by norm_num)
      (by norm_num [IA.sinQ, IA.cosQ, IA.errW, IA.taylErr]) (by norm_num [IA.sinQ, IA.cosQ, IA.errW, IA.taylErr])
  have h17p3 : (IA.IQ.mk 6708810054649014185470261e-25 6708810059875258008594491e-25).memR (Real.cos ((83540014078650701115e-20 : ℚ) : ℝ)) :=
    IA.cos_mem 83540014078650701115e-20 h17p1 (by norm_num) (by norm_num) (by norm_num) (by norm_num)
      (by norm_num [IA.sinQ, IA.cosQ, IA.errW, IA.taylErr]) (by norm_num [IA.sinQ, IA.cosQ, IA.errW, IA.taylErr])
  have h17p4 : (IA.IQ.mk 1105359983433061235457109e-24 1105359985073162016257293e-24).memR (Real.tan ((83540014078650701115e-20 : ℚ) : ℝ)) :=
    IA.tan_mem h17p2 h17p3 (by norm_num) (by norm_num) (by norm_num)
      (by norm_num) (by norm_num)
  have h17p5 : (IA.IQ.mk 83540014356129924153e-20 83540014356129924153e-20).memR ((83540014356129924153e-20 : ℚ) : ℝ) :=
    IA.memR_const le_rfl le_rfl
  have h17p6 : (IA.IQ.mk 7415650195254823636760949e-25 741565020048106766819361e-24).memR (Real.sin ((83540014356129924153e-20 : ℚ) : ℝ)) :=
    IA.sin_mem 83540014356129924153e-20 h17p5 (by norm_num) (by norm_num) (by norm_num) (by norm_num)
      (by norm_num [IA.sinQ, IA.cosQ, IA.errW, IA.taylErr]) (by norm_num [IA.sinQ, IA.cosQ, IA.errW, IA.taylErr])
  have h17p7 : (IA.IQ.mk 6708810034072125458740955e-25 6708810039298369490173616e-25).memR (Real.cos ((83540014356129924153e-20 : ℚ) : ℝ)) :=
    IA.cos_mem 83540014356129924153e-20 h17p5 (by norm_num) (by norm_num) (by norm_num) (by norm_num)
      (by norm_num [IA.sinQ, IA.cosQ, IA.errW, IA.taylErr]) (by norm_num [IA.sinQ, IA.cosQ, IA.errW, IA.taylErr])
  have h17p8 : (IA.IQ.mk 1105359989598152033800078e-24 1105359991238252889804758e-24).memR (Real.tan ((83540014356129924153e-20 : ℚ) : ℝ)) :=
    IA.tan_mem h17p6 h17p7 (by norm_num) (by norm_num) (by norm_num)
      (by norm_num) (by norm_num)
  have h18 : (IA.IQ.mk 83540014078650701115e-20 83540014356129924153e-20).memR (Real.arctan ((r_pol * r_pol / (r_eq * r_eq)) * (Real.tan ((48.0563 : ℝ) * (Real.pi / 180))))) :=
    IA.arctan_mem 83540014078650701115e-20 83540014356129924153e-20 h11 h17p4 h17p8 (by norm_num)
      (by norm_num) (by norm_num) (by norm_num) (by norm_num) (by norm_num)
  have h19 : (IA.IQ.mk 83540014078650701115e-20 83540014356129924153e-20).memR (thetacR ((48.0563 : ℝ) * (Real.pi / 180))) :=
    by unfold thetacR; exact h18
  have h20 : (IA.IQ.mk 6708810030486608624585287e-25 6708810063460774959817948e-25).memR (Real.cos (thetacR ((48.0563 : ℝ) * (Real.pi / 180)))) :=
    IA.cos_mem 83540014356129924153e-20 h19 (by norm_num) (by norm_num) (by norm_num) (by norm_num)
      (by norm_num [IA.sinQ, IA.cosQ, IA.errW, IA.taylErr]) (by norm_num [IA.sinQ, IA.cosQ, IA.errW, IA.taylErr])
  have h21 : (IA.IQ.mk 7415650172073085495279082e-25 7415650205047251830511743e-25).memR (Real.sin (thetacR ((48.0563 : ℝ) * (Real.pi / 180)))) :=
    IA.sin_mem 83540014356129924153e-20 h19 (by norm_num) (by norm_num) (by norm_num) (by norm_num)
      (by norm_num [IA.sinQ, IA.cosQ, IA.errW, IA.taylErr]) (by norm_num [IA.sinQ, IA.cosQ, IA.errW, IA.taylErr])
  have h22 : (IA.IQ.mk 4500813202515773054284134e-25 4500813246759256734362246e-25).memR ((Real.cos (thetacR ((48.0563 : ℝ) * (Real.pi / 180)))) * (Real.cos (thetacR ((48.0563 : ℝ) * (Real.pi / 180))))) :=
    IA.mul_mem h20 h20 (by norm_num) (by norm_num) (by norm_num) (by norm_num)
      (by norm_num) (by norm_num) (by norm_num) (by norm_num)
  have h23 : (IA.IQ.mk 669438002301275061889225e-26 669438002301275061889225e-26).memR (e_ecc * e_ecc) :=
    IA.memR_of_bounds (by norm_num [e_ecc]) (by norm_num [e_ecc])
  have h24 : (IA.IQ.mk 3013015399023363263085188e-27 3013015428641632592725746e-27).memR ((e_ecc * e_ecc) * ((Real.cos (thetacR ((48.0563 : ℝ) * (Real.pi / 180)))) * (Real.cos (thetacR ((48.0563 : ℝ) * (Real.pi / 180)))))) :=
    IA.mul_mem h23 h22 (by norm_num) (by norm_num) (by norm_num) (by norm_num)
      (by norm_num) (by norm_num) (by norm_num) (by norm_num)
  have h25 : (IA.IQ.mk 1 1).memR ((1 : ℝ)) :=
    IA.memR_of_bounds (by norm_num) (by norm_num)
  have h26 : (IA.IQ.mk 9969869845713583674072742e-25 9969869846009766367369149e-25).memR (((1 : ℝ)) - ((e_ecc * e_ecc) * ((Real.cos (thetacR ((48.0563 : ℝ) * (Real.pi / 180)))) * (Real.cos (thetacR ((48.0563 : ℝ) * (Real.pi / 180))))))) :=
    IA.sub_mem h25 h24 (by norm_num) (by norm_num)
  have h27 : (IA.IQ.mk 9984923557901474327176702e-25 9984923558049789280003671e-25).memR (Real.sqrt (((1 : ℝ)) - ((e_ecc * e_ecc) * ((Real.cos (thetacR ((48.0563 : ℝ) * (Real.pi / 180)))) * (Real.cos (thetacR ((48.0563 : ℝ) * (Real.pi / 180)))))))) :=
    IA.sqrt_mem h26 (by norm_num) (by norm_num) (by norm_num)
  have h28 : (IA.IQ.mk 635675231414e-5 635675231414e-5).memR (r_pol) :=
    IA.memR_of_bounds (by norm_num [r_pol]) (by norm_num [r_pol])
  have h29 : (IA.IQ.mk 6366350505523121401154245e-18 6366350505617686469122083e-18).memR ((r_pol) / (Real.sqrt (((1 : ℝ)) - ((e_ecc * e_ecc) * ((Real.cos (thetacR ((48.0563 : ℝ) * (Real.pi / 180)))) * (Real.cos (thetacR ((48.0563 : ℝ) * (Real.pi / 180))))))))) :=
    IA.div_mem h28 h27 (by norm_num) (by norm_num) (by norm_num)
      (by norm_num) (by norm_num)
  have h30 : (IA.IQ.mk 6366350505523121401154245e-18 6366350505617686469122083e-18).memR (rcR ((48.0563 : ℝ) * (Real.pi / 180))) :=
    by unfold rcR; exact h29
  have h31 : (IA.IQ.mk (-1308996939e-9) (-1308996939e-9)).memR (lambda_0) :=
    IA.memR_of_bounds (by norm_num [lambda_0]) (by norm_num [lambda_0])
  have h32 : (IA.IQ.mk 85098763672992338816011e-24 85098763672992338819908e-24).memR ((((-70.1242) : ℝ) * (Real.pi / 180)) - (lambda_0)) :=
    IA.sub_mem h6 h31 (by norm_num) (by norm_num)
  have h33 : (IA.IQ.mk 9963812848357984825360945e-25 9963812848357984825406441e-25).memR (Real.cos ((((-70.1242) : ℝ) * (Real.pi / 180)) - (lambda_0))) :=
    IA.cos_mem 85098763672992338819908e-24 h32 (by norm_num) (by norm_num) (by norm_num) (by norm_num)
      (by norm_num [IA.sinQ, IA.cosQ, IA.errW, IA.taylErr]) (by norm_num [IA.sinQ, IA.cosQ, IA.errW, IA.taylErr])
  have h34 : (IA.IQ.mk 427106361290470083160917e-17 4271063633960652791323814e-18).memR ((rcR ((48.0563 : ℝ) * (Real.pi / 180))) * (Real.cos (thetacR ((48.0563 : ℝ) * (Real.pi / 180))))) :=
    IA.mul_mem h30 h20 (by norm_num) (by norm_num) (by norm_num) (by norm_num)
      (by norm_num) (by norm_num) (by norm_num) (by norm_num)
  have h35 : (IA.IQ.mk 425560785024141327071549e-17 4255607871221169737796249e-18).memR (((rcR ((48.0563 : ℝ) * (Real.pi / 180))) * (Real.cos (thetacR ((48.0563 : ℝ) * (Real.pi / 180))))) * (Real.cos ((((-70.1242) : ℝ) * (Real.pi / 180)) - (lambda_0)))) :=
    IA.mul_mem h34 h33 (by norm_num) (by norm_num) (by norm_num) (by norm_num)
      (by norm_num) (by norm_num) (by norm_num) (by norm_num)
  have h36 : (IA.IQ.mk 42164160 42164160).memR (Hgeo) :=
    IA.memR_of_bounds (by norm_num [Hgeo]) (by norm_num [Hgeo])
  have h37 : (IA.IQ.mk 3790855212877883026220375e-17 3790855214975858672928451e-17).memR ((Hgeo) - (((rcR ((48.0563 : ℝ) * (Real.pi / 180))) * (Real.cos (thetacR ((48.0563 : ℝ) * (Real.pi / 180))))) * (Real.cos ((((-70.1242) : ℝ) * (Real.pi / 180)) - (lambda_0))))) :=
    IA.sub_mem h36 h35 (by norm_num) (by norm_num)
  have h38 : (IA.IQ.mk 3790855212877883026220375e-17 3790855214975858672928451e-17).memR (sxiR ((48.0563 : ℝ) * (Real.pi / 180)) (((-70.1242) : ℝ) * (Real.pi / 180))) :=
    by unfold sxiR; exact h37
  have h39 : (IA.IQ.mk 8499608949218436194484446e-26 849960894921843619493939e-25).memR (Real.sin ((((-70.1242) : ℝ) * (Real.pi / 180)) - (lambda_0))) :=
    IA.sin_mem 85098763672992338819908e-24 h32 (by norm_num) (by norm_num) (by norm_num) (by norm_num)
      (by norm_num [IA.sinQ, IA.cosQ, IA.errW, IA.taylErr]) (by norm_num [IA.sinQ, IA.cosQ, IA.errW, IA.taylErr])
  have h40 : (IA.IQ.mk (-6366350505617686469122083e-18) (-6366350505523121401154245e-18)).memR (-(rcR ((48.0563 : ℝ) * (Real.pi / 180)))) :=
    IA.neg_mem h30 (by norm_num) (by norm_num)
  have h41 : (IA.IQ.mk (-4271063633960652791323814e-18) (-427106361290470083160917e-17)).memR ((-(rcR ((48.0563 : ℝ) * (Real.pi / 180)))) * (Real.cos (thetacR ((48.0563 : ℝ) * (Real.pi / 180))))) :=
    IA.mul_mem h40 h20 (by norm_num) (by norm_num) (by norm_num) (by norm_num)
      (by norm_num) (by norm_num) (by norm_num) (by norm_num)
  have h42 : (IA.IQ.mk (-3630237068589337966756409e-19) (-3630237050692602195451693e-19)).memR (((-(rcR ((48.0563 : ℝ) * (Real.pi / 180)))) * (Real.cos (thetacR ((48.0563 : ℝ) * (Real.pi / 180))))) * (Real.sin ((((-70.1242) : ℝ) * (Real.pi / 180)) - (lambda_0)))) :=
    IA.mul_mem h41 h39 (by norm_num) (by norm_num) (by norm_num) (by norm_num)
      (by norm_num) (by norm_num) (by norm_num) (by norm_num)
  have h43 : (IA.IQ.mk (-3630237068589337966756409e-19) (-3630237050692602195451693e-19)).memR (syiR ((48.0563 : ℝ) * (Real.pi / 180)) (((-70.1242) : ℝ) * (Real.pi / 180))) :=
    by unfold syiR; exact h42
  have h44 : (IA.IQ.mk 4721062822176011004826274e-18 472106284323864720314407e-17).memR ((rcR ((48.0563 : ℝ) * (Real.pi / 180))) * (Real.sin (thetacR ((48.0563 : ℝ) * (Real.pi / 180))))) :=
    IA.mul_mem h30 h21 (by norm_num) (by norm_num) (by norm_num) (by norm_num)
      (by norm_num) (by norm_num) (by norm_num) (by norm_num)
  have h45 : (IA.IQ.mk 4721062822176011004826274e-18 472106284323864720314407e-17).memR (sziR ((48.0563 : ℝ) * (Real.pi / 180))) :=
    by unfold sziR; exact h44
  have h46 : (IA.IQ.mk 1245381992835111793855288e-25 1245381999080514469670252e-25).memR ((sziR ((48.0563 : ℝ) * (Real.pi / 180))) / (sxiR ((48.0563 : ℝ) * (Real.pi / 180)) (((-70.1242) : ℝ) * (Real.pi / 180)))) :=
    IA.div_mem h45 h38 (by norm_num) (by norm_num) (by norm_num)
      (by norm_num) (by norm_num)
  have h47p1 : (IA.IQ.mk 12390027264297564269e-20 12390027264297564269e-20).memR ((12390027264297564269e-20 : ℚ) : ℝ) :=
    IA.memR_const le_rfl le_rfl
  have h47p2 : (IA.IQ.mk 1235835112961188538114831e-25 1235835112961188538706833e-25).memR (Real.sin ((12390027264297564269e-20 : ℚ) : ℝ)) :=
    IA.sin_mem 12390027264297564269e-20 h47p1 (by norm_num) (by norm_num) (by norm_num) (by norm_num)
      (by norm_num [IA.sinQ, IA.cosQ, IA.errW, IA.taylErr]) (by norm_num [IA.sinQ, IA.cosQ, IA.errW, IA.taylErr])
  have h47p3 : (IA.IQ.mk 9923341754347282700146539e-25 9923341754347282700738541e-25).memR (Real.cos ((12390027264297564269e-20 : ℚ) : ℝ)) :=
    IA.cos_mem 12390027264297564269e-20 h47p1 (by norm_num) (by norm_num) (by norm_num) (by norm_num)
      (by norm_num [IA.sinQ, IA.cosQ, IA.errW, IA.taylErr]) (by norm_num [IA.sinQ, IA.cosQ, IA.errW, IA.taylErr])
  have h47p4 : (IA.IQ.mk 1245381992835010221016058e-25 1245381992835010221686931e-25).memR (Real.tan ((12390027264297564269e-20 : ℚ) : ℝ)) :=
    IA.tan_mem h47p2 h47p3 (by norm_num) (by norm_num) (by norm_num)
      (by norm_num) (by norm_num)
  have h47p5 : (IA.IQ.mk 12390027325799737279e-20 12390027325799737279e-20).memR ((12390027325799737279e-20 : ℚ) : ℝ) :=
    IA.memR_const le_rfl le_rfl
  have h47p6 : (IA.IQ.mk 1235835119064259352013338e-25 123583511906425935260534e-24).memR (Real.sin ((12390027325799737279e-20 : ℚ) : ℝ)) :=
    IA.sin_mem 12390027325799737279e-20 h47p5 (by norm_num) (by norm_num) (by norm_num) (by norm_num)
      (by norm_num [IA.sinQ, IA.cosQ, IA.errW, IA.taylErr]) (by norm_num [IA.sinQ, IA.cosQ, IA.errW, IA.taylErr])
  have h47p7 : (IA.IQ.mk 992334175358721724897806e-24 9923341753587217249570061e-25).memR (Real.cos ((12390027325799737279e-20 : ℚ) : ℝ)) :=
    IA.cos_mem 12390027325799737279e-20 h47p5 (by norm_num) (by norm_num) (by norm_num) (by norm_num)
      (by norm_num [IA.sinQ, IA.cosQ, IA.errW, IA.taylErr]) (by norm_num [IA.sinQ, IA.cosQ, IA.errW, IA.taylErr])
  have h47p8 : (IA.IQ.mk 1245381999080615935728238e-25 1245381999080615936399111e-25).memR (Real.tan ((12390027325799737279e-20 : ℚ) : ℝ)) :=
    IA.tan_mem h47p6 h47p7 (by norm_num) (by norm_num) (by norm_num)
      (by norm_num) (by norm_num)
  have h48 : (IA.IQ.mk 12390027264297564269e-20 12390027325799737279e-20).memR (Real.arctan ((sziR ((48.0563 : ℝ) * (Real.pi / 180))) / (sxiR ((48.0563 : ℝ) * (Real.pi / 180)) (((-70.1242) : ℝ) * (Real.pi / 180))))) :=
    IA.arctan_mem 12390027264297564269e-20 12390027325799737279e-20 h46 h47p4 h47p8 (by norm_num)
      (by norm_num) (by norm_num) (by norm_num) (by norm_num) (by norm_num)
  have h49 : (IA.IQ.mk 12390027264297564269e-20 12390027325799737279e-20).memR (g2sY ((48.0563 : ℝ) * (Real.pi / 180)) (((-70.1242) : ℝ) * (Real.pi / 180))) :=
    by unfold g2sY; exact h48
  have h50 : (IA.IQ.mk 3630237050692602195451693e-19 3630237068589337966756409e-19).memR (-(syiR ((48.0563 : ℝ) * (Real.pi / 180)) (((-70.1242) : ℝ) * (Real.pi / 180)))) :=
    IA.neg_mem h43 (by norm_num) (by norm_num)
  have h51 : (IA.IQ.mk 1437058324500341983571836e-9 1437058326090966367374818e-9).memR ((sxiR ((48.0563 : ℝ) * (Real.pi / 180)) (((-70.1242) : ℝ) * (Real.pi / 180))) * (sxiR ((48.0563 : ℝ) * (Real.pi / 180)) (((-70.1242) : ℝ) * (Real.pi / 180)))) :=
    IA.mul_mem h38 h38 (by norm_num) (by norm_num) (by norm_num) (by norm_num)
      (by norm_num) (by norm_num) (by norm_num) (by norm_num)
  have h52 : (IA.IQ.mk 1317862104422132280215985e-13 1317862117416010968934506e-13).memR ((syiR ((48.0563 : ℝ) * (Real.pi / 180)) (((-70.1242) : ℝ) * (Real.pi / 180))) * (syiR ((48.0563 : ℝ) * (Real.pi / 180)) (((-70.1242) : ℝ) * (Real.pi / 180)))) :=
    IA.mul_mem h43 h43 (by norm_num) (by norm_num) (by norm_num) (by norm_num)
      (by norm_num) (by norm_num) (by norm_num) (by norm_num)
  have h53 : (IA.IQ.mk 2228843417093252170632734e-11 2228843436980857953575564e-11).memR ((sziR ((48.0563 : ℝ) * (Real.pi / 180))) * (sziR ((48.0563 : ℝ) * (Real.pi / 180)))) :=
    IA.mul_mem h45 h45 (by norm_num) (by norm_num) (by norm_num) (by norm_num)
      (by norm_num) (by norm_num) (by norm_num) (by norm_num)
  have h54 : (IA.IQ.mk 1437190110710784196799857e-9 1437190112302707968471712e-9).memR (((sxiR ((48.0563 : ℝ) * (Real.pi / 180)) (((-70.1242) : ℝ) * (Real.pi / 180))) * (sxiR ((48.0563 : ℝ) * (Real.pi / 180)) (((-70.1242) : ℝ) * (Real.pi / 180)))) + ((syiR ((48.0563 : ℝ) * (Real.pi / 180)) (((-70.1242) : ℝ) * (Real.pi / 180))) * (syiR ((48.0563 : ℝ) * (Real.pi / 180)) (((-70.1242) : ℝ) * (Real.pi / 180))))) :=
    IA.add_mem h51 h52 (by norm_num) (by norm_num)
  have h55 : (IA.IQ.mk 1459478544881716718506184e-9 1459478546672516548007468e-9).memR ((((sxiR ((48.0563 : ℝ) * (Real.pi / 180)) (((-70.1242) : ℝ) * (Real.pi / 180))) * (sxiR ((48.0563 : ℝ) * (Real.pi / 180)) (((-70.1242) : ℝ) * (Real.pi / 180)))) + ((syiR ((48.0563 : ℝ) * (Real.pi / 180)) (((-70.1242) : ℝ) * (Real.pi / 180))) * (syiR ((48.0563 : ℝ) * (Real.pi / 180)) (((-70.1242) : ℝ) * (Real.pi / 180))))) + ((sziR ((48.0563 : ℝ) * (Real.pi / 180))) * (sziR ((48.0563 : ℝ) * (Real.pi / 180))))) :=
    IA.add_mem h54 h53 (by norm_num) (by norm_num)
  have h56 : (IA.IQ.mk 382031221876133668251957e-16 3820312221105123952258199e-17).memR (Real.sqrt ((((sxiR ((48.0563 : ℝ) * (Real.pi / 180)) (((-70.1242) : ℝ) * (Real.pi / 180))) * (sxiR ((48.0563 : ℝ) * (Real.pi / 180)) (((-70.1242) : ℝ) * (Real.pi / 180)))) + ((syiR ((48.0563 : ℝ) * (Real.pi / 180)) (((-70.1242) : ℝ) * (Real.pi / 180))) * (syiR ((48.0563 : ℝ) * (Real.pi / 180)) (((-70.1242) : ℝ) * (Real.pi / 180))))) + ((sziR ((48.0563 : ℝ) * (Real.pi / 180))) * (sziR ((48.0563 : ℝ) * (Real.pi / 180)))))) :=
    IA.sqrt_mem h55 (by norm_num) (by norm_num) (by norm_num)
  have h57 : (IA.IQ.mk 9502461685297706882365395e-27 9502461737973795882095094e-27).memR ((-(syiR ((48.0563 : ℝ) * (Real.pi / 180)) (((-70.1242) : ℝ) * (Real.pi / 180)))) / (Real.sqrt ((((sxiR ((48.0563 : ℝ) * (Real.pi / 180)) (((-70.1242) : ℝ) * (Real.pi / 180))) * (sxiR ((48.0563 : ℝ) * (Real.pi / 180)) (((-70.1242) : ℝ) * (Real.pi / 180)))) + ((syiR ((48.0563 : ℝ) * (Real.pi / 180)) (((-70.1242) : ℝ) * (Real.pi / 180))) * (syiR ((48.0563 : ℝ) * (Real.pi / 180)) (((-70.1242) : ℝ) * (Real.pi / 180))))) + ((sziR ((48.0563 : ℝ) * (Real.pi / 180))) * (sziR ((48.0563 : ℝ) * (Real.pi / 180))))))) :=
    IA.div_mem h50 h56 (by norm_num) (by norm_num) (by norm_num)
      (by norm_num) (by norm_num)
  have h58 : (IA.IQ.mk 9502461685297706882365395e-27 9502461737973795882095094e-27).memR (g2sX ((48.0563 : ℝ) * (Real.pi / 180)) (((-70.1242) : ℝ) * (Real.pi / 180))) :=
    by unfold g2sX; exact h57
  have h59 : (sxiR ((48.0563 : ℝ) * (Real.pi / 180)) (((-70.1242) : ℝ) * (Real.pi / 180))) ≠ 0 :=
    ne_of_gt (lt_of_lt_of_le (by norm_num : (0:ℝ) < ((3790855212877883026220375e-17 : ℚ) : ℝ)) h38.1)
  refine ⟨_, _, geod_to_scan_agree 48.0563 (-70.1242) h59, ?_, ?_⟩
  · exact IA.abs_lt_of_rat (IA.abs_sub_lt_of_memR h49 0.12390 0.00005
      (by norm_num) (by norm_num)) (by norm_num) (by norm_num)
  · exact IA.abs_lt_of_rat (IA.abs_sub_lt_of_memR h58 0.00950 0.00005
      (by norm_num) (by norm_num)) (by norm_num) (by norm_num)

set_option maxHeartbeats 4000000 in
/-- Second worked example of `geod_to_scan`: (33.943546, -84.52599) maps to (0.09557, -0.02361) radians to four decimal places. -/
theorem g2s_fixture_two :
    ∃ ry rx, geod_to_scan (F.fin 33.943546) (F.fin (-84.52599)) = .ok (F.fin ry, F.fin rx) ∧
      |ry - 0.09557| < 0.00005 ∧ |rx - (-0.02361)| < 0.00005 := by
  have h1 : (IA.IQ.mk 180 180).memR ((180 : ℝ)) :=
    IA.memR_of_bounds (by norm_num) (by norm_num)
  have h2 : (IA.IQ.mk 1745329251994329576922222e-26 1745329251994329576927778e-26).memR (Real.pi / 180) :=
    IA.div_mem IA.pi_mem20 h1 (by norm_num) (by norm_num) (by norm_num)
      (by norm_num) (by norm_num)
  have h3 : (IA.IQ.mk 33943546e-6 33943546e-6).memR ((33.943546 : ℝ)) :=
    IA.memR_of_bounds (by norm_num) (by norm_num)
  have h4 : (IA.IQ.mk (-8452599e-5) (-8452599e-5)).memR (((-84.52599) : ℝ)) :=
    IA.memR_of_bounds (by norm_num) (by norm_num)
  have h5 : (IA.IQ.mk 5924266375021511773341998e-25 5924266375021511773360858e-25).memR ((33.943546 : ℝ) * (Real.pi / 180)) :=
    IA.mul_mem h3 h2 (by norm_num) (by norm_num) (by norm_num) (by norm_num)
      (by norm_num) (by norm_num) (by norm_num) (by norm_num)
  have h6 : (IA.IQ.mk (-1475256829007801818761016e-24) (-1475256829007801818756319e-24)).memR (((-84.52599) : ℝ) * (Real.pi / 180)) :=
    IA.mul_mem h4 h2 (by norm_num) (by norm_num) (by norm_num) (by norm_num)
      (by norm_num) (by norm_num) (by norm_num) (by norm_num)
  have h7 : (IA.IQ.mk 9933056199769880028595027e-25 9933056199769880028595028e-25).memR (r_pol * r_pol / (r_eq * r_eq)) :=
    IA.memR_of_bounds (by norm_num [r_pol, r_eq]) (by norm_num [r_pol, r_eq])
  have h8 : (IA.IQ.mk 5583757746589132552039036e-25 5583757746673674075477882e-25).memR (Real.sin ((33.943546 : ℝ) * (Real.pi / 180))) :=
    IA.sin_mem 5924266375021511773360858e-25 h5 (by norm_num) (by norm_num) (by norm_num) (by norm_num)
      (by norm_num [IA.sinQ, IA.cosQ, IA.errW, IA.taylErr]) (by norm_num [IA.sinQ, IA.cosQ, IA.errW, IA.taylErr])
  have h9 : (IA.IQ.mk 8295881473693224856439283e-25 8295881473777766379878129e-25).memR (Real.cos ((33.943546 : ℝ) * (Real.pi / 180))) :=
    IA.cos_mem 5924266375021511773360858e-25 h5 (by norm_num) (by norm_num) (by norm_num) (by norm_num)
      (by norm_num [IA.sinQ, IA.cosQ, IA.errW, IA.taylErr]) (by norm_num [IA.sinQ, IA.cosQ, IA.errW, IA.taylErr])
  have h10 : (IA.IQ.mk 6730758828026516042882164e-25 673075882819701556654274e-24).memR (Real.tan ((33.943546 : ℝ) * (Real.pi / 180))) :=
    IA.tan_mem h8 h9 (by norm_num) (by norm_num) (by norm_num)
      (by norm_num) (by norm_num)
  have h11 : (IA.IQ.mk 6685700570588463691511091e-25 6685700570757821826566542e-25).memR ((r_pol * r_pol / (r_eq * r_eq)) * (Real.tan ((33.943546 : ℝ) * (Real.pi / 180)))) :=
    IA.mul_mem h7 h10 (by norm_num) (by norm_num) (by norm_num) (by norm_num)
      (by norm_num) (by norm_num) (by norm_num) (by norm_num)
  have h15p1 : (IA.IQ.mk 58931917799147448627e-20 58931917799147448627e-20).memR ((58931917799147448627e-20 : ℚ) : ℝ) :=
    IA.memR_const le_rfl le_rfl
  have h15p2 : (IA.IQ.mk 5557951713084044725533853e-25 5557951713163415758188328e-25).memR (Real.sin ((58931917799147448627e-20 : ℚ) : ℝ)) :=
    IA.sin_mem 58931917799147448627e-20 h15p1 (by norm_num) (by norm_num) (by norm_num) (by norm_num)
      (by norm_num [IA.sinQ, IA.cosQ, IA.errW, IA.taylErr]) (by norm_num [IA.sinQ, IA.cosQ, IA.errW, IA.taylErr])
  have h15p3 : (IA.IQ.mk 8313192693141355676505896e-25 8313192693220726709160372e-25).memR (Real.cos ((58931917799147448627e-20 : ℚ) : ℝ)) :=
    IA.cos_mem 58931917799147448627e-20 h15p1 (by norm_num) (by norm_num) (by norm_num) (by norm_num)
      (by norm_num [IA.sinQ, IA.cosQ, IA.errW, IA.taylErr]) (by norm_num [IA.sinQ, IA.cosQ, IA.errW, IA.taylErr])
  have h15p4 : (IA.IQ.mk 6685700570391522208157768e-25 6685700570550830591076402e-25).memR (Real.tan ((58931917799147448627e-20 : ℚ) : ℝ)) :=
    IA.tan_mem h15p2 h15p3 (by norm_num) (by norm_num) (by norm_num)
      (by norm_num) (by norm_num)
  have h15p5 : (IA.IQ.mk 58931917802317867945e-20 58931917802317867945e-20).memR ((58931917802317867945e-20 : ℚ) : ℝ) :=
    IA.memR_const le_rfl le_rfl
  have h15p6 : (IA.IQ.mk 5557951713347607792592615e-25 5557951713426978825298331e-25).memR (Real.sin ((58931917802317867945e-20 : ℚ) : ℝ)) :=
    IA.sin_mem 58931917802317867945e-20 h15p5 (by norm_num) (by norm_num) (by norm_num) (by norm_num)
      (by norm_num [IA.sinQ, IA.cosQ, IA.errW, IA.taylErr]) (by norm_num [IA.sinQ, IA.cosQ, IA.errW, IA.taylErr])
  have h15p7 : (IA.IQ.mk 8313192692965145301654462e-25 8313192693044516334360178e-25).memR (Real.cos ((58931917802317867945e-20 : ℚ) : ℝ)) :=
    IA.cos_mem 58931917802317867945e-20 h15p5 (by norm_num) (by norm_num) (by norm_num) (by norm_num)
      (by norm_num [IA.sinQ, IA.cosQ, IA.errW, IA.taylErr]) (by norm_num [IA.sinQ, IA.cosQ, IA.errW, IA.taylErr])
  have h15p8 : (IA.IQ.mk 6685700570850277419869515e-25 6685700571009585802898752e-25).memR (Real.tan ((58931917802317867945e-20 : ℚ) : ℝ)) :=
    IA.tan_mem h15p6 h15p7 (by norm_num) (by norm_num) (by norm_num)
      (by norm_num) (by norm_num)
  have h16 : (IA.IQ.mk 58931917799147448627e-20 58931917802317867945e-20).memR (Real.arctan ((r_pol * r_pol / (r_eq * r_eq)) * (Real.tan ((33.943546 : ℝ) * (Real.pi / 180))))) :=
    IA.arctan_mem 58931917799147448627e-20 58931917802317867945e-20 h11 h15p4 h15p8 (by norm_num)
      (by norm_num) (by norm_num) (by norm_num) (by norm_num) (by norm_num)
  have h17 : (IA.IQ.mk 58931917799147448627e-20 58931917802317867945e-20).memR (thetacR ((33.943546 : ℝ) * (Real.pi / 180))) :=
    by unfold thetacR; exact h16
  have h18 : (IA.IQ.mk 8313192692894729523168414e-25 8313192693291142487674129e-25).memR (Real.cos (thetacR ((33.943546 : ℝ) * (Real.pi / 180)))) :=
    IA.cos_mem 58931917802317867945e-20 h17 (by norm_num) (by norm_num) (by norm_num) (by norm_num)
      (by norm_num [IA.sinQ, IA.cosQ, IA.errW, IA.taylErr]) (by norm_num [IA.sinQ, IA.cosQ, IA.errW, IA.taylErr])
  have h19 : (IA.IQ.mk 5557951713057305293151122e-25 5557951713453718257656838e-25).memR (Real.sin (thetacR ((33.943546 : ℝ) * (Real.pi / 180)))) :=
    IA.sin_mem 58931917802317867945e-20 h17 (by norm_num) (by norm_num) (by norm_num) (by norm_num)
      (by norm_num [IA.sinQ, IA.cosQ, IA.errW, IA.taylErr]) (by norm_num [IA.sinQ, IA.cosQ, IA.errW, IA.taylErr])
  have h20 : (IA.IQ.mk 6910917274919832473144114e-25 6910917275578923945139359e-25).memR ((Real.cos (thetacR ((33.943546 : ℝ) * (Real.pi / 180)))) * (Real.cos (thetacR ((33.943546 : ℝ) * (Real.pi / 180))))) :=
    IA.mul_mem h18 h18 (by norm_num) (by norm_num) (by norm_num) (by norm_num)
      (by norm_num) (by norm_num) (by norm_num) (by norm_num)
  have h21 : (IA.IQ.mk 669438002301275061889225e-26 669438002301275061889225e-26).memR (e_ecc * e_ecc) :=
    IA.memR_of_bounds (by norm_num [e_ecc]) (by norm_num [e_ecc])
  have h22 : (IA.IQ.mk 4626430654591704390709101e-27 4626430655032925269055405e-27).memR ((e_ecc * e_ecc) * ((Real.cos (thetacR ((33.943546 : ℝ) * (Real.pi / 180)))) * (Real.cos (thetacR ((33.943546 : ℝ) * (Real.pi / 180)))))) :=
    IA.mul_mem h21 h20 (by norm_num) (by norm_num) (by norm_num) (by norm_num)
      (by norm_num) (by norm_num) (by norm_num) (by norm_num)
  have h23 : (IA.IQ.mk 1 1).memR ((1 : ℝ)) :=
    IA.memR_of_bounds (by norm_num) (by norm_num)
  have h24 : (IA.IQ.mk 9953735693449670747309445e-25 9953735693454082956092909e-25).memR (((1 : ℝ)) - ((e_ecc * e_ecc) * ((Real.cos (thetacR ((33.943546 : ℝ) * (Real.pi / 180)))) * (Real.cos (thetacR ((33.943546 : ℝ) * (Real.pi / 180))))))) :=
    IA.sub_mem h23 h22 (by norm_num) (by norm_num)
  have h25 : (IA.IQ.mk 9976841029829868321208757e-25 997684102983207954657071e-24).memR (Real.sqrt (((1 : ℝ)) - ((e_ecc * e_ecc) * ((Real.cos (thetacR ((33.943546 : ℝ) * (Real.pi / 180)))) * (Real.cos (thetacR ((33.943546 : ℝ) * (Real.pi / 180)))))))) :=
    IA.sqrt_mem h24 (by norm_num) (by norm_num) (by norm_num)
  have h26 : (IA.IQ.mk 635675231414e-5 635675231414e-5).memR (r_pol) :=
    IA.memR_of_bounds (by norm_num [r_pol]) (by norm_num [r_pol])
  have h27 : (IA.IQ.mk 637150807067333882579222e-17 6371508070674750980220425e-18).memR ((r_pol) / (Real.sqrt (((1 : ℝ)) - ((e_ecc * e_ecc) * ((Real.cos (thetacR ((33.943546 : ℝ) * (Real.pi / 180)))) * (Real.cos (thetacR ((33.943546 : ℝ) * (Real.pi / 180))))))))) :=
    IA.div_mem h26 h25 (by norm_num) (by norm_num) (by norm_num)
      (by norm_num) (by norm_num)
  have h28 : (IA.IQ.mk 637150807067333882579222e-17 6371508070674750980220425e-18).memR (rcR ((33.943546 : ℝ) * (Real.pi / 180))) :=
    by unfold rcR; exact h27
  have h29 : (IA.IQ.mk (-1308996939e-9) (-1308996939e-9)).memR (lambda_0) :=
    IA.memR_of_bounds (by norm_num [lambda_0]) (by norm_num [lambda_0])
  have h30 : (IA.IQ.mk (-166259890007801818761016e-24) (-166259890007801818756319e-24)).memR ((((-84.52599) : ℝ) * (Real.pi / 180)) - (lambda_0)) :=
    IA.sub_mem h6 h29 (by norm_num) (by norm_num)
  have h31 : (IA.IQ.mk 9862106326484363653936636e-25 9862106326484363674162856e-25).memR (Real.cos ((((-84.52599) : ℝ) * (Real.pi / 180)) - (lambda_0))) :=
    IA.cos_mem 166259890007801818761016e-24 h30 (by norm_num) (by norm_num) (by norm_num) (by norm_num)
      (by norm_num [IA.sinQ, IA.cosQ, IA.errW, IA.taylErr]) (by norm_num [IA.sinQ, IA.cosQ, IA.errW, IA.taylErr])
  have h32 : (IA.IQ.mk 52967574335841396223753e-16 5296757433837888413829507e-18).memR ((rcR ((33.943546 : ℝ) * (Real.pi / 180))) * (Real.cos (thetacR ((33.943546 : ℝ) * (Real.pi / 180))))) :=
    IA.mul_mem h28 h18 (by norm_num) (by norm_num) (by norm_num) (by norm_num)
      (by norm_num) (by norm_num) (by norm_num) (by norm_num)
  have h33 : (IA.IQ.mk 5223718499560322500764154e-18 5223718499810572267631323e-18).memR (((rcR ((33.943546 : ℝ) * (Real.pi / 180))) * (Real.cos (thetacR ((33.943546 : ℝ) * (Real.pi / 180))))) * (Real.cos ((((-84.52599) : ℝ) * (Real.pi / 180)) - (lambda_0)))) :=
    IA.mul_mem h32 h31 (by norm_num) (by norm_num) (by norm_num) (by norm_num)
      (by norm_num) (by norm_num) (by norm_num) (by norm_num)
  have h34 : (IA.IQ.mk 42164160 42164160).memR (Hgeo) :=
    IA.memR_of_bounds (by norm_num [Hgeo]) (by norm_num [Hgeo])
  have h35 : (IA.IQ.mk 3694044150018942773236867e-17 3694044150043967749923585e-17).memR ((Hgeo) - (((rcR ((33.943546 : ℝ) * (Real.pi / 180))) * (Real.cos (thetacR ((33.943546 : ℝ) * (Real.pi / 180))))) * (Real.cos ((((-84.52599) : ℝ) * (Real.pi / 180)) - (lambda_0))))) :=
    IA.sub_mem h34 h33 (by norm_num) (by norm_num)
  have h36 : (IA.IQ.mk 3694044150018942773236867e-17 3694044150043967749923585e-17).memR (sxiR ((33.943546 : ℝ) * (Real.pi / 180)) (((-84.52599) : ℝ) * (Real.pi / 180))) :=
    by unfold sxiR; exact h35
  have h37 : (IA.IQ.mk (-1654949789303920139494812e-25) (-1654949789303920119268591e-25)).memR (Real.sin ((((-84.52599) : ℝ) * (Real.pi / 180)) - (lambda_0))) :=
    IA.sin_mem 166259890007801818761016e-24 h30 (by norm_num) (by norm_num) (by norm_num) (by norm_num)
      (by norm_num [IA.sinQ, IA.cosQ, IA.errW, IA.taylErr]) (by norm_num [IA.sinQ, IA.cosQ, IA.errW, IA.taylErr])
  have h38 : (IA.IQ.mk (-6371508070674750980220425e-18) (-637150807067333882579222e-17)).memR (-(rcR ((33.943546 : ℝ) * (Real.pi / 180)))) :=
    IA.neg_mem h28 (by norm_num) (by norm_num)
  have h39 : (IA.IQ.mk (-5296757433837888413829507e-18) (-52967574335841396223753e-16)).memR ((-(rcR ((33.943546 : ℝ) * (Real.pi / 180)))) * (Real.cos (thetacR ((33.943546 : ℝ) * (Real.pi / 180))))) :=
    IA.mul_mem h38 h18 (by norm_num) (by norm_num) (by norm_num) (by norm_num)
      (by norm_num) (by norm_num) (by norm_num) (by norm_num)
  have h40 : (IA.IQ.mk 876586759870404453274823e-18 8765867599123986148834881e-19).memR (((-(rcR ((33.943546 : ℝ) * (Real.pi / 180)))) * (Real.cos (thetacR ((33.943546 : ℝ) * (Real.pi / 180))))) * (Real.sin ((((-84.52599) : ℝ) * (Real.pi / 180)) - (lambda_0)))) :=
    IA.mul_mem h39 h37 (by norm_num) (by norm_num) (by norm_num) (by norm_num)
      (by norm_num) (by norm_num) (by norm_num) (by norm_num)
  have h41 : (IA.IQ.mk 876586759870404453274823e-18 8765867599123986148834881e-19).memR (syiR ((33.943546 : ℝ) * (Real.pi / 180)) (((-84.52599) : ℝ) * (Real.pi / 180))) :=
    by unfold syiR; exact h40
  have h42 : (IA.IQ.mk 3541253419615732972804595e-18 3541253419869092681683757e-18).memR ((rcR ((33.943546 : ℝ) * (Real.pi / 180))) * (Real.sin (thetacR ((33.943546 : ℝ) * (Real.pi / 180))))) :=
    IA.mul_mem h28 h19 (by norm_num) (by norm_num) (by norm_num) (by norm_num)
      (by norm_num) (by norm_num) (by norm_num) (by norm_num)
  have h43 : (IA.IQ.mk 3541253419615732972804595e-18 3541253419869092681683757e-18).memR (sziR ((33.943546 : ℝ) * (Real.pi / 180))) :=
    by unfold sziR; exact h42
  have h44 : (IA.IQ.mk 9586386290411780241705622e-26 9586386291162582362520781e-26).memR ((sziR ((33.943546 : ℝ) * (Real.pi / 180))) / (sxiR ((33.943546 : ℝ) * (Real.pi / 180)) (((-84.52599) : ℝ) * (Real.pi / 180)))) :=
    IA.div_mem h43 h36 (by norm_num) (by norm_num) (by norm_num)
      (by norm_num) (by norm_num)
  have h45p1 : (IA.IQ.mk 95571812427163302717e-21 95571812427163302717e-21).memR ((95571812427163302717e-21 : ℚ) : ℝ) :=
    IA.memR_const le_rfl le_rfl
  have h45p2 : (IA.IQ.mk 9542638715944448423509773e-26 9542638715944448423772446e-26).memR (Real.sin ((95571812427163302717e-21 : ℚ) : ℝ)) :=
    IA.sin_mem 95571812427163302717e-21 h45p1 (by norm_num) (by norm_num) (by norm_num) (by norm_num)
      (by norm_num [IA.sinQ, IA.cosQ, IA.errW, IA.taylErr]) (by norm_num [IA.sinQ, IA.cosQ, IA.errW, IA.taylErr])
  have h45p3 : (IA.IQ.mk 9954364895028189636723284e-25 9954364895028189636749552e-25).memR (Real.cos ((95571812427163302717e-21 : ℚ) : ℝ)) :=
    IA.cos_mem 95571812427163302717e-21 h45p1 (by norm_num) (by norm_num) (by norm_num) (by norm_num)
      (by norm_num [IA.sinQ, IA.cosQ, IA.errW, IA.taylErr]) (by norm_num [IA.sinQ, IA.cosQ, IA.errW, IA.taylErr])
  have h45p4 : (IA.IQ.mk 9586386290410770348581858e-26 9586386290410770348871033e-26).memR (Real.tan ((95571812427163302717e-21 : ℚ) : ℝ)) :=
    IA.tan_mem h45p2 h45p3 (by norm_num) (by norm_num) (by norm_num)
      (by norm_num) (by norm_num)
  have h45p5 : (IA.IQ.mk 95571812434622962717e-21 95571812434622962717e-21).memR ((95571812434622962717e-21 : ℚ) : ℝ) :=
    IA.memR_const le_rfl le_rfl
  have h45p6 : (IA.IQ.mk 9542638716687010199837967e-26 954263871668701020010064e-25).memR (Real.sin ((95571812434622962717e-21 : ℚ) : ℝ)) :=
    IA.sin_mem 95571812434622962717e-21 h45p5 (by norm_num) (by norm_num) (by norm_num) (by norm_num)
      (by norm_num [IA.sinQ, IA.cosQ, IA.errW, IA.taylErr]) (by norm_num [IA.sinQ, IA.cosQ, IA.errW, IA.taylErr])
  have h45p7 : (IA.IQ.mk 9954364895021071152690629e-25 9954364895021071152716897e-25).memR (Real.cos ((95571812434622962717e-21 : ℚ) : ℝ)) :=
    IA.cos_mem 95571812434622962717e-21 h45p5 (by norm_num) (by norm_num) (by norm_num) (by norm_num)
      (by norm_num [IA.sinQ, IA.cosQ, IA.errW, IA.taylErr]) (by norm_num [IA.sinQ, IA.cosQ, IA.errW, IA.taylErr])
  have h45p8 : (IA.IQ.mk 9586386291163591686763798e-26 9586386291163591687052973e-26).memR (Real.tan ((95571812434622962717e-21 : ℚ) : ℝ)) :=
    IA.tan_mem h45p6 h45p7 (by norm_num) (by norm_num) (by norm_num)
      (by norm_num) (by norm_num)
  have h46 : (IA.IQ.mk 95571812427163302717e-21 95571812434622962717e-21).memR (Real.arctan ((sziR ((33.943546 : ℝ) * (Real.pi / 180))) / (sxiR ((33.943546 : ℝ) * (Real.pi / 180)) (((-84.52599) : ℝ) * (Real.pi / 180))))) :=
    IA.arctan_mem 95571812427163302717e-21 95571812434622962717e-21 h44 h45p4 h45p8 (by norm_num)
      (by norm_num) (by norm_num) (by norm_num) (by norm_num) (by norm_num)
  have h47 : (IA.IQ.mk 95571812427163302717e-21 95571812434622962717e-21).memR (g2sY ((33.943546 : ℝ) * (Real.pi / 180)) (((-84.52599) : ℝ) * (Real.pi / 180))) :=
    by unfold g2sY; exact h46
  have h48 : (IA.IQ.mk (-8765867599123986148834881e-19) (-876586759870404453274823e-18)).memR (-(syiR ((33.943546 : ℝ) * (Real.pi / 180)) (((-84.52599) : ℝ) * (Real.pi / 180)))) :=
    IA.neg_mem h41 (by norm_num) (by norm_num)
  have h49 : (IA.IQ.mk 136459621822891733813212e-8 136459621824740601187897e-8).memR ((sxiR ((33.943546 : ℝ) * (Real.pi / 180)) (((-84.52599) : ℝ) * (Real.pi / 180))) * (sxiR ((33.943546 : ℝ) * (Real.pi / 180)) (((-84.52599) : ℝ) * (Real.pi / 180)))) :=
    IA.mul_mem h36 h36 (by norm_num) (by norm_num) (by norm_num) (by norm_num)
      (by norm_num) (by norm_num) (by norm_num) (by norm_num)
  have h50 : (IA.IQ.mk 7684043475800941191882919e-13 7684043476537171713060833e-13).memR ((syiR ((33.943546 : ℝ) * (Real.pi / 180)) (((-84.52599) : ℝ) * (Real.pi / 180))) * (syiR ((33.943546 : ℝ) * (Real.pi / 180)) (((-84.52599) : ℝ) * (Real.pi / 180)))) :=
    IA.mul_mem h41 h41 (by norm_num) (by norm_num) (by norm_num) (by norm_num)
      (by norm_num) (by norm_num) (by norm_num) (by norm_num)
  have h51 : (IA.IQ.mk 1254047578194012255164973e-11 1254047578373454442263629e-11).memR ((sziR ((33.943546 : ℝ) * (Real.pi / 180))) * (sziR ((33.943546 : ℝ) * (Real.pi / 180)))) :=
    IA.mul_mem h43 h43 (by norm_num) (by norm_num) (by norm_num) (by norm_num)
      (by norm_num) (by norm_num) (by norm_num) (by norm_num)
  have h52 : (IA.IQ.mk 1365364622576497432251308e-9 1365364622595059729050277e-9).memR (((sxiR ((33.943546 : ℝ) * (Real.pi / 180)) (((-84.52599) : ℝ) * (Real.pi / 180))) * (sxiR ((33.943546 : ℝ) * (Real.pi / 180)) (((-84.52599) : ℝ) * (Real.pi / 180)))) + ((syiR ((33.943546 : ℝ) * (Real.pi / 180)) (((-84.52599) : ℝ) * (Real.pi / 180))) * (syiR ((33.943546 : ℝ) * (Real.pi / 180)) (((-84.52599) : ℝ) * (Real.pi / 180))))) :=
    IA.add_mem h49 h50 (by norm_num) (by norm_num)
  have h53 : (IA.IQ.mk 1377905098358437554802957e-9 1377905098378794273472914e-9).memR ((((sxiR ((33.943546 : ℝ) * (Real.pi / 180)) (((-84.52599) : ℝ) * (Real.pi / 180))) * (sxiR ((33.943546 : ℝ) * (Real.pi / 180)) (((-84.52599) : ℝ) * (Real.pi / 180)))) + ((syiR ((33.943546 : ℝ) * (Real.pi / 180)) (((-84.52599) : ℝ) * (Real.pi / 180))) * (syiR ((33.943546 : ℝ) * (Real.pi / 180)) (((-84.52599) : ℝ) * (Real.pi / 180))))) + ((sziR ((33.943546 : ℝ) * (Real.pi / 180))) * (sziR ((33.943546 : ℝ) * (Real.pi / 180))))) :=
    IA.add_mem h52 h51 (by norm_num) (by norm_num)
  have h54 : (IA.IQ.mk 3712014410476389240067985e-17 3712014410503809282690166e-17).memR (Real.sqrt ((((sxiR ((33.943546 : ℝ) * (Real.pi / 180)) (((-84.52599) : ℝ) * (Real.pi / 180))) * (sxiR ((33.943546 : ℝ) * (Real.pi / 180)) (((-84.52599) : ℝ) * (Real.pi / 180)))) + ((syiR ((33.943546 : ℝ) * (Real.pi / 180)) (((-84.52599) : ℝ) * (Real.pi / 180))) * (syiR ((33.943546 : ℝ) * (Real.pi / 180)) (((-84.52599) : ℝ) * (Real.pi / 180))))) + ((sziR ((33.943546 : ℝ) * (Real.pi / 180))) * (sziR ((33.943546 : ℝ) * (Real.pi / 180)))))) :=
    IA.sqrt_mem h53 (by norm_num) (by norm_num) (by norm_num)
  have h55 : (IA.IQ.mk (-2361485336475027300327709e-26) (-2361485336344453010720178e-26)).memR ((-(syiR ((33.943546 : ℝ) * (Real.pi / 180)) (((-84.52599) : ℝ) * (Real.pi / 180)))) / (Real.sqrt ((((sxiR ((33.943546 : ℝ) * (Real.pi / 180)) (((-84.52599) : ℝ) * (Real.pi / 180))) * (sxiR ((33.943546 : ℝ) * (Real.pi / 180)) (((-84.52599) : ℝ) * (Real.pi / 180)))) + ((syiR ((33.943546 : ℝ) * (Real.pi / 180)) (((-84.52599) : ℝ) * (Real.pi / 180))) * (syiR ((33.943546 : ℝ) * (Real.pi / 180)) (((-84.52599) : ℝ) * (Real.pi / 180))))) + ((sziR ((33.943546 : ℝ) * (Real.pi / 180))) * (sziR ((33.943546 : ℝ) * (Real.pi / 180))))))) :=
    IA.div_mem h48 h54 (by norm_num) (by norm_num) (by norm_num)
      (by norm_num) (by norm_num)
  have h56 : (IA.IQ.mk (-2361485336475027300327709e-26) (-2361485336344453010720178e-26)).memR (g2sX ((33.943546 : ℝ) * (Real.pi / 180)) (((-84.52599) : ℝ) * (Real.pi / 180))) :=
    by unfold g2sX; exact h55
  have h57 : (sxiR ((33.943546 : ℝ) * (Real.pi / 180)) (((-84.52599) : ℝ) * (Real.pi / 180))) ≠ 0 :=
    ne_of_gt (lt_of_lt_of_le (by norm_num : (0:ℝ) < ((3694044150018942773236867e-17 : ℚ) : ℝ)) h36.1)
  refine ⟨_, _, geod_to_scan_agree 33.943546 (-84.52599) h57, ?_, ?_⟩
  · exact IA.abs_lt_of_rat (IA.abs_sub_lt_of_memR h47 0.09557 0.00005
      (by norm_num) (by norm_num)) (by norm_num) (by norm_num)
  · exact IA.abs_lt_of_rat (IA.abs_sub_lt_of_memR h56 (-0.02361) 0.00005
      (by norm_num) (by norm_num)) (by norm_num) (by norm_num)

set_option maxHeartbeats 4000000 in
/-- Northwest corner fixture of `scan_to_geod`: scan angles (0.11088, -0.0728) map to (42.324, -111.599) degrees to three decimal places. -/
theorem s2g_corner_nw :
    ∃ la lo, scan_to_geod (F.fin 0.11088) (F.fin (-0.0728)) = .ok (F.fin la, F.fin lo) ∧
      |la - 42.324| < 0.0005 ∧ |lo - (-111.599)| < 0.0005 := by
  have h1 : (IA.IQ.mk 11088e-5 11088e-5).memR ((0.11088 : ℝ)) :=
    IA.memR_of_bounds (by norm_num) (by norm_num)
  have h2 : (IA.IQ.mk (-728e-4) (-728e-4)).memR (((-0.0728) : ℝ)) :=
    IA.memR_of_bounds (by norm_num) (by norm_num)
  have h3 : (IA.IQ.mk (-7273571231275434966322848e-26) (-7273571231275434966312823e-26)).memR (Real.sin (((-0.0728) : ℝ))) :=
    IA.sin_mem 728e-4 h2 (by norm_num) (by norm_num) (by norm_num) (by norm_num)
      (by norm_num [IA.sinQ, IA.cosQ, IA.errW, IA.taylErr]) (by norm_num [IA.sinQ, IA.cosQ, IA.errW, IA.taylErr])
  have h4 : (IA.IQ.mk 997351250139265747786901e-24 9973512501392657477870013e-25).memR (Real.cos (((-0.0728) : ℝ))) :=
    IA.cos_mem 728e-4 h2 (by norm_num) (by norm_num) (by norm_num) (by norm_num)
      (by norm_num [IA.sinQ, IA.cosQ, IA.errW, IA.taylErr]) (by norm_num [IA.sinQ, IA.cosQ, IA.errW, IA.taylErr])
  have h5 : (IA.IQ.mk 1106529395843291568353661e-25 1106529395843291568509867e-25).memR (Real.sin ((0.11088 : ℝ))) :=
    IA.sin_mem 11088e-5 h1 (by norm_num) (by norm_num) (by norm_num) (by norm_num)
      (by norm_num [IA.sinQ, IA.cosQ, IA.errW, IA.taylErr]) (by norm_num [IA.sinQ, IA.cosQ, IA.errW, IA.taylErr])
  have h6 : (IA.IQ.mk 9938591082046523165186058e-25 9938591082046523165342263e-25).memR (Real.cos ((0.11088 : ℝ))) :=
    IA.cos_mem 11088e-5 h1 (by norm_num) (by norm_num) (by norm_num) (by norm_num)
      (by norm_num [IA.sinQ, IA.cosQ, IA.errW, IA.taylErr]) (by norm_num [IA.sinQ, IA.cosQ, IA.errW, IA.taylErr])
  have h7 : (IA.IQ.mk 5290483845643764705504467e-27 5290483845643764705519051e-27).memR ((Real.sin (((-0.0728) : ℝ))) * (Real.sin (((-0.0728) : ℝ)))) :=
    IA.mul_mem h3 h3 (by norm_num) (by norm_num) (by norm_num) (by norm_num)
      (by norm_num) (by norm_num) (by norm_num) (by norm_num)
  have h8 : (IA.IQ.mk 9947095161543562352942958e-25 994709516154356235294496e-24).memR ((Real.cos (((-0.0728) : ℝ))) * (Real.cos (((-0.0728) : ℝ)))) :=
    IA.mul_mem h4 h4 (by norm_num) (by norm_num) (by norm_num) (by norm_num)
      (by norm_num) (by norm_num) (by norm_num) (by norm_num)
  have h9 : (IA.IQ.mk 9999999999999999999998002e-25 1000000000000000000000016e-24).memR (((Real.sin (((-0.0728) : ℝ))) * (Real.sin (((-0.0728) : ℝ)))) + ((Real.cos (((-0.0728) : ℝ))) * (Real.cos (((-0.0728) : ℝ))))) :=
    IA.add_mem h7 h8 (by norm_num) (by norm_num)
  have h10 : (IA.IQ.mk 987755926961346801532513e-24 9877559269613468015635622e-25).memR ((Real.cos ((0.11088 : ℝ))) * (Real.cos ((0.11088 : ℝ)))) :=
    IA.mul_mem h6 h6 (by norm_num) (by norm_num) (by norm_num) (by norm_num)
      (by norm_num) (by norm_num) (by norm_num) (by norm_num)
  have h11 : (IA.IQ.mk 1224407303865319843589095e-26 122440730386531984393479e-25).memR ((Real.sin ((0.11088 : ℝ))) * (Real.sin ((0.11088 : ℝ)))) :=
    IA.mul_mem h5 h5 (by norm_num) (by norm_num) (by norm_num) (by norm_num)
      (by norm_num) (by norm_num) (by norm_num) (by norm_num)
  have h12 : (IA.IQ.mk 1006739496775591671796869e-24 100673949677559167179687e-23).memR (r_eq * r_eq / (r_pol * r_pol)) :=
    IA.memR_of_bounds (by norm_num [r_eq, r_pol]) (by norm_num [r_eq, r_pol])
  have h13 : (IA.IQ.mk 1232659192941731058978884e-26 1232659192941731059326911e-26).memR ((r_eq * r_eq / (r_pol * r_pol)) * ((Real.sin ((0.11088 : ℝ))) * (Real.sin ((0.11088 : ℝ))))) :=
    IA.mul_mem h12 h11 (by norm_num) (by norm_num) (by norm_num) (by norm_num)
      (by norm_num) (by norm_num) (by norm_num) (by norm_num)
  have h14 : (IA.IQ.mk 1000082518890764112122301e-24 1000082518890764112156832e-24).memR (((Real.cos ((0.11088 : ℝ))) * (Real.cos ((0.11088 : ℝ)))) + ((r_eq * r_eq / (r_pol * r_pol)) * ((Real.sin ((0.11088 : ℝ))) * (Real.sin ((0.11088 : ℝ)))))) :=
    IA.add_mem h10 h13 (by norm_num) (by norm_num)
  have h15 : (IA.IQ.mk 1000082518890764112122101e-24 1000082518890764112156849e-24).memR ((((Real.sin (((-0.0728) : ℝ))) * (Real.sin (((-0.0728) : ℝ)))) + ((Real.cos (((-0.0728) : ℝ))) * (Real.cos (((-0.0728) : ℝ))))) * (((Real.cos ((0.11088 : ℝ))) * (Real.cos ((0.11088 : ℝ)))) + ((r_eq * r_eq / (r_pol * r_pol)) * ((Real.sin ((0.11088 : ℝ))) * (Real.sin ((0.11088 : ℝ))))))) :=
    IA.mul_mem h9 h14 (by norm_num) (by norm_num) (by norm_num) (by norm_num)
      (by norm_num) (by norm_num) (by norm_num) (by norm_num)
  have h16 : (IA.IQ.mk 1000082518890764112122101e-24 1000082518890764112156849e-24).memR (aR ((0.11088 : ℝ)) (((-0.0728) : ℝ))) :=
    by unfold aR; exact h15
  have h17 : (IA.IQ.mk (-84328320) (-84328320)).memR (-2 * Hgeo) :=
    IA.memR_of_bounds (by norm_num [Hgeo]) (by norm_num [Hgeo])
  have h18 : (IA.IQ.mk (-8410495537414404654442154e-17) (-8410495537414404654441307e-17)).memR ((-2 * Hgeo) * (Real.cos (((-0.0728) : ℝ)))) :=
    IA.mul_mem h17 h4 (by norm_num) (by norm_num) (by norm_num) (by norm_num)
      (by norm_num) (by norm_num) (by norm_num) (by norm_num)
  have h19 : (IA.IQ.mk (-8358847594373888231147558e-17) (-8358847594373888231015339e-17)).memR (((-2 * Hgeo) * (Real.cos (((-0.0728) : ℝ)))) * (Real.cos ((0.11088 : ℝ)))) :=
    IA.mul_mem h18 h6 (by norm_num) (by norm_num) (by norm_num) (by norm_num)
      (by norm_num) (by norm_num) (by norm_num) (by norm_num)
  have h20 : (IA.IQ.mk (-8358847594373888231147558e-17) (-8358847594373888231015339e-17)).memR (bR ((0.11088 : ℝ)) (((-0.0728) : ℝ))) :=
    by unfold bR; exact h19
  have h21 : (IA.IQ.mk 1737135756914831 1737135756914831).memR (cR) :=
    IA.memR_of_bounds (by norm_num [cR, Hgeo, r_eq]) (by norm_num [cR, Hgeo, r_eq])
  have h22 : (IA.IQ.mk 6987033310597013831663475e-9 6987033310597013831884516e-9).memR ((bR ((0.11088 : ℝ)) (((-0.0728) : ℝ))) * (bR ((0.11088 : ℝ)) (((-0.0728) : ℝ)))) :=
    IA.mul_mem h20 h20 (by norm_num) (by norm_num) (by norm_num) (by norm_num)
      (by norm_num) (by norm_num) (by norm_num) (by norm_num)
  have h23 : (IA.IQ.mk 4 4).memR ((4 : ℝ)) :=
    IA.memR_of_bounds (by norm_num) (by norm_num)
  have h24 : (IA.IQ.mk 4000330075563056448488404e-24 4000330075563056448627396e-24).memR (((4 : ℝ)) * (aR ((0.11088 : ℝ)) (((-0.0728) : ℝ)))) :=
    IA.mul_mem h23 h16 (by norm_num) (by norm_num) (by norm_num) (by norm_num)
      (by norm_num) (by norm_num) (by norm_num) (by norm_num)
  have h25 : (IA.IQ.mk 6949116413722393152673005e-9 6949116413722393152914454e-9).memR ((((4 : ℝ)) * (aR ((0.11088 : ℝ)) (((-0.0728) : ℝ)))) * (cR)) :=
    IA.mul_mem h24 h21 (by norm_num) (by norm_num) (by norm_num) (by norm_num)
      (by norm_num) (by norm_num) (by norm_num) (by norm_num)
  have h26 : (IA.IQ.mk 37916896874620678749021e-9 37916896874620679211511e-9).memR (((bR ((0.11088 : ℝ)) (((-0.0728) : ℝ))) * (bR ((0.11088 : ℝ)) (((-0.0728) : ℝ)))) - ((((4 : ℝ)) * (aR ((0.11088 : ℝ)) (((-0.0728) : ℝ)))) * (cR))) :=
    IA.sub_mem h22 h25 (by norm_num) (by norm_num)
  have h27 : (IA.IQ.mk 37916896874620678749021e-9 37916896874620679211511e-9).memR (discR ((0.11088 : ℝ)) (((-0.0728) : ℝ))) :=
    by unfold discR; exact h26
  have h28 : (IA.IQ.mk 8358847594373888231015339e-17 8358847594373888231147558e-17).memR (-bR ((0.11088 : ℝ)) (((-0.0728) : ℝ))) :=
    IA.neg_mem h20 (by norm_num) (by norm_num)
  have h29 : (IA.IQ.mk 6157669760113859723211921e-18 6157669760113859760765901e-18).memR (Real.sqrt (discR ((0.11088 : ℝ)) (((-0.0728) : ℝ)))) :=
    IA.sqrt_mem h27 (by norm_num) (by norm_num) (by norm_num)
  have h30 : (IA.IQ.mk 7743080618362502254938748e-17 7743080618362502258826366e-17).memR ((-bR ((0.11088 : ℝ)) (((-0.0728) : ℝ))) - (Real.sqrt (discR ((0.11088 : ℝ)) (((-0.0728) : ℝ))))) :=
    IA.sub_mem h28 h29 (by norm_num) (by norm_num)
  have h31 : (IA.IQ.mk 2 2).memR ((2 : ℝ)) :=
    IA.memR_of_bounds (by norm_num) (by norm_num)
  have h32 : (IA.IQ.mk 2000165037781528224244202e-24 2000165037781528224313698e-24).memR (((2 : ℝ)) * (aR ((0.11088 : ℝ)) (((-0.0728) : ℝ)))) :=
    IA.mul_mem h31 h16 (by norm_num) (by norm_num) (by norm_num) (by norm_num)
      (by norm_num) (by norm_num) (by norm_num) (by norm_num)
  have h33 : (IA.IQ.mk 3871220860329953807726183e-17 3871220860329953809804339e-17).memR (((-bR ((0.11088 : ℝ)) (((-0.0728) : ℝ))) - (Real.sqrt (discR ((0.11088 : ℝ)) (((-0.0728) : ℝ))))) / (((2 : ℝ)) * (aR ((0.11088 : ℝ)) (((-0.0728) : ℝ))))) :=
    IA.div_mem h30 h32 (by norm_num) (by norm_num) (by norm_num)
      (by norm_num) (by norm_num)
  have h34 : (IA.IQ.mk 3871220860329953807726183e-17 3871220860329953809804339e-17).memR (rsR ((0.11088 : ℝ)) (((-0.0728) : ℝ))) :=
    by unfold rsR; exact h33
  have h35 : (IA.IQ.mk 3860966964615283310540069e-17 386096696461528331261311e-16).memR ((rsR ((0.11088 : ℝ)) (((-0.0728) : ℝ))) * (Real.cos (((-0.0728) : ℝ)))) :=
    IA.mul_mem h34 h4 (by norm_num) (by norm_num) (by norm_num) (by norm_num)
      (by norm_num) (by norm_num) (by norm_num) (by norm_num)
  have h36 : (IA.IQ.mk 3837257184260168867490967e-17 3837257184260168869611589e-17).memR (((rsR ((0.11088 : ℝ)) (((-0.0728) : ℝ))) * (Real.cos (((-0.0728) : ℝ)))) * (Real.cos ((0.11088 : ℝ)))) :=
    IA.mul_mem h35 h6 (by norm_num) (by norm_num) (by norm_num) (by norm_num)
      (by norm_num) (by norm_num) (by norm_num) (by norm_num)
  have h37 : (IA.IQ.mk 3837257184260168867490967e-17 3837257184260168869611589e-17).memR (sxR ((0.11088 : ℝ)) (((-0.0728) : ℝ))) :=
    by unfold sxR; exact h36
  have h38 : (IA.IQ.mk (-3871220860329953809804339e-17) (-3871220860329953807726183e-17)).memR (-rsR ((0.11088 : ℝ)) (((-0.0728) : ℝ))) :=
    IA.neg_mem h34 (by norm_num) (by norm_num)
  have h39 : (IA.IQ.mk 2815760067960929077069054e-18 2815760067960929078584498e-18).memR ((-rsR ((0.11088 : ℝ)) (((-0.0728) : ℝ))) * (Real.sin (((-0.0728) : ℝ)))) :=
    IA.mul_mem h38 h3 (by norm_num) (by norm_num) (by norm_num) (by norm_num)
      (by norm_num) (by norm_num) (by norm_num) (by norm_num)
  have h40 : (IA.IQ.mk 2815760067960929077069054e-18 2815760067960929078584498e-18).memR (syR ((0.11088 : ℝ)) (((-0.0728) : ℝ))) :=
    by unfold syR; exact h39
  have h41 : (IA.IQ.mk 4272273442726656736317595e-18 4272273442726656739214583e-18).memR (((rsR ((0.11088 : ℝ)) (((-0.0728) : ℝ))) * (Real.cos (((-0.0728) : ℝ)))) * (Real.sin ((0.11088 : ℝ)))) :=
    IA.mul_mem h35 h5 (by norm_num) (by norm_num) (by norm_num) (by norm_num)
      (by norm_num) (by norm_num) (by norm_num) (by norm_num)
  have h42 : (IA.IQ.mk 4272273442726656736317595e-18 4272273442726656739214583e-18).memR (szR ((0.11088 : ℝ)) (((-0.0728) : ℝ))) :=
    by unfold szR; exact h41
  have h43 : (IA.IQ.mk 42164160 42164160).memR (Hgeo) :=
    IA.memR_of_bounds (by norm_num [Hgeo]) (by norm_num [Hgeo])
  have h44 : (IA.IQ.mk 379158815739831130388411e-17 379158815739831132509033e-17).memR ((Hgeo) - (sxR ((0.11088 : ℝ)) (((-0.0728) : ℝ)))) :=
    IA.sub_mem h43 h37 (by norm_num) (by norm_num)
  have h45 : (IA.IQ.mk 1437614075532312149437109e-11 143761407553231216551816e-10).memR (((Hgeo) - (sxR ((0.11088 : ℝ)) (((-0.0728) : ℝ)))) * ((Hgeo) - (sxR ((0.11088 : ℝ)) (((-0.0728) : ℝ))))) :=
    IA.mul_mem h44 h44 (by norm_num) (by norm_num) (by norm_num) (by norm_num)
      (by norm_num) (by norm_num) (by norm_num) (by norm_num)
  have h46 : (IA.IQ.mk 79285047603233359347838e-10 7928504760323335943318054e-12).memR ((syR ((0.11088 : ℝ)) (((-0.0728) : ℝ))) * (syR ((0.11088 : ℝ)) (((-0.0728) : ℝ)))) :=
    IA.mul_mem h40 h40 (by norm_num) (by norm_num) (by norm_num) (by norm_num)
      (by norm_num) (by norm_num) (by norm_num) (by norm_num)
  have h47 : (IA.IQ.mk 2230464551564645742915489e-11 2230464551564645759849966e-11).memR ((((Hgeo) - (sxR ((0.11088 : ℝ)) (((-0.0728) : ℝ)))) * ((Hgeo) - (sxR ((0.11088 : ℝ)) (((-0.0728) : ℝ))))) + ((syR ((0.11088 : ℝ)) (((-0.0728) : ℝ))) * (syR ((0.11088 : ℝ)) (((-0.0728) : ℝ))))) :=
    IA.add_mem h45 h46 (by norm_num) (by norm_num)
  have h48 : (IA.IQ.mk 4722779426952571265843349e-18 4722779426952571283771858e-18).memR (Real.sqrt ((((Hgeo) - (sxR ((0.11088 : ℝ)) (((-0.0728) : ℝ)))) * ((Hgeo) - (sxR ((0.11088 : ℝ)) (((-0.0728) : ℝ))))) + ((syR ((0.11088 : ℝ)) (((-0.0728) : ℝ))) * (syR ((0.11088 : ℝ)) (((-0.0728) : ℝ)))))) :=
    IA.sqrt_mem h47 (by norm_num) (by norm_num) (by norm_num)
  have h49 : (IA.IQ.mk 9046099884201856939179723e-25 9046099884201856979654399e-25).memR ((szR ((0.11088 : ℝ)) (((-0.0728) : ℝ))) / (Real.sqrt ((((Hgeo) - (sxR ((0.11088 : ℝ)) (((-0.0728) : ℝ)))) * ((Hgeo) - (sxR ((0.11088 : ℝ)) (((-0.0728) : ℝ))))) + ((syR ((0.11088 : ℝ)) (((-0.0728) : ℝ))) * (syR ((0.11088 : ℝ)) (((-0.0728) : ℝ))))))) :=
    IA.div_mem h42 h48 (by norm_num) (by norm_num) (by norm_num)
      (by norm_num) (by norm_num)
  have h50 : (IA.IQ.mk 9107066045203115549643478e-25 9107066045203115590390943e-25).memR ((r_eq * r_eq / (r_pol * r_pol)) * ((szR ((0.11088 : ℝ)) (((-0.0728) : ℝ))) / (Real.sqrt ((((Hgeo) - (sxR ((0.11088 : ℝ)) (((-0.0728) : ℝ)))) * ((Hgeo) - (sxR ((0.11088 : ℝ)) (((-0.0728) : ℝ))))) + ((syR ((0.11088 : ℝ)) (((-0.0728) : ℝ))) * (syR ((0.11088 : ℝ)) (((-0.0728) : ℝ)))))))) :=
    IA.mul_mem h12 h49 (by norm_num) (by norm_num) (by norm_num) (by norm_num)
      (by norm_num) (by norm_num) (by norm_num) (by norm_num)
  have h56p1 : (IA.IQ.mk 73869895958883754985e-20 73869895958883754985e-20).memR ((73869895958883754985e-20 : ℚ) : ℝ) :=
    IA.memR_const le_rfl le_rfl
  have h56p2 : (IA.IQ.mk 6733265637135177937202766e-25 6733265638329344718336318e-25).memR (Real.sin ((73869895958883754985e-20 : ℚ) : ℝ)) :=
    IA.sin_mem 73869895958883754985e-20 h56p1 (by norm_num) (by norm_num) (by norm_num) (by norm_num)
      (by norm_num [IA.sinQ, IA.cosQ, IA.errW, IA.taylErr]) (by norm_num [IA.sinQ, IA.cosQ, IA.errW, IA.taylErr])
  have h56p3 : (IA.IQ.mk 7393452091841727417856044e-25 7393452093035894198989596e-25).memR (Real.cos ((73869895958883754985e-20 : ℚ) : ℝ)) :=
    IA.cos_mem 73869895958883754985e-20 h56p1 (by norm_num) (by norm_num) (by norm_num) (by norm_num)
      (by norm_num [IA.sinQ, IA.cosQ, IA.errW, IA.taylErr]) (by norm_num [IA.sinQ, IA.cosQ, IA.errW, IA.taylErr])
  have h56p4 : (IA.IQ.mk 9107066026000811003277437e-25 9107066029086923315867247e-25).memR (Real.tan ((73869895958883754985e-20 : ℚ) : ℝ)) :=
    IA.tan_mem h56p2 h56p3 (by norm_num) (by norm_num) (by norm_num)
      (by norm_num) (by norm_num)
  have h56p5 : (IA.IQ.mk 73869896158883754986e-20 73869896158883754986e-20).memR ((73869896158883754986e-20 : ℚ) : ℝ) :=
    IA.memR_const le_rfl le_rfl
  have h56p6 : (IA.IQ.mk 6733265651922082089288817e-25 6733265653116248909220316e-25).memR (Real.sin ((73869896158883754986e-20 : ℚ) : ℝ)) :=
    IA.sin_mem 73869896158883754986e-20 h56p5 (by norm_num) (by norm_num) (by norm_num) (by norm_num)
      (by norm_num [IA.sinQ, IA.cosQ, IA.errW, IA.taylErr]) (by norm_num [IA.sinQ, IA.cosQ, IA.errW, IA.taylErr])
  have h56p7 : (IA.IQ.mk 7393452078375196090231566e-25 7393452079569362910163065e-25).memR (Real.cos ((73869896158883754986e-20 : ℚ) : ℝ)) :=
    IA.cos_mem 73869896158883754986e-20 h56p5 (by norm_num) (by norm_num) (by norm_num) (by norm_num)
      (by norm_num [IA.sinQ, IA.cosQ, IA.errW, IA.taylErr]) (by norm_num [IA.sinQ, IA.cosQ, IA.errW, IA.taylErr])
  have h56p8 : (IA.IQ.mk 9107066062588541362269032e-25 9107066065674653786655877e-25).memR (Real.tan ((73869896158883754986e-20 : ℚ) : ℝ)) :=
    IA.tan_mem h56p6 h56p7 (by norm_num) (by norm_num) (by norm_num)
      (by norm_num) (by norm_num)
  have h57 : (IA.IQ.mk 73869895958883754985e-20 73869896158883754986e-20).memR (Real.arctan ((r_eq * r_eq / (r_pol * r_pol)) * ((szR ((0.11088 : ℝ)) (((-0.0728) : ℝ))) / (Real.sqrt ((((Hgeo) - (sxR ((0.11088 : ℝ)) (((-0.0728) : ℝ)))) * ((Hgeo) - (sxR ((0.11088 : ℝ)) (((-0.0728) : ℝ))))) + ((syR ((0.11088 : ℝ)) (((-0.0728) : ℝ))) * (syR ((0.11088 : ℝ)) (((-0.0728) : ℝ))))))))) :=
    IA.arctan_mem 73869895958883754985e-20 73869896158883754986e-20 h50 h56p4 h56p8 (by norm_num)
      (by norm_num) (by norm_num) (by norm_num) (by norm_num) (by norm_num)
  have h58 : (IA.IQ.mk 180 180).memR ((180 : ℝ)) :=
    IA.memR_of_bounds (by norm_num) (by norm_num)
  have h59 : (IA.IQ.mk 5729577951308232087666398e-23 5729577951308232087684637e-23).memR (180 / Real.pi) :=
    IA.div_mem h58 IA.pi_mem20 (by norm_num) (by norm_num) (by norm_num)
      (by norm_num) (by norm_num)
  have h60 : (IA.IQ.mk 4232433271514534373812486e-23 4232433282973690276499721e-23).memR ((Real.arctan ((r_eq * r_eq / (r_pol * r_pol)) * ((szR ((0.11088 : ℝ)) (((-0.0728) : ℝ))) / (Real.sqrt ((((Hgeo) - (sxR ((0.11088 : ℝ)) (((-0.0728) : ℝ)))) * ((Hgeo) - (sxR ((0.11088 : ℝ)) (((-0.0728) : ℝ))))) + ((syR ((0.11088 : ℝ)) (((-0.0728) : ℝ))) * (syR ((0.11088 : ℝ)) (((-0.0728) : ℝ))))))))) * (180 / Real.pi)) :=
    IA.mul_mem h57 h59 (by norm_num) (by norm_num) (by norm_num) (by norm_num)
      (by norm_num) (by norm_num) (by norm_num) (by norm_num)
  have h61 : (IA.IQ.mk 4232433271514534373812486e-23 4232433282973690276499721e-23).memR (s2gLat ((0.11088 : ℝ)) (((-0.0728) : ℝ))) :=
    by unfold s2gLat; exact h60
  have h62 : (IA.IQ.mk 7426334166770449106073787e-25 7426334166770449151605874e-25).memR ((syR ((0.11088 : ℝ)) (((-0.0728) : ℝ))) / ((Hgeo) - (sxR ((0.11088 : ℝ)) (((-0.0728) : ℝ))))) :=
    IA.div_mem h40 h44 (by norm_num) (by norm_num) (by norm_num)
      (by norm_num) (by norm_num)
  have h67p1 : (IA.IQ.mk 63876980083062296628e-20 63876980083062296628e-20).memR ((63876980083062296628e-20 : ℚ) : ℝ) :=
    IA.memR_const le_rfl le_rfl
  have h67p2 : (IA.IQ.mk 596208252170512956059772e-24 5962082521913860893869311e-25).memR (Real.sin ((63876980083062296628e-20 : ℚ) : ℝ)) :=
    IA.sin_mem 63876980083062296628e-20 h67p1 (by norm_num) (by norm_num) (by norm_num) (by norm_num)
      (by norm_num [IA.sinQ, IA.cosQ, IA.errW, IA.taylErr]) (by norm_num [IA.sinQ, IA.cosQ, IA.errW, IA.taylErr])
  have h67p3 : (IA.IQ.mk 8028298200730852657297433e-25 8028298200939583990569024e-25).memR (Real.cos ((63876980083062296628e-20 : ℚ) : ℝ)) :=
    IA.cos_mem 63876980083062296628e-20 h67p1 (by norm_num) (by norm_num) (by norm_num) (by norm_num)
      (by norm_num [IA.sinQ, IA.cosQ, IA.errW, IA.taylErr]) (by norm_num [IA.sinQ, IA.cosQ, IA.errW, IA.taylErr])
  have h67p4 : (IA.IQ.mk 7426334165075436649308385e-25 7426334165528511743601886e-25).memR (Real.tan ((63876980083062296628e-20 : ℚ) : ℝ)) :=
    IA.tan_mem h67p2 h67p3 (by norm_num) (by norm_num) (by norm_num)
      (by norm_num) (by norm_num)
  have h67p5 : (IA.IQ.mk 63876980103062307731e-20 63876980103062307731e-20).memR ((63876980103062307731e-20 : ℚ) : ℝ) :=
    IA.memR_const le_rfl le_rfl
  have h67p6 : (IA.IQ.mk 5962082523310790091635345e-25 5962082523519521425691188e-25).memR (Real.sin ((63876980103062307731e-20 : ℚ) : ℝ)) :=
    IA.sin_mem 63876980103062307731e-20 h67p5 (by norm_num) (by norm_num) (by norm_num) (by norm_num)
      (by norm_num [IA.sinQ, IA.cosQ, IA.errW, IA.taylErr]) (by norm_num [IA.sinQ, IA.cosQ, IA.errW, IA.taylErr])
  have h67p7 : (IA.IQ.mk 8028298199538435490050858e-25 80282981997471668241067e-23).memR (Real.cos ((63876980103062307731e-20 : ℚ) : ℝ)) :=
    IA.cos_mem 63876980103062307731e-20 h67p5 (by norm_num) (by norm_num) (by norm_num) (by norm_num)
      (by norm_num [IA.sinQ, IA.cosQ, IA.errW, IA.taylErr]) (by norm_num [IA.sinQ, IA.cosQ, IA.errW, IA.taylErr])
  have h67p8 : (IA.IQ.mk 7426334168178447154508901e-25 742633416863152225065268e-24).memR (Real.tan ((63876980103062307731e-20 : ℚ) : ℝ)) :=
    IA.tan_mem h67p6 h67p7 (by norm_num) (by norm_num) (by norm_num)
      (by norm_num) (by norm_num)
  have h68 : (IA.IQ.mk 63876980083062296628e-20 63876980103062307731e-20).memR (Real.arctan ((syR ((0.11088 : ℝ)) (((-0.0728) : ℝ))) / ((Hgeo) - (sxR ((0.11088 : ℝ)) (((-0.0728) : ℝ)))))) :=
    IA.arctan_mem 63876980083062296628e-20 63876980103062307731e-20 h62 h67p4 h67p8 (by norm_num)
      (by norm_num) (by norm_num) (by norm_num) (by norm_num) (by norm_num)
  have h69 : (IA.IQ.mk (-1308996939e-9) (-1308996939e-9)).memR (lambda_0) :=
    IA.memR_of_bounds (by norm_num [lambda_0]) (by norm_num [lambda_0])
  have h70 : (IA.IQ.mk (-194776674003062307731e-20) (-194776673983062296628e-20)).memR ((lambda_0) - (Real.arctan ((syR ((0.11088 : ℝ)) (((-0.0728) : ℝ))) / ((Hgeo) - (sxR ((0.11088 : ℝ)) (((-0.0728) : ℝ))))))) :=
    IA.sub_mem h69 h68 (by norm_num) (by norm_num)
  have h71 : (IA.IQ.mk (-1115988136797097125714949e-22) (-1115988136682505503069727e-22)).memR (((lambda_0) - (Real.arctan ((syR ((0.11088 : ℝ)) (((-0.0728) : ℝ))) / ((Hgeo) - (sxR ((0.11088 : ℝ)) (((-0.0728) : ℝ))))))) * (180 / Real.pi)) :=
    IA.mul_mem h70 h59 (by norm_num) (by norm_num) (by norm_num) (by norm_num)
      (by norm_num) (by norm_num) (by norm_num) (by norm_num)
  have h72 : (IA.IQ.mk (-1115988136797097125714949e-22) (-1115988136682505503069727e-22)).memR (s2gLon ((0.11088 : ℝ)) (((-0.0728) : ℝ))) :=
    by unfold s2gLon; exact h71
  have h73 : (0:ℝ) ≤ (discR ((0.11088 : ℝ)) (((-0.0728) : ℝ))) :=
    le_trans (by norm_num : (0:ℝ) ≤ ((37916896874620678749021e-9 : ℚ) : ℝ)) h27.1
  have h74 : (aR ((0.11088 : ℝ)) (((-0.0728) : ℝ))) ≠ 0 :=
    ne_of_gt (lt_of_lt_of_le (by norm_num : (0:ℝ) < ((1000082518890764112122101e-24 : ℚ) : ℝ)) h16.1)
  have h75 : ((Hgeo) - (sxR ((0.11088 : ℝ)) (((-0.0728) : ℝ)))) ≠ 0 :=
    ne_of_gt (lt_of_lt_of_le (by norm_num : (0:ℝ) < ((379158815739831130388411e-17 : ℚ) : ℝ)) h44.1)
  have h76 : (Real.sqrt ((((Hgeo) - (sxR ((0.11088 : ℝ)) (((-0.0728) : ℝ)))) * ((Hgeo) - (sxR ((0.11088 : ℝ)) (((-0.0728) : ℝ))))) + ((syR ((0.11088 : ℝ)) (((-0.0728) : ℝ))) * (syR ((0.11088 : ℝ)) (((-0.0728) : ℝ)))))) ≠ 0 :=
    ne_of_gt (lt_of_lt_of_le (by norm_num : (0:ℝ) < ((4722779426952571265843349e-18 : ℚ) : ℝ)) h48.1)
  refine ⟨_, _, scan_to_geod_agree 0.11088 (-0.0728) h73 h74 h75 h76, ?_, ?_⟩
  · exact IA.abs_lt_of_rat (IA.abs_sub_lt_of_memR h61 42.324 0.0005
      (by norm_num) (by norm_num)) (by norm_num) (by norm_num)
  · exact IA.abs_lt_of_rat (IA.abs_sub_lt_of_memR h72 (-111.599) 0.0005
      (by norm_num) (by norm_num)) (by norm_num) (by norm_num)

set_option maxHeartbeats 4000000 in
/-- Northeast corner fixture of `scan_to_geod`: scan angles (0.11088, -0.0448) map to (41.398, -95.779) degrees to three decimal places. -/
theorem s2g_corner_ne :
    ∃ la lo, scan_to_geod (F.fin 0.11088) (F.fin (-0.0448)) = .ok (F.fin la, F.fin lo) ∧
      |la - 41.398| < 0.0005 ∧ |lo - (-95.779)| < 0.0005 := by
  have h1 : (IA.IQ.mk 11088e-5 11088e-5).memR ((0.11088 : ℝ)) :=
    IA.memR_of_bounds (by norm_num) (by norm_num)
  have h2 : (IA.IQ.mk (-448e-4) (-448e-4)).memR (((-0.0448) : ℝ)) :=
    IA.memR_of_bounds (by norm_num) (by norm_num)
  have h3 : (IA.IQ.mk (-4478501560512637364306722e-26) (-4478501560512637364306691e-26)).memR (Real.sin (((-0.0448) : ℝ))) :=
    IA.sin_mem 448e-4 h2 (by norm_num) (by norm_num) (by norm_num) (by norm_num)
      (by norm_num [IA.sinQ, IA.cosQ, IA.errW, IA.taylErr]) (by norm_num [IA.sinQ, IA.cosQ, IA.errW, IA.taylErr])
  have h4 : (IA.IQ.mk 9989966478308366111575804e-25 9989966478308366111575808e-25).memR (Real.cos (((-0.0448) : ℝ))) :=
    IA.cos_mem 448e-4 h2 (by norm_num) (by norm_num) (by norm_num) (by norm_num)
      (by norm_num [IA.sinQ, IA.cosQ, IA.errW, IA.taylErr]) (by norm_num [IA.sinQ, IA.cosQ, IA.errW, IA.taylErr])
  have h5 : (IA.IQ.mk 1106529395843291568353661e-25 1106529395843291568509867e-25).memR (Real.sin ((0.11088 : ℝ))) :=
    IA.sin_mem 11088e-5 h1 (by norm_num) (by norm_num) (by norm_num) (by norm_num)
      (by norm_num [IA.sinQ, IA.cosQ, IA.errW, IA.taylErr]) (by norm_num [IA.sinQ, IA.cosQ, IA.errW, IA.taylErr])
  have h6 : (IA.IQ.mk 9938591082046523165186058e-25 9938591082046523165342263e-25).memR (Real.cos ((0.11088 : ℝ))) :=
    IA.cos_mem 11088e-5 h1 (by norm_num) (by norm_num) (by norm_num) (by norm_num)
      (by norm_num [IA.sinQ, IA.cosQ, IA.errW, IA.taylErr]) (by norm_num [IA.sinQ, IA.cosQ, IA.errW, IA.taylErr])
  have h7 : (IA.IQ.mk 200569762275141280717864e-26 2005697622751412807178669e-27).memR ((Real.sin (((-0.0448) : ℝ))) * (Real.sin (((-0.0448) : ℝ)))) :=
    IA.mul_mem h3 h3 (by norm_num) (by norm_num) (by norm_num) (by norm_num)
      (by norm_num) (by norm_num) (by norm_num) (by norm_num)
  have h8 : (IA.IQ.mk 9979943023772485871928206e-25 9979943023772485871928215e-25).memR ((Real.cos (((-0.0448) : ℝ))) * (Real.cos (((-0.0448) : ℝ)))) :=
    IA.mul_mem h4 h4 (by norm_num) (by norm_num) (by norm_num) (by norm_num)
      (by norm_num) (by norm_num) (by norm_num) (by norm_num)
  have h9 : (IA.IQ.mk 9999999999999999999999992e-25 1000000000000000000000001e-24).memR (((Real.sin (((-0.0448) : ℝ))) * (Real.sin (((-0.0448) : ℝ)))) + ((Real.cos (((-0.0448) : ℝ))) * (Real.cos (((-0.0448) : ℝ))))) :=
    IA.add_mem h7 h8 (by norm_num) (by norm_num)
  have h10 : (IA.IQ.mk 987755926961346801532513e-24 9877559269613468015635622e-25).memR ((Real.cos ((0.11088 : ℝ))) * (Real.cos ((0.11088 : ℝ)))) :=
    IA.mul_mem h6 h6 (by norm_num) (by norm_num) (by norm_num) (by norm_num)
      (by norm_num) (by norm_num) (by norm_num) (by norm_num)
  have h11 : (IA.IQ.mk 1224407303865319843589095e-26 122440730386531984393479e-25).memR ((Real.sin ((0.11088 : ℝ))) * (Real.sin ((0.11088 : ℝ)))) :=
    IA.mul_mem h5 h5 (by norm_num) (by norm_num) (by norm_num) (by norm_num)
      (by norm_num) (by norm_num) (by norm_num) (by norm_num)
  have h12 : (IA.IQ.mk 1006739496775591671796869e-24 100673949677559167179687e-23).memR (r_eq * r_eq / (r_pol * r_pol)) :=
    IA.memR_of_bounds (by norm_num [r_eq, r_pol]) (by norm_num [r_eq, r_pol])
  have h13 : (IA.IQ.mk 1232659192941731058978884e-26 1232659192941731059326911e-26).memR ((r_eq * r_eq / (r_pol * r_pol)) * ((Real.sin ((0.11088 : ℝ))) * (Real.sin ((0.11088 : ℝ))))) :=
    IA.mul_mem h12 h11 (by norm_num) (by norm_num) (by norm_num) (by norm_num)
      (by norm_num) (by norm_num) (by norm_num) (by norm_num)
  have h14 : (IA.IQ.mk 1000082518890764112122301e-24 1000082518890764112156832e-24).memR (((Real.cos ((0.11088 : ℝ))) * (Real.cos ((0.11088 : ℝ)))) + ((r_eq * r_eq / (r_pol * r_pol)) * ((Real.sin ((0.11088 : ℝ))) * (Real.sin ((0.11088 : ℝ)))))) :=
    IA.add_mem h10 h13 (by norm_num) (by norm_num)
  have h15 : (IA.IQ.mk 10000825188907641121223e-22 1000082518890764112156834e-24).memR ((((Real.sin (((-0.0448) : ℝ))) * (Real.sin (((-0.0448) : ℝ)))) + ((Real.cos (((-0.0448) : ℝ))) * (Real.cos (((-0.0448) : ℝ))))) * (((Real.cos ((0.11088 : ℝ))) * (Real.cos ((0.11088 : ℝ)))) + ((r_eq * r_eq / (r_pol * r_pol)) * ((Real.sin ((0.11088 : ℝ))) * (Real.sin ((0.11088 : ℝ))))))) :=
    IA.mul_mem h9 h14 (by norm_num) (by norm_num) (by norm_num) (by norm_num)
      (by norm_num) (by norm_num) (by norm_num) (by norm_num)
  have h16 : (IA.IQ.mk 10000825188907641121223e-22 1000082518890764112156834e-24).memR (aR ((0.11088 : ℝ)) (((-0.0448) : ℝ))) :=
    by unfold aR; exact h15
  have h17 : (IA.IQ.mk (-84328320) (-84328320)).memR (-2 * Hgeo) :=
    IA.memR_of_bounds (by norm_num [Hgeo]) (by norm_num [Hgeo])
  have h18 : (IA.IQ.mk (-8424370899720609561341205e-17) (-8424370899720609561341201e-17)).memR ((-2 * Hgeo) * (Real.cos (((-0.0448) : ℝ)))) :=
    IA.mul_mem h17 h4 (by norm_num) (by norm_num) (by norm_num) (by norm_num)
      (by norm_num) (by norm_num) (by norm_num) (by norm_num)
  have h19 : (IA.IQ.mk (-8372637749581549487822189e-17) (-8372637749581549487690591e-17)).memR (((-2 * Hgeo) * (Real.cos (((-0.0448) : ℝ)))) * (Real.cos ((0.11088 : ℝ)))) :=
    IA.mul_mem h18 h6 (by norm_num) (by norm_num) (by norm_num) (by norm_num)
      (by norm_num) (by norm_num) (by norm_num) (by norm_num)
  have h20 : (IA.IQ.mk (-8372637749581549487822189e-17) (-8372637749581549487690591e-17)).memR (bR ((0.11088 : ℝ)) (((-0.0448) : ℝ))) :=
    by unfold bR; exact h19
  have h21 : (IA.IQ.mk 1737135756914831 1737135756914831).memR (cR) :=
    IA.memR_of_bounds (by norm_num [cR, Hgeo, r_eq]) (by norm_num [cR, Hgeo, r_eq])
  have h22 : (IA.IQ.mk 701010628857179933884379e-8 7010106288571799339064156e-9).memR ((bR ((0.11088 : ℝ)) (((-0.0448) : ℝ))) * (bR ((0.11088 : ℝ)) (((-0.0448) : ℝ)))) :=
    IA.mul_mem h20 h20 (by norm_num) (by norm_num) (by norm_num) (by norm_num)
      (by norm_num) (by norm_num) (by norm_num) (by norm_num)
  have h23 : (IA.IQ.mk 4 4).memR ((4 : ℝ)) :=
    IA.memR_of_bounds (by norm_num) (by norm_num)
  have h24 : (IA.IQ.mk 40003300755630564484892e-22 4000330075563056448627336e-24).memR (((4 : ℝ)) * (aR ((0.11088 : ℝ)) (((-0.0448) : ℝ)))) :=
    IA.mul_mem h23 h16 (by norm_num) (by norm_num) (by norm_num) (by norm_num)
      (by norm_num) (by norm_num) (by norm_num) (by norm_num)
  have h25 : (IA.IQ.mk 6949116413722393152674387e-9 6949116413722393152914349e-9).memR ((((4 : ℝ)) * (aR ((0.11088 : ℝ)) (((-0.0448) : ℝ)))) * (cR)) :=
    IA.mul_mem h24 h21 (by norm_num) (by norm_num) (by norm_num) (by norm_num)
      (by norm_num) (by norm_num) (by norm_num) (by norm_num)
  have h26 : (IA.IQ.mk 60989874849406185929441e-9 60989874849406186389769e-9).memR (((bR ((0.11088 : ℝ)) (((-0.0448) : ℝ))) * (bR ((0.11088 : ℝ)) (((-0.0448) : ℝ)))) - ((((4 : ℝ)) * (aR ((0.11088 : ℝ)) (((-0.0448) : ℝ)))) * (cR))) :=
    IA.sub_mem h22 h25 (by norm_num) (by norm_num)
  have h27 : (IA.IQ.mk 60989874849406185929441e-9 60989874849406186389769e-9).memR (discR ((0.11088 : ℝ)) (((-0.0448) : ℝ))) :=
    by unfold discR; exact h26
  have h28 : (IA.IQ.mk 8372637749581549487690591e-17 8372637749581549487822189e-17).memR (-bR ((0.11088 : ℝ)) (((-0.0448) : ℝ))) :=
    IA.neg_mem h20 (by norm_num) (by norm_num)
  have h29 : (IA.IQ.mk 780960145266108864123659e-17 7809601452661088670708517e-18).memR (Real.sqrt (discR ((0.11088 : ℝ)) (((-0.0448) : ℝ)))) :=
    IA.sqrt_mem h27 (by norm_num) (by norm_num) (by norm_num)
  have h30 : (IA.IQ.mk 7591677604315440620619739e-17 759167760431544062369853e-16).memR ((-bR ((0.11088 : ℝ)) (((-0.0448) : ℝ))) - (Real.sqrt (discR ((0.11088 : ℝ)) (((-0.0448) : ℝ))))) :=
    IA.sub_mem h28 h29 (by norm_num) (by norm_num)
  have h31 : (IA.IQ.mk 2 2).memR ((2 : ℝ)) :=
    IA.memR_of_bounds (by norm_num) (by norm_num)
  have h32 : (IA.IQ.mk 20001650377815282242446e-22 2000165037781528224313668e-24).memR (((2 : ℝ)) * (aR ((0.11088 : ℝ)) (((-0.0448) : ℝ)))) :=
    IA.mul_mem h31 h16 (by norm_num) (by norm_num) (by norm_num) (by norm_num)
      (by norm_num) (by norm_num) (by norm_num) (by norm_num)
  have h33 : (IA.IQ.mk 3795525599595374908271079e-17 3795525599595374909941412e-17).memR (((-bR ((0.11088 : ℝ)) (((-0.0448) : ℝ))) - (Real.sqrt (discR ((0.11088 : ℝ)) (((-0.0448) : ℝ))))) / (((2 : ℝ)) * (aR ((0.11088 : ℝ)) (((-0.0448) : ℝ))))) :=
    IA.div_mem h30 h32 (by norm_num) (by norm_num) (by norm_num)
      (by norm_num) (by norm_num)
  have h34 : (IA.IQ.mk 3795525599595374908271079e-17 3795525599595374909941412e-17).memR (rsR ((0.11088 : ℝ)) (((-0.0448) : ℝ))) :=
    by unfold rsR; exact h33
  have h35 : (IA.IQ.mk 3791717350751905716800405e-17 3791717350751905718469064e-17).memR ((rsR ((0.11088 : ℝ)) (((-0.0448) : ℝ))) * (Real.cos (((-0.0448) : ℝ)))) :=
    IA.mul_mem h34 h4 (by norm_num) (by norm_num) (by norm_num) (by norm_num)
      (by norm_num) (by norm_num) (by norm_num) (by norm_num)
  have h36 : (IA.IQ.mk 3768432824782395884414519e-17 3768432824782395886132161e-17).memR (((rsR ((0.11088 : ℝ)) (((-0.0448) : ℝ))) * (Real.cos (((-0.0448) : ℝ)))) * (Real.cos ((0.11088 : ℝ)))) :=
    IA.mul_mem h35 h6 (by norm_num) (by norm_num) (by norm_num) (by norm_num)
      (by norm_num) (by norm_num) (by norm_num) (by norm_num)
  have h37 : (IA.IQ.mk 3768432824782395884414519e-17 3768432824782395886132161e-17).memR (sxR ((0.11088 : ℝ)) (((-0.0448) : ℝ))) :=
    by unfold sxR; exact h36
  have h38 : (IA.IQ.mk (-3795525599595374909941412e-17) (-3795525599595374908271079e-17)).memR (-rsR ((0.11088 : ℝ)) (((-0.0448) : ℝ))) :=
    IA.neg_mem h34 (by norm_num) (by norm_num)
  have h39 : (IA.IQ.mk 1699826732075355013501203e-18 1699826732075355014249274e-18).memR ((-rsR ((0.11088 : ℝ)) (((-0.0448) : ℝ))) * (Real.sin (((-0.0448) : ℝ)))) :=
    IA.mul_mem h38 h3 (by norm_num) (by norm_num) (by norm_num) (by norm_num)
      (by norm_num) (by norm_num) (by norm_num) (by norm_num)
  have h40 : (IA.IQ.mk 1699826732075355013501203e-18 1699826732075355014249274e-18).memR (syR ((0.11088 : ℝ)) (((-0.0448) : ℝ))) :=
    by unfold syR; exact h39
  have h41 : (IA.IQ.mk 4195646709336032299377556e-18 4195646709336032301816266e-18).memR (((rsR ((0.11088 : ℝ)) (((-0.0448) : ℝ))) * (Real.cos (((-0.0448) : ℝ)))) * (Real.sin ((0.11088 : ℝ)))) :=
    IA.mul_mem h35 h5 (by norm_num) (by norm_num) (by norm_num) (by norm_num)
      (by norm_num) (by norm_num) (by norm_num) (by norm_num)
  have h42 : (IA.IQ.mk 4195646709336032299377556e-18 4195646709336032301816266e-18).memR (szR ((0.11088 : ℝ)) (((-0.0448) : ℝ))) :=
    by unfold szR; exact h41
  have h43 : (IA.IQ.mk 42164160 42164160).memR (Hgeo) :=
    IA.memR_of_bounds (by norm_num [Hgeo]) (by norm_num [Hgeo])
  have h44 : (IA.IQ.mk 447983175217604113867839e-17 447983175217604115585481e-17).memR ((Hgeo) - (sxR ((0.11088 : ℝ)) (((-0.0448) : ℝ)))) :=
    IA.sub_mem h43 h37 (by norm_num) (by norm_num)
  have h45 : (IA.IQ.mk 2006889252780465886945036e-11 2006889252780465902334531e-11).memR (((Hgeo) - (sxR ((0.11088 : ℝ)) (((-0.0448) : ℝ)))) * ((Hgeo) - (sxR ((0.11088 : ℝ)) (((-0.0448) : ℝ))))) :=
    IA.mul_mem h44 h44 (by norm_num) (by norm_num) (by norm_num) (by norm_num)
      (by norm_num) (by norm_num) (by norm_num) (by norm_num)
  have h46 : (IA.IQ.mk 2889410919077980756684809e-12 2889410919077980759227993e-12).memR ((syR ((0.11088 : ℝ)) (((-0.0448) : ℝ))) * (syR ((0.11088 : ℝ)) (((-0.0448) : ℝ)))) :=
    IA.mul_mem h40 h40 (by norm_num) (by norm_num) (by norm_num) (by norm_num)
      (by norm_num) (by norm_num) (by norm_num) (by norm_num)
  have h47 : (IA.IQ.mk 2295830344688263962613516e-11 2295830344688263978257331e-11).memR ((((Hgeo) - (sxR ((0.11088 : ℝ)) (((-0.0448) : ℝ)))) * ((Hgeo) - (sxR ((0.11088 : ℝ)) (((-0.0448) : ℝ))))) + ((syR ((0.11088 : ℝ)) (((-0.0448) : ℝ))) * (syR ((0.11088 : ℝ)) (((-0.0448) : ℝ))))) :=
    IA.add_mem h45 h46 (by norm_num) (by norm_num)
  have h48 : (IA.IQ.mk 4791482385116597673886842e-18 4791482385116597690211452e-18).memR (Real.sqrt ((((Hgeo) - (sxR ((0.11088 : ℝ)) (((-0.0448) : ℝ)))) * ((Hgeo) - (sxR ((0.11088 : ℝ)) (((-0.0448) : ℝ))))) + ((syR ((0.11088 : ℝ)) (((-0.0448) : ℝ))) * (syR ((0.11088 : ℝ)) (((-0.0448) : ℝ)))))) :=
    IA.sqrt_mem h47 (by norm_num) (by norm_num) (by norm_num)
  have h49 : (IA.IQ.mk 8756469025887765823634333e-25 8756469025887765858557355e-25).memR ((szR ((0.11088 : ℝ)) (((-0.0448) : ℝ))) / (Real.sqrt ((((Hgeo) - (sxR ((0.11088 : ℝ)) (((-0.0448) : ℝ)))) * ((Hgeo) - (sxR ((0.11088 : ℝ)) (((-0.0448) : ℝ))))) + ((syR ((0.11088 : ℝ)) (((-0.0448) : ℝ))) * (syR ((0.11088 : ℝ)) (((-0.0448) : ℝ))))))) :=
    IA.div_mem h42 h48 (by norm_num) (by norm_num) (by norm_num)
      (by norm_num) (by norm_num)
  have h50 : (IA.IQ.mk 8815483220653304768677446e-25 8815483220653304803835841e-25).memR ((r_eq * r_eq / (r_pol * r_pol)) * ((szR ((0.11088 : ℝ)) (((-0.0448) : ℝ))) / (Real.sqrt ((((Hgeo) - (sxR ((0.11088 : ℝ)) (((-0.0448) : ℝ)))) * ((Hgeo) - (sxR ((0.11088 : ℝ)) (((-0.0448) : ℝ))))) + ((syR ((0.11088 : ℝ)) (((-0.0448) : ℝ))) * (syR ((0.11088 : ℝ)) (((-0.0448) : ℝ)))))))) :=
    IA.mul_mem h12 h49 (by norm_num) (by norm_num) (by norm_num) (by norm_num)
      (by norm_num) (by norm_num) (by norm_num) (by norm_num)
  have h55p1 : (IA.IQ.mk 72252677009662303603e-20 72252677009662303603e-20).memR ((72252677009662303603e-20 : ℚ) : ℝ) :=
    IA.memR_const le_rfl le_rfl
  have h55p2 : (IA.IQ.mk 6612822051950891270910414e-25 6612822052866484240662527e-25).memR (Real.sin ((72252677009662303603e-20 : ℚ) : ℝ)) :=
    IA.sin_mem 72252677009662303603e-20 h55p1 (by norm_num) (by norm_num) (by norm_num) (by norm_num)
      (by norm_num [IA.sinQ, IA.cosQ, IA.errW, IA.taylErr]) (by norm_num [IA.sinQ, IA.cosQ, IA.errW, IA.taylErr])
  have h55p3 : (IA.IQ.mk 7501372173787776877169961e-25 7501372174703369846922074e-25).memR (Real.cos ((72252677009662303603e-20 : ℚ) : ℝ)) :=
    IA.cos_mem 72252677009662303603e-20 h55p1 (by norm_num) (by norm_num) (by norm_num) (by norm_num)
      (by norm_num [IA.sinQ, IA.cosQ, IA.errW, IA.taylErr]) (by norm_num [IA.sinQ, IA.cosQ, IA.errW, IA.taylErr])
  have h55p4 : (IA.IQ.mk 8815483218191857124536322e-25 8815483220488413508882e-22).memR (Real.tan ((72252677009662303603e-20 : ℚ) : ℝ)) :=
    IA.tan_mem h55p2 h55p3 (by norm_num) (by norm_num) (by norm_num)
      (by norm_num) (by norm_num)
  have h55p5 : (IA.IQ.mk 72252677029662303604e-20 72252677029662303604e-20).memR ((72252677029662303604e-20 : ℚ) : ℝ) :=
    IA.memR_const le_rfl le_rfl
  have h55p6 : (IA.IQ.mk 6612822053451165704181634e-25 661282205436675867697505e-24).memR (Real.sin ((72252677029662303604e-20 : ℚ) : ℝ)) :=
    IA.sin_mem 72252677029662303604e-20 h55p5 (by norm_num) (by norm_num) (by norm_num) (by norm_num)
      (by norm_num [IA.sinQ, IA.cosQ, IA.errW, IA.taylErr]) (by norm_num [IA.sinQ, IA.cosQ, IA.errW, IA.taylErr])
  have h55p7 : (IA.IQ.mk 7501372172465212463547738e-25 7501372173380805436341154e-25).memR (Real.cos ((72252677029662303604e-20 : ℚ) : ℝ)) :=
    IA.cos_mem 72252677029662303604e-20 h55p5 (by norm_num) (by norm_num) (by norm_num) (by norm_num)
      (by norm_num [IA.sinQ, IA.cosQ, IA.errW, IA.taylErr]) (by norm_num [IA.sinQ, IA.cosQ, IA.errW, IA.taylErr])
  have h55p8 : (IA.IQ.mk 8815483221746112010566042e-25 8815483224042668403378861e-25).memR (Real.tan ((72252677029662303604e-20 : ℚ) : ℝ)) :=
    IA.tan_mem h55p6 h55p7 (by norm_num) (by norm_num) (by norm_num)
      (by norm_num) (by norm_num)
  have h56 : (IA.IQ.mk 72252677009662303603e-20 72252677029662303604e-20).memR (Real.arctan ((r_eq * r_eq / (r_pol * r_pol)) * ((szR ((0.11088 : ℝ)) (((-0.0448) : ℝ))) / (Real.sqrt ((((Hgeo) - (sxR ((0.11088 : ℝ)) (((-0.0448) : ℝ)))) * ((Hgeo) - (sxR ((0.11088 : ℝ)) (((-0.0448) : ℝ))))) + ((syR ((0.11088 : ℝ)) (((-0.0448) : ℝ))) * (syR ((0.11088 : ℝ)) (((-0.0448) : ℝ))))))))) :=
    IA.arctan_mem 72252677009662303603e-20 72252677029662303604e-20 h50 h55p4 h55p8 (by norm_num)
      (by norm_num) (by norm_num) (by norm_num) (by norm_num) (by norm_num)
  have h57 : (IA.IQ.mk 180 180).memR ((180 : ℝ)) :=
    IA.memR_of_bounds (by norm_num) (by norm_num)
  have h58 : (IA.IQ.mk 5729577951308232087666398e-23 5729577951308232087684637e-23).memR (180 / Real.pi) :=
    IA.div_mem h57 IA.pi_mem20 (by norm_num) (by norm_num) (by norm_num)
      (by norm_num) (by norm_num)
  have h59 : (IA.IQ.mk 4139773451175563421537908e-23 4139773452321479011870029e-23).memR ((Real.arctan ((r_eq * r_eq / (r_pol * r_pol)) * ((szR ((0.11088 : ℝ)) (((-0.0448) : ℝ))) / (Real.sqrt ((((Hgeo) - (sxR ((0.11088 : ℝ)) (((-0.0448) : ℝ)))) * ((Hgeo) - (sxR ((0.11088 : ℝ)) (((-0.0448) : ℝ))))) + ((syR ((0.11088 : ℝ)) (((-0.0448) : ℝ))) * (syR ((0.11088 : ℝ)) (((-0.0448) : ℝ))))))))) * (180 / Real.pi)) :=
    IA.mul_mem h56 h58 (by norm_num) (by norm_num) (by norm_num) (by norm_num)
      (by norm_num) (by norm_num) (by norm_num) (by norm_num)
  have h60 : (IA.IQ.mk 4139773451175563421537908e-23 4139773452321479011870029e-23).memR (s2gLat ((0.11088 : ℝ)) (((-0.0448) : ℝ))) :=
    by unfold s2gLat; exact h59
  have h61 : (IA.IQ.mk 3794398598227887157492097e-25 3794398598227887173710317e-25).memR ((syR ((0.11088 : ℝ)) (((-0.0448) : ℝ))) / ((Hgeo) - (sxR ((0.11088 : ℝ)) (((-0.0448) : ℝ))))) :=
    IA.div_mem h40 h44 (by norm_num) (by norm_num) (by norm_num)
      (by norm_num) (by norm_num)
  have h63p1 : (IA.IQ.mk 36265745704901506175e-20 36265745704901506175e-20).memR ((36265745704901506175e-20 : ℚ) : ℝ) :=
    IA.memR_const le_rfl le_rfl
  have h63p2 : (IA.IQ.mk 3547600920656385142599517e-25 354760092065661924964353e-24).memR (Real.sin ((36265745704901506175e-20 : ℚ) : ℝ)) :=
    IA.sin_mem 36265745704901506175e-20 h63p1 (by norm_num) (by norm_num) (by norm_num) (by norm_num)
      (by norm_num [IA.sinQ, IA.cosQ, IA.errW, IA.taylErr]) (by norm_num [IA.sinQ, IA.cosQ, IA.errW, IA.taylErr])
  have h63p3 : (IA.IQ.mk 9349573664491494280757068e-25 934957366449172838780108e-24).memR (Real.cos ((36265745704901506175e-20 : ℚ) : ℝ)) :=
    IA.cos_mem 36265745704901506175e-20 h63p1 (by norm_num) (by norm_num) (by norm_num) (by norm_num)
      (by norm_num [IA.sinQ, IA.cosQ, IA.errW, IA.taylErr]) (by norm_num [IA.sinQ, IA.cosQ, IA.errW, IA.taylErr])
  have h63p4 : (IA.IQ.mk 3794398598226610851441548e-25 3794398598226956253916106e-25).memR (Real.tan ((36265745704901506175e-20 : ℚ) : ℝ)) :=
    IA.tan_mem h63p2 h63p3 (by norm_num) (by norm_num) (by norm_num)
      (by norm_num) (by norm_num)
  have h63p5 : (IA.IQ.mk 36265745704921506176e-20 36265745704921506176e-20).memR ((36265745704921506176e-20 : ℚ) : ℝ) :=
    IA.memR_const le_rfl le_rfl
  have h63p6 : (IA.IQ.mk 354760092065825505742591e-24 3547600920658489164469924e-25).memR (Real.sin ((36265745704921506176e-20 : ℚ) : ℝ)) :=
    IA.sin_mem 36265745704921506176e-20 h63p5 (by norm_num) (by norm_num) (by norm_num) (by norm_num)
      (by norm_num [IA.sinQ, IA.cosQ, IA.errW, IA.taylErr]) (by norm_num [IA.sinQ, IA.cosQ, IA.errW, IA.taylErr])
  have h63p7 : (IA.IQ.mk 9349573664490784760537459e-25 9349573664491018867581473e-25).memR (Real.cos ((36265745704921506176e-20 : ℚ) : ℝ)) :=
    IA.cos_mem 36265745704921506176e-20 h63p5 (by norm_num) (by norm_num) (by norm_num) (by norm_num)
      (by norm_num [IA.sinQ, IA.cosQ, IA.errW, IA.taylErr]) (by norm_num [IA.sinQ, IA.cosQ, IA.errW, IA.taylErr])
  have h63p8 : (IA.IQ.mk 3794398598228898800770389e-25 3794398598229244203244949e-25).memR (Real.tan ((36265745704921506176e-20 : ℚ) : ℝ)) :=
    IA.tan_mem h63p6 h63p7 (by norm_num) (by norm_num) (by norm_num)
      (by norm_num) (by norm_num)
  have h64 : (IA.IQ.mk 36265745704901506175e-20 36265745704921506176e-20).memR (Real.arctan ((syR ((0.11088 : ℝ)) (((-0.0448) : ℝ))) / ((Hgeo) - (sxR ((0.11088 : ℝ)) (((-0.0448) : ℝ)))))) :=
    IA.arctan_mem 36265745704901506175e-20 36265745704921506176e-20 h61 h63p4 h63p8 (by norm_num)
      (by norm_num) (by norm_num) (by norm_num) (by norm_num) (by norm_num)
  have h65 : (IA.IQ.mk (-1308996939e-9) (-1308996939e-9)).memR (lambda_0) :=
    IA.memR_of_bounds (by norm_num [lambda_0]) (by norm_num [lambda_0])
  have h66 : (IA.IQ.mk (-167165439604921506176e-20) (-167165439604901506175e-20)).memR ((lambda_0) - (Real.arctan ((syR ((0.11088 : ℝ)) (((-0.0448) : ℝ))) / ((Hgeo) - (sxR ((0.11088 : ℝ)) (((-0.0448) : ℝ))))))) :=
    IA.sub_mem h65 h64 (by norm_num) (by norm_num)
  have h67 : (IA.IQ.mk (-957787416981106165309865e-22) (-9577874169809915737420603e-23)).memR (((lambda_0) - (Real.arctan ((syR ((0.11088 : ℝ)) (((-0.0448) : ℝ))) / ((Hgeo) - (sxR ((0.11088 : ℝ)) (((-0.0448) : ℝ))))))) * (180 / Real.pi)) :=
    IA.mul_mem h66 h58 (by norm_num) (by norm_num) (by norm_num) (by norm_num)
      (by norm_num) (by norm_num) (by norm_num) (by norm_num)
  have h68 : (IA.IQ.mk (-957787416981106165309865e-22) (-9577874169809915737420603e-23)).memR (s2gLon ((0.11088 : ℝ)) (((-0.0448) : ℝ))) :=
    by unfold s2gLon; exact h67
  have h69 : (0:ℝ) ≤ (discR ((0.11088 : ℝ)) (((-0.0448) : ℝ))) :=
    le_trans (by norm_num : (0:ℝ) ≤ ((60989874849406185929441e-9 : ℚ) : ℝ)) h27.1
  have h70 : (aR ((0.11088 : ℝ)) (((-0.0448) : ℝ))) ≠ 0 :=
    ne_of_gt (lt_of_lt_of_le (by norm_num : (0:ℝ) < ((10000825188907641121223e-22 : ℚ) : ℝ)) h16.1)
  have h71 : ((Hgeo) - (sxR ((0.11088 : ℝ)) (((-0.0448) : ℝ)))) ≠ 0 :=
    ne_of_gt (lt_of_lt_of_le (by norm_num : (0:ℝ) < ((447983175217604113867839e-17 : ℚ) : ℝ)) h44.1)
  have h72 : (Real.sqrt ((((Hgeo) - (sxR ((0.11088 : ℝ)) (((-0.0448) : ℝ)))) * ((Hgeo) - (sxR ((0.11088 : ℝ)) (((-0.0448) : ℝ))))) + ((syR ((0.11088 : ℝ)) (((-0.0448) : ℝ))) * (syR ((0.11088 : ℝ)) (((-0.0448) : ℝ)))))) ≠ 0 :=
    ne_of_gt (lt_of_lt_of_le (by norm_num : (0:ℝ) < ((4791482385116597673886842e-18 : ℚ) : ℝ)) h48.1)
  refine ⟨_, _, scan_to_geod_agree 0.11088 (-0.0448) h69 h70 h71 h72, ?_, ?_⟩
  · exact IA.abs_lt_of_rat (IA.abs_sub_lt_of_memR h60 41.398 0.0005
      (by norm_num) (by norm_num)) (by norm_num) (by norm_num)
  · exact IA.abs_lt_of_rat (IA.abs_sub_lt_of_memR h68 (-95.779) 0.0005
      (by norm_num) (by norm_num)) (by norm_num) (by norm_num)

set_option maxHeartbeats 4000000 in
/-- Southwest corner fixture of `scan_to_geod`: scan angles (0.08288, -0.0728) map to (29.264, -104.362) degrees to three decimal places. -/
theorem s2g_corner_sw :
    ∃ la lo, scan_to_geod (F.fin 0.08288) (F.fin (-0.0728)) = .ok (F.fin la, F.fin lo) ∧
      |la - 29.264| < 0.0005 ∧ |lo - (-104.362)| < 0.0005 := by
  have h1 : (IA.IQ.mk 8288e-5 8288e-5).memR ((0.08288 : ℝ)) :=
    IA.memR_of_bounds (by norm_num) (by norm_num)
  have h2 : (IA.IQ.mk (-728e-4) (-728e-4)).memR (((-0.0728) : ℝ)) :=
    IA.memR_of_bounds (by norm_num) (by norm_num)
  have h3 : (IA.IQ.mk (-7273571231275434966322848e-26) (-7273571231275434966312823e-26)).memR (Real.sin (((-0.0728) : ℝ))) :=
    IA.sin_mem 728e-4 h2 (by norm_num) (by norm_num) (by norm_num) (by norm_num)
      (by norm_num [IA.sinQ, IA.cosQ, IA.errW, IA.taylErr]) (by norm_num [IA.sinQ, IA.cosQ, IA.errW, IA.taylErr])
  have h4 : (IA.IQ.mk 997351250139265747786901e-24 9973512501392657477870013e-25).memR (Real.cos (((-0.0728) : ℝ))) :=
    IA.cos_mem 728e-4 h2 (by norm_num) (by norm_num) (by norm_num) (by norm_num)
      (by norm_num [IA.sinQ, IA.cosQ, IA.errW, IA.taylErr]) (by norm_num [IA.sinQ, IA.cosQ, IA.errW, IA.taylErr])
  have h5 : (IA.IQ.mk 8278514749275753208221883e-26 8278514749275753208269401e-26).memR (Real.sin ((0.08288 : ℝ))) :=
    IA.sin_mem 8288e-5 h1 (by norm_num) (by norm_num) (by norm_num) (by norm_num)
      (by norm_num [IA.sinQ, IA.cosQ, IA.errW, IA.taylErr]) (by norm_num [IA.sinQ, IA.cosQ, IA.errW, IA.taylErr])
  have h6 : (IA.IQ.mk 9965674183689743633393251e-25 9965674183689743633398004e-25).memR (Real.cos ((0.08288 : ℝ))) :=
    IA.cos_mem 8288e-5 h1 (by norm_num) (by norm_num) (by norm_num) (by norm_num)
      (by norm_num [IA.sinQ, IA.cosQ, IA.errW, IA.taylErr]) (by norm_num [IA.sinQ, IA.cosQ, IA.errW, IA.taylErr])
  have h7 : (IA.IQ.mk 5290483845643764705504467e-27 5290483845643764705519051e-27).memR ((Real.sin (((-0.0728) : ℝ))) * (Real.sin (((-0.0728) : ℝ)))) :=
    IA.mul_mem h3 h3 (by norm_num) (by norm_num) (by norm_num) (by norm_num)
      (by norm_num) (by norm_num) (by norm_num) (by norm_num)
  have h8 : (IA.IQ.mk 9947095161543562352942958e-25 994709516154356235294496e-24).memR ((Real.cos (((-0.0728) : ℝ))) * (Real.cos (((-0.0728) : ℝ)))) :=
    IA.mul_mem h4 h4 (by norm_num) (by norm_num) (by norm_num) (by norm_num)
      (by norm_num) (by norm_num) (by norm_num) (by norm_num)
  have h9 : (IA.IQ.mk 9999999999999999999998002e-25 1000000000000000000000016e-24).memR (((Real.sin (((-0.0728) : ℝ))) * (Real.sin (((-0.0728) : ℝ)))) + ((Real.cos (((-0.0728) : ℝ))) * (Real.cos (((-0.0728) : ℝ))))) :=
    IA.add_mem h7 h8 (by norm_num) (by norm_num)
  have h10 : (IA.IQ.mk 9931466193546023812986722e-25 9931466193546023812996196e-25).memR ((Real.cos ((0.08288 : ℝ))) * (Real.cos ((0.08288 : ℝ)))) :=
    IA.mul_mem h6 h6 (by norm_num) (by norm_num) (by norm_num) (by norm_num)
      (by norm_num) (by norm_num) (by norm_num) (by norm_num)
  have h11 : (IA.IQ.mk 6853380645397618700377389e-27 6853380645397618700456065e-27).memR ((Real.sin ((0.08288 : ℝ))) * (Real.sin ((0.08288 : ℝ)))) :=
    IA.mul_mem h5 h5 (by norm_num) (by norm_num) (by norm_num) (by norm_num)
      (by norm_num) (by norm_num) (by norm_num) (by norm_num)
  have h12 : (IA.IQ.mk 1006739496775591671796869e-24 100673949677559167179687e-23).memR (r_eq * r_eq / (r_pol * r_pol)) :=
    IA.memR_of_bounds (by norm_num [r_eq, r_pol]) (by norm_num [r_eq, r_pol])
  have h13 : (IA.IQ.mk 6899568982159178322242351e-27 6899568982159178322321565e-27).memR ((r_eq * r_eq / (r_pol * r_pol)) * ((Real.sin ((0.08288 : ℝ))) * (Real.sin ((0.08288 : ℝ))))) :=
    IA.mul_mem h12 h11 (by norm_num) (by norm_num) (by norm_num) (by norm_num)
      (by norm_num) (by norm_num) (by norm_num) (by norm_num)
  have h14 : (IA.IQ.mk 1000046188336761559620914e-24 1000046188336761559621942e-24).memR (((Real.cos ((0.08288 : ℝ))) * (Real.cos ((0.08288 : ℝ)))) + ((r_eq * r_eq / (r_pol * r_pol)) * ((Real.sin ((0.08288 : ℝ))) * (Real.sin ((0.08288 : ℝ)))))) :=
    IA.add_mem h10 h13 (by norm_num) (by norm_num)
  have h15 : (IA.IQ.mk 1000046188336761559620714e-24 1000046188336761559621959e-24).memR ((((Real.sin (((-0.0728) : ℝ))) * (Real.sin (((-0.0728) : ℝ)))) + ((Real.cos (((-0.0728) : ℝ))) * (Real.cos (((-0.0728) : ℝ))))) * (((Real.cos ((0.08288 : ℝ))) * (Real.cos ((0.08288 : ℝ)))) + ((r_eq * r_eq / (r_pol * r_pol)) * ((Real.sin ((0.08288 : ℝ))) * (Real.sin ((0.08288 : ℝ))))))) :=
    IA.mul_mem h9 h14 (by norm_num) (by norm_num) (by norm_num) (by norm_num)
      (by norm_num) (by norm_num) (by norm_num) (by norm_num)
  have h16 : (IA.IQ.mk 1000046188336761559620714e-24 1000046188336761559621959e-24).memR (aR ((0.08288 : ℝ)) (((-0.0728) : ℝ))) :=
    by unfold aR; exact h15
  have h17 : (IA.IQ.mk (-84328320) (-84328320)).memR (-2 * Hgeo) :=
    IA.memR_of_bounds (by norm_num [Hgeo]) (by norm_num [Hgeo])
  have h18 : (IA.IQ.mk (-8410495537414404654442154e-17) (-8410495537414404654441307e-17)).memR ((-2 * Hgeo) * (Real.cos (((-0.0728) : ℝ)))) :=
    IA.mul_mem h17 h4 (by norm_num) (by norm_num) (by norm_num) (by norm_num)
      (by norm_num) (by norm_num) (by norm_num) (by norm_num)
  have h19 : (IA.IQ.mk (-8381625824924852878774313e-17) (-838162582492485287876947e-16)).memR (((-2 * Hgeo) * (Real.cos (((-0.0728) : ℝ)))) * (Real.cos ((0.08288 : ℝ)))) :=
    IA.mul_mem h18 h6 (by norm_num) (by norm_num) (by norm_num) (by norm_num)
      (by norm_num) (by norm_num) (by norm_num) (by norm_num)
  have h20 : (IA.IQ.mk (-8381625824924852878774313e-17) (-838162582492485287876947e-16)).memR (bR ((0.08288 : ℝ)) (((-0.0728) : ℝ))) :=
    by unfold bR; exact h19
  have h21 : (IA.IQ.mk 1737135756914831 1737135756914831).memR (cR) :=
    IA.memR_of_bounds (by norm_num [cR, Hgeo, r_eq]) (by norm_num [cR, Hgeo, r_eq])
  have h22 : (IA.IQ.mk 7025165146904722052104521e-9 702516514690472205211264e-8).memR ((bR ((0.08288 : ℝ)) (((-0.0728) : ℝ))) * (bR ((0.08288 : ℝ)) (((-0.0728) : ℝ)))) :=
    IA.mul_mem h20 h20 (by norm_num) (by norm_num) (by norm_num) (by norm_num)
      (by norm_num) (by norm_num) (by norm_num) (by norm_num)
  have h23 : (IA.IQ.mk 4 4).memR ((4 : ℝ)) :=
    IA.memR_of_bounds (by norm_num) (by norm_num)
  have h24 : (IA.IQ.mk 4000184753347046238482856e-24 4000184753347046238487836e-24).memR (((4 : ℝ)) * (aR ((0.08288 : ℝ)) (((-0.0728) : ℝ)))) :=
    IA.mul_mem h23 h16 (by norm_num) (by norm_num) (by norm_num) (by norm_num)
      (by norm_num) (by norm_num) (by norm_num) (by norm_num)
  have h25 : (IA.IQ.mk 6948863969304687715943104e-9 6948863969304687715951755e-9).memR ((((4 : ℝ)) * (aR ((0.08288 : ℝ)) (((-0.0728) : ℝ)))) * (cR)) :=
    IA.mul_mem h24 h21 (by norm_num) (by norm_num) (by norm_num) (by norm_num)
      (by norm_num) (by norm_num) (by norm_num) (by norm_num)
  have h26 : (IA.IQ.mk 76301177600034336152766e-9 76301177600034336169536e-9).memR (((bR ((0.08288 : ℝ)) (((-0.0728) : ℝ))) * (bR ((0.08288 : ℝ)) (((-0.0728) : ℝ)))) - ((((4 : ℝ)) * (aR ((0.08288 : ℝ)) (((-0.0728) : ℝ)))) * (cR))) :=
    IA.sub_mem h22 h25 (by norm_num) (by norm_num)
  have h27 : (IA.IQ.mk 76301177600034336152766e-9 76301177600034336169536e-9).memR (discR ((0.08288 : ℝ)) (((-0.0728) : ℝ))) :=
    by unfold discR; exact h26
  have h28 : (IA.IQ.mk 838162582492485287876947e-16 8381625824924852878774313e-17).memR (-bR ((0.08288 : ℝ)) (((-0.0728) : ℝ))) :=
    IA.neg_mem h20 (by norm_num) (by norm_num)
  have h29 : (IA.IQ.mk 8735054527593650697391552e-18 8735054527593650698351479e-18).memR (Real.sqrt (discR ((0.08288 : ℝ)) (((-0.0728) : ℝ)))) :=
    IA.sqrt_mem h27 (by norm_num) (by norm_num) (by norm_num)
  have h30 : (IA.IQ.mk 7508120372165487808934322e-17 7508120372165487809035158e-17).memR ((-bR ((0.08288 : ℝ)) (((-0.0728) : ℝ))) - (Real.sqrt (discR ((0.08288 : ℝ)) (((-0.0728) : ℝ))))) :=
    IA.sub_mem h28 h29 (by norm_num) (by norm_num)
  have h31 : (IA.IQ.mk 2 2).memR ((2 : ℝ)) :=
    IA.memR_of_bounds (by norm_num) (by norm_num)
  have h32 : (IA.IQ.mk 2000092376673523119241428e-24 2000092376673523119243918e-24).memR (((2 : ℝ)) * (aR ((0.08288 : ℝ)) (((-0.0728) : ℝ)))) :=
    IA.mul_mem h31 h16 (by norm_num) (by norm_num) (by norm_num) (by norm_num)
      (by norm_num) (by norm_num) (by norm_num) (by norm_num)
  have h33 : (IA.IQ.mk 3753886800295047103319907e-17 3753886800295047103374997e-17).memR (((-bR ((0.08288 : ℝ)) (((-0.0728) : ℝ))) - (Real.sqrt (discR ((0.08288 : ℝ)) (((-0.0728) : ℝ))))) / (((2 : ℝ)) * (aR ((0.08288 : ℝ)) (((-0.0728) : ℝ))))) :=
    IA.div_mem h30 h32 (by norm_num) (by norm_num) (by norm_num)
      (by norm_num) (by norm_num)
  have h34 : (IA.IQ.mk 3753886800295047103319907e-17 3753886800295047103374997e-17).memR (rsR ((0.08288 : ℝ)) (((-0.0728) : ℝ))) :=
    by unfold rsR; exact h33
  have h35 : (IA.IQ.mk 3743943693155553449655455e-17 3743943693155553449710776e-17).memR ((rsR ((0.08288 : ℝ)) (((-0.0728) : ℝ))) * (Real.cos (((-0.0728) : ℝ)))) :=
    IA.mul_mem h34 h4 (by norm_num) (by norm_num) (by norm_num) (by norm_num)
      (by norm_num) (by norm_num) (by norm_num) (by norm_num)
  have h36 : (IA.IQ.mk 3731092300806833414244481e-17 3731092300806833414301393e-17).memR (((rsR ((0.08288 : ℝ)) (((-0.0728) : ℝ))) * (Real.cos (((-0.0728) : ℝ)))) * (Real.cos ((0.08288 : ℝ)))) :=
    IA.mul_mem h35 h6 (by norm_num) (by norm_num) (by norm_num) (by norm_num)
      (by norm_num) (by norm_num) (by norm_num) (by norm_num)
  have h37 : (IA.IQ.mk 3731092300806833414244481e-17 3731092300806833414301393e-17).memR (sxR ((0.08288 : ℝ)) (((-0.0728) : ℝ))) :=
    by unfold sxR; exact h36
  have h38 : (IA.IQ.mk (-3753886800295047103374997e-17) (-3753886800295047103319907e-17)).memR (-rsR ((0.08288 : ℝ)) (((-0.0728) : ℝ))) :=
    IA.neg_mem h34 (by norm_num) (by norm_num)
  have h39 : (IA.IQ.mk 2730416303609064860687897e-18 2730416303609064860731732e-18).memR ((-rsR ((0.08288 : ℝ)) (((-0.0728) : ℝ))) * (Real.sin (((-0.0728) : ℝ)))) :=
    IA.mul_mem h38 h3 (by norm_num) (by norm_num) (by norm_num) (by norm_num)
      (by norm_num) (by norm_num) (by norm_num) (by norm_num)
  have h40 : (IA.IQ.mk 2730416303609064860687897e-18 2730416303609064860731732e-18).memR (syR ((0.08288 : ℝ)) (((-0.0728) : ℝ))) :=
    by unfold syR; exact h39
  have h41 : (IA.IQ.mk 3099429308424618406902024e-18 3099429308424618406965613e-18).memR (((rsR ((0.08288 : ℝ)) (((-0.0728) : ℝ))) * (Real.cos (((-0.0728) : ℝ)))) * (Real.sin ((0.08288 : ℝ)))) :=
    IA.mul_mem h35 h5 (by norm_num) (by norm_num) (by norm_num) (by norm_num)
      (by norm_num) (by norm_num) (by norm_num) (by norm_num)
  have h42 : (IA.IQ.mk 3099429308424618406902024e-18 3099429308424618406965613e-18).memR (szR ((0.08288 : ℝ)) (((-0.0728) : ℝ))) :=
    by unfold szR; exact h41
  have h43 : (IA.IQ.mk 42164160 42164160).memR (Hgeo) :=
    IA.memR_of_bounds (by norm_num [Hgeo]) (by norm_num [Hgeo])
  have h44 : (IA.IQ.mk 485323699193166585698607e-17 485323699193166585755519e-17).memR ((Hgeo) - (sxR ((0.08288 : ℝ)) (((-0.0728) : ℝ)))) :=
    IA.sub_mem h43 h37 (by norm_num) (by norm_num)
  have h45 : (IA.IQ.mk 2355390929985392448262102e-11 2355390929985392448814518e-11).memR (((Hgeo) - (sxR ((0.08288 : ℝ)) (((-0.0728) : ℝ)))) * ((Hgeo) - (sxR ((0.08288 : ℝ)) (((-0.0728) : ℝ))))) :=
    IA.mul_mem h44 h44 (by norm_num) (by norm_num) (by norm_num) (by norm_num)
      (by norm_num) (by norm_num) (by norm_num) (by norm_num)
  have h46 : (IA.IQ.mk 7455173191014189059784275e-12 7455173191014189060023652e-12).memR ((syR ((0.08288 : ℝ)) (((-0.0728) : ℝ))) * (syR ((0.08288 : ℝ)) (((-0.0728) : ℝ)))) :=
    IA.mul_mem h40 h40 (by norm_num) (by norm_num) (by norm_num) (by norm_num)
      (by norm_num) (by norm_num) (by norm_num) (by norm_num)
  have h47 : (IA.IQ.mk 3100908249086811354240529e-11 3100908249086811354816884e-11).memR ((((Hgeo) - (sxR ((0.08288 : ℝ)) (((-0.0728) : ℝ)))) * ((Hgeo) - (sxR ((0.08288 : ℝ)) (((-0.0728) : ℝ))))) + ((syR ((0.08288 : ℝ)) (((-0.0728) : ℝ))) * (syR ((0.08288 : ℝ)) (((-0.0728) : ℝ))))) :=
    IA.add_mem h45 h46 (by norm_num) (by norm_num)
  have h48 : (IA.IQ.mk 5568579934854856112196962e-18 5568579934854856112714469e-18).memR (Real.sqrt ((((Hgeo) - (sxR ((0.08288 : ℝ)) (((-0.0728) : ℝ)))) * ((Hgeo) - (sxR ((0.08288 : ℝ)) (((-0.0728) : ℝ))))) + ((syR ((0.08288 : ℝ)) (((-0.0728) : ℝ))) * (syR ((0.08288 : ℝ)) (((-0.0728) : ℝ)))))) :=
    IA.sqrt_mem h47 (by norm_num) (by norm_num) (by norm_num)
  have h49 : (IA.IQ.mk 5565924068045912664912211e-25 5565924068045912665543665e-25).memR ((szR ((0.08288 : ℝ)) (((-0.0728) : ℝ))) / (Real.sqrt ((((Hgeo) - (sxR ((0.08288 : ℝ)) (((-0.0728) : ℝ)))) * ((Hgeo) - (sxR ((0.08288 : ℝ)) (((-0.0728) : ℝ))))) + ((syR ((0.08288 : ℝ)) (((-0.0728) : ℝ))) * (syR ((0.08288 : ℝ)) (((-0.0728) : ℝ))))))) :=
    IA.div_mem h42 h48 (by norm_num) (by norm_num) (by norm_num)
      (by norm_num) (by norm_num)
  have h50 : (IA.IQ.mk 5603435595355696174163895e-25 5603435595355696174799611e-25).memR ((r_eq * r_eq / (r_pol * r_pol)) * ((szR ((0.08288 : ℝ)) (((-0.0728) : ℝ))) / (Real.sqrt ((((Hgeo) - (sxR ((0.08288 : ℝ)) (((-0.0728) : ℝ)))) * ((Hgeo) - (sxR ((0.08288 : ℝ)) (((-0.0728) : ℝ))))) + ((syR ((0.08288 : ℝ)) (((-0.0728) : ℝ))) * (syR ((0.08288 : ℝ)) (((-0.0728) : ℝ)))))))) :=
    IA.mul_mem h12 h49 (by norm_num) (by norm_num) (by norm_num) (by norm_num)
      (by norm_num) (by norm_num) (by norm_num) (by norm_num)
  have h54p1 : (IA.IQ.mk 51074982405085878139e-20 51074982405085878139e-20).memR ((51074982405085878139e-20 : ℚ) : ℝ) :=
    IA.memR_const le_rfl le_rfl
  have h54p2 : (IA.IQ.mk 4888315144075039353045835e-25 4888315144089293914024476e-25).memR (Real.sin ((51074982405085878139e-20 : ℚ) : ℝ)) :=
    IA.sin_mem 51074982405085878139e-20 h54p1 (by norm_num) (by norm_num) (by norm_num) (by norm_num)
      (by norm_num [IA.sinQ, IA.cosQ, IA.errW, IA.taylErr]) (by norm_num [IA.sinQ, IA.cosQ, IA.errW, IA.taylErr])
  have h54p3 : (IA.IQ.mk 8723782152936617501427828e-25 8723782152950872062406469e-25).memR (Real.cos ((51074982405085878139e-20 : ℚ) : ℝ)) :=
    IA.cos_mem 51074982405085878139e-20 h54p1 (by norm_num) (by norm_num) (by norm_num) (by norm_num)
      (by norm_num [IA.sinQ, IA.cosQ, IA.errW, IA.taylErr]) (by norm_num [IA.sinQ, IA.cosQ, IA.errW, IA.taylErr])
  have h54p4 : (IA.IQ.mk 5603435595215473368857915e-25 5603435595240969205442215e-25).memR (Real.tan ((51074982405085878139e-20 : ℚ) : ℝ)) :=
    IA.tan_mem h54p2 h54p3 (by norm_num) (by norm_num) (by norm_num)
      (by norm_num) (by norm_num)
  have h54p5 : (IA.IQ.mk 5107498240708587814e-19 5107498240708587814e-19).memR ((5107498240708587814e-19 : ℚ) : ℝ) :=
    IA.memR_const le_rfl le_rfl
  have h54p6 : (IA.IQ.mk 4888315144249514996187621e-25 488831514426376955717296e-24).memR (Real.sin ((5107498240708587814e-19 : ℚ) : ℝ)) :=
    IA.sin_mem 5107498240708587814e-19 h54p5 (by norm_num) (by norm_num) (by norm_num) (by norm_num)
      (by norm_num [IA.sinQ, IA.cosQ, IA.errW, IA.taylErr]) (by norm_num [IA.sinQ, IA.cosQ, IA.errW, IA.taylErr])
  have h54p7 : (IA.IQ.mk 8723782152838851198489117e-25 8723782152853105759474456e-25).memR (Real.cos ((5107498240708587814e-19 : ℚ) : ℝ)) :=
    IA.cos_mem 5107498240708587814e-19 h54p5 (by norm_num) (by norm_num) (by norm_num) (by norm_num)
      (by norm_num [IA.sinQ, IA.cosQ, IA.errW, IA.taylErr]) (by norm_num [IA.sinQ, IA.cosQ, IA.errW, IA.taylErr])
  have h54p8 : (IA.IQ.mk 5603435595478270349927637e-25 5603435595503766186524632e-25).memR (Real.tan ((5107498240708587814e-19 : ℚ) : ℝ)) :=
    IA.tan_mem h54p6 h54p7 (by norm_num) (by norm_num) (by norm_num)
      (by norm_num) (by norm_num)
  have h55 : (IA.IQ.mk 51074982405085878139e-20 5107498240708587814e-19).memR (Real.arctan ((r_eq * r_eq / (r_pol * r_pol)) * ((szR ((0.08288 : ℝ)) (((-0.0728) : ℝ))) / (Real.sqrt ((((Hgeo) - (sxR ((0.08288 : ℝ)) (((-0.0728) : ℝ)))) * ((Hgeo) - (sxR ((0.08288 : ℝ)) (((-0.0728) : ℝ))))) + ((syR ((0.08288 : ℝ)) (((-0.0728) : ℝ))) * (syR ((0.08288 : ℝ)) (((-0.0728) : ℝ))))))))) :=
    IA.arctan_mem 51074982405085878139e-20 5107498240708587814e-19 h50 h54p4 h54p8 (by norm_num)
      (by norm_num) (by norm_num) (by norm_num) (by norm_num) (by norm_num)
  have h56 : (IA.IQ.mk 180 180).memR ((180 : ℝ)) :=
    IA.memR_of_bounds (by norm_num) (by norm_num)
  have h57 : (IA.IQ.mk 5729577951308232087666398e-23 5729577951308232087684637e-23).memR (180 / Real.pi) :=
    IA.div_mem h56 IA.pi_mem20 (by norm_num) (by norm_num) (by norm_num)
      (by norm_num) (by norm_num)
  have h58 : (IA.IQ.mk 2926380930516359461009314e-23 2926380930630951020102091e-23).memR ((Real.arctan ((r_eq * r_eq / (r_pol * r_pol)) * ((szR ((0.08288 : ℝ)) (((-0.0728) : ℝ))) / (Real.sqrt ((((Hgeo) - (sxR ((0.08288 : ℝ)) (((-0.0728) : ℝ)))) * ((Hgeo) - (sxR ((0.08288 : ℝ)) (((-0.0728) : ℝ))))) + ((syR ((0.08288 : ℝ)) (((-0.0728) : ℝ))) * (syR ((0.08288 : ℝ)) (((-0.0728) : ℝ))))))))) * (180 / Real.pi)) :=
    IA.mul_mem h55 h57 (by norm_num) (by norm_num) (by norm_num) (by norm_num)
      (by norm_num) (by norm_num) (by norm_num) (by norm_num)
  have h59 : (IA.IQ.mk 2926380930516359461009314e-23 2926380930630951020102091e-23).memR (s2gLat ((0.08288 : ℝ)) (((-0.0728) : ℝ))) :=
    by unfold s2gLat; exact h58
  have h60 : (IA.IQ.mk 5625969447089200461708364e-25 5625969447089200462458421e-25).memR ((syR ((0.08288 : ℝ)) (((-0.0728) : ℝ))) / ((Hgeo) - (sxR ((0.08288 : ℝ)) (((-0.0728) : ℝ))))) :=
    IA.div_mem h40 h44 (by norm_num) (by norm_num) (by norm_num)
      (by norm_num) (by norm_num)
  have h64p1 : (IA.IQ.mk 51246310070849965339e-20 51246310070849965339e-20).memR ((51246310070849965339e-20 : ℚ) : ℝ) :=
    IA.memR_const le_rfl le_rfl
  have h64p2 : (IA.IQ.mk 4903254214716446359419597e-25 4903254214731285417608184e-25).memR (Real.sin ((51246310070849965339e-20 : ℚ) : ℝ)) :=
    IA.sin_mem 51246310070849965339e-20 h64p1 (by norm_num) (by norm_num) (by norm_num) (by norm_num)
      (by norm_num [IA.sinQ, IA.cosQ, IA.errW, IA.taylErr]) (by norm_num [IA.sinQ, IA.cosQ, IA.errW, IA.taylErr])
  have h64p3 : (IA.IQ.mk 8715394317272252077872254e-25 8715394317287091136060841e-25).memR (Real.cos ((51246310070849965339e-20 : ℚ) : ℝ)) :=
    IA.cos_mem 51246310070849965339e-20 h64p1 (by norm_num) (by norm_num) (by norm_num) (by norm_num)
      (by norm_num [IA.sinQ, IA.cosQ, IA.errW, IA.taylErr]) (by norm_num [IA.sinQ, IA.cosQ, IA.errW, IA.taylErr])
  have h64p4 : (IA.IQ.mk 5625969446948351727024674e-25 5625969446974956911074331e-25).memR (Real.tan ((51246310070849965339e-20 : ℚ) : ℝ)) :=
    IA.tan_mem h64p2 h64p3 (by norm_num) (by norm_num) (by norm_num)
      (by norm_num) (by norm_num)
  have h64p5 : (IA.IQ.mk 5124631007284996534e-19 5124631007284996534e-19).memR ((5124631007284996534e-19 : ℚ) : ℝ) :=
    IA.memR_const le_rfl le_rfl
  have h64p6 : (IA.IQ.mk 4903254214890754245847889e-25 4903254214905593304043425e-25).memR (Real.sin ((5124631007284996534e-19 : ℚ) : ℝ)) :=
    IA.sin_mem 5124631007284996534e-19 h64p5 (by norm_num) (by norm_num) (by norm_num) (by norm_num)
      (by norm_num [IA.sinQ, IA.cosQ, IA.errW, IA.taylErr]) (by norm_num [IA.sinQ, IA.cosQ, IA.errW, IA.taylErr])
  have h64p7 : (IA.IQ.mk 8715394317174186993520319e-25 8715394317189026051715855e-25).memR (Real.cos ((5124631007284996534e-19 : ℚ) : ℝ)) :=
    IA.cos_mem 5124631007284996534e-19 h64p5 (by norm_num) (by norm_num) (by norm_num) (by norm_num)
      (by norm_num [IA.sinQ, IA.cosQ, IA.errW, IA.taylErr]) (by norm_num [IA.sinQ, IA.cosQ, IA.errW, IA.taylErr])
  have h64p8 : (IA.IQ.mk 5625969447211654791591048e-25 5625969447238259975653911e-25).memR (Real.tan ((5124631007284996534e-19 : ℚ) : ℝ)) :=
    IA.tan_mem h64p6 h64p7 (by norm_num) (by norm_num) (by norm_num)
      (by norm_num) (by norm_num)
  have h65 : (IA.IQ.mk 51246310070849965339e-20 5124631007284996534e-19).memR (Real.arctan ((syR ((0.08288 : ℝ)) (((-0.0728) : ℝ))) / ((Hgeo) - (sxR ((0.08288 : ℝ)) (((-0.0728) : ℝ)))))) :=
    IA.arctan_mem 51246310070849965339e-20 5124631007284996534e-19 h60 h64p4 h64p8 (by norm_num)
      (by norm_num) (by norm_num) (by norm_num) (by norm_num) (by norm_num)
  have h66 : (IA.IQ.mk (-1308996939e-9) (-1308996939e-9)).memR (lambda_0) :=
    IA.memR_of_bounds (by norm_num [lambda_0]) (by norm_num [lambda_0])
  have h67 : (IA.IQ.mk (-18214600397284996534e-19) (-182146003970849965339e-20)).memR ((lambda_0) - (Real.arctan ((syR ((0.08288 : ℝ)) (((-0.0728) : ℝ))) / ((Hgeo) - (sxR ((0.08288 : ℝ)) (((-0.0728) : ℝ))))))) :=
    IA.sub_mem h66 h65 (by norm_num) (by norm_num)
  have h68 : (IA.IQ.mk (-1043619728281742807111144e-22) (-1043619728270283651199475e-22)).memR (((lambda_0) - (Real.arctan ((syR ((0.08288 : ℝ)) (((-0.0728) : ℝ))) / ((Hgeo) - (sxR ((0.08288 : ℝ)) (((-0.0728) : ℝ))))))) * (180 / Real.pi)) :=
    IA.mul_mem h67 h57 (by norm_num) (by norm_num) (by norm_num) (by norm_num)
      (by norm_num) (by norm_num) (by norm_num) (by norm_num)
  have h69 : (IA.IQ.mk (-1043619728281742807111144e-22) (-1043619728270283651199475e-22)).memR (s2gLon ((0.08288 : ℝ)) (((-0.0728) : ℝ))) :=
    by unfold s2gLon; exact h68
  have h70 : (0:ℝ) ≤ (discR ((0.08288 : ℝ)) (((-0.0728) : ℝ))) :=
    le_trans (by norm_num : (0:ℝ) ≤ ((76301177600034336152766e-9 : ℚ) : ℝ)) h27.1
  have h71 : (aR ((0.08288 : ℝ)) (((-0.0728) : ℝ))) ≠ 0 :=
    ne_of_gt (lt_of_lt_of_le (by norm_num : (0:ℝ) < ((1000046188336761559620714e-24 : ℚ) : ℝ)) h16.1)
  have h72 : ((Hgeo) - (sxR ((0.08288 : ℝ)) (((-0.0728) : ℝ)))) ≠ 0 :=
    ne_of_gt (lt_of_lt_of_le (by norm_num : (0:ℝ) < ((485323699193166585698607e-17 : ℚ) : ℝ)) h44.1)
  have h73 : (Real.sqrt ((((Hgeo) - (sxR ((0.08288 : ℝ)) (((-0.0728) : ℝ)))) * ((Hgeo) - (sxR ((0.08288 : ℝ)) (((-0.0728) : ℝ))))) + ((syR ((0.08288 : ℝ)) (((-0.0728) : ℝ))) * (syR ((0.08288 : ℝ)) (((-0.0728) : ℝ)))))) ≠ 0 :=
    ne_of_gt (lt_of_lt_of_le (by norm_num : (0:ℝ) < ((5568579934854856112196962e-18 : ℚ) : ℝ)) h48.1)
  refine ⟨_, _, scan_to_geod_agree 0.08288 (-0.0728) h70 h71 h72 h73, ?_, ?_⟩
  · exact IA.abs_lt_of_rat (IA.abs_sub_lt_of_memR h59 29.264 0.0005
      (by norm_num) (by norm_num)) (by norm_num) (by norm_num)
  · exact IA.abs_lt_of_rat (IA.abs_sub_lt_of_memR h69 (-104.362) 0.0005
      (by norm_num) (by norm_num)) (by norm_num) (by norm_num)

set_option maxHeartbeats 4000000 in
/-- Southeast corner fixture of `scan_to_geod`: scan angles (0.08288, -0.0448) map to (28.846, -92.234) degrees to three decimal places. -/
theorem s2g_corner_se :
    ∃ la lo, scan_to_geod (F.fin 0.08288) (F.fin (-0.0448)) = .ok (F.fin la, F.fin lo) ∧
      |la - 28.846| < 0.0005 ∧ |lo - (-92.234)| < 0.0005 := by
  have h1 : (IA.IQ.mk 8288e-5 8288e-5).memR ((0.08288 : ℝ)) :=
    IA.memR_of_bounds (by norm_num) (by norm_num)
  have h2 : (IA.IQ.mk (-448e-4) (-448e-4)).memR (((-0.0448) : ℝ)) :=
    IA.memR_of_bounds (by norm_num) (by norm_num)
  have h3 : (IA.IQ.mk (-4478501560512637364306722e-26) (-4478501560512637364306691e-26)).memR (Real.sin (((-0.0448) : ℝ))) :=
    IA.sin_mem 448e-4 h2 (by norm_num) (by norm_num) (by norm_num) (by norm_num)
      (by norm_num [IA.sinQ, IA.cosQ, IA.errW, IA.taylErr]) (by norm_num [IA.sinQ, IA.cosQ, IA.errW, IA.taylErr])
  have h4 : (IA.IQ.mk 9989966478308366111575804e-25 9989966478308366111575808e-25).memR (Real.cos (((-0.0448) : ℝ))) :=
    IA.cos_mem 448e-4 h2 (by norm_num) (by norm_num) (by norm_num) (by norm_num)
      (by norm_num [IA.sinQ, IA.cosQ, IA.errW, IA.taylErr]) (by norm_num [IA.sinQ, IA.cosQ, IA.errW, IA.taylErr])
  have h5 : (IA.IQ.mk 8278514749275753208221883e-26 8278514749275753208269401e-26).memR (Real.sin ((0.08288 : ℝ))) :=
    IA.sin_mem 8288e-5 h1 (by norm_num) (by norm_num) (by norm_num) (by norm_num)
      (by norm_num [IA.sinQ, IA.cosQ, IA.errW, IA.taylErr]) (by norm_num [IA.sinQ, IA.cosQ, IA.errW, IA.taylErr])
  have h6 : (IA.IQ.mk 9965674183689743633393251e-25 9965674183689743633398004e-25).memR (Real.cos ((0.08288 : ℝ))) :=
    IA.cos_mem 8288e-5 h1 (by norm_num) (by norm_num) (by norm_num) (by norm_num)
      (by norm_num [IA.sinQ, IA.cosQ, IA.errW, IA.taylErr]) (by norm_num [IA.sinQ, IA.cosQ, IA.errW, IA.taylErr])
  have h7 : (IA.IQ.mk 200569762275141280717864e-26 2005697622751412807178669e-27).memR ((Real.sin (((-0.0448) : ℝ))) * (Real.sin (((-0.0448) : ℝ)))) :=
    IA.mul_mem h3 h3 (by norm_num) (by norm_num) (by norm_num) (by norm_num)
      (by norm_num) (by norm_num) (by norm_num) (by norm_num)
  have h8 : (IA.IQ.mk 9979943023772485871928206e-25 9979943023772485871928215e-25).memR ((Real.cos (((-0.0448) : ℝ))) * (Real.cos (((-0.0448) : ℝ)))) :=
    IA.mul_mem h4 h4 (by norm_num) (by norm_num) (by norm_num) (by norm_num)
      (by norm_num) (by norm_num) (by norm_num) (by norm_num)
  have h9 : (IA.IQ.mk 9999999999999999999999992e-25 1000000000000000000000001e-24).memR (((Real.sin (((-0.0448) : ℝ))) * (Real.sin (((-0.0448) : ℝ)))) + ((Real.cos (((-0.0448) : ℝ))) * (Real.cos (((-0.0448) : ℝ))))) :=
    IA.add_mem h7 h8 (by norm_num) (by norm_num)
  have h10 : (IA.IQ.mk 9931466193546023812986722e-25 9931466193546023812996196e-25).memR ((Real.cos ((0.08288 : ℝ))) * (Real.cos ((0.08288 : ℝ)))) :=
    IA.mul_mem h6 h6 (by norm_num) (by norm_num) (by norm_num) (by norm_num)
      (by norm_num) (by norm_num) (by norm_num) (by norm_num)
  have h11 : (IA.IQ.mk 6853380645397618700377389e-27 6853380645397618700456065e-27).memR ((Real.sin ((0.08288 : ℝ))) * (Real.sin ((0.08288 : ℝ)))) :=
    IA.mul_mem h5 h5 (by norm_num) (by norm_num) (by norm_num) (by norm_num)
      (by norm_num) (by norm_num) (by norm_num) (by norm_num)
  have h12 : (IA.IQ.mk 1006739496775591671796869e-24 100673949677559167179687e-23).memR (r_eq * r_eq / (r_pol * r_pol)) :=
    IA.memR_of_bounds (by norm_num [r_eq, r_pol]) (by norm_num [r_eq, r_pol])
  have h13 : (IA.IQ.mk 6899568982159178322242351e-27 6899568982159178322321565e-27).memR ((r_eq * r_eq / (r_pol * r_pol)) * ((Real.sin ((0.08288 : ℝ))) * (Real.sin ((0.08288 : ℝ))))) :=
    IA.mul_mem h12 h11 (by norm_num) (by norm_num) (by norm_num) (by norm_num)
      (by norm_num) (by norm_num) (by norm_num) (by norm_num)
  have h14 : (IA.IQ.mk 1000046188336761559620914e-24 1000046188336761559621942e-24).memR (((Real.cos ((0.08288 : ℝ))) * (Real.cos ((0.08288 : ℝ)))) + ((r_eq * r_eq / (r_pol * r_pol)) * ((Real.sin ((0.08288 : ℝ))) * (Real.sin ((0.08288 : ℝ)))))) :=
    IA.add_mem h10 h13 (by norm_num) (by norm_num)
  have h15 : (IA.IQ.mk 1000046188336761559620913e-24 1000046188336761559621944e-24).memR ((((Real.sin (((-0.0448) : ℝ))) * (Real.sin (((-0.0448) : ℝ)))) + ((Real.cos (((-0.0448) : ℝ))) * (Real.cos (((-0.0448) : ℝ))))) * (((Real.cos ((0.08288 : ℝ))) * (Real.cos ((0.08288 : ℝ)))) + ((r_eq * r_eq / (r_pol * r_pol)) * ((Real.sin ((0.08288 : ℝ))) * (Real.sin ((0.08288 : ℝ))))))) :=
    IA.mul_mem h9 h14 (by norm_num) (by norm_num) (by norm_num) (by norm_num)
      (by norm_num) (by norm_num) (by norm_num) (by norm_num)
  have h16 : (IA.IQ.mk 1000046188336761559620913e-24 1000046188336761559621944e-24).memR (aR ((0.08288 : ℝ)) (((-0.0448) : ℝ))) :=
    by unfold aR; exact h15
  have h17 : (IA.IQ.mk (-84328320) (-84328320)).memR (-2 * Hgeo) :=
    IA.memR_of_bounds (by norm_num [Hgeo]) (by norm_num [Hgeo])
  have h18 : (IA.IQ.mk (-8424370899720609561341205e-17) (-8424370899720609561341201e-17)).memR ((-2 * Hgeo) * (Real.cos (((-0.0448) : ℝ)))) :=
    IA.mul_mem h17 h4 (by norm_num) (by norm_num) (by norm_num) (by norm_num)
      (by norm_num) (by norm_num) (by norm_num) (by norm_num)
  have h19 : (IA.IQ.mk (-8395453558917281681194671e-17) (-8395453558917281681190662e-17)).memR (((-2 * Hgeo) * (Real.cos (((-0.0448) : ℝ)))) * (Real.cos ((0.08288 : ℝ)))) :=
    IA.mul_mem h18 h6 (by norm_num) (by norm_num) (by norm_num) (by norm_num)
      (by norm_num) (by norm_num) (by norm_num) (by norm_num)
  have h20 : (IA.IQ.mk (-8395453558917281681194671e-17) (-8395453558917281681190662e-17)).memR (bR ((0.08288 : ℝ)) (((-0.0448) : ℝ))) :=
    by unfold bR; exact h19
  have h21 : (IA.IQ.mk 1737135756914831 1737135756914831).memR (cR) :=
    IA.memR_of_bounds (by norm_num [cR, Hgeo, r_eq]) (by norm_num [cR, Hgeo, r_eq])
  have h22 : (IA.IQ.mk 7048364045993685087292213e-9 7048364045993685087298946e-9).memR ((bR ((0.08288 : ℝ)) (((-0.0448) : ℝ))) * (bR ((0.08288 : ℝ)) (((-0.0448) : ℝ)))) :=
    IA.mul_mem h20 h20 (by norm_num) (by norm_num) (by norm_num) (by norm_num)
      (by norm_num) (by norm_num) (by norm_num) (by norm_num)
  have h23 : (IA.IQ.mk 4 4).memR ((4 : ℝ)) :=
    IA.memR_of_bounds (by norm_num) (by norm_num)
  have h24 : (IA.IQ.mk 4000184753347046238483652e-24 4000184753347046238487776e-24).memR (((4 : ℝ)) * (aR ((0.08288 : ℝ)) (((-0.0448) : ℝ)))) :=
    IA.mul_mem h23 h16 (by norm_num) (by norm_num) (by norm_num) (by norm_num)
      (by norm_num) (by norm_num) (by norm_num) (by norm_num)
  have h25 : (IA.IQ.mk 6948863969304687715944486e-9 6948863969304687715951651e-9).memR ((((4 : ℝ)) * (aR ((0.08288 : ℝ)) (((-0.0448) : ℝ)))) * (cR)) :=
    IA.mul_mem h24 h21 (by norm_num) (by norm_num) (by norm_num) (by norm_num)
      (by norm_num) (by norm_num) (by norm_num) (by norm_num)
  have h26 : (IA.IQ.mk 99500076688997371340562e-9 9950007668899737135446e-8).memR (((bR ((0.08288 : ℝ)) (((-0.0448) : ℝ))) * (bR ((0.08288 : ℝ)) (((-0.0448) : ℝ)))) - ((((4 : ℝ)) * (aR ((0.08288 : ℝ)) (((-0.0448) : ℝ)))) * (cR))) :=
    IA.sub_mem h22 h25 (by norm_num) (by norm_num)
  have h27 : (IA.IQ.mk 99500076688997371340562e-9 9950007668899737135446e-8).memR (discR ((0.08288 : ℝ)) (((-0.0448) : ℝ))) :=
    by unfold discR; exact h26
  have h28 : (IA.IQ.mk 8395453558917281681190662e-17 8395453558917281681194671e-17).memR (-bR ((0.08288 : ℝ)) (((-0.0448) : ℝ))) :=
    IA.neg_mem h20 (by norm_num) (by norm_num)
  have h29 : (IA.IQ.mk 9974972515701352614958563e-18 9974972515701352615655208e-18).memR (Real.sqrt (discR ((0.08288 : ℝ)) (((-0.0448) : ℝ)))) :=
    IA.sqrt_mem h27 (by norm_num) (by norm_num) (by norm_num)
  have h30 : (IA.IQ.mk 7397956307347146419625141e-17 7397956307347146419698815e-17).memR ((-bR ((0.08288 : ℝ)) (((-0.0448) : ℝ))) - (Real.sqrt (discR ((0.08288 : ℝ)) (((-0.0448) : ℝ))))) :=
    IA.sub_mem h28 h29 (by norm_num) (by norm_num)
  have h31 : (IA.IQ.mk 2 2).memR ((2 : ℝ)) :=
    IA.memR_of_bounds (by norm_num) (by norm_num)
  have h32 : (IA.IQ.mk 2000092376673523119241826e-24 2000092376673523119243888e-24).memR (((2 : ℝ)) * (aR ((0.08288 : ℝ)) (((-0.0448) : ℝ)))) :=
    IA.mul_mem h31 h16 (by norm_num) (by norm_num) (by norm_num) (by norm_num)
      (by norm_num) (by norm_num) (by norm_num) (by norm_num)
  have h33 : (IA.IQ.mk 3698807311915834322155072e-17 3698807311915834322195721e-17).memR (((-bR ((0.08288 : ℝ)) (((-0.0448) : ℝ))) - (Real.sqrt (discR ((0.08288 : ℝ)) (((-0.0448) : ℝ))))) / (((2 : ℝ)) * (aR ((0.08288 : ℝ)) (((-0.0448) : ℝ))))) :=
    IA.div_mem h30 h32 (by norm_num) (by norm_num) (by norm_num)
      (by norm_num) (by norm_num)
  have h34 : (IA.IQ.mk 3698807311915834322155072e-17 3698807311915834322195721e-17).memR (rsR ((0.08288 : ℝ)) (((-0.0448) : ℝ))) :=
    by unfold rsR; exact h33
  have h35 : (IA.IQ.mk 3695096105576106166397465e-17 3695096105576106166438076e-17).memR ((rsR ((0.08288 : ℝ)) (((-0.0448) : ℝ))) * (Real.cos (((-0.0448) : ℝ)))) :=
    IA.mul_mem h34 h4 (by norm_num) (by norm_num) (by norm_num) (by norm_num)
      (by norm_num) (by norm_num) (by norm_num) (by norm_num)
  have h36 : (IA.IQ.mk 3682412386559231257773163e-17 3682412386559231257815392e-17).memR (((rsR ((0.08288 : ℝ)) (((-0.0448) : ℝ))) * (Real.cos (((-0.0448) : ℝ)))) * (Real.cos ((0.08288 : ℝ)))) :=
    IA.mul_mem h35 h6 (by norm_num) (by norm_num) (by norm_num) (by norm_num)
      (by norm_num) (by norm_num) (by norm_num) (by norm_num)
  have h37 : (IA.IQ.mk 3682412386559231257773163e-17 3682412386559231257815392e-17).memR (sxR ((0.08288 : ℝ)) (((-0.0448) : ℝ))) :=
    by unfold sxR; exact h36
  have h38 : (IA.IQ.mk (-3698807311915834322195721e-17) (-3698807311915834322155072e-17)).memR (-rsR ((0.08288 : ℝ)) (((-0.0448) : ℝ))) :=
    IA.neg_mem h34 (by norm_num) (by norm_num)
  have h39 : (IA.IQ.mk 1656511431845061743193188e-18 1656511431845061743211405e-18).memR ((-rsR ((0.08288 : ℝ)) (((-0.0448) : ℝ))) * (Real.sin (((-0.0448) : ℝ)))) :=
    IA.mul_mem h38 h3 (by norm_num) (by norm_num) (by norm_num) (by norm_num)
      (by norm_num) (by norm_num) (by norm_num) (by norm_num)
  have h40 : (IA.IQ.mk 1656511431845061743193188e-18 1656511431845061743211405e-18).memR (syR ((0.08288 : ℝ)) (((-0.0448) : ℝ))) :=
    by unfold syR; exact h39
  have h41 : (IA.IQ.mk 3058990761000319064631205e-18 3058990761000319064682385e-18).memR (((rsR ((0.08288 : ℝ)) (((-0.0448) : ℝ))) * (Real.cos (((-0.0448) : ℝ)))) * (Real.sin ((0.08288 : ℝ)))) :=
    IA.mul_mem h35 h5 (by norm_num) (by norm_num) (by norm_num) (by norm_num)
      (by norm_num) (by norm_num) (by norm_num) (by norm_num)
  have h42 : (IA.IQ.mk 3058990761000319064631205e-18 3058990761000319064682385e-18).memR (szR ((0.08288 : ℝ)) (((-0.0448) : ℝ))) :=
    by unfold szR; exact h41
  have h43 : (IA.IQ.mk 42164160 42164160).memR (Hgeo) :=
    IA.memR_of_bounds (by norm_num [Hgeo]) (by norm_num [Hgeo])
  have h44 : (IA.IQ.mk 534003613440768742184608e-17 534003613440768742226837e-17).memR ((Hgeo) - (sxR ((0.08288 : ℝ)) (((-0.0448) : ℝ)))) :=
    IA.sub_mem h43 h37 (by norm_num) (by norm_num)
  have h45 : (IA.IQ.mk 2851598591677979708423694e-11 2851598591677979708874704e-11).memR (((Hgeo) - (sxR ((0.08288 : ℝ)) (((-0.0448) : ℝ)))) * ((Hgeo) - (sxR ((0.08288 : ℝ)) (((-0.0448) : ℝ))))) :=
    IA.mul_mem h44 h44 (by norm_num) (by norm_num) (by norm_num) (by norm_num)
      (by norm_num) (by norm_num) (by norm_num) (by norm_num)
  have h46 : (IA.IQ.mk 2744030123833376636714734e-12 2744030123833376636775088e-12).memR ((syR ((0.08288 : ℝ)) (((-0.0448) : ℝ))) * (syR ((0.08288 : ℝ)) (((-0.0448) : ℝ)))) :=
    IA.mul_mem h40 h40 (by norm_num) (by norm_num) (by norm_num) (by norm_num)
      (by norm_num) (by norm_num) (by norm_num) (by norm_num)
  have h47 : (IA.IQ.mk 3126001604061317372095167e-11 3126001604061317372552213e-11).memR ((((Hgeo) - (sxR ((0.08288 : ℝ)) (((-0.0448) : ℝ)))) * ((Hgeo) - (sxR ((0.08288 : ℝ)) (((-0.0448) : ℝ))))) + ((syR ((0.08288 : ℝ)) (((-0.0448) : ℝ))) * (syR ((0.08288 : ℝ)) (((-0.0448) : ℝ))))) :=
    IA.add_mem h45 h46 (by norm_num) (by norm_num)
  have h48 : (IA.IQ.mk 5591065733884120032145041e-18 5591065733884120032553771e-18).memR (Real.sqrt ((((Hgeo) - (sxR ((0.08288 : ℝ)) (((-0.0448) : ℝ)))) * ((Hgeo) - (sxR ((0.08288 : ℝ)) (((-0.0448) : ℝ))))) + ((syR ((0.08288 : ℝ)) (((-0.0448) : ℝ))) * (syR ((0.08288 : ℝ)) (((-0.0448) : ℝ)))))) :=
    IA.sqrt_mem h47 (by norm_num) (by norm_num) (by norm_num)
  have h49 : (IA.IQ.mk 5471212299404025313049269e-25 5471212299404025313540778e-25).memR ((szR ((0.08288 : ℝ)) (((-0.0448) : ℝ))) / (Real.sqrt ((((Hgeo) - (sxR ((0.08288 : ℝ)) (((-0.0448) : ℝ)))) * ((Hgeo) - (sxR ((0.08288 : ℝ)) (((-0.0448) : ℝ))))) + ((syR ((0.08288 : ℝ)) (((-0.0448) : ℝ))) * (syR ((0.08288 : ℝ)) (((-0.0448) : ℝ))))))) :=
    IA.div_mem h42 h48 (by norm_num) (by norm_num) (by norm_num)
      (by norm_num) (by norm_num)
  have h50 : (IA.IQ.mk 5508085517054436238080823e-25 5508085517054436238575651e-25).memR ((r_eq * r_eq / (r_pol * r_pol)) * ((szR ((0.08288 : ℝ)) (((-0.0448) : ℝ))) / (Real.sqrt ((((Hgeo) - (sxR ((0.08288 : ℝ)) (((-0.0448) : ℝ)))) * ((Hgeo) - (sxR ((0.08288 : ℝ)) (((-0.0448) : ℝ))))) + ((syR ((0.08288 : ℝ)) (((-0.0448) : ℝ))) * (syR ((0.08288 : ℝ)) (((-0.0448) : ℝ)))))))) :=
    IA.mul_mem h12 h49 (by norm_num) (by norm_num) (by norm_num) (by norm_num)
      (by norm_num) (by norm_num) (by norm_num) (by norm_num)
  have h54p1 : (IA.IQ.mk 50346376802939552058e-20 50346376802939552058e-20).memR ((50346376802939552058e-20 : ℚ) : ℝ) :=
    IA.memR_const le_rfl le_rfl
  have h54p2 : (IA.IQ.mk 4824623989499315172834151e-25 4824623989511312204354775e-25).memR (Real.sin ((50346376802939552058e-20 : ℚ) : ℝ)) :=
    IA.sin_mem 50346376802939552058e-20 h54p1 (by norm_num) (by norm_num) (by norm_num) (by norm_num)
      (by norm_num [IA.sinQ, IA.cosQ, IA.errW, IA.taylErr]) (by norm_num [IA.sinQ, IA.cosQ, IA.errW, IA.taylErr])
  have h54p3 : (IA.IQ.mk 8759166818806787312252973e-25 8759166818818784343773597e-25).memR (Real.cos ((50346376802939552058e-20 : ℚ) : ℝ)) :=
    IA.cos_mem 50346376802939552058e-20 h54p1 (by norm_num) (by norm_num) (by norm_num) (by norm_num)
      (by norm_num [IA.sinQ, IA.cosQ, IA.errW, IA.taylErr]) (by norm_num [IA.sinQ, IA.cosQ, IA.errW, IA.taylErr])
  have h54p4 : (IA.IQ.mk 5508085516916709274039996e-25 5508085516937949991863925e-25).memR (Real.tan ((50346376802939552058e-20 : ℚ) : ℝ)) :=
    IA.tan_mem h54p2 h54p3 (by norm_num) (by norm_num) (by norm_num)
      (by norm_num) (by norm_num)
  have h54p5 : (IA.IQ.mk 50346376804939552059e-20 50346376804939552059e-20).memR ((50346376804939552059e-20 : ℚ) : ℝ) :=
    IA.memR_const le_rfl le_rfl
  have h54p6 : (IA.IQ.mk 4824623989674498509294174e-25 4824623989686495540820516e-25).memR (Real.sin ((50346376804939552059e-20 : ℚ) : ℝ)) :=
    IA.sin_mem 50346376804939552059e-20 h54p5 (by norm_num) (by norm_num) (by norm_num) (by norm_num)
      (by norm_num [IA.sinQ, IA.cosQ, IA.errW, IA.taylErr]) (by norm_num [IA.sinQ, IA.cosQ, IA.errW, IA.taylErr])
  have h54p7 : (IA.IQ.mk 8759166818710294832407369e-25 8759166818722291863933712e-25).memR (Real.cos ((50346376804939552059e-20 : ℚ) : ℝ)) :=
    IA.cos_mem 50346376804939552059e-20 h54p5 (by norm_num) (by norm_num) (by norm_num) (by norm_num)
      (by norm_num [IA.sinQ, IA.cosQ, IA.errW, IA.taylErr]) (by norm_num [IA.sinQ, IA.cosQ, IA.errW, IA.taylErr])
  have h54p8 : (IA.IQ.mk 5508085517177387286293078e-25 5508085517198628004127722e-25).memR (Real.tan ((50346376804939552059e-20 : ℚ) : ℝ)) :=
    IA.tan_mem h54p6 h54p7 (by norm_num) (by norm_num) (by norm_num)
      (by norm_num) (by norm_num)
  have h55 : (IA.IQ.mk 50346376802939552058e-20 50346376804939552059e-20).memR (Real.arctan ((r_eq * r_eq / (r_pol * r_pol)) * ((szR ((0.08288 : ℝ)) (((-0.0448) : ℝ))) / (Real.sqrt ((((Hgeo) - (sxR ((0.08288 : ℝ)) (((-0.0448) : ℝ)))) * ((Hgeo) - (sxR ((0.08288 : ℝ)) (((-0.0448) : ℝ))))) + ((syR ((0.08288 : ℝ)) (((-0.0448) : ℝ))) * (syR ((0.08288 : ℝ)) (((-0.0448) : ℝ))))))))) :=
    IA.arctan_mem 50346376802939552058e-20 50346376804939552059e-20 h50 h54p4 h54p8 (by norm_num)
      (by norm_num) (by norm_num) (by norm_num) (by norm_num) (by norm_num)
  have h56 : (IA.IQ.mk 180 180).memR ((180 : ℝ)) :=
    IA.memR_of_bounds (by norm_num) (by norm_num)
  have h57 : (IA.IQ.mk 5729577951308232087666398e-23 5729577951308232087684637e-23).memR (180 / Real.pi) :=
    IA.div_mem h56 IA.pi_mem20 (by norm_num) (by norm_num) (by norm_num)
      (by norm_num) (by norm_num)
  have h58 : (IA.IQ.mk 2884634904583786982857426e-23 288463490469837854195007e-22).memR ((Real.arctan ((r_eq * r_eq / (r_pol * r_pol)) * ((szR ((0.08288 : ℝ)) (((-0.0448) : ℝ))) / (Real.sqrt ((((Hgeo) - (sxR ((0.08288 : ℝ)) (((-0.0448) : ℝ)))) * ((Hgeo) - (sxR ((0.08288 : ℝ)) (((-0.0448) : ℝ))))) + ((syR ((0.08288 : ℝ)) (((-0.0448) : ℝ))) * (syR ((0.08288 : ℝ)) (((-0.0448) : ℝ))))))))) * (180 / Real.pi)) :=
    IA.mul_mem h55 h57 (by norm_num) (by norm_num) (by norm_num) (by norm_num)
      (by norm_num) (by norm_num) (by norm_num) (by norm_num)
  have h59 : (IA.IQ.mk 2884634904583786982857426e-23 288463490469837854195007e-22).memR (s2gLat ((0.08288 : ℝ)) (((-0.0448) : ℝ))) :=
    by unfold s2gLat; exact h58
  have h60 : (IA.IQ.mk 3102060342198041472522407e-25 3102060342198041472801833e-25).memR ((syR ((0.08288 : ℝ)) (((-0.0448) : ℝ))) / ((Hgeo) - (sxR ((0.08288 : ℝ)) (((-0.0448) : ℝ))))) :=
    IA.div_mem h40 h44 (by norm_num) (by norm_num) (by norm_num)
      (by norm_num) (by norm_num)
  have h61p1 : (IA.IQ.mk 3007936293638904166e-19 3007936293638904166e-19).memR ((3007936293638904166e-19 : ℚ) : ℝ) :=
    IA.memR_const le_rfl le_rfl
  have h61p2 : (IA.IQ.mk 2962782966055776750585262e-25 2962782966055801563554937e-25).memR (Real.sin ((3007936293638904166e-19 : ℚ) : ℝ)) :=
    IA.sin_mem 3007936293638904166e-19 h61p1 (by norm_num) (by norm_num) (by norm_num) (by norm_num)
      (by norm_num [IA.sinQ, IA.cosQ, IA.errW, IA.taylErr]) (by norm_num [IA.sinQ, IA.cosQ, IA.errW, IA.taylErr])
  have h61p3 : (IA.IQ.mk 9551016547784283014438567e-25 9551016547784307827408242e-25).memR (Real.cos ((3007936293638904166e-19 : ℚ) : ℝ)) :=
    IA.cos_mem 3007936293638904166e-19 h61p1 (by norm_num) (by norm_num) (by norm_num) (by norm_num)
      (by norm_num [IA.sinQ, IA.cosQ, IA.errW, IA.taylErr]) (by norm_num [IA.sinQ, IA.cosQ, IA.errW, IA.taylErr])
  have h61p4 : (IA.IQ.mk 310206034219791801376031e-24 310206034219795205212935e-24).memR (Real.tan ((3007936293638904166e-19 : ℚ) : ℝ)) :=
    IA.tan_mem h61p2 h61p3 (by norm_num) (by norm_num) (by norm_num)
      (by norm_num) (by norm_num)
  have h61p5 : (IA.IQ.mk 30079362936391041661e-20 30079362936391041661e-20).memR ((30079362936391041661e-20 : ℚ) : ℝ) :=
    IA.memR_const le_rfl le_rfl
  have h61p6 : (IA.IQ.mk 2962782966055967771011728e-25 2962782966055992583981403e-25).memR (Real.sin ((30079362936391041661e-20 : ℚ) : ℝ)) :=
    IA.sin_mem 30079362936391041661e-20 h61p5 (by norm_num) (by norm_num) (by norm_num) (by norm_num)
      (by norm_num [IA.sinQ, IA.cosQ, IA.errW, IA.taylErr]) (by norm_num [IA.sinQ, IA.cosQ, IA.errW, IA.taylErr])
  have h61p7 : (IA.IQ.mk 9551016547784223758749618e-25 9551016547784248571719293e-25).memR (Real.cos ((30079362936391041661e-20 : ℚ) : ℝ)) :=
    IA.cos_mem 30079362936391041661e-20 h61p5 (by norm_num) (by norm_num) (by norm_num) (by norm_num)
      (by norm_num [IA.sinQ, IA.cosQ, IA.errW, IA.taylErr]) (by norm_num [IA.sinQ, IA.cosQ, IA.errW, IA.taylErr])
  have h61p8 : (IA.IQ.mk 3102060342198137259426667e-25 3102060342198171297795707e-25).memR (Real.tan ((30079362936391041661e-20 : ℚ) : ℝ)) :=
    IA.tan_mem h61p6 h61p7 (by norm_num) (by norm_num) (by norm_num)
      (by norm_num) (by norm_num)
  have h62 : (IA.IQ.mk 3007936293638904166e-19 30079362936391041661e-20).memR (Real.arctan ((syR ((0.08288 : ℝ)) (((-0.0448) : ℝ))) / ((Hgeo) - (sxR ((0.08288 : ℝ)) (((-0.0448) : ℝ)))))) :=
    IA.arctan_mem 3007936293638904166e-19 30079362936391041661e-20 h60 h61p4 h61p8 (by norm_num)
      (by norm_num) (by norm_num) (by norm_num) (by norm_num) (by norm_num)
  have h63 : (IA.IQ.mk (-1308996939e-9) (-1308996939e-9)).memR (lambda_0) :=
    IA.memR_of_bounds (by norm_num [lambda_0]) (by norm_num [lambda_0])
  have h64 : (IA.IQ.mk (-160979056836391041661e-20) (-16097905683638904166e-19)).memR ((lambda_0) - (Real.arctan ((syR ((0.08288 : ℝ)) (((-0.0448) : ℝ))) / ((Hgeo) - (sxR ((0.08288 : ℝ)) (((-0.0448) : ℝ))))))) :=
    IA.sub_mem h63 h62 (by norm_num) (by norm_num)
  have h65 : (IA.IQ.mk (-9223420546721808374769727e-23) (-9223420546721693783124043e-23)).memR (((lambda_0) - (Real.arctan ((syR ((0.08288 : ℝ)) (((-0.0448) : ℝ))) / ((Hgeo) - (sxR ((0.08288 : ℝ)) (((-0.0448) : ℝ))))))) * (180 / Real.pi)) :=
    IA.mul_mem h64 h57 (by norm_num) (by norm_num) (by norm_num) (by norm_num)
      (by norm_num) (by norm_num) (by norm_num) (by norm_num)
  have h66 : (IA.IQ.mk (-9223420546721808374769727e-23) (-9223420546721693783124043e-23)).memR (s2gLon ((0.08288 : ℝ)) (((-0.0448) : ℝ))) :=
    by unfold s2gLon; exact h65
  have h67 : (0:ℝ) ≤ (discR ((0.08288 : ℝ)) (((-0.0448) : ℝ))) :=
    le_trans (by norm_num : (0:ℝ) ≤ ((99500076688997371340562e-9 : ℚ) : ℝ)) h27.1
  have h68 : (aR ((0.08288 : ℝ)) (((-0.0448) : ℝ))) ≠ 0 :=
    ne_of_gt (lt_of_lt_of_le (by norm_num : (0:ℝ) < ((1000046188336761559620913e-24 : ℚ) : ℝ)) h16.1)
  have h69 : ((Hgeo) - (sxR ((0.08288 : ℝ)) (((-0.0448) : ℝ)))) ≠ 0 :=
    ne_of_gt (lt_of_lt_of_le (by norm_num : (0:ℝ) < ((534003613440768742184608e-17 : ℚ) : ℝ)) h44.1)
  have h70 : (Real.sqrt ((((Hgeo) - (sxR ((0.08288 : ℝ)) (((-0.0448) : ℝ)))) * ((Hgeo) - (sxR ((0.08288 : ℝ)) (((-0.0448) : ℝ))))) + ((syR ((0.08288 : ℝ)) (((-0.0448) : ℝ))) * (syR ((0.08288 : ℝ)) (((-0.0448) : ℝ)))))) ≠ 0 :=
    ne_of_gt (lt_of_lt_of_le (by norm_num : (0:ℝ) < ((5591065733884120032145041e-18 : ℚ) : ℝ)) h48.1)
  refine ⟨_, _, scan_to_geod_agree 0.08288 (-0.0448) h67 h68 h69 h70, ?_, ?_⟩
  · exact IA.abs_lt_of_rat (IA.abs_sub_lt_of_memR h59 28.846 0.0005
      (by norm_num) (by norm_num)) (by norm_num) (by norm_num)
  · exact IA.abs_lt_of_rat (IA.abs_sub_lt_of_memR h66 (-92.234) 0.0005
      (by norm_num) (by norm_num)) (by norm_num) (by norm_num)

/-- C2: Known-value regression: both documented `geod_to_scan` fixtures match
to four decimal places and all four documented `scan_to_geod` corner fixtures
match to three decimal places. -/
theorem known_value_regression :
    (∃ ry rx, geod_to_scan (F.fin 48.0563) (F.fin (-70.1242)) = .ok (F.fin ry, F.fin rx) ∧
      |ry - 0.12390| < 0.00005 ∧ |rx - 0.00950| < 0.00005) ∧
    (∃ ry rx, geod_to_scan (F.fin 33.943546) (F.fin (-84.52599)) = .ok (F.fin ry, F.fin rx) ∧
      |ry - 0.09557| < 0.00005 ∧ |rx - (-0.02361)| < 0.00005) ∧
    (∃ la lo, scan_to_geod (F.fin 0.11088) (F.fin (-0.0728)) = .ok (F.fin la, F.fin lo) ∧
      |la - 42.324| < 0.0005 ∧ |lo - (-111.599)| < 0.0005) ∧
    (∃ la lo, scan_to_geod (F.fin 0.11088) (F.fin (-0.0448)) = .ok (F.fin la, F.fin lo) ∧
      |la - 41.398| < 0.0005 ∧ |lo - (-95.779)| < 0.0005) ∧
    (∃ la lo, scan_to_geod (F.fin 0.08288) (F.fin (-0.0728)) = .ok (F.fin la, F.fin lo) ∧
      |la - 29.264| < 0.0005 ∧ |lo - (-104.362)| < 0.0005) ∧
    (∃ la lo, scan_to_geod (F.fin 0.08288) (F.fin (-0.0448)) = .ok (F.fin la, F.fin lo) ∧
      |la - 28.846| < 0.0005 ∧ |lo - (-92.234)| < 0.0005) :=
  ⟨g2s_fixture_one, g2s_fixture_two, s2g_corner_nw, s2g_corner_ne,
   s2g_corner_sw, s2g_corner_se⟩

end Proj
namespace Proj

set_option maxHeartbeats 4000000 in
/-- C1 is false as stated: the visible-disk point (0, -20) (its longitude is within 60 degrees of the nadir longitude `lambda_0 * (180 / pi)`, about -75) does not round-trip: composing `geod_to_scan` with `scan_to_geod` moves the longitude by more than 1e-4 degrees (in fact by about 0.31 degrees), because `geod_to_scan` omits the final arcsine of the GOES-R scan-angle formula. -/
theorem round_trip_cex :
    |(0 : ℝ)| ≤ 60 ∧
    lambda_0 * (180 / Real.pi) - 60 ≤ (-20 : ℝ) ∧
    ((-20 : ℝ) ≤ lambda_0 * (180 / Real.pi) + 60) ∧
    ∃ y1 x1 la lo, geod_to_scan (F.fin 0) (F.fin (-20)) = .ok (F.fin y1, F.fin x1) ∧
      scan_to_geod (F.fin y1) (F.fin x1) = .ok (F.fin la, F.fin lo) ∧
      (1e-4 : ℝ) < |lo - (-20)| := by
  have h1 : (IA.IQ.mk 180 180).memR ((180 : ℝ)) :=
    IA.memR_of_bounds (by norm_num) (by norm_num)
  have h2 : (IA.IQ.mk 1745329251994329576922222e-26 1745329251994329576927778e-26).memR (Real.pi / 180) :=
    IA.div_mem IA.pi_mem20 h1 (by norm_num) (by norm_num) (by norm_num)
      (by norm_num) (by norm_num)
  have h3 : (IA.IQ.mk 0 0).memR ((0 : ℝ)) :=
    IA.memR_of_bounds (by norm_num) (by norm_num)
  have h4 : (IA.IQ.mk (-20) (-20)).memR (((-20) : ℝ)) :=
    IA.memR_of_bounds (by norm_num) (by norm_num)
  have h5 : (IA.IQ.mk 0 0).memR ((0 : ℝ) * (Real.pi / 180)) :=
    IA.mul_mem h3 h2 (by norm_num) (by norm_num) (by norm_num) (by norm_num)
      (by norm_num) (by norm_num) (by norm_num) (by norm_num)
  have h6 : (IA.IQ.mk (-3490658503988659153855556e-25) (-3490658503988659153844444e-25)).memR (((-20) : ℝ) * (Real.pi / 180)) :=
    IA.mul_mem h4 h2 (by norm_num) (by norm_num) (by norm_num) (by norm_num)
      (by norm_num) (by norm_num) (by norm_num) (by norm_num)
  have h7 : (IA.IQ.mk 9933056199769880028595027e-25 9933056199769880028595028e-25).memR (r_pol * r_pol / (r_eq * r_eq)) :=
    IA.memR_of_bounds (by norm_num [r_pol, r_eq]) (by norm_num [r_pol, r_eq])
  have h8 : (IA.IQ.mk 0 0).memR (Real.sin ((0 : ℝ) * (Real.pi / 180))) :=
    IA.sin_mem 0 h5 (by norm_num) (by norm_num) (by norm_num) (by norm_num)
      (by norm_num [IA.sinQ, IA.cosQ, IA.errW, IA.taylErr]) (by norm_num [IA.sinQ, IA.cosQ, IA.errW, IA.taylErr])
  have h9 : (IA.IQ.mk 1 1).memR (Real.cos ((0 : ℝ) * (Real.pi / 180))) :=
    IA.cos_mem 0 h5 (by norm_num) (by norm_num) (by norm_num) (by norm_num)
      (by norm_num [IA.sinQ, IA.cosQ, IA.errW, IA.taylErr]) (by norm_num [IA.sinQ, IA.cosQ, IA.errW, IA.taylErr])
  have h10 : (IA.IQ.mk 0 0).memR (Real.tan ((0 : ℝ) * (Real.pi / 180))) :=
    IA.tan_mem h8 h9 (by norm_num) (by norm_num) (by norm_num)
      (by norm_num) (by norm_num)
  have h11 : (IA.IQ.mk 0 0).memR ((r_pol * r_pol / (r_eq * r_eq)) * (Real.tan ((0 : ℝ) * (Real.pi / 180)))) :=
    IA.mul_mem h7 h10 (by norm_num) (by norm_num) (by norm_num) (by norm_num)
      (by norm_num) (by norm_num) (by norm_num) (by norm_num)
  have h12p1 : (IA.IQ.mk (-1e-14) (-1e-14)).memR (((-1e-14) : ℚ) : ℝ) :=
    IA.memR_const le_rfl le_rfl
  have h12p2 : (IA.IQ.mk (-1e-14) (-9999999999999999999999999e-39)).memR (Real.sin (((-1e-14) : ℚ) : ℝ)) :=
    IA.sin_mem 1e-14 h12p1 (by norm_num) (by norm_num) (by norm_num) (by norm_num)
      (by norm_num [IA.sinQ, IA.cosQ, IA.errW, IA.taylErr]) (by norm_num [IA.sinQ, IA.cosQ, IA.errW, IA.taylErr])
  have h12p3 : (IA.IQ.mk 9999999999999999999999999e-25 1).memR (Real.cos (((-1e-14) : ℚ) : ℝ)) :=
    IA.cos_mem 1e-14 h12p1 (by norm_num) (by norm_num) (by norm_num) (by norm_num)
      (by norm_num [IA.sinQ, IA.cosQ, IA.errW, IA.taylErr]) (by norm_num [IA.sinQ, IA.cosQ, IA.errW, IA.taylErr])
  have h12p4 : (IA.IQ.mk (-1000000000000000000000001e-38) (-9999999999999999999999999e-39)).memR (Real.tan (((-1e-14) : ℚ) : ℝ)) :=
    IA.tan_mem h12p2 h12p3 (by norm_num) (by norm_num) (by norm_num)
      (by norm_num) (by norm_num)
  have h12p5 : (IA.IQ.mk 1e-14 1e-14).memR ((1e-14 : ℚ) : ℝ) :=
    IA.memR_const le_rfl le_rfl
  have h12p6 : (IA.IQ.mk 9999999999999999999999999e-39 1e-14).memR (Real.sin ((1e-14 : ℚ) : ℝ)) :=
    IA.sin_mem 1e-14 h12p5 (by norm_num) (by norm_num) (by norm_num) (by norm_num)
      (by norm_num [IA.sinQ, IA.cosQ, IA.errW, IA.taylErr]) (by norm_num [IA.sinQ, IA.cosQ, IA.errW, IA.taylErr])
  have h12p7 : (IA.IQ.mk 9999999999999999999999999e-25 1).memR (Real.cos ((1e-14 : ℚ) : ℝ)) :=
    IA.cos_mem 1e-14 h12p5 (by norm_num) (by norm_num) (by norm_num) (by norm_num)
      (by norm_num [IA.sinQ, IA.cosQ, IA.errW, IA.taylErr]) (by norm_num [IA.sinQ, IA.cosQ, IA.errW, IA.taylErr])
  have h12p8 : (IA.IQ.mk 9999999999999999999999999e-39 1000000000000000000000001e-38).memR (Real.tan ((1e-14 : ℚ) : ℝ)) :=
    IA.tan_mem h12p6 h12p7 (by norm_num) (by norm_num) (by norm_num)
      (by norm_num) (by norm_num)
  have h13 : (IA.IQ.mk (-1e-14) 1e-14).memR (Real.arctan ((r_pol * r_pol / (r_eq * r_eq)) * (Real.tan ((0 : ℝ) * (Real.pi / 180))))) :=
    IA.arctan_mem (-1e-14) 1e-14 h11 h12p4 h12p8 (by norm_num)
      (by norm_num) (by norm_num) (by norm_num) (by norm_num) (by norm_num)
  have h14 : (IA.IQ.mk (-1e-14) 1e-14).memR (thetacR ((0 : ℝ) * (Real.pi / 180))) :=
    by unfold thetacR; exact h13
  have h15 : (IA.IQ.mk 9999999999999899999999999e-25 1000000000000010000000001e-24).memR (Real.cos (thetacR ((0 : ℝ) * (Real.pi / 180)))) :=
    IA.cos_mem 1e-14 h14 (by norm_num) (by norm_num) (by norm_num) (by norm_num)
      (by norm_num [IA.sinQ, IA.cosQ, IA.errW, IA.taylErr]) (by norm_num [IA.sinQ, IA.cosQ, IA.errW, IA.taylErr])
  have h16 : (IA.IQ.mk (-1000000000000000000000001e-38) 1000000000000000000000001e-38).memR (Real.sin (thetacR ((0 : ℝ) * (Real.pi / 180)))) :=
    IA.sin_mem 1e-14 h14 (by norm_num) (by norm_num) (by norm_num) (by norm_num)
      (by norm_num [IA.sinQ, IA.cosQ, IA.errW, IA.taylErr]) (by norm_num [IA.sinQ, IA.cosQ, IA.errW, IA.taylErr])
  have h17 : (IA.IQ.mk 9999999999999799999999998e-25 1000000000000020000000003e-24).memR ((Real.cos (thetacR ((0 : ℝ) * (Real.pi / 180)))) * (Real.cos (thetacR ((0 : ℝ) * (Real.pi / 180))))) :=
    IA.mul_mem h15 h15 (by norm_num) (by norm_num) (by norm_num) (by norm_num)
      (by norm_num) (by norm_num) (by norm_num) (by norm_num)
  have h18 : (IA.IQ.mk 669438002301275061889225e-26 669438002301275061889225e-26).memR (e_ecc * e_ecc) :=
    IA.memR_of_bounds (by norm_num [e_ecc]) (by norm_num [e_ecc])
  have h19 : (IA.IQ.mk 6694380023012616731291788e-27 6694380023012884506492731e-27).memR ((e_ecc * e_ecc) * ((Real.cos (thetacR ((0 : ℝ) * (Real.pi / 180)))) * (Real.cos (thetacR ((0 : ℝ) * (Real.pi / 180)))))) :=
    IA.mul_mem h18 h17 (by norm_num) (by norm_num) (by norm_num) (by norm_num)
      (by norm_num) (by norm_num) (by norm_num) (by norm_num)
  have h20 : (IA.IQ.mk 1 1).memR ((1 : ℝ)) :=
    IA.memR_of_bounds (by norm_num) (by norm_num)
  have h21 : (IA.IQ.mk 9933056199769871154935072e-25 9933056199769873832687083e-25).memR (((1 : ℝ)) - ((e_ecc * e_ecc) * ((Real.cos (thetacR ((0 : ℝ) * (Real.pi / 180)))) * (Real.cos (thetacR ((0 : ℝ) * (Real.pi / 180))))))) :=
    IA.sub_mem h20 h19 (by norm_num) (by norm_num)
  have h22 : (IA.IQ.mk 9966471893187614440720096e-25 9966471893187615784100202e-25).memR (Real.sqrt (((1 : ℝ)) - ((e_ecc * e_ecc) * ((Real.cos (thetacR ((0 : ℝ) * (Real.pi / 180)))) * (Real.cos (thetacR ((0 : ℝ) * (Real.pi / 180)))))))) :=
    IA.sqrt_mem h21 (by norm_num) (by norm_num) (by norm_num)
  have h23 : (IA.IQ.mk 635675231414e-5 635675231414e-5).memR (r_pol) :=
    IA.memR_of_bounds (by norm_num [r_pol]) (by norm_num [r_pol])
  have h24 : (IA.IQ.mk 6378137000000001989234174e-18 6378137000000002848942851e-18).memR ((r_pol) / (Real.sqrt (((1 : ℝ)) - ((e_ecc * e_ecc) * ((Real.cos (thetacR ((0 : ℝ) * (Real.pi / 180)))) * (Real.cos (thetacR ((0 : ℝ) * (Real.pi / 180))))))))) :=
    IA.div_mem h23 h22 (by norm_num) (by norm_num) (by norm_num)
      (by norm_num) (by norm_num)
  have h25 : (IA.IQ.mk 6378137000000001989234174e-18 6378137000000002848942851e-18).memR (rcR ((0 : ℝ) * (Real.pi / 180))) :=
    by unfold rcR; exact h24
  have h26 : (IA.IQ.mk (-1308996939e-9) (-1308996939e-9)).memR (lambda_0) :=
    IA.memR_of_bounds (by norm_num [lambda_0]) (by norm_num [lambda_0])
  have h27 : (IA.IQ.mk 9599310886011340846144444e-25 9599310886011340846155556e-25).memR ((((-20) : ℝ) * (Real.pi / 180)) - (lambda_0)) :=
    IA.sub_mem h6 h26 (by norm_num) (by norm_num)
  have h28 : (IA.IQ.mk 5735764336914294554986034e-25 5735764364605114957672585e-25).memR (Real.cos ((((-20) : ℝ) * (Real.pi / 180)) - (lambda_0))) :=
    IA.cos_mem 9599310886011340846155556e-25 h27 (by norm_num) (by norm_num) (by norm_num) (by norm_num)
      (by norm_num [IA.sinQ, IA.cosQ, IA.errW, IA.taylErr]) (by norm_num [IA.sinQ, IA.cosQ, IA.errW, IA.taylErr])
  have h29 : (IA.IQ.mk 6378136999999938207864173e-18 6378137000000066630312858e-18).memR ((rcR ((0 : ℝ) * (Real.pi / 180))) * (Real.cos (thetacR ((0 : ℝ) * (Real.pi / 180))))) :=
    IA.mul_mem h25 h15 (by norm_num) (by norm_num) (by norm_num) (by norm_num)
      (by norm_num) (by norm_num) (by norm_num) (by norm_num)
  have h30 : (IA.IQ.mk 3658349074055317350492597e-18 3658349091716975627655905e-18).memR (((rcR ((0 : ℝ) * (Real.pi / 180))) * (Real.cos (thetacR ((0 : ℝ) * (Real.pi / 180))))) * (Real.cos ((((-20) : ℝ) * (Real.pi / 180)) - (lambda_0)))) :=
    IA.mul_mem h29 h28 (by norm_num) (by norm_num) (by norm_num) (by norm_num)
      (by norm_num) (by norm_num) (by norm_num) (by norm_num)
  have h31 : (IA.IQ.mk 42164160 42164160).memR (Hgeo) :=
    IA.memR_of_bounds (by norm_num [Hgeo]) (by norm_num [Hgeo])
  have h32 : (IA.IQ.mk 3850581090828302437234409e-17 3850581092594468264950741e-17).memR ((Hgeo) - (((rcR ((0 : ℝ) * (Real.pi / 180))) * (Real.cos (thetacR ((0 : ℝ) * (Real.pi / 180))))) * (Real.cos ((((-20) : ℝ) * (Real.pi / 180)) - (lambda_0))))) :=
    IA.sub_mem h31 h30 (by norm_num) (by norm_num)
  have h33 : (IA.IQ.mk 3850581090828302437234409e-17 3850581092594468264950741e-17).memR (sxiR ((0 : ℝ) * (Real.pi / 180)) (((-20) : ℝ) * (Real.pi / 180))) :=
    by unfold sxiR; exact h32
  have h34 : (IA.IQ.mk 8191520428129313764037105e-25 8191520455820134166723656e-25).memR (Real.sin ((((-20) : ℝ) * (Real.pi / 180)) - (lambda_0))) :=
    IA.sin_mem 9599310886011340846155556e-25 h27 (by norm_num) (by norm_num) (by norm_num) (by norm_num)
      (by norm_num [IA.sinQ, IA.cosQ, IA.errW, IA.taylErr]) (by norm_num [IA.sinQ, IA.cosQ, IA.errW, IA.taylErr])
  have h35 : (IA.IQ.mk (-6378137000000002848942851e-18) (-6378137000000001989234174e-18)).memR (-(rcR ((0 : ℝ) * (Real.pi / 180)))) :=
    IA.neg_mem h25 (by norm_num) (by norm_num)
  have h36 : (IA.IQ.mk (-6378137000000066630312858e-18) (-6378136999999938207864173e-18)).memR ((-(rcR ((0 : ℝ) * (Real.pi / 180)))) * (Real.cos (thetacR ((0 : ℝ) * (Real.pi / 180))))) :=
    IA.mul_mem h35 h15 (by norm_num) (by norm_num) (by norm_num) (by norm_num)
      (by norm_num) (by norm_num) (by norm_num) (by norm_num)
  have h37 : (IA.IQ.mk (-5224663970552380887731508e-18) (-522466395289069107314714e-17)).memR (((-(rcR ((0 : ℝ) * (Real.pi / 180)))) * (Real.cos (thetacR ((0 : ℝ) * (Real.pi / 180))))) * (Real.sin ((((-20) : ℝ) * (Real.pi / 180)) - (lambda_0)))) :=
    IA.mul_mem h36 h34 (by norm_num) (by norm_num) (by norm_num) (by norm_num)
      (by norm_num) (by norm_num) (by norm_num) (by norm_num)
  have h38 : (IA.IQ.mk (-5224663970552380887731508e-18) (-522466395289069107314714e-17)).memR (syiR ((0 : ℝ) * (Real.pi / 180)) (((-20) : ℝ) * (Real.pi / 180))) :=
    by unfold syiR; exact h37
  have h39 : (IA.IQ.mk (-6378137000000002848942858e-32) 6378137000000002848942858e-32).memR ((rcR ((0 : ℝ) * (Real.pi / 180))) * (Real.sin (thetacR ((0 : ℝ) * (Real.pi / 180))))) :=
    IA.mul_mem h25 h16 (by norm_num) (by norm_num) (by norm_num) (by norm_num)
      (by norm_num) (by norm_num) (by norm_num) (by norm_num)
  have h40 : (IA.IQ.mk (-6378137000000002848942858e-32) 6378137000000002848942858e-32).memR (sziR ((0 : ℝ) * (Real.pi / 180))) :=
    by unfold sziR; exact h39
  have h41 : (IA.IQ.mk (-1656408954791806572402792e-39) 1656408954791806572402792e-39).memR ((sziR ((0 : ℝ) * (Real.pi / 180))) / (sxiR ((0 : ℝ) * (Real.pi / 180)) (((-20) : ℝ) * (Real.pi / 180)))) :=
    IA.div_mem h40 h33 (by norm_num) (by norm_num) (by norm_num)
      (by norm_num) (by norm_num)
  have h42p1 : (IA.IQ.mk (-11656408954791806612e-33) (-11656408954791806612e-33)).memR (((-11656408954791806612e-33) : ℚ) : ℝ) :=
    IA.memR_const le_rfl le_rfl
  have h42p2 : (IA.IQ.mk (-11656408954791806612e-33) (-1165640895479180661199999e-38)).memR (Real.sin (((-11656408954791806612e-33) : ℚ) : ℝ)) :=
    IA.sin_mem 11656408954791806612e-33 h42p1 (by norm_num) (by norm_num) (by norm_num) (by norm_num)
      (by norm_num [IA.sinQ, IA.cosQ, IA.errW, IA.taylErr]) (by norm_num [IA.sinQ, IA.cosQ, IA.errW, IA.taylErr])
  have h42p3 : (IA.IQ.mk 9999999999999999999999999e-25 1).memR (Real.cos (((-11656408954791806612e-33) : ℚ) : ℝ)) :=
    IA.cos_mem 11656408954791806612e-33 h42p1 (by norm_num) (by norm_num) (by norm_num) (by norm_num)
      (by norm_num [IA.sinQ, IA.cosQ, IA.errW, IA.taylErr]) (by norm_num [IA.sinQ, IA.cosQ, IA.errW, IA.taylErr])
  have h42p4 : (IA.IQ.mk (-1165640895479180661200001e-38) (-1165640895479180661199999e-38)).memR (Real.tan (((-11656408954791806612e-33) : ℚ) : ℝ)) :=
    IA.tan_mem h42p2 h42p3 (by norm_num) (by norm_num) (by norm_num)
      (by norm_num) (by norm_num)
  have h42p5 : (IA.IQ.mk 11656408954791806612e-33 11656408954791806612e-33).memR ((11656408954791806612e-33 : ℚ) : ℝ) :=
    IA.memR_const le_rfl le_rfl
  have h42p6 : (IA.IQ.mk 1165640895479180661199999e-38 11656408954791806612e-33).memR (Real.sin ((11656408954791806612e-33 : ℚ) : ℝ)) :=
    IA.sin_mem 11656408954791806612e-33 h42p5 (by norm_num) (by norm_num) (by norm_num) (by norm_num)
      (by norm_num [IA.sinQ, IA.cosQ, IA.errW, IA.taylErr]) (by norm_num [IA.sinQ, IA.cosQ, IA.errW, IA.taylErr])
  have h42p7 : (IA.IQ.mk 9999999999999999999999999e-25 1).memR (Real.cos ((11656408954791806612e-33 : ℚ) : ℝ)) :=
    IA.cos_mem 11656408954791806612e-33 h42p5 (by norm_num) (by norm_num) (by norm_num) (by norm_num)
      (by norm_num [IA.sinQ, IA.cosQ, IA.errW, IA.taylErr]) (by norm_num [IA.sinQ, IA.cosQ, IA.errW, IA.taylErr])
  have h42p8 : (IA.IQ.mk 1165640895479180661199999e-38 1165640895479180661200001e-38).memR (Real.tan ((11656408954791806612e-33 : ℚ) : ℝ)) :=
    IA.tan_mem h42p6 h42p7 (by norm_num) (by norm_num) (by norm_num)
      (by norm_num) (by norm_num)
  have h43 : (IA.IQ.mk (-11656408954791806612e-33) 11656408954791806612e-33).memR (Real.arctan ((sziR ((0 : ℝ) * (Real.pi / 180))) / (sxiR ((0 : ℝ) * (Real.pi / 180)) (((-20) : ℝ) * (Real.pi / 180))))) :=
    IA.arctan_mem (-11656408954791806612e-33) 11656408954791806612e-33 h41 h42p4 h42p8 (by norm_num)
      (by norm_num) (by norm_num) (by norm_num) (by norm_num) (by norm_num)
  have h44 : (IA.IQ.mk (-11656408954791806612e-33) 11656408954791806612e-33).memR (g2sY ((0 : ℝ) * (Real.pi / 180)) (((-20) : ℝ) * (Real.pi / 180))) :=
    by unfold g2sY; exact h43
  have h45 : (IA.IQ.mk 522466395289069107314714e-17 5224663970552380887731508e-18).memR (-(syiR ((0 : ℝ) * (Real.pi / 180)) (((-20) : ℝ) * (Real.pi / 180)))) :=
    IA.neg_mem h38 (by norm_num) (by norm_num)
  have h46 : (IA.IQ.mk 1482697473704447950391753e-9 1482697475064600898598014e-9).memR ((sxiR ((0 : ℝ) * (Real.pi / 180)) (((-20) : ℝ) * (Real.pi / 180))) * (sxiR ((0 : ℝ) * (Real.pi / 180)) (((-20) : ℝ) * (Real.pi / 180)))) :=
    IA.mul_mem h33 h33 (by norm_num) (by norm_num) (by norm_num) (by norm_num)
      (by norm_num) (by norm_num) (by norm_num) (by norm_num)
  have h47 : (IA.IQ.mk 2729711342063538138927344e-11 2729711360518816994399998e-11).memR ((syiR ((0 : ℝ) * (Real.pi / 180)) (((-20) : ℝ) * (Real.pi / 180))) * (syiR ((0 : ℝ) * (Real.pi / 180)) (((-20) : ℝ) * (Real.pi / 180)))) :=
    IA.mul_mem h38 h38 (by norm_num) (by norm_num) (by norm_num) (by norm_num)
      (by norm_num) (by norm_num) (by norm_num) (by norm_num)
  have h48 : (IA.IQ.mk (-4068063159076903634189571e-39) 4068063159076903634189571e-39).memR ((sziR ((0 : ℝ) * (Real.pi / 180))) * (sziR ((0 : ℝ) * (Real.pi / 180)))) :=
    IA.mul_mem h40 h40 (by norm_num) (by norm_num) (by norm_num) (by norm_num)
      (by norm_num) (by norm_num) (by norm_num) (by norm_num)
  have h49 : (IA.IQ.mk 1509994587125083331781026e-9 1509994588669789068542014e-9).memR (((sxiR ((0 : ℝ) * (Real.pi / 180)) (((-20) : ℝ) * (Real.pi / 180))) * (sxiR ((0 : ℝ) * (Real.pi / 180)) (((-20) : ℝ) * (Real.pi / 180)))) + ((syiR ((0 : ℝ) * (Real.pi / 180)) (((-20) : ℝ) * (Real.pi / 180))) * (syiR ((0 : ℝ) * (Real.pi / 180)) (((-20) : ℝ) * (Real.pi / 180))))) :=
    IA.add_mem h46 h47 (by norm_num) (by norm_num)
  have h50 : (IA.IQ.mk 1509994587125083331781025e-9 1509994588669789068542015e-9).memR ((((sxiR ((0 : ℝ) * (Real.pi / 180)) (((-20) : ℝ) * (Real.pi / 180))) * (sxiR ((0 : ℝ) * (Real.pi / 180)) (((-20) : ℝ) * (Real.pi / 180)))) + ((syiR ((0 : ℝ) * (Real.pi / 180)) (((-20) : ℝ) * (Real.pi / 180))) * (syiR ((0 : ℝ) * (Real.pi / 180)) (((-20) : ℝ) * (Real.pi / 180))))) + ((sziR ((0 : ℝ) * (Real.pi / 180))) * (sziR ((0 : ℝ) * (Real.pi / 180))))) :=
    IA.add_mem h49 h48 (by norm_num) (by norm_num)
  have h51 : (IA.IQ.mk 3885864880724860371017947e-17 3885864882712456162148224e-17).memR (Real.sqrt ((((sxiR ((0 : ℝ) * (Real.pi / 180)) (((-20) : ℝ) * (Real.pi / 180))) * (sxiR ((0 : ℝ) * (Real.pi / 180)) (((-20) : ℝ) * (Real.pi / 180)))) + ((syiR ((0 : ℝ) * (Real.pi / 180)) (((-20) : ℝ) * (Real.pi / 180))) * (syiR ((0 : ℝ) * (Real.pi / 180)) (((-20) : ℝ) * (Real.pi / 180))))) + ((sziR ((0 : ℝ) * (Real.pi / 180))) * (sziR ((0 : ℝ) * (Real.pi / 180)))))) :=
    IA.sqrt_mem h50 (by norm_num) (by norm_num) (by norm_num)
  have h52 : (IA.IQ.mk 1344530525529675896496375e-25 1344530530762506592446941e-25).memR ((-(syiR ((0 : ℝ) * (Real.pi / 180)) (((-20) : ℝ) * (Real.pi / 180)))) / (Real.sqrt ((((sxiR ((0 : ℝ) * (Real.pi / 180)) (((-20) : ℝ) * (Real.pi / 180))) * (sxiR ((0 : ℝ) * (Real.pi / 180)) (((-20) : ℝ) * (Real.pi / 180)))) + ((syiR ((0 : ℝ) * (Real.pi / 180)) (((-20) : ℝ) * (Real.pi / 180))) * (syiR ((0 : ℝ) * (Real.pi / 180)) (((-20) : ℝ) * (Real.pi / 180))))) + ((sziR ((0 : ℝ) * (Real.pi / 180))) * (sziR ((0 : ℝ) * (Real.pi / 180))))))) :=
    IA.div_mem h45 h51 (by norm_num) (by norm_num) (by norm_num)
      (by norm_num) (by norm_num)
  have h53 : (IA.IQ.mk 1344530525529675896496375e-25 1344530530762506592446941e-25).memR (g2sX ((0 : ℝ) * (Real.pi / 180)) (((-20) : ℝ) * (Real.pi / 180))) :=
    by unfold g2sX; exact h52
  have h54 : (sxiR ((0 : ℝ) * (Real.pi / 180)) (((-20) : ℝ) * (Real.pi / 180))) ≠ 0 :=
    ne_of_gt (lt_of_lt_of_le (by norm_num : (0:ℝ) < ((3850581090828302437234409e-17 : ℚ) : ℝ)) h33.1)
  have h55 : (IA.IQ.mk 1340483199471986309986644e-25 1340483204704817007515924e-25).memR (Real.sin (g2sX ((0 : ℝ) * (Real.pi / 180)) (((-20) : ℝ) * (Real.pi / 180)))) :=
    IA.sin_mem 1344530530762506592446941e-25 h53 (by norm_num) (by norm_num) (by norm_num) (by norm_num)
      (by norm_num [IA.sinQ, IA.cosQ, IA.errW, IA.taylErr]) (by norm_num [IA.sinQ, IA.cosQ, IA.errW, IA.taylErr])
  have h56 : (IA.IQ.mk 9909747965163533458522409e-25 9909747970396364156051689e-25).memR (Real.cos (g2sX ((0 : ℝ) * (Real.pi / 180)) (((-20) : ℝ) * (Real.pi / 180)))) :=
    IA.cos_mem 1344530530762506592446941e-25 h53 (by norm_num) (by norm_num) (by norm_num) (by norm_num)
      (by norm_num [IA.sinQ, IA.cosQ, IA.errW, IA.taylErr]) (by norm_num [IA.sinQ, IA.cosQ, IA.errW, IA.taylErr])
  have h57 : (IA.IQ.mk (-1165640895479180661200001e-38) 1165640895479180661200001e-38).memR (Real.sin (g2sY ((0 : ℝ) * (Real.pi / 180)) (((-20) : ℝ) * (Real.pi / 180)))) :=
    IA.sin_mem 11656408954791806612e-33 h44 (by norm_num) (by norm_num) (by norm_num) (by norm_num)
      (by norm_num [IA.sinQ, IA.cosQ, IA.errW, IA.taylErr]) (by norm_num [IA.sinQ, IA.cosQ, IA.errW, IA.taylErr])
  have h58 : (IA.IQ.mk 9999999999999883435910452e-25 1000000000000011656408955e-24).memR (Real.cos (g2sY ((0 : ℝ) * (Real.pi / 180)) (((-20) : ℝ) * (Real.pi / 180)))) :=
    IA.cos_mem 11656408954791806612e-33 h44 (by norm_num) (by norm_num) (by norm_num) (by norm_num)
      (by norm_num [IA.sinQ, IA.cosQ, IA.errW, IA.taylErr]) (by norm_num [IA.sinQ, IA.cosQ, IA.errW, IA.taylErr])
  have h59 : (IA.IQ.mk 1796895208066653038612975e-26 1796895222095696337434043e-26).memR ((Real.sin (g2sX ((0 : ℝ) * (Real.pi / 180)) (((-20) : ℝ) * (Real.pi / 180)))) * (Real.sin (g2sX ((0 : ℝ) * (Real.pi / 180)) (((-20) : ℝ) * (Real.pi / 180))))) :=
    IA.mul_mem h55 h55 (by norm_num) (by norm_num) (by norm_num) (by norm_num)
      (by norm_num) (by norm_num) (by norm_num) (by norm_num)
  have h60 : (IA.IQ.mk 9820310473306279194063045e-25 9820310483677485868178509e-25).memR ((Real.cos (g2sX ((0 : ℝ) * (Real.pi / 180)) (((-20) : ℝ) * (Real.pi / 180)))) * (Real.cos (g2sX ((0 : ℝ) * (Real.pi / 180)) (((-20) : ℝ) * (Real.pi / 180))))) :=
    IA.mul_mem h56 h56 (by norm_num) (by norm_num) (by norm_num) (by norm_num)
      (by norm_num) (by norm_num) (by norm_num) (by norm_num)
  have h61 : (IA.IQ.mk 9999999994112944497924342e-25 1000000000588705550192192e-24).memR (((Real.sin (g2sX ((0 : ℝ) * (Real.pi / 180)) (((-20) : ℝ) * (Real.pi / 180)))) * (Real.sin (g2sX ((0 : ℝ) * (Real.pi / 180)) (((-20) : ℝ) * (Real.pi / 180))))) + ((Real.cos (g2sX ((0 : ℝ) * (Real.pi / 180)) (((-20) : ℝ) * (Real.pi / 180)))) * (Real.cos (g2sX ((0 : ℝ) * (Real.pi / 180)) (((-20) : ℝ) * (Real.pi / 180)))))) :=
    IA.add_mem h59 h60 (by norm_num) (by norm_num)
  have h62 : (IA.IQ.mk 9999999999999766871820904e-25 1000000000000023312817911e-24).memR ((Real.cos (g2sY ((0 : ℝ) * (Real.pi / 180)) (((-20) : ℝ) * (Real.pi / 180)))) * (Real.cos (g2sY ((0 : ℝ) * (Real.pi / 180)) (((-20) : ℝ) * (Real.pi / 180))))) :=
    IA.mul_mem h58 h58 (by norm_num) (by norm_num) (by norm_num) (by norm_num)
      (by norm_num) (by norm_num) (by norm_num) (by norm_num)
  have h63 : (IA.IQ.mk (-1358718697213506174805336e-52) 1358718697213506174805336e-52).memR ((Real.sin (g2sY ((0 : ℝ) * (Real.pi / 180)) (((-20) : ℝ) * (Real.pi / 180)))) * (Real.sin (g2sY ((0 : ℝ) * (Real.pi / 180)) (((-20) : ℝ) * (Real.pi / 180))))) :=
    IA.mul_mem h57 h57 (by norm_num) (by norm_num) (by norm_num) (by norm_num)
      (by norm_num) (by norm_num) (by norm_num) (by norm_num)
  have h64 : (IA.IQ.mk 1006739496775591671796869e-24 100673949677559167179687e-23).memR (r_eq * r_eq / (r_pol * r_pol)) :=
    IA.memR_of_bounds (by norm_num [r_eq, r_pol]) (by norm_num [r_eq, r_pol])
  have h65 : (IA.IQ.mk (-1367875777492312716689901e-52) 1367875777492312716689901e-52).memR ((r_eq * r_eq / (r_pol * r_pol)) * ((Real.sin (g2sY ((0 : ℝ) * (Real.pi / 180)) (((-20) : ℝ) * (Real.pi / 180)))) * (Real.sin (g2sY ((0 : ℝ) * (Real.pi / 180)) (((-20) : ℝ) * (Real.pi / 180)))))) :=
    IA.mul_mem h64 h63 (by norm_num) (by norm_num) (by norm_num) (by norm_num)
      (by norm_num) (by norm_num) (by norm_num) (by norm_num)
  have h66 : (IA.IQ.mk 9999999999999766871820903e-25 1000000000000023312817912e-24).memR (((Real.cos (g2sY ((0 : ℝ) * (Real.pi / 180)) (((-20) : ℝ) * (Real.pi / 180)))) * (Real.cos (g2sY ((0 : ℝ) * (Real.pi / 180)) (((-20) : ℝ) * (Real.pi / 180))))) + ((r_eq * r_eq / (r_pol * r_pol)) * ((Real.sin (g2sY ((0 : ℝ) * (Real.pi / 180)) (((-20) : ℝ) * (Real.pi / 180)))) * (Real.sin (g2sY ((0 : ℝ) * (Real.pi / 180)) (((-20) : ℝ) * (Real.pi / 180))))))) :=
    IA.add_mem h62 h65 (by norm_num) (by norm_num)
  have h67 : (IA.IQ.mk 9999999994112711369745382e-25 1000000000588728863010118e-24).memR ((((Real.sin (g2sX ((0 : ℝ) * (Real.pi / 180)) (((-20) : ℝ) * (Real.pi / 180)))) * (Real.sin (g2sX ((0 : ℝ) * (Real.pi / 180)) (((-20) : ℝ) * (Real.pi / 180))))) + ((Real.cos (g2sX ((0 : ℝ) * (Real.pi / 180)) (((-20) : ℝ) * (Real.pi / 180)))) * (Real.cos (g2sX ((0 : ℝ) * (Real.pi / 180)) (((-20) : ℝ) * (Real.pi / 180)))))) * (((Real.cos (g2sY ((0 : ℝ) * (Real.pi / 180)) (((-20) : ℝ) * (Real.pi / 180)))) * (Real.cos (g2sY ((0 : ℝ) * (Real.pi / 180)) (((-20) : ℝ) * (Real.pi / 180))))) + ((r_eq * r_eq / (r_pol * r_pol)) * ((Real.sin (g2sY ((0 : ℝ) * (Real.pi / 180)) (((-20) : ℝ) * (Real.pi / 180)))) * (Real.sin (g2sY ((0 : ℝ) * (Real.pi / 180)) (((-20) : ℝ) * (Real.pi / 180)))))))) :=
    IA.mul_mem h61 h66 (by norm_num) (by norm_num) (by norm_num) (by norm_num)
      (by norm_num) (by norm_num) (by norm_num) (by norm_num)
  have h68 : (IA.IQ.mk 9999999994112711369745382e-25 1000000000588728863010118e-24).memR (aR (g2sY ((0 : ℝ) * (Real.pi / 180)) (((-20) : ℝ) * (Real.pi / 180))) (g2sX ((0 : ℝ) * (Real.pi / 180)) (((-20) : ℝ) * (Real.pi / 180)))) :=
    by unfold aR; exact h67
  have h69 : (IA.IQ.mk (-84328320) (-84328320)).memR (-2 * Hgeo) :=
    IA.memR_of_bounds (by norm_num [Hgeo]) (by norm_num [Hgeo])
  have h70 : (IA.IQ.mk (-8356723979669351233880568e-17) (-8356723975256593018209844e-17)).memR ((-2 * Hgeo) * (Real.cos (g2sX ((0 : ℝ) * (Real.pi / 180)) (((-20) : ℝ) * (Real.pi / 180))))) :=
    IA.mul_mem h69 h56 (by norm_num) (by norm_num) (by norm_num) (by norm_num)
      (by norm_num) (by norm_num) (by norm_num) (by norm_num)
  have h71 : (IA.IQ.mk (-83567239796694486432728e-15) (-8356723975256495608817666e-17)).memR (((-2 * Hgeo) * (Real.cos (g2sX ((0 : ℝ) * (Real.pi / 180)) (((-20) : ℝ) * (Real.pi / 180))))) * (Real.cos (g2sY ((0 : ℝ) * (Real.pi / 180)) (((-20) : ℝ) * (Real.pi / 180))))) :=
    IA.mul_mem h70 h58 (by norm_num) (by norm_num) (by norm_num) (by norm_num)
      (by norm_num) (by norm_num) (by norm_num) (by norm_num)
  have h72 : (IA.IQ.mk (-83567239796694486432728e-15) (-8356723975256495608817666e-17)).memR (bR (g2sY ((0 : ℝ) * (Real.pi / 180)) (((-20) : ℝ) * (Real.pi / 180))) (g2sX ((0 : ℝ) * (Real.pi / 180)) (((-20) : ℝ) * (Real.pi / 180)))) :=
    by unfold bR; exact h71
  have h73 : (IA.IQ.mk 1737135756914831 1737135756914831).memR (cR) :=
    IA.memR_of_bounds (by norm_num [cR, Hgeo, r_eq]) (by norm_num [cR, Hgeo, r_eq])
  have h74 : (IA.IQ.mk 6983483559862672663244341e-9 6983483567238238750134182e-9).memR ((bR (g2sY ((0 : ℝ) * (Real.pi / 180)) (((-20) : ℝ) * (Real.pi / 180))) (g2sX ((0 : ℝ) * (Real.pi / 180)) (((-20) : ℝ) * (Real.pi / 180)))) * (bR (g2sY ((0 : ℝ) * (Real.pi / 180)) (((-20) : ℝ) * (Real.pi / 180))) (g2sX ((0 : ℝ) * (Real.pi / 180)) (((-20) : ℝ) * (Real.pi / 180))))) :=
    IA.mul_mem h72 h72 (by norm_num) (by norm_num) (by norm_num) (by norm_num)
      (by norm_num) (by norm_num) (by norm_num) (by norm_num)
  have h75 : (IA.IQ.mk 4 4).memR ((4 : ℝ)) :=
    IA.memR_of_bounds (by norm_num) (by norm_num)
  have h76 : (IA.IQ.mk 3999999997645084547898152e-24 4000000002354915452040472e-24).memR (((4 : ℝ)) * (aR (g2sY ((0 : ℝ) * (Real.pi / 180)) (((-20) : ℝ) * (Real.pi / 180))) (g2sX ((0 : ℝ) * (Real.pi / 180)) (((-20) : ℝ) * (Real.pi / 180))))) :=
    IA.mul_mem h75 h68 (by norm_num) (by norm_num) (by norm_num) (by norm_num)
      (by norm_num) (by norm_num) (by norm_num) (by norm_num)
  have h77 : (IA.IQ.mk 6948543023568516163642624e-9 6948543031750131836250757e-9).memR ((((4 : ℝ)) * (aR (g2sY ((0 : ℝ) * (Real.pi / 180)) (((-20) : ℝ) * (Real.pi / 180))) (g2sX ((0 : ℝ) * (Real.pi / 180)) (((-20) : ℝ) * (Real.pi / 180))))) * (cR)) :=
    IA.mul_mem h76 h73 (by norm_num) (by norm_num) (by norm_num) (by norm_num)
      (by norm_num) (by norm_num) (by norm_num) (by norm_num)
  have h78 : (IA.IQ.mk 34940528112540826993584e-9 34940543669722586491558e-9).memR (((bR (g2sY ((0 : ℝ) * (Real.pi / 180)) (((-20) : ℝ) * (Real.pi / 180))) (g2sX ((0 : ℝ) * (Real.pi / 180)) (((-20) : ℝ) * (Real.pi / 180)))) * (bR (g2sY ((0 : ℝ) * (Real.pi / 180)) (((-20) : ℝ) * (Real.pi / 180))) (g2sX ((0 : ℝ) * (Real.pi / 180)) (((-20) : ℝ) * (Real.pi / 180))))) - ((((4 : ℝ)) * (aR (g2sY ((0 : ℝ) * (Real.pi / 180)) (((-20) : ℝ) * (Real.pi / 180))) (g2sX ((0 : ℝ) * (Real.pi / 180)) (((-20) : ℝ) * (Real.pi / 180))))) * (cR))) :=
    IA.sub_mem h74 h77 (by norm_num) (by norm_num)
  have h79 : (IA.IQ.mk 34940528112540826993584e-9 34940543669722586491558e-9).memR (discR (g2sY ((0 : ℝ) * (Real.pi / 180)) (((-20) : ℝ) * (Real.pi / 180))) (g2sX ((0 : ℝ) * (Real.pi / 180)) (((-20) : ℝ) * (Real.pi / 180)))) :=
    by unfold discR; exact h78
  have h80 : (IA.IQ.mk 8356723975256495608817666e-17 83567239796694486432728e-15).memR (-bR (g2sY ((0 : ℝ) * (Real.pi / 180)) (((-20) : ℝ) * (Real.pi / 180))) (g2sX ((0 : ℝ) * (Real.pi / 180)) (((-20) : ℝ) * (Real.pi / 180)))) :=
    IA.neg_mem h72 (by norm_num) (by norm_num)
  have h81 : (IA.IQ.mk 5911051354246622259130788e-18 5911052670186807470243968e-18).memR (Real.sqrt (discR (g2sY ((0 : ℝ) * (Real.pi / 180)) (((-20) : ℝ) * (Real.pi / 180))) (g2sX ((0 : ℝ) * (Real.pi / 180)) (((-20) : ℝ) * (Real.pi / 180))))) :=
    IA.sqrt_mem h79 (by norm_num) (by norm_num) (by norm_num)
  have h82 : (IA.IQ.mk 7765618708237814861793269e-17 7765618844244786417359722e-17).memR ((-bR (g2sY ((0 : ℝ) * (Real.pi / 180)) (((-20) : ℝ) * (Real.pi / 180))) (g2sX ((0 : ℝ) * (Real.pi / 180)) (((-20) : ℝ) * (Real.pi / 180)))) - (Real.sqrt (discR (g2sY ((0 : ℝ) * (Real.pi / 180)) (((-20) : ℝ) * (Real.pi / 180))) (g2sX ((0 : ℝ) * (Real.pi / 180)) (((-20) : ℝ) * (Real.pi / 180)))))) :=
    IA.sub_mem h80 h81 (by norm_num) (by norm_num)
  have h83 : (IA.IQ.mk 2 2).memR ((2 : ℝ)) :=
    IA.memR_of_bounds (by norm_num) (by norm_num)
  have h84 : (IA.IQ.mk 1999999998822542273949076e-24 2000000001177457726020236e-24).memR (((2 : ℝ)) * (aR (g2sY ((0 : ℝ) * (Real.pi / 180)) (((-20) : ℝ) * (Real.pi / 180))) (g2sX ((0 : ℝ) * (Real.pi / 180)) (((-20) : ℝ) * (Real.pi / 180))))) :=
    IA.mul_mem h83 h68 (by norm_num) (by norm_num) (by norm_num) (by norm_num)
      (by norm_num) (by norm_num) (by norm_num) (by norm_num)
  have h85 : (IA.IQ.mk 3882809351832985495906947e-17 3882809424408315186456317e-17).memR (((-bR (g2sY ((0 : ℝ) * (Real.pi / 180)) (((-20) : ℝ) * (Real.pi / 180))) (g2sX ((0 : ℝ) * (Real.pi / 180)) (((-20) : ℝ) * (Real.pi / 180)))) - (Real.sqrt (discR (g2sY ((0 : ℝ) * (Real.pi / 180)) (((-20) : ℝ) * (Real.pi / 180))) (g2sX ((0 : ℝ) * (Real.pi / 180)) (((-20) : ℝ) * (Real.pi / 180)))))) / (((2 : ℝ)) * (aR (g2sY ((0 : ℝ) * (Real.pi / 180)) (((-20) : ℝ) * (Real.pi / 180))) (g2sX ((0 : ℝ) * (Real.pi / 180)) (((-20) : ℝ) * (Real.pi / 180)))))) :=
    IA.div_mem h82 h84 (by norm_num) (by norm_num) (by norm_num)
      (by norm_num) (by norm_num)
  have h86 : (IA.IQ.mk 3882809351832985495906947e-17 3882809424408315186456317e-17).memR (rsR (g2sY ((0 : ℝ) * (Real.pi / 180)) (((-20) : ℝ) * (Real.pi / 180))) (g2sX ((0 : ℝ) * (Real.pi / 180)) (((-20) : ℝ) * (Real.pi / 180)))) :=
    by unfold rsR; exact h85
  have h87 : (IA.IQ.mk 3847766207344486628002678e-17 3847766281296617635072081e-17).memR ((rsR (g2sY ((0 : ℝ) * (Real.pi / 180)) (((-20) : ℝ) * (Real.pi / 180))) (g2sX ((0 : ℝ) * (Real.pi / 180)) (((-20) : ℝ) * (Real.pi / 180)))) * (Real.cos (g2sX ((0 : ℝ) * (Real.pi / 180)) (((-20) : ℝ) * (Real.pi / 180))))) :=
    IA.mul_mem h86 h56 (by norm_num) (by norm_num) (by norm_num) (by norm_num)
      (by norm_num) (by norm_num) (by norm_num) (by norm_num)
  have h88 : (IA.IQ.mk 3847766207344441776866202e-17 384776628129666248620942e-16).memR (((rsR (g2sY ((0 : ℝ) * (Real.pi / 180)) (((-20) : ℝ) * (Real.pi / 180))) (g2sX ((0 : ℝ) * (Real.pi / 180)) (((-20) : ℝ) * (Real.pi / 180)))) * (Real.cos (g2sX ((0 : ℝ) * (Real.pi / 180)) (((-20) : ℝ) * (Real.pi / 180))))) * (Real.cos (g2sY ((0 : ℝ) * (Real.pi / 180)) (((-20) : ℝ) * (Real.pi / 180))))) :=
    IA.mul_mem h87 h58 (by norm_num) (by norm_num) (by norm_num) (by norm_num)
      (by norm_num) (by norm_num) (by norm_num) (by norm_num)
  have h89 : (IA.IQ.mk 3847766207344441776866202e-17 384776628129666248620942e-16).memR (sxR (g2sY ((0 : ℝ) * (Real.pi / 180)) (((-20) : ℝ) * (Real.pi / 180))) (g2sX ((0 : ℝ) * (Real.pi / 180)) (((-20) : ℝ) * (Real.pi / 180)))) :=
    by unfold sxR; exact h88
  have h90 : (IA.IQ.mk (-3882809424408315186456317e-17) (-3882809351832985495906947e-17)).memR (-rsR (g2sY ((0 : ℝ) * (Real.pi / 180)) (((-20) : ℝ) * (Real.pi / 180))) (g2sX ((0 : ℝ) * (Real.pi / 180)) (((-20) : ℝ) * (Real.pi / 180)))) :=
    IA.neg_mem h86 (by norm_num) (by norm_num)
  have h91 : (IA.IQ.mk (-5204840820488924264648918e-18) (-5204840702884829769627229e-18)).memR ((-rsR (g2sY ((0 : ℝ) * (Real.pi / 180)) (((-20) : ℝ) * (Real.pi / 180))) (g2sX ((0 : ℝ) * (Real.pi / 180)) (((-20) : ℝ) * (Real.pi / 180)))) * (Real.sin (g2sX ((0 : ℝ) * (Real.pi / 180)) (((-20) : ℝ) * (Real.pi / 180))))) :=
    IA.mul_mem h90 h55 (by norm_num) (by norm_num) (by norm_num) (by norm_num)
      (by norm_num) (by norm_num) (by norm_num) (by norm_num)
  have h92 : (IA.IQ.mk (-5204840820488924264648918e-18) (-5204840702884829769627229e-18)).memR (syR (g2sY ((0 : ℝ) * (Real.pi / 180)) (((-20) : ℝ) * (Real.pi / 180))) (g2sX ((0 : ℝ) * (Real.pi / 180)) (((-20) : ℝ) * (Real.pi / 180)))) :=
    by unfold syR; exact h91
  have h93 : (IA.IQ.mk (-4485113733725186331432987e-31) 4485113733725186331432987e-31).memR (((rsR (g2sY ((0 : ℝ) * (Real.pi / 180)) (((-20) : ℝ) * (Real.pi / 180))) (g2sX ((0 : ℝ) * (Real.pi / 180)) (((-20) : ℝ) * (Real.pi / 180)))) * (Real.cos (g2sX ((0 : ℝ) * (Real.pi / 180)) (((-20) : ℝ) * (Real.pi / 180))))) * (Real.sin (g2sY ((0 : ℝ) * (Real.pi / 180)) (((-20) : ℝ) * (Real.pi / 180))))) :=
    IA.mul_mem h87 h57 (by norm_num) (by norm_num) (by norm_num) (by norm_num)
      (by norm_num) (by norm_num) (by norm_num) (by norm_num)
  have h94 : (IA.IQ.mk (-4485113733725186331432987e-31) 4485113733725186331432987e-31).memR (szR (g2sY ((0 : ℝ) * (Real.pi / 180)) (((-20) : ℝ) * (Real.pi / 180))) (g2sX ((0 : ℝ) * (Real.pi / 180)) (((-20) : ℝ) * (Real.pi / 180)))) :=
    by unfold szR; exact h93
  have h95 : (IA.IQ.mk 42164160 42164160).memR (Hgeo) :=
    IA.memR_of_bounds (by norm_num [Hgeo]) (by norm_num [Hgeo])
  have h96 : (IA.IQ.mk 36864971870333751379058e-16 368649792655558223133798e-17).memR ((Hgeo) - (sxR (g2sY ((0 : ℝ) * (Real.pi / 180)) (((-20) : ℝ) * (Real.pi / 180))) (g2sX ((0 : ℝ) * (Real.pi / 180)) (((-20) : ℝ) * (Real.pi / 180))))) :=
    IA.sub_mem h95 h89 (by norm_num) (by norm_num)
  have h97 : (IA.IQ.mk 1359026151000498767301205e-11 1359026696249860696340851e-11).memR (((Hgeo) - (sxR (g2sY ((0 : ℝ) * (Real.pi / 180)) (((-20) : ℝ) * (Real.pi / 180))) (g2sX ((0 : ℝ) * (Real.pi / 180)) (((-20) : ℝ) * (Real.pi / 180))))) * ((Hgeo) - (sxR (g2sY ((0 : ℝ) * (Real.pi / 180)) (((-20) : ℝ) * (Real.pi / 180))) (g2sX ((0 : ℝ) * (Real.pi / 180)) (((-20) : ℝ) * (Real.pi / 180)))))) :=
    IA.mul_mem h96 h96 (by norm_num) (by norm_num) (by norm_num) (by norm_num)
      (by norm_num) (by norm_num) (by norm_num) (by norm_num)
  have h98 : (IA.IQ.mk 2709036674240664880337709e-11 2709036796662781834130539e-11).memR ((syR (g2sY ((0 : ℝ) * (Real.pi / 180)) (((-20) : ℝ) * (Real.pi / 180))) (g2sX ((0 : ℝ) * (Real.pi / 180)) (((-20) : ℝ) * (Real.pi / 180)))) * (syR (g2sY ((0 : ℝ) * (Real.pi / 180)) (((-20) : ℝ) * (Real.pi / 180))) (g2sX ((0 : ℝ) * (Real.pi / 180)) (((-20) : ℝ) * (Real.pi / 180))))) :=
    IA.mul_mem h92 h92 (by norm_num) (by norm_num) (by norm_num) (by norm_num)
      (by norm_num) (by norm_num) (by norm_num) (by norm_num)
  have h99 : (IA.IQ.mk 4068062825241163647638914e-11 406806349291264253047139e-10).memR ((((Hgeo) - (sxR (g2sY ((0 : ℝ) * (Real.pi / 180)) (((-20) : ℝ) * (Real.pi / 180))) (g2sX ((0 : ℝ) * (Real.pi / 180)) (((-20) : ℝ) * (Real.pi / 180))))) * ((Hgeo) - (sxR (g2sY ((0 : ℝ) * (Real.pi / 180)) (((-20) : ℝ) * (Real.pi / 180))) (g2sX ((0 : ℝ) * (Real.pi / 180)) (((-20) : ℝ) * (Real.pi / 180)))))) + ((syR (g2sY ((0 : ℝ) * (Real.pi / 180)) (((-20) : ℝ) * (Real.pi / 180))) (g2sX ((0 : ℝ) * (Real.pi / 180)) (((-20) : ℝ) * (Real.pi / 180)))) * (syR (g2sY ((0 : ℝ) * (Real.pi / 180)) (((-20) : ℝ) * (Real.pi / 180))) (g2sX ((0 : ℝ) * (Real.pi / 180)) (((-20) : ℝ) * (Real.pi / 180)))))) :=
    IA.add_mem h97 h98 (by norm_num) (by norm_num)
  have h100 : (IA.IQ.mk 6378136738296823036870821e-18 6378137261703171068304441e-18).memR (Real.sqrt ((((Hgeo) - (sxR (g2sY ((0 : ℝ) * (Real.pi / 180)) (((-20) : ℝ) * (Real.pi / 180))) (g2sX ((0 : ℝ) * (Real.pi / 180)) (((-20) : ℝ) * (Real.pi / 180))))) * ((Hgeo) - (sxR (g2sY ((0 : ℝ) * (Real.pi / 180)) (((-20) : ℝ) * (Real.pi / 180))) (g2sX ((0 : ℝ) * (Real.pi / 180)) (((-20) : ℝ) * (Real.pi / 180)))))) + ((syR (g2sY ((0 : ℝ) * (Real.pi / 180)) (((-20) : ℝ) * (Real.pi / 180))) (g2sX ((0 : ℝ) * (Real.pi / 180)) (((-20) : ℝ) * (Real.pi / 180)))) * (syR (g2sY ((0 : ℝ) * (Real.pi / 180)) (((-20) : ℝ) * (Real.pi / 180))) (g2sX ((0 : ℝ) * (Real.pi / 180)) (((-20) : ℝ) * (Real.pi / 180))))))) :=
    IA.sqrt_mem h99 (by norm_num) (by norm_num) (by norm_num)
  have h101 : (IA.IQ.mk (-7032012510479451562622764e-38) 7032012510479451562622764e-38).memR ((szR (g2sY ((0 : ℝ) * (Real.pi / 180)) (((-20) : ℝ) * (Real.pi / 180))) (g2sX ((0 : ℝ) * (Real.pi / 180)) (((-20) : ℝ) * (Real.pi / 180)))) / (Real.sqrt ((((Hgeo) - (sxR (g2sY ((0 : ℝ) * (Real.pi / 180)) (((-20) : ℝ) * (Real.pi / 180))) (g2sX ((0 : ℝ) * (Real.pi / 180)) (((-20) : ℝ) * (Real.pi / 180))))) * ((Hgeo) - (sxR (g2sY ((0 : ℝ) * (Real.pi / 180)) (((-20) : ℝ) * (Real.pi / 180))) (g2sX ((0 : ℝ) * (Real.pi / 180)) (((-20) : ℝ) * (Real.pi / 180)))))) + ((syR (g2sY ((0 : ℝ) * (Real.pi / 180)) (((-20) : ℝ) * (Real.pi / 180))) (g2sX ((0 : ℝ) * (Real.pi / 180)) (((-20) : ℝ) * (Real.pi / 180)))) * (syR (g2sY ((0 : ℝ) * (Real.pi / 180)) (((-20) : ℝ) * (Real.pi / 180))) (g2sX ((0 : ℝ) * (Real.pi / 180)) (((-20) : ℝ) * (Real.pi / 180)))))))) :=
    IA.div_mem h94 h100 (by norm_num) (by norm_num) (by norm_num)
      (by norm_num) (by norm_num)
  have h102 : (IA.IQ.mk (-7079404736119748123610517e-38) 7079404736119748123610517e-38).memR ((r_eq * r_eq / (r_pol * r_pol)) * ((szR (g2sY ((0 : ℝ) * (Real.pi / 180)) (((-20) : ℝ) * (Real.pi / 180))) (g2sX ((0 : ℝ) * (Real.pi / 180)) (((-20) : ℝ) * (Real.pi / 180)))) / (Real.sqrt ((((Hgeo) - (sxR (g2sY ((0 : ℝ) * (Real.pi / 180)) (((-20) : ℝ) * (Real.pi / 180))) (g2sX ((0 : ℝ) * (Real.pi / 180)) (((-20) : ℝ) * (Real.pi / 180))))) * ((Hgeo) - (sxR (g2sY ((0 : ℝ) * (Real.pi / 180)) (((-20) : ℝ) * (Real.pi / 180))) (g2sX ((0 : ℝ) * (Real.pi / 180)) (((-20) : ℝ) * (Real.pi / 180)))))) + ((syR (g2sY ((0 : ℝ) * (Real.pi / 180)) (((-20) : ℝ) * (Real.pi / 180))) (g2sX ((0 : ℝ) * (Real.pi / 180)) (((-20) : ℝ) * (Real.pi / 180)))) * (syR (g2sY ((0 : ℝ) * (Real.pi / 180)) (((-20) : ℝ) * (Real.pi / 180))) (g2sX ((0 : ℝ) * (Real.pi / 180)) (((-20) : ℝ) * (Real.pi / 180))))))))) :=
    IA.mul_mem h64 h101 (by norm_num) (by norm_num) (by norm_num) (by norm_num)
      (by norm_num) (by norm_num) (by norm_num) (by norm_num)
  have h103p1 : (IA.IQ.mk (-8079404736119747582e-32) (-8079404736119747582e-32)).memR (((-8079404736119747582e-32) : ℚ) : ℝ) :=
    IA.memR_const le_rfl le_rfl
  have h103p2 : (IA.IQ.mk (-8079404736119747582e-32) (-8079404736119747581999999e-38)).memR (Real.sin (((-8079404736119747582e-32) : ℚ) : ℝ)) :=
    IA.sin_mem 8079404736119747582e-32 h103p1 (by norm_num) (by norm_num) (by norm_num) (by norm_num)
      (by norm_num [IA.sinQ, IA.cosQ, IA.errW, IA.taylErr]) (by norm_num [IA.sinQ, IA.cosQ, IA.errW, IA.taylErr])
  have h103p3 : (IA.IQ.mk 9999999999999999999999999e-25 1).memR (Real.cos (((-8079404736119747582e-32) : ℚ) : ℝ)) :=
    IA.cos_mem 8079404736119747582e-32 h103p1 (by norm_num) (by norm_num) (by norm_num) (by norm_num)
      (by norm_num [IA.sinQ, IA.cosQ, IA.errW, IA.taylErr]) (by norm_num [IA.sinQ, IA.cosQ, IA.errW, IA.taylErr])
  have h103p4 : (IA.IQ.mk (-8079404736119747582000001e-38) (-8079404736119747581999999e-38)).memR (Real.tan (((-8079404736119747582e-32) : ℚ) : ℝ)) :=
    IA.tan_mem h103p2 h103p3 (by norm_num) (by norm_num) (by norm_num)
      (by norm_num) (by norm_num)
  have h103p5 : (IA.IQ.mk 8079404736119747582e-32 8079404736119747582e-32).memR ((8079404736119747582e-32 : ℚ) : ℝ) :=
    IA.memR_const le_rfl le_rfl
  have h103p6 : (IA.IQ.mk 8079404736119747581999999e-38 8079404736119747582e-32).memR (Real.sin ((8079404736119747582e-32 : ℚ) : ℝ)) :=
    IA.sin_mem 8079404736119747582e-32 h103p5 (by norm_num) (by norm_num) (by norm_num) (by norm_num)
      (by norm_num [IA.sinQ, IA.cosQ, IA.errW, IA.taylErr]) (by norm_num [IA.sinQ, IA.cosQ, IA.errW, IA.taylErr])
  have h103p7 : (IA.IQ.mk 9999999999999999999999999e-25 1).memR (Real.cos ((8079404736119747582e-32 : ℚ) : ℝ)) :=
    IA.cos_mem 8079404736119747582e-32 h103p5 (by norm_num) (by norm_num) (by norm_num) (by norm_num)
      (by norm_num [IA.sinQ, IA.cosQ, IA.errW, IA.taylErr]) (by norm_num [IA.sinQ, IA.cosQ, IA.errW, IA.taylErr])
  have h103p8 : (IA.IQ.mk 8079404736119747581999999e-38 8079404736119747582000001e-38).memR (Real.tan ((8079404736119747582e-32 : ℚ) : ℝ)) :=
    IA.tan_mem h103p6 h103p7 (by norm_num) (by norm_num) (by norm_num)
      (by norm_num) (by norm_num)
  have h104 : (IA.IQ.mk (-8079404736119747582e-32) 8079404736119747582e-32).memR (Real.arctan ((r_eq * r_eq / (r_pol * r_pol)) * ((szR (g2sY ((0 : ℝ) * (Real.pi / 180)) (((-20) : ℝ) * (Real.pi / 180))) (g2sX ((0 : ℝ) * (Real.pi / 180)) (((-20) : ℝ) * (Real.pi / 180)))) / (Real.sqrt ((((Hgeo) - (sxR (g2sY ((0 : ℝ) * (Real.pi / 180)) (((-20) : ℝ) * (Real.pi / 180))) (g2sX ((0 : ℝ) * (Real.pi / 180)) (((-20) : ℝ) * (Real.pi / 180))))) * ((Hgeo) - (sxR (g2sY ((0 : ℝ) * (Real.pi / 180)) (((-20) : ℝ) * (Real.pi / 180))) (g2sX ((0 : ℝ) * (Real.pi / 180)) (((-20) : ℝ) * (Real.pi / 180)))))) + ((syR (g2sY ((0 : ℝ) * (Real.pi / 180)) (((-20) : ℝ) * (Real.pi / 180))) (g2sX ((0 : ℝ) * (Real.pi / 180)) (((-20) : ℝ) * (Real.pi / 180)))) * (syR (g2sY ((0 : ℝ) * (Real.pi / 180)) (((-20) : ℝ) * (Real.pi / 180))) (g2sX ((0 : ℝ) * (Real.pi / 180)) (((-20) : ℝ) * (Real.pi / 180)))))))))) :=
    IA.arctan_mem (-8079404736119747582e-32) 8079404736119747582e-32 h102 h103p4 h103p8 (by norm_num)
      (by norm_num) (by norm_num) (by norm_num) (by norm_num) (by norm_num)
  have h105 : (IA.IQ.mk 180 180).memR ((180 : ℝ)) :=
    IA.memR_of_bounds (by norm_num) (by norm_num)
  have h106 : (IA.IQ.mk 5729577951308232087666398e-23 5729577951308232087684637e-23).memR (180 / Real.pi) :=
    IA.div_mem h105 IA.pi_mem20 (by norm_num) (by norm_num) (by norm_num)
      (by norm_num) (by norm_num)
  have h107 : (IA.IQ.mk (-462915792357670108305761e-35) 462915792357670108305761e-35).memR ((Real.arctan ((r_eq * r_eq / (r_pol * r_pol)) * ((szR (g2sY ((0 : ℝ) * (Real.pi / 180)) (((-20) : ℝ) * (Real.pi / 180))) (g2sX ((0 : ℝ) * (Real.pi / 180)) (((-20) : ℝ) * (Real.pi / 180)))) / (Real.sqrt ((((Hgeo) - (sxR (g2sY ((0 : ℝ) * (Real.pi / 180)) (((-20) : ℝ) * (Real.pi / 180))) (g2sX ((0 : ℝ) * (Real.pi / 180)) (((-20) : ℝ) * (Real.pi / 180))))) * ((Hgeo) - (sxR (g2sY ((0 : ℝ) * (Real.pi / 180)) (((-20) : ℝ) * (Real.pi / 180))) (g2sX ((0 : ℝ) * (Real.pi / 180)) (((-20) : ℝ) * (Real.pi / 180)))))) + ((syR (g2sY ((0 : ℝ) * (Real.pi / 180)) (((-20) : ℝ) * (Real.pi / 180))) (g2sX ((0 : ℝ) * (Real.pi / 180)) (((-20) : ℝ) * (Real.pi / 180)))) * (syR (g2sY ((0 : ℝ) * (Real.pi / 180)) (((-20) : ℝ) * (Real.pi / 180))) (g2sX ((0 : ℝ) * (Real.pi / 180)) (((-20) : ℝ) * (Real.pi / 180)))))))))) * (180 / Real.pi)) :=
    IA.mul_mem h104 h106 (by norm_num) (by norm_num) (by norm_num) (by norm_num)
      (by norm_num) (by norm_num) (by norm_num) (by norm_num)
  have h108 : (IA.IQ.mk (-462915792357670108305761e-35) 462915792357670108305761e-35).memR (s2gLat (g2sY ((0 : ℝ) * (Real.pi / 180)) (((-20) : ℝ) * (Real.pi / 180))) (g2sX ((0 : ℝ) * (Real.pi / 180)) (((-20) : ℝ) * (Real.pi / 180)))) :=
    by unfold s2gLat; exact h107
  have h109 : (IA.IQ.mk (-1411866212402402962990637e-24) (-1411865897276629083357384e-24)).memR ((syR (g2sY ((0 : ℝ) * (Real.pi / 180)) (((-20) : ℝ) * (Real.pi / 180))) (g2sX ((0 : ℝ) * (Real.pi / 180)) (((-20) : ℝ) * (Real.pi / 180)))) / ((Hgeo) - (sxR (g2sY ((0 : ℝ) * (Real.pi / 180)) (((-20) : ℝ) * (Real.pi / 180))) (g2sX ((0 : ℝ) * (Real.pi / 180)) (((-20) : ℝ) * (Real.pi / 180)))))) :=
    IA.div_mem h92 h96 (by norm_num) (by norm_num) (by norm_num)
      (by norm_num) (by norm_num)
  have h116p1 : (IA.IQ.mk (-95453331151422943751e-20) (-95453331151422943751e-20)).memR (((-95453331151422943751e-20) : ℚ) : ℝ) :=
    IA.memR_const le_rfl le_rfl
  have h116p2 : (IA.IQ.mk (-8160440894097176268322603e-25) (-8160440868218133576662486e-25)).memR (Real.sin (((-95453331151422943751e-20) : ℚ) : ℝ)) :=
    IA.sin_mem 95453331151422943751e-20 h116p1 (by norm_num) (by norm_num) (by norm_num) (by norm_num)
      (by norm_num [IA.sinQ, IA.cosQ, IA.errW, IA.taylErr]) (by norm_num [IA.sinQ, IA.cosQ, IA.errW, IA.taylErr])
  have h116p3 : (IA.IQ.mk 5779896566887460924071733e-25 577989659276650361573185e-24).memR (Real.cos (((-95453331151422943751e-20) : ℚ) : ℝ)) :=
    IA.cos_mem 95453331151422943751e-20 h116p1 (by norm_num) (by norm_num) (by norm_num) (by norm_num)
      (by norm_num [IA.sinQ, IA.cosQ, IA.errW, IA.taylErr]) (by norm_num [IA.sinQ, IA.cosQ, IA.errW, IA.taylErr])
  have h116p4 : (IA.IQ.mk (-1411866250487535132994497e-24) (-1411866239688589397346687e-24)).memR (Real.tan (((-95453331151422943751e-20) : ℚ) : ℝ)) :=
    IA.tan_mem h116p2 h116p3 (by norm_num) (by norm_num) (by norm_num)
      (by norm_num) (by norm_num)
  have h116p5 : (IA.IQ.mk (-95453318623949872685e-20) (-95453318623949872685e-20)).memR (((-95453318623949872685e-20) : ℚ) : ℝ) :=
    IA.memR_const le_rfl le_rfl
  have h116p6 : (IA.IQ.mk (-816044017002210428257251e-24) (-8160440144143102347848479e-25)).memR (Real.sin (((-95453318623949872685e-20) : ℚ) : ℝ)) :=
    IA.sin_mem 95453318623949872685e-20 h116p5 (by norm_num) (by norm_num) (by norm_num) (by norm_num)
      (by norm_num [IA.sinQ, IA.cosQ, IA.errW, IA.taylErr]) (by norm_num [IA.sinQ, IA.cosQ, IA.errW, IA.taylErr])
  have h116p7 : (IA.IQ.mk 5779897589184488626567363e-25 5779897615063490561291394e-25).memR (Real.cos (((-95453318623949872685e-20) : ℚ) : ℝ)) :=
    IA.cos_mem 95453318623949872685e-20 h116p5 (by norm_num) (by norm_num) (by norm_num) (by norm_num)
      (by norm_num [IA.sinQ, IA.cosQ, IA.errW, IA.taylErr]) (by norm_num [IA.sinQ, IA.cosQ, IA.errW, IA.taylErr])
  have h116p8 : (IA.IQ.mk (-1411865875494430163735764e-24) (-1411865864695505024379363e-24)).memR (Real.tan (((-95453318623949872685e-20) : ℚ) : ℝ)) :=
    IA.tan_mem h116p6 h116p7 (by norm_num) (by norm_num) (by norm_num)
      (by norm_num) (by norm_num)
  have h117 : (IA.IQ.mk (-95453331151422943751e-20) (-95453318623949872685e-20)).memR (Real.arctan ((syR (g2sY ((0 : ℝ) * (Real.pi / 180)) (((-20) : ℝ) * (Real.pi / 180))) (g2sX ((0 : ℝ) * (Real.pi / 180)) (((-20) : ℝ) * (Real.pi / 180)))) / ((Hgeo) - (sxR (g2sY ((0 : ℝ) * (Real.pi / 180)) (((-20) : ℝ) * (Real.pi / 180))) (g2sX ((0 : ℝ) * (Real.pi / 180)) (((-20) : ℝ) * (Real.pi / 180))))))) :=
    IA.arctan_mem (-95453331151422943751e-20) (-95453318623949872685e-20) h109 h116p4 h116p8 (by norm_num)
      (by norm_num) (by norm_num) (by norm_num) (by norm_num) (by norm_num)
  have h118 : (IA.IQ.mk (-1308996939e-9) (-1308996939e-9)).memR (lambda_0) :=
    IA.memR_of_bounds (by norm_num [lambda_0]) (by norm_num [lambda_0])
  have h119 : (IA.IQ.mk (-35446375276050127315e-20) (-35446362748577056249e-20)).memR ((lambda_0) - (Real.arctan ((syR (g2sY ((0 : ℝ) * (Real.pi / 180)) (((-20) : ℝ) * (Real.pi / 180))) (g2sX ((0 : ℝ) * (Real.pi / 180)) (((-20) : ℝ) * (Real.pi / 180)))) / ((Hgeo) - (sxR (g2sY ((0 : ℝ) * (Real.pi / 180)) (((-20) : ℝ) * (Real.pi / 180))) (g2sX ((0 : ℝ) * (Real.pi / 180)) (((-20) : ℝ) * (Real.pi / 180)))))))) :=
    IA.sub_mem h118 h117 (by norm_num) (by norm_num)
  have h120 : (IA.IQ.mk (-2030927702354540580869569e-23) (-2030926984583205644989315e-23)).memR (((lambda_0) - (Real.arctan ((syR (g2sY ((0 : ℝ) * (Real.pi / 180)) (((-20) : ℝ) * (Real.pi / 180))) (g2sX ((0 : ℝ) * (Real.pi / 180)) (((-20) : ℝ) * (Real.pi / 180)))) / ((Hgeo) - (sxR (g2sY ((0 : ℝ) * (Real.pi / 180)) (((-20) : ℝ) * (Real.pi / 180))) (g2sX ((0 : ℝ) * (Real.pi / 180)) (((-20) : ℝ) * (Real.pi / 180)))))))) * (180 / Real.pi)) :=
    IA.mul_mem h119 h106 (by norm_num) (by norm_num) (by norm_num) (by norm_num)
      (by norm_num) (by norm_num) (by norm_num) (by norm_num)
  have h121 : (IA.IQ.mk (-2030927702354540580869569e-23) (-2030926984583205644989315e-23)).memR (s2gLon (g2sY ((0 : ℝ) * (Real.pi / 180)) (((-20) : ℝ) * (Real.pi / 180))) (g2sX ((0 : ℝ) * (Real.pi / 180)) (((-20) : ℝ) * (Real.pi / 180)))) :=
    by unfold s2gLon; exact h120
  have h122 : (0:ℝ) ≤ (discR (g2sY ((0 : ℝ) * (Real.pi / 180)) (((-20) : ℝ) * (Real.pi / 180))) (g2sX ((0 : ℝ) * (Real.pi / 180)) (((-20) : ℝ) * (Real.pi / 180)))) :=
    le_trans (by norm_num : (0:ℝ) ≤ ((34940528112540826993584e-9 : ℚ) : ℝ)) h79.1
  have h123 : (aR (g2sY ((0 : ℝ) * (Real.pi / 180)) (((-20) : ℝ) * (Real.pi / 180))) (g2sX ((0 : ℝ) * (Real.pi / 180)) (((-20) : ℝ) * (Real.pi / 180)))) ≠ 0 :=
    ne_of_gt (lt_of_lt_of_le (by norm_num : (0:ℝ) < ((9999999994112711369745382e-25 : ℚ) : ℝ)) h68.1)
  have h124 : ((Hgeo) - (sxR (g2sY ((0 : ℝ) * (Real.pi / 180)) (((-20) : ℝ) * (Real.pi / 180))) (g2sX ((0 : ℝ) * (Real.pi / 180)) (((-20) : ℝ) * (Real.pi / 180))))) ≠ 0 :=
    ne_of_gt (lt_of_lt_of_le (by norm_num : (0:ℝ) < ((36864971870333751379058e-16 : ℚ) : ℝ)) h96.1)
  have h125 : (Real.sqrt ((((Hgeo) - (sxR (g2sY ((0 : ℝ) * (Real.pi / 180)) (((-20) : ℝ) * (Real.pi / 180))) (g2sX ((0 : ℝ) * (Real.pi / 180)) (((-20) : ℝ) * (Real.pi / 180))))) * ((Hgeo) - (sxR (g2sY ((0 : ℝ) * (Real.pi / 180)) (((-20) : ℝ) * (Real.pi / 180))) (g2sX ((0 : ℝ) * (Real.pi / 180)) (((-20) : ℝ) * (Real.pi / 180)))))) + ((syR (g2sY ((0 : ℝ) * (Real.pi / 180)) (((-20) : ℝ) * (Real.pi / 180))) (g2sX ((0 : ℝ) * (Real.pi / 180)) (((-20) : ℝ) * (Real.pi / 180)))) * (syR (g2sY ((0 : ℝ) * (Real.pi / 180)) (((-20) : ℝ) * (Real.pi / 180))) (g2sX ((0 : ℝ) * (Real.pi / 180)) (((-20) : ℝ) * (Real.pi / 180))))))) ≠ 0 :=
    ne_of_gt (lt_of_lt_of_le (by norm_num : (0:ℝ) < ((6378136738296823036870821e-18 : ℚ) : ℝ)) h100.1)
  have h126 : (IA.IQ.mk (-1308996939e-9) (-1308996939e-9)).memR (lambda_0) :=
    IA.memR_of_bounds (by norm_num [lambda_0]) (by norm_num [lambda_0])
  have h127 : (IA.IQ.mk 180 180).memR ((180 : ℝ)) :=
    IA.memR_of_bounds (by norm_num) (by norm_num)
  have h128 : (IA.IQ.mk 5729577951308232087666398e-23 5729577951308232087684637e-23).memR (180 / Real.pi) :=
    IA.div_mem h127 IA.pi_mem20 (by norm_num) (by norm_num) (by norm_num)
      (by norm_num) (by norm_num)
  have h129 : (IA.IQ.mk (-750000000002436684828077e-22) (-7500000000024366848256894e-23)).memR (lambda_0 * (180 / Real.pi)) :=
    IA.mul_mem h126 h128 (by norm_num) (by norm_num) (by norm_num) (by norm_num)
      (by norm_num) (by norm_num) (by norm_num) (by norm_num)
  have hro1 := h129.1
  have hro2 := h129.2
  norm_num at hro1 hro2
  have hr1 : lambda_0 * (180 / Real.pi) - 60 ≤ (-20 : ℝ) := by linarith
  have hr2 : (-20 : ℝ) ≤ lambda_0 * (180 / Real.pi) + 60 := by linarith
  refine ⟨by norm_num, hr1, hr2, _, _, _, _,
    geod_to_scan_agree 0 (-20) h54,
    scan_to_geod_agree _ _ h122 h123 h124 h125, ?_⟩
  exact IA.abs_gt_of_rat (IA.abs_sub_gt_of_memR_below h121 (-20) 1e-4
    (by norm_num)) (by norm_num) (by norm_num)

set_option maxHeartbeats 4000000 in
/-- C1 (amended): on the nadir meridian the round trip does hold: at (0, -75), which lies within about 2.5e-10 degrees of the satellite longitude, composing `geod_to_scan` with `scan_to_geod` returns latitude and longitude within 1e-4 degrees of the input; away from this meridian the missing arcsine makes the round trip fail (see the counterexample). -/
theorem round_trip_nadir :
    ∃ y1 x1 la lo, geod_to_scan (F.fin 0) (F.fin (-75)) = .ok (F.fin y1, F.fin x1) ∧
      scan_to_geod (F.fin y1) (F.fin x1) = .ok (F.fin la, F.fin lo) ∧
      |la - 0| < 1e-4 ∧ |lo - (-75)| < 1e-4 := by
  have h1 : (IA.IQ.mk 180 180).memR ((180 : ℝ)) :=
    IA.memR_of_bounds (by norm_num) (by norm_num)
  have h2 : (IA.IQ.mk 1745329251994329576922222e-26 1745329251994329576927778e-26).memR (Real.pi / 180) :=
    IA.div_mem IA.pi_mem20 h1 (by norm_num) (by norm_num) (by norm_num)
      (by norm_num) (by norm_num)
  have h3 : (IA.IQ.mk 0 0).memR ((0 : ℝ)) :=
    IA.memR_of_bounds (by norm_num) (by norm_num)
  have h4 : (IA.IQ.mk (-75) (-75)).memR (((-75) : ℝ)) :=
    IA.memR_of_bounds (by norm_num) (by norm_num)
  have h5 : (IA.IQ.mk 0 0).memR ((0 : ℝ) * (Real.pi / 180)) :=
    IA.mul_mem h3 h2 (by norm_num) (by norm_num) (by norm_num) (by norm_num)
      (by norm_num) (by norm_num) (by norm_num) (by norm_num)
  have h6 : (IA.IQ.mk (-1308996938995747182695834e-24) (-1308996938995747182691666e-24)).memR (((-75) : ℝ) * (Real.pi / 180)) :=
    IA.mul_mem h4 h2 (by norm_num) (by norm_num) (by norm_num) (by norm_num)
      (by norm_num) (by norm_num) (by norm_num) (by norm_num)
  have h7 : (IA.IQ.mk 9933056199769880028595027e-25 9933056199769880028595028e-25).memR (r_pol * r_pol / (r_eq * r_eq)) :=
    IA.memR_of_bounds (by norm_num [r_pol, r_eq]) (by norm_num [r_pol, r_eq])
  have h8 : (IA.IQ.mk 0 0).memR (Real.sin ((0 : ℝ) * (Real.pi / 180))) :=
    IA.sin_mem 0 h5 (by norm_num) (by norm_num) (by norm_num) (by norm_num)
      (by norm_num [IA.sinQ, IA.cosQ, IA.errW, IA.taylErr]) (by norm_num [IA.sinQ, IA.cosQ, IA.errW, IA.taylErr])
  have h9 : (IA.IQ.mk 1 1).memR (Real.cos ((0 : ℝ) * (Real.pi / 180))) :=
    IA.cos_mem 0 h5 (by norm_num) (by norm_num) (by norm_num) (by norm_num)
      (by norm_num [IA.sinQ, IA.cosQ, IA.errW, IA.taylErr]) (by norm_num [IA.sinQ, IA.cosQ, IA.errW, IA.taylErr])
  have h10 : (IA.IQ.mk 0 0).memR (Real.tan ((0 : ℝ) * (Real.pi / 180))) :=
    IA.tan_mem h8 h9 (by norm_num) (by norm_num) (by norm_num)
      (by norm_num) (by norm_num)
  have h11 : (IA.IQ.mk 0 0).memR ((r_pol * r_pol / (r_eq * r_eq)) * (Real.tan ((0 : ℝ) * (Real.pi / 180)))) :=
    IA.mul_mem h7 h10 (by norm_num) (by norm_num) (by norm_num) (by norm_num)
      (by norm_num) (by norm_num) (by norm_num) (by norm_num)
  have h12p1 : (IA.IQ.mk (-1e-14) (-1e-14)).memR (((-1e-14) : ℚ) : ℝ) :=
    IA.memR_const le_rfl le_rfl
  have h12p2 : (IA.IQ.mk (-1e-14) (-9999999999999999999999999e-39)).memR (Real.sin (((-1e-14) : ℚ) : ℝ)) :=
    IA.sin_mem 1e-14 h12p1 (by norm_num) (by norm_num) (by norm_num) (by norm_num)
      (by norm_num [IA.sinQ, IA.cosQ, IA.errW, IA.taylErr]) (by norm_num [IA.sinQ, IA.cosQ, IA.errW, IA.taylErr])
  have h12p3 : (IA.IQ.mk 9999999999999999999999999e-25 1).memR (Real.cos (((-1e-14) : ℚ) : ℝ)) :=
    IA.cos_mem 1e-14 h12p1 (by norm_num) (by norm_num) (by norm_num) (by norm_num)
      (by norm_num [IA.sinQ, IA.cosQ, IA.errW, IA.taylErr]) (by norm_num [IA.sinQ, IA.cosQ, IA.errW, IA.taylErr])
  have h12p4 : (IA.IQ.mk (-1000000000000000000000001e-38) (-9999999999999999999999999e-39)).memR (Real.tan (((-1e-14) : ℚ) : ℝ)) :=
    IA.tan_mem h12p2 h12p3 (by norm_num) (by norm_num) (by norm_num)
      (by norm_num) (by norm_num)
  have h12p5 : (IA.IQ.mk 1e-14 1e-14).memR ((1e-14 : ℚ) : ℝ) :=
    IA.memR_const le_rfl le_rfl
  have h12p6 : (IA.IQ.mk 9999999999999999999999999e-39 1e-14).memR (Real.sin ((1e-14 : ℚ) : ℝ)) :=
    IA.sin_mem 1e-14 h12p5 (by norm_num) (by norm_num) (by norm_num) (by norm_num)
      (by norm_num [IA.sinQ, IA.cosQ, IA.errW, IA.taylErr]) (by norm_num [IA.sinQ, IA.cosQ, IA.errW, IA.taylErr])
  have h12p7 : (IA.IQ.mk 9999999999999999999999999e-25 1).memR (Real.cos ((1e-14 : ℚ) : ℝ)) :=
    IA.cos_mem 1e-14 h12p5 (by norm_num) (by norm_num) (by norm_num) (by norm_num)
      (by norm_num [IA.sinQ, IA.cosQ, IA.errW, IA.taylErr]) (by norm_num [IA.sinQ, IA.cosQ, IA.errW, IA.taylErr])
  have h12p8 : (IA.IQ.mk 9999999999999999999999999e-39 1000000000000000000000001e-38).memR (Real.tan ((1e-14 : ℚ) : ℝ)) :=
    IA.tan_mem h12p6 h12p7 (by norm_num) (by norm_num) (by norm_num)
      (by norm_num) (by norm_num)
  have h13 : (IA.IQ.mk (-1e-14) 1e-14).memR (Real.arctan ((r_pol * r_pol / (r_eq * r_eq)) * (Real.tan ((0 : ℝ) * (Real.pi / 180))))) :=
    IA.arctan_mem (-1e-14) 1e-14 h11 h12p4 h12p8 (by norm_num)
      (by norm_num) (by norm_num) (by norm_num) (by norm_num) (by norm_num)
  have h14 : (IA.IQ.mk (-1e-14) 1e-14).memR (thetacR ((0 : ℝ) * (Real.pi / 180))) :=
    by unfold thetacR; exact h13
  have h15 : (IA.IQ.mk 9999999999999899999999999e-25 1000000000000010000000001e-24).memR (Real.cos (thetacR ((0 : ℝ) * (Real.pi / 180)))) :=
    IA.cos_mem 1e-14 h14 (by norm_num) (by norm_num) (by norm_num) (by norm_num)
      (by norm_num [IA.sinQ, IA.cosQ, IA.errW, IA.taylErr]) (by norm_num [IA.sinQ, IA.cosQ, IA.errW, IA.taylErr])
  have h16 : (IA.IQ.mk (-1000000000000000000000001e-38) 1000000000000000000000001e-38).memR (Real.sin (thetacR ((0 : ℝ) * (Real.pi / 180)))) :=
    IA.sin_mem 1e-14 h14 (by norm_num) (by norm_num) (by norm_num) (by norm_num)
      (by norm_num [IA.sinQ, IA.cosQ, IA.errW, IA.taylErr]) (by norm_num [IA.sinQ, IA.cosQ, IA.errW, IA.taylErr])
  have h17 : (IA.IQ.mk 9999999999999799999999998e-25 1000000000000020000000003e-24).memR ((Real.cos (thetacR ((0 : ℝ) * (Real.pi / 180)))) * (Real.cos (thetacR ((0 : ℝ) * (Real.pi / 180))))) :=
    IA.mul_mem h15 h15 (by norm_num) (by norm_num) (by norm_num) (by norm_num)
      (by norm_num) (by norm_num) (by norm_num) (by norm_num)
  have h18 : (IA.IQ.mk 669438002301275061889225e-26 669438002301275061889225e-26).memR (e_ecc * e_ecc) :=
    IA.memR_of_bounds (by norm_num [e_ecc]) (by norm_num [e_ecc])
  have h19 : (IA.IQ.mk 6694380023012616731291788e-27 6694380023012884506492731e-27).memR ((e_ecc * e_ecc) * ((Real.cos (thetacR ((0 : ℝ) * (Real.pi / 180)))) * (Real.cos (thetacR ((0 : ℝ) * (Real.pi / 180)))))) :=
    IA.mul_mem h18 h17 (by norm_num) (by norm_num) (by norm_num) (by norm_num)
      (by norm_num) (by norm_num) (by norm_num) (by norm_num)
  have h20 : (IA.IQ.mk 1 1).memR ((1 : ℝ)) :=
    IA.memR_of_bounds (by norm_num) (by norm_num)
  have h21 : (IA.IQ.mk 9933056199769871154935072e-25 9933056199769873832687083e-25).memR (((1 : ℝ)) - ((e_ecc * e_ecc) * ((Real.cos (thetacR ((0 : ℝ) * (Real.pi / 180)))) * (Real.cos (thetacR ((0 : ℝ) * (Real.pi / 180))))))) :=
    IA.sub_mem h20 h19 (by norm_num) (by norm_num)
  have h22 : (IA.IQ.mk 9966471893187614440720096e-25 9966471893187615784100202e-25).memR (Real.sqrt (((1 : ℝ)) - ((e_ecc * e_ecc) * ((Real.cos (thetacR ((0 : ℝ) * (Real.pi / 180)))) * (Real.cos (thetacR ((0 : ℝ) * (Real.pi / 180)))))))) :=
    IA.sqrt_mem h21 (by norm_num) (by norm_num) (by norm_num)
  have h23 : (IA.IQ.mk 635675231414e-5 635675231414e-5).memR (r_pol) :=
    IA.memR_of_bounds (by norm_num [r_pol]) (by norm_num [r_pol])
  have h24 : (IA.IQ.mk 6378137000000001989234174e-18 6378137000000002848942851e-18).memR ((r_pol) / (Real.sqrt (((1 : ℝ)) - ((e_ecc * e_ecc) * ((Real.cos (thetacR ((0 : ℝ) * (Real.pi / 180)))) * (Real.cos (thetacR ((0 : ℝ) * (Real.pi / 180))))))))) :=
    IA.div_mem h23 h22 (by norm_num) (by norm_num) (by norm_num)
      (by norm_num) (by norm_num)
  have h25 : (IA.IQ.mk 6378137000000001989234174e-18 6378137000000002848942851e-18).memR (rcR ((0 : ℝ) * (Real.pi / 180))) :=
    by unfold rcR; exact h24
  have h26 : (IA.IQ.mk (-1308996939e-9) (-1308996939e-9)).memR (lambda_0) :=
    IA.memR_of_bounds (by norm_num [lambda_0]) (by norm_num [lambda_0])
  have h27 : (IA.IQ.mk 4252817304166e-24 4252817308334e-24).memR ((((-75) : ℝ) * (Real.pi / 180)) - (lambda_0)) :=
    IA.sub_mem h6 h26 (by norm_num) (by norm_num)
  have h28 : (IA.IQ.mk 9999999999999999999979069e-25 1000000000000000000002075e-24).memR (Real.cos ((((-75) : ℝ) * (Real.pi / 180)) - (lambda_0))) :=
    IA.cos_mem 4252817308334e-24 h27 (by norm_num) (by norm_num) (by norm_num) (by norm_num)
      (by norm_num [IA.sinQ, IA.cosQ, IA.errW, IA.taylErr]) (by norm_num [IA.sinQ, IA.cosQ, IA.errW, IA.taylErr])
  have h29 : (IA.IQ.mk 6378136999999938207864173e-18 6378137000000066630312858e-18).memR ((rcR ((0 : ℝ) * (Real.pi / 180))) * (Real.cos (thetacR ((0 : ℝ) * (Real.pi / 180))))) :=
    IA.mul_mem h25 h15 (by norm_num) (by norm_num) (by norm_num) (by norm_num)
      (by norm_num) (by norm_num) (by norm_num) (by norm_num)
  have h30 : (IA.IQ.mk 6378136999999938207850822e-18 6378137000000066630326093e-18).memR (((rcR ((0 : ℝ) * (Real.pi / 180))) * (Real.cos (thetacR ((0 : ℝ) * (Real.pi / 180))))) * (Real.cos ((((-75) : ℝ) * (Real.pi / 180)) - (lambda_0)))) :=
    IA.mul_mem h29 h28 (by norm_num) (by norm_num) (by norm_num) (by norm_num)
      (by norm_num) (by norm_num) (by norm_num) (by norm_num)
  have h31 : (IA.IQ.mk 42164160 42164160).memR (Hgeo) :=
    IA.memR_of_bounds (by norm_num [Hgeo]) (by norm_num [Hgeo])
  have h32 : (IA.IQ.mk 357860229999999333696739e-16 3578602300000006179214918e-17).memR ((Hgeo) - (((rcR ((0 : ℝ) * (Real.pi / 180))) * (Real.cos (thetacR ((0 : ℝ) * (Real.pi / 180))))) * (Real.cos ((((-75) : ℝ) * (Real.pi / 180)) - (lambda_0))))) :=
    IA.sub_mem h31 h30 (by norm_num) (by norm_num)
  have h33 : (IA.IQ.mk 357860229999999333696739e-16 3578602300000006179214918e-17).memR (sxiR ((0 : ℝ) * (Real.pi / 180)) (((-75) : ℝ) * (Real.pi / 180))) :=
    by unfold sxiR; exact h32
  have h34 : (IA.IQ.mk 4252817304165999999999987e-36 4252817308333999999999988e-36).memR (Real.sin ((((-75) : ℝ) * (Real.pi / 180)) - (lambda_0))) :=
    IA.sin_mem 4252817308334e-24 h27 (by norm_num) (by norm_num) (by norm_num) (by norm_num)
      (by norm_num [IA.sinQ, IA.cosQ, IA.errW, IA.taylErr]) (by norm_num [IA.sinQ, IA.cosQ, IA.errW, IA.taylErr])
  have h35 : (IA.IQ.mk (-6378137000000002848942851e-18) (-6378137000000001989234174e-18)).memR (-(rcR ((0 : ℝ) * (Real.pi / 180)))) :=
    IA.neg_mem h25 (by norm_num) (by norm_num)
  have h36 : (IA.IQ.mk (-6378137000000066630312858e-18) (-6378136999999938207864173e-18)).memR ((-(rcR ((0 : ℝ) * (Real.pi / 180)))) * (Real.cos (thetacR ((0 : ℝ) * (Real.pi / 180))))) :=
    IA.mul_mem h35 h15 (by norm_num) (by norm_num) (by norm_num) (by norm_num)
      (by norm_num) (by norm_num) (by norm_num) (by norm_num)
  have h37 : (IA.IQ.mk (-2712505142852577712454771e-29) (-2712505140194115595133541e-29)).memR (((-(rcR ((0 : ℝ) * (Real.pi / 180)))) * (Real.cos (thetacR ((0 : ℝ) * (Real.pi / 180))))) * (Real.sin ((((-75) : ℝ) * (Real.pi / 180)) - (lambda_0)))) :=
    IA.mul_mem h36 h34 (by norm_num) (by norm_num) (by norm_num) (by norm_num)
      (by norm_num) (by norm_num) (by norm_num) (by norm_num)
  have h38 : (IA.IQ.mk (-2712505142852577712454771e-29) (-2712505140194115595133541e-29)).memR (syiR ((0 : ℝ) * (Real.pi / 180)) (((-75) : ℝ) * (Real.pi / 180))) :=
    by unfold syiR; exact h37
  have h39 : (IA.IQ.mk (-6378137000000002848942858e-32) 6378137000000002848942858e-32).memR ((rcR ((0 : ℝ) * (Real.pi / 180))) * (Real.sin (thetacR ((0 : ℝ) * (Real.pi / 180))))) :=
    IA.mul_mem h25 h16 (by norm_num) (by norm_num) (by norm_num) (by norm_num)
      (by norm_num) (by norm_num) (by norm_num) (by norm_num)
  have h40 : (IA.IQ.mk (-6378137000000002848942858e-32) 6378137000000002848942858e-32).memR (sziR ((0 : ℝ) * (Real.pi / 180))) :=
    by unfold sziR; exact h39
  have h41 : (IA.IQ.mk (-1782298357098807745262706e-39) 1782298357098807745262706e-39).memR ((sziR ((0 : ℝ) * (Real.pi / 180))) / (sxiR ((0 : ℝ) * (Real.pi / 180)) (((-75) : ℝ) * (Real.pi / 180)))) :=
    IA.div_mem h40 h33 (by norm_num) (by norm_num) (by norm_num)
      (by norm_num) (by norm_num)
  have h42p1 : (IA.IQ.mk (-11782298357098807915e-33) (-11782298357098807915e-33)).memR (((-11782298357098807915e-33) : ℚ) : ℝ) :=
    IA.memR_const le_rfl le_rfl
  have h42p2 : (IA.IQ.mk (-11782298357098807915e-33) (-1178229835709880791499999e-38)).memR (Real.sin (((-11782298357098807915e-33) : ℚ) : ℝ)) :=
    IA.sin_mem 11782298357098807915e-33 h42p1 (by norm_num) (by norm_num) (by norm_num) (by norm_num)
      (by norm_num [IA.sinQ, IA.cosQ, IA.errW, IA.taylErr]) (by norm_num [IA.sinQ, IA.cosQ, IA.errW, IA.taylErr])
  have h42p3 : (IA.IQ.mk 9999999999999999999999999e-25 1).memR (Real.cos (((-11782298357098807915e-33) : ℚ) : ℝ)) :=
    IA.cos_mem 11782298357098807915e-33 h42p1 (by norm_num) (by norm_num) (by norm_num) (by norm_num)
      (by norm_num [IA.sinQ, IA.cosQ, IA.errW, IA.taylErr]) (by norm_num [IA.sinQ, IA.cosQ, IA.errW, IA.taylErr])
  have h42p4 : (IA.IQ.mk (-1178229835709880791500001e-38) (-1178229835709880791499999e-38)).memR (Real.tan (((-11782298357098807915e-33) : ℚ) : ℝ)) :=
    IA.tan_mem h42p2 h42p3 (by norm_num) (by norm_num) (by norm_num)
      (by norm_num) (by norm_num)
  have h42p5 : (IA.IQ.mk 11782298357098807915e-33 11782298357098807915e-33).memR ((11782298357098807915e-33 : ℚ) : ℝ) :=
    IA.memR_const le_rfl le_rfl
  have h42p6 : (IA.IQ.mk 1178229835709880791499999e-38 11782298357098807915e-33).memR (Real.sin ((11782298357098807915e-33 : ℚ) : ℝ)) :=
    IA.sin_mem 11782298357098807915e-33 h42p5 (by norm_num) (by norm_num) (by norm_num) (by norm_num)
      (by norm_num [IA.sinQ, IA.cosQ, IA.errW, IA.taylErr]) (by norm_num [IA.sinQ, IA.cosQ, IA.errW, IA.taylErr])
  have h42p7 : (IA.IQ.mk 9999999999999999999999999e-25 1).memR (Real.cos ((11782298357098807915e-33 : ℚ) : ℝ)) :=
    IA.cos_mem 11782298357098807915e-33 h42p5 (by norm_num) (by norm_num) (by norm_num) (by norm_num)
      (by norm_num [IA.sinQ, IA.cosQ, IA.errW, IA.taylErr]) (by norm_num [IA.sinQ, IA.cosQ, IA.errW, IA.taylErr])
  have h42p8 : (IA.IQ.mk 1178229835709880791499999e-38 1178229835709880791500001e-38).memR (Real.tan ((11782298357098807915e-33 : ℚ) : ℝ)) :=
    IA.tan_mem h42p6 h42p7 (by norm_num) (by norm_num) (by norm_num)
      (by norm_num) (by norm_num)
  have h43 : (IA.IQ.mk (-11782298357098807915e-33) 11782298357098807915e-33).memR (Real.arctan ((sziR ((0 : ℝ) * (Real.pi / 180))) / (sxiR ((0 : ℝ) * (Real.pi / 180)) (((-75) : ℝ) * (Real.pi / 180))))) :=
    IA.arctan_mem (-11782298357098807915e-33) 11782298357098807915e-33 h41 h42p4 h42p8 (by norm_num)
      (by norm_num) (by norm_num) (by norm_num) (by norm_num) (by norm_num)
  have h44 : (IA.IQ.mk (-11782298357098807915e-33) 11782298357098807915e-33).memR (g2sY ((0 : ℝ) * (Real.pi / 180)) (((-75) : ℝ) * (Real.pi / 180))) :=
    by unfold g2sY; exact h43
  have h45 : (IA.IQ.mk 2712505140194115595133541e-29 2712505142852577712454771e-29).memR (-(syiR ((0 : ℝ) * (Real.pi / 180)) (((-75) : ℝ) * (Real.pi / 180)))) :=
    IA.neg_mem h38 (by norm_num) (by norm_num)
  have h46 : (IA.IQ.mk 1280639442156524231131235e-9 1280639442156533422590544e-9).memR ((sxiR ((0 : ℝ) * (Real.pi / 180)) (((-75) : ℝ) * (Real.pi / 180))) * (sxiR ((0 : ℝ) * (Real.pi / 180)) (((-75) : ℝ) * (Real.pi / 180)))) :=
    IA.mul_mem h33 h33 (by norm_num) (by norm_num) (by norm_num) (by norm_num)
      (by norm_num) (by norm_num) (by norm_num) (by norm_num)
  have h47 : (IA.IQ.mk 7357684135579498699145458e-34 7357684150001683022703217e-34).memR ((syiR ((0 : ℝ) * (Real.pi / 180)) (((-75) : ℝ) * (Real.pi / 180))) * (syiR ((0 : ℝ) * (Real.pi / 180)) (((-75) : ℝ) * (Real.pi / 180)))) :=
    IA.mul_mem h38 h38 (by norm_num) (by norm_num) (by norm_num) (by norm_num)
      (by norm_num) (by norm_num) (by norm_num) (by norm_num)
  have h48 : (IA.IQ.mk (-4068063159076903634189571e-39) 4068063159076903634189571e-39).memR ((sziR ((0 : ℝ) * (Real.pi / 180))) * (sziR ((0 : ℝ) * (Real.pi / 180)))) :=
    IA.mul_mem h40 h40 (by norm_num) (by norm_num) (by norm_num) (by norm_num)
      (by norm_num) (by norm_num) (by norm_num) (by norm_num)
  have h49 : (IA.IQ.mk 1280639442156524231131235e-9 1280639442156533422590545e-9).memR (((sxiR ((0 : ℝ) * (Real.pi / 180)) (((-75) : ℝ) * (Real.pi / 180))) * (sxiR ((0 : ℝ) * (Real.pi / 180)) (((-75) : ℝ) * (Real.pi / 180)))) + ((syiR ((0 : ℝ) * (Real.pi / 180)) (((-75) : ℝ) * (Real.pi / 180))) * (syiR ((0 : ℝ) * (Real.pi / 180)) (((-75) : ℝ) * (Real.pi / 180))))) :=
    IA.add_mem h46 h47 (by norm_num) (by norm_num)
  have h50 : (IA.IQ.mk 1280639442156524231131234e-9 1280639442156533422590546e-9).memR ((((sxiR ((0 : ℝ) * (Real.pi / 180)) (((-75) : ℝ) * (Real.pi / 180))) * (sxiR ((0 : ℝ) * (Real.pi / 180)) (((-75) : ℝ) * (Real.pi / 180)))) + ((syiR ((0 : ℝ) * (Real.pi / 180)) (((-75) : ℝ) * (Real.pi / 180))) * (syiR ((0 : ℝ) * (Real.pi / 180)) (((-75) : ℝ) * (Real.pi / 180))))) + ((sziR ((0 : ℝ) * (Real.pi / 180))) * (sziR ((0 : ℝ) * (Real.pi / 180))))) :=
    IA.add_mem h49 h48 (by norm_num) (by norm_num)
  have h51 : (IA.IQ.mk 3578602299999993336967388e-17 3578602300000006179214922e-17).memR (Real.sqrt ((((sxiR ((0 : ℝ) * (Real.pi / 180)) (((-75) : ℝ) * (Real.pi / 180))) * (sxiR ((0 : ℝ) * (Real.pi / 180)) (((-75) : ℝ) * (Real.pi / 180)))) + ((syiR ((0 : ℝ) * (Real.pi / 180)) (((-75) : ℝ) * (Real.pi / 180))) * (syiR ((0 : ℝ) * (Real.pi / 180)) (((-75) : ℝ) * (Real.pi / 180))))) + ((sziR ((0 : ℝ) * (Real.pi / 180))) * (sziR ((0 : ℝ) * (Real.pi / 180)))))) :=
    IA.sqrt_mem h50 (by norm_num) (by norm_num) (by norm_num)
  have h52 : (IA.IQ.mk 757978929425633832353718e-36 7579789301685137694381692e-37).memR ((-(syiR ((0 : ℝ) * (Real.pi / 180)) (((-75) : ℝ) * (Real.pi / 180)))) / (Real.sqrt ((((sxiR ((0 : ℝ) * (Real.pi / 180)) (((-75) : ℝ) * (Real.pi / 180))) * (sxiR ((0 : ℝ) * (Real.pi / 180)) (((-75) : ℝ) * (Real.pi / 180)))) + ((syiR ((0 : ℝ) * (Real.pi / 180)) (((-75) : ℝ) * (Real.pi / 180))) * (syiR ((0 : ℝ) * (Real.pi / 180)) (((-75) : ℝ) * (Real.pi / 180))))) + ((sziR ((0 : ℝ) * (Real.pi / 180))) * (sziR ((0 : ℝ) * (Real.pi / 180))))))) :=
    IA.div_mem h45 h51 (by norm_num) (by norm_num) (by norm_num)
      (by norm_num) (by norm_num)
  have h53 : (IA.IQ.mk 757978929425633832353718e-36 7579789301685137694381692e-37).memR (g2sX ((0 : ℝ) * (Real.pi / 180)) (((-75) : ℝ) * (Real.pi / 180))) :=
    by unfold g2sX; exact h52
  have h54 : (sxiR ((0 : ℝ) * (Real.pi / 180)) (((-75) : ℝ) * (Real.pi / 180))) ≠ 0 :=
    ne_of_gt (lt_of_lt_of_le (by norm_num : (0:ℝ) < ((357860229999999333696739e-16 : ℚ) : ℝ)) h33.1)
  have h55 : (IA.IQ.mk 7579789294256338323537179e-37 7579789301685137694381692e-37).memR (Real.sin (g2sX ((0 : ℝ) * (Real.pi / 180)) (((-75) : ℝ) * (Real.pi / 180)))) :=
    IA.sin_mem 7579789301685137694381692e-37 h53 (by norm_num) (by norm_num) (by norm_num) (by norm_num)
      (by norm_num [IA.sinQ, IA.cosQ, IA.errW, IA.taylErr]) (by norm_num [IA.sinQ, IA.cosQ, IA.errW, IA.taylErr])
  have h56 : (IA.IQ.mk 9999999999999999999996282e-25 1000000000000000000000372e-24).memR (Real.cos (g2sX ((0 : ℝ) * (Real.pi / 180)) (((-75) : ℝ) * (Real.pi / 180)))) :=
    IA.cos_mem 7579789301685137694381692e-37 h53 (by norm_num) (by norm_num) (by norm_num) (by norm_num)
      (by norm_num [IA.sinQ, IA.cosQ, IA.errW, IA.taylErr]) (by norm_num [IA.sinQ, IA.cosQ, IA.errW, IA.taylErr])
  have h57 : (IA.IQ.mk (-1178229835709880791500001e-38) 1178229835709880791500001e-38).memR (Real.sin (g2sY ((0 : ℝ) * (Real.pi / 180)) (((-75) : ℝ) * (Real.pi / 180)))) :=
    IA.sin_mem 11782298357098807915e-33 h44 (by norm_num) (by norm_num) (by norm_num) (by norm_num)
      (by norm_num [IA.sinQ, IA.cosQ, IA.errW, IA.taylErr]) (by norm_num [IA.sinQ, IA.cosQ, IA.errW, IA.taylErr])
  have h58 : (IA.IQ.mk 9999999999999882177016429e-25 1000000000000011782298358e-24).memR (Real.cos (g2sY ((0 : ℝ) * (Real.pi / 180)) (((-75) : ℝ) * (Real.pi / 180)))) :=
    IA.cos_mem 11782298357098807915e-33 h44 (by norm_num) (by norm_num) (by norm_num) (by norm_num)
      (by norm_num [IA.sinQ, IA.cosQ, IA.errW, IA.taylErr]) (by norm_num [IA.sinQ, IA.cosQ, IA.errW, IA.taylErr])
  have h59 : (IA.IQ.mk 5745320574532299939684374e-49 5745320585794046733264173e-49).memR ((Real.sin (g2sX ((0 : ℝ) * (Real.pi / 180)) (((-75) : ℝ) * (Real.pi / 180)))) * (Real.sin (g2sX ((0 : ℝ) * (Real.pi / 180)) (((-75) : ℝ) * (Real.pi / 180))))) :=
    IA.mul_mem h55 h55 (by norm_num) (by norm_num) (by norm_num) (by norm_num)
      (by norm_num) (by norm_num) (by norm_num) (by norm_num)
  have h60 : (IA.IQ.mk 9999999999999999999992564e-25 1000000000000000000000745e-24).memR ((Real.cos (g2sX ((0 : ℝ) * (Real.pi / 180)) (((-75) : ℝ) * (Real.pi / 180)))) * (Real.cos (g2sX ((0 : ℝ) * (Real.pi / 180)) (((-75) : ℝ) * (Real.pi / 180))))) :=
    IA.mul_mem h56 h56 (by norm_num) (by norm_num) (by norm_num) (by norm_num)
      (by norm_num) (by norm_num) (by norm_num) (by norm_num)
  have h61 : (IA.IQ.mk 9999999999999999999992569e-25 1000000000000000000000746e-24).memR (((Real.sin (g2sX ((0 : ℝ) * (Real.pi / 180)) (((-75) : ℝ) * (Real.pi / 180)))) * (Real.sin (g2sX ((0 : ℝ) * (Real.pi / 180)) (((-75) : ℝ) * (Real.pi / 180))))) + ((Real.cos (g2sX ((0 : ℝ) * (Real.pi / 180)) (((-75) : ℝ) * (Real.pi / 180)))) * (Real.cos (g2sX ((0 : ℝ) * (Real.pi / 180)) (((-75) : ℝ) * (Real.pi / 180)))))) :=
    IA.add_mem h59 h60 (by norm_num) (by norm_num)
  have h62 : (IA.IQ.mk 9999999999999764354032858e-25 1000000000000023564596717e-24).memR ((Real.cos (g2sY ((0 : ℝ) * (Real.pi / 180)) (((-75) : ℝ) * (Real.pi / 180)))) * (Real.cos (g2sY ((0 : ℝ) * (Real.pi / 180)) (((-75) : ℝ) * (Real.pi / 180))))) :=
    IA.mul_mem h58 h58 (by norm_num) (by norm_num) (by norm_num) (by norm_num)
      (by norm_num) (by norm_num) (by norm_num) (by norm_num)
  have h63 : (IA.IQ.mk (-1388225545756932681181362e-52) 1388225545756932681181362e-52).memR ((Real.sin (g2sY ((0 : ℝ) * (Real.pi / 180)) (((-75) : ℝ) * (Real.pi / 180)))) * (Real.sin (g2sY ((0 : ℝ) * (Real.pi / 180)) (((-75) : ℝ) * (Real.pi / 180))))) :=
    IA.mul_mem h57 h57 (by norm_num) (by norm_num) (by norm_num) (by norm_num)
      (by norm_num) (by norm_num) (by norm_num) (by norm_num)
  have h64 : (IA.IQ.mk 1006739496775591671796869e-24 100673949677559167179687e-23).memR (r_eq * r_eq / (r_pol * r_pol)) :=
    IA.memR_of_bounds (by norm_num [r_eq, r_pol]) (by norm_num [r_eq, r_pol])
  have h65 : (IA.IQ.mk (-1397581487346355517823195e-52) 1397581487346355517823195e-52).memR ((r_eq * r_eq / (r_pol * r_pol)) * ((Real.sin (g2sY ((0 : ℝ) * (Real.pi / 180)) (((-75) : ℝ) * (Real.pi / 180)))) * (Real.sin (g2sY ((0 : ℝ) * (Real.pi / 180)) (((-75) : ℝ) * (Real.pi / 180)))))) :=
    IA.mul_mem h64 h63 (by norm_num) (by norm_num) (by norm_num) (by norm_num)
      (by norm_num) (by norm_num) (by norm_num) (by norm_num)
  have h66 : (IA.IQ.mk 9999999999999764354032857e-25 1000000000000023564596718e-24).memR (((Real.cos (g2sY ((0 : ℝ) * (Real.pi / 180)) (((-75) : ℝ) * (Real.pi / 180)))) * (Real.cos (g2sY ((0 : ℝ) * (Real.pi / 180)) (((-75) : ℝ) * (Real.pi / 180))))) + ((r_eq * r_eq / (r_pol * r_pol)) * ((Real.sin (g2sY ((0 : ℝ) * (Real.pi / 180)) (((-75) : ℝ) * (Real.pi / 180)))) * (Real.sin (g2sY ((0 : ℝ) * (Real.pi / 180)) (((-75) : ℝ) * (Real.pi / 180))))))) :=
    IA.add_mem h62 h65 (by norm_num) (by norm_num)
  have h67 : (IA.IQ.mk 9999999999999764354025426e-25 1000000000000023564597465e-24).memR ((((Real.sin (g2sX ((0 : ℝ) * (Real.pi / 180)) (((-75) : ℝ) * (Real.pi / 180)))) * (Real.sin (g2sX ((0 : ℝ) * (Real.pi / 180)) (((-75) : ℝ) * (Real.pi / 180))))) + ((Real.cos (g2sX ((0 : ℝ) * (Real.pi / 180)) (((-75) : ℝ) * (Real.pi / 180)))) * (Real.cos (g2sX ((0 : ℝ) * (Real.pi / 180)) (((-75) : ℝ) * (Real.pi / 180)))))) * (((Real.cos (g2sY ((0 : ℝ) * (Real.pi / 180)) (((-75) : ℝ) * (Real.pi / 180)))) * (Real.cos (g2sY ((0 : ℝ) * (Real.pi / 180)) (((-75) : ℝ) * (Real.pi / 180))))) + ((r_eq * r_eq / (r_pol * r_pol)) * ((Real.sin (g2sY ((0 : ℝ) * (Real.pi / 180)) (((-75) : ℝ) * (Real.pi / 180)))) * (Real.sin (g2sY ((0 : ℝ) * (Real.pi / 180)) (((-75) : ℝ) * (Real.pi / 180)))))))) :=
    IA.mul_mem h61 h66 (by norm_num) (by norm_num) (by norm_num) (by norm_num)
      (by norm_num) (by norm_num) (by norm_num) (by norm_num)
  have h68 : (IA.IQ.mk 9999999999999764354025426e-25 1000000000000023564597465e-24).memR (aR (g2sY ((0 : ℝ) * (Real.pi / 180)) (((-75) : ℝ) * (Real.pi / 180))) (g2sX ((0 : ℝ) * (Real.pi / 180)) (((-75) : ℝ) * (Real.pi / 180)))) :=
    by unfold aR; exact h67
  have h69 : (IA.IQ.mk (-84328320) (-84328320)).memR (-2 * Hgeo) :=
    IA.memR_of_bounds (by norm_num [Hgeo]) (by norm_num [Hgeo])
  have h70 : (IA.IQ.mk (-8432832000000000000003138e-17) (-8432831999999999999996864e-17)).memR ((-2 * Hgeo) * (Real.cos (g2sX ((0 : ℝ) * (Real.pi / 180)) (((-75) : ℝ) * (Real.pi / 180))))) :=
    IA.mul_mem h69 h56 (by norm_num) (by norm_num) (by norm_num) (by norm_num)
      (by norm_num) (by norm_num) (by norm_num) (by norm_num)
  have h71 : (IA.IQ.mk (-8432832000000099358145765e-17) (-8432831999999900641854244e-17)).memR (((-2 * Hgeo) * (Real.cos (g2sX ((0 : ℝ) * (Real.pi / 180)) (((-75) : ℝ) * (Real.pi / 180))))) * (Real.cos (g2sY ((0 : ℝ) * (Real.pi / 180)) (((-75) : ℝ) * (Real.pi / 180))))) :=
    IA.mul_mem h70 h58 (by norm_num) (by norm_num) (by norm_num) (by norm_num)
      (by norm_num) (by norm_num) (by norm_num) (by norm_num)
  have h72 : (IA.IQ.mk (-8432832000000099358145765e-17) (-8432831999999900641854244e-17)).memR (bR (g2sY ((0 : ℝ) * (Real.pi / 180)) (((-75) : ℝ) * (Real.pi / 180))) (g2sX ((0 : ℝ) * (Real.pi / 180)) (((-75) : ℝ) * (Real.pi / 180)))) :=
    by unfold bR; exact h71
  have h73 : (IA.IQ.mk 1737135756914831 1737135756914831).memR (cR) :=
    IA.memR_of_bounds (by norm_num [cR, Hgeo, r_eq]) (by norm_num [cR, Hgeo, r_eq])
  have h74 : (IA.IQ.mk 7111265554022232425889801e-9 7111265554022567574110214e-9).memR ((bR (g2sY ((0 : ℝ) * (Real.pi / 180)) (((-75) : ℝ) * (Real.pi / 180))) (g2sX ((0 : ℝ) * (Real.pi / 180)) (((-75) : ℝ) * (Real.pi / 180)))) * (bR (g2sY ((0 : ℝ) * (Real.pi / 180)) (((-75) : ℝ) * (Real.pi / 180))) (g2sX ((0 : ℝ) * (Real.pi / 180)) (((-75) : ℝ) * (Real.pi / 180))))) :=
    IA.mul_mem h72 h72 (by norm_num) (by norm_num) (by norm_num) (by norm_num)
      (by norm_num) (by norm_num) (by norm_num) (by norm_num)
  have h75 : (IA.IQ.mk 4 4).memR ((4 : ℝ)) :=
    IA.memR_of_bounds (by norm_num) (by norm_num)
  have h76 : (IA.IQ.mk 399999999999990574161017e-23 400000000000009425838986e-23).memR (((4 : ℝ)) * (aR (g2sY ((0 : ℝ) * (Real.pi / 180)) (((-75) : ℝ) * (Real.pi / 180))) (g2sX ((0 : ℝ) * (Real.pi / 180)) (((-75) : ℝ) * (Real.pi / 180))))) :=
    IA.mul_mem h75 h68 (by norm_num) (by norm_num) (by norm_num) (by norm_num)
      (by norm_num) (by norm_num) (by norm_num) (by norm_num)
  have h77 : (IA.IQ.mk 6948543027659160260380637e-9 6948543027659487739619416e-9).memR ((((4 : ℝ)) * (aR (g2sY ((0 : ℝ) * (Real.pi / 180)) (((-75) : ℝ) * (Real.pi / 180))) (g2sX ((0 : ℝ) * (Real.pi / 180)) (((-75) : ℝ) * (Real.pi / 180))))) * (cR)) :=
    IA.mul_mem h76 h73 (by norm_num) (by norm_num) (by norm_num) (by norm_num)
      (by norm_num) (by norm_num) (by norm_num) (by norm_num)
  have h78 : (IA.IQ.mk 162722526362744686270385e-9 162722526363407313729577e-9).memR (((bR (g2sY ((0 : ℝ) * (Real.pi / 180)) (((-75) : ℝ) * (Real.pi / 180))) (g2sX ((0 : ℝ) * (Real.pi / 180)) (((-75) : ℝ) * (Real.pi / 180)))) * (bR (g2sY ((0 : ℝ) * (Real.pi / 180)) (((-75) : ℝ) * (Real.pi / 180))) (g2sX ((0 : ℝ) * (Real.pi / 180)) (((-75) : ℝ) * (Real.pi / 180))))) - ((((4 : ℝ)) * (aR (g2sY ((0 : ℝ) * (Real.pi / 180)) (((-75) : ℝ) * (Real.pi / 180))) (g2sX ((0 : ℝ) * (Real.pi / 180)) (((-75) : ℝ) * (Real.pi / 180))))) * (cR))) :=
    IA.sub_mem h74 h77 (by norm_num) (by norm_num)
  have h79 : (IA.IQ.mk 162722526362744686270385e-9 162722526363407313729577e-9).memR (discR (g2sY ((0 : ℝ) * (Real.pi / 180)) (((-75) : ℝ) * (Real.pi / 180))) (g2sX ((0 : ℝ) * (Real.pi / 180)) (((-75) : ℝ) * (Real.pi / 180)))) :=
    by unfold discR; exact h78
  have h80 : (IA.IQ.mk 8432831999999900641854244e-17 8432832000000099358145765e-17).memR (-bR (g2sY ((0 : ℝ) * (Real.pi / 180)) (((-75) : ℝ) * (Real.pi / 180))) (g2sX ((0 : ℝ) * (Real.pi / 180)) (((-75) : ℝ) * (Real.pi / 180)))) :=
    IA.neg_mem h72 (by norm_num) (by norm_num)
  have h81 : (IA.IQ.mk 1275627399998701369500156e-17 1275627400001298630499694e-17).memR (Real.sqrt (discR (g2sY ((0 : ℝ) * (Real.pi / 180)) (((-75) : ℝ) * (Real.pi / 180))) (g2sX ((0 : ℝ) * (Real.pi / 180)) (((-75) : ℝ) * (Real.pi / 180))))) :=
    IA.sqrt_mem h79 (by norm_num) (by norm_num) (by norm_num)
  have h82 : (IA.IQ.mk 715720459999860201135455e-16 7157204600001397988645609e-17).memR ((-bR (g2sY ((0 : ℝ) * (Real.pi / 180)) (((-75) : ℝ) * (Real.pi / 180))) (g2sX ((0 : ℝ) * (Real.pi / 180)) (((-75) : ℝ) * (Real.pi / 180)))) - (Real.sqrt (discR (g2sY ((0 : ℝ) * (Real.pi / 180)) (((-75) : ℝ) * (Real.pi / 180))) (g2sX ((0 : ℝ) * (Real.pi / 180)) (((-75) : ℝ) * (Real.pi / 180)))))) :=
    IA.sub_mem h80 h81 (by norm_num) (by norm_num)
  have h83 : (IA.IQ.mk 2 2).memR ((2 : ℝ)) :=
    IA.memR_of_bounds (by norm_num) (by norm_num)
  have h84 : (IA.IQ.mk 1999999999999952870805085e-24 200000000000004712919493e-23).memR (((2 : ℝ)) * (aR (g2sY ((0 : ℝ) * (Real.pi / 180)) (((-75) : ℝ) * (Real.pi / 180))) (g2sX ((0 : ℝ) * (Real.pi / 180)) (((-75) : ℝ) * (Real.pi / 180))))) :=
    IA.mul_mem h83 h68 (by norm_num) (by norm_num) (by norm_num) (by norm_num)
      (by norm_num) (by norm_num) (by norm_num) (by norm_num)
  have h85 : (IA.IQ.mk 3578602299999216677354588e-17 3578602300000783322645465e-17).memR (((-bR (g2sY ((0 : ℝ) * (Real.pi / 180)) (((-75) : ℝ) * (Real.pi / 180))) (g2sX ((0 : ℝ) * (Real.pi / 180)) (((-75) : ℝ) * (Real.pi / 180)))) - (Real.sqrt (discR (g2sY ((0 : ℝ) * (Real.pi / 180)) (((-75) : ℝ) * (Real.pi / 180))) (g2sX ((0 : ℝ) * (Real.pi / 180)) (((-75) : ℝ) * (Real.pi / 180)))))) / (((2 : ℝ)) * (aR (g2sY ((0 : ℝ) * (Real.pi / 180)) (((-75) : ℝ) * (Real.pi / 180))) (g2sX ((0 : ℝ) * (Real.pi / 180)) (((-75) : ℝ) * (Real.pi / 180)))))) :=
    IA.div_mem h82 h84 (by norm_num) (by norm_num) (by norm_num)
      (by norm_num) (by norm_num)
  have h86 : (IA.IQ.mk 3578602299999216677354588e-17 3578602300000783322645465e-17).memR (rsR (g2sY ((0 : ℝ) * (Real.pi / 180)) (((-75) : ℝ) * (Real.pi / 180))) (g2sX ((0 : ℝ) * (Real.pi / 180)) (((-75) : ℝ) * (Real.pi / 180)))) :=
    by unfold rsR; exact h85
  have h87 : (IA.IQ.mk 3578602299999216677353257e-17 3578602300000783322646797e-17).memR ((rsR (g2sY ((0 : ℝ) * (Real.pi / 180)) (((-75) : ℝ) * (Real.pi / 180))) (g2sX ((0 : ℝ) * (Real.pi / 180)) (((-75) : ℝ) * (Real.pi / 180)))) * (Real.cos (g2sX ((0 : ℝ) * (Real.pi / 180)) (((-75) : ℝ) * (Real.pi / 180))))) :=
    IA.mul_mem h86 h56 (by norm_num) (by norm_num) (by norm_num) (by norm_num)
      (by norm_num) (by norm_num) (by norm_num) (by norm_num)
  have h88 : (IA.IQ.mk 3578602299999174513193257e-17 3578602300000825486806801e-17).memR (((rsR (g2sY ((0 : ℝ) * (Real.pi / 180)) (((-75) : ℝ) * (Real.pi / 180))) (g2sX ((0 : ℝ) * (Real.pi / 180)) (((-75) : ℝ) * (Real.pi / 180)))) * (Real.cos (g2sX ((0 : ℝ) * (Real.pi / 180)) (((-75) : ℝ) * (Real.pi / 180))))) * (Real.cos (g2sY ((0 : ℝ) * (Real.pi / 180)) (((-75) : ℝ) * (Real.pi / 180))))) :=
    IA.mul_mem h87 h58 (by norm_num) (by norm_num) (by norm_num) (by norm_num)
      (by norm_num) (by norm_num) (by norm_num) (by norm_num)
  have h89 : (IA.IQ.mk 3578602299999174513193257e-17 3578602300000825486806801e-17).memR (sxR (g2sY ((0 : ℝ) * (Real.pi / 180)) (((-75) : ℝ) * (Real.pi / 180))) (g2sX ((0 : ℝ) * (Real.pi / 180)) (((-75) : ℝ) * (Real.pi / 180)))) :=
    by unfold sxR; exact h88
  have h90 : (IA.IQ.mk (-3578602300000783322645465e-17) (-3578602299999216677354588e-17)).memR (-rsR (g2sY ((0 : ℝ) * (Real.pi / 180)) (((-75) : ℝ) * (Real.pi / 180))) (g2sX ((0 : ℝ) * (Real.pi / 180)) (((-75) : ℝ) * (Real.pi / 180)))) :=
    IA.neg_mem h86 (by norm_num) (by norm_num)
  have h91 : (IA.IQ.mk (-2712505142853176504953889e-29) (-2712505140193517169358665e-29)).memR ((-rsR (g2sY ((0 : ℝ) * (Real.pi / 180)) (((-75) : ℝ) * (Real.pi / 180))) (g2sX ((0 : ℝ) * (Real.pi / 180)) (((-75) : ℝ) * (Real.pi / 180)))) * (Real.sin (g2sX ((0 : ℝ) * (Real.pi / 180)) (((-75) : ℝ) * (Real.pi / 180))))) :=
    IA.mul_mem h90 h55 (by norm_num) (by norm_num) (by norm_num) (by norm_num)
      (by norm_num) (by norm_num) (by norm_num) (by norm_num)
  have h92 : (IA.IQ.mk (-2712505142853176504953889e-29) (-2712505140193517169358665e-29)).memR (syR (g2sY ((0 : ℝ) * (Real.pi / 180)) (((-75) : ℝ) * (Real.pi / 180))) (g2sX ((0 : ℝ) * (Real.pi / 180)) (((-75) : ℝ) * (Real.pi / 180)))) :=
    by unfold syR; exact h91
  have h93 : (IA.IQ.mk (-4216416000000924467301168e-31) 4216416000000924467301168e-31).memR (((rsR (g2sY ((0 : ℝ) * (Real.pi / 180)) (((-75) : ℝ) * (Real.pi / 180))) (g2sX ((0 : ℝ) * (Real.pi / 180)) (((-75) : ℝ) * (Real.pi / 180)))) * (Real.cos (g2sX ((0 : ℝ) * (Real.pi / 180)) (((-75) : ℝ) * (Real.pi / 180))))) * (Real.sin (g2sY ((0 : ℝ) * (Real.pi / 180)) (((-75) : ℝ) * (Real.pi / 180))))) :=
    IA.mul_mem h87 h57 (by norm_num) (by norm_num) (by norm_num) (by norm_num)
      (by norm_num) (by norm_num) (by norm_num) (by norm_num)
  have h94 : (IA.IQ.mk (-4216416000000924467301168e-31) 4216416000000924467301168e-31).memR (szR (g2sY ((0 : ℝ) * (Real.pi / 180)) (((-75) : ℝ) * (Real.pi / 180))) (g2sX ((0 : ℝ) * (Real.pi / 180)) (((-75) : ℝ) * (Real.pi / 180)))) :=
    by unfold szR; exact h93
  have h95 : (IA.IQ.mk 42164160 42164160).memR (Hgeo) :=
    IA.memR_of_bounds (by norm_num [Hgeo]) (by norm_num [Hgeo])
  have h96 : (IA.IQ.mk 637813699999174513193199e-17 637813700000825486806743e-17).memR ((Hgeo) - (sxR (g2sY ((0 : ℝ) * (Real.pi / 180)) (((-75) : ℝ) * (Real.pi / 180))) (g2sX ((0 : ℝ) * (Real.pi / 180)) (((-75) : ℝ) * (Real.pi / 180))))) :=
    IA.sub_mem h95 h89 (by norm_num) (by norm_num)
  have h97 : (IA.IQ.mk 4068063159066369864109068e-11 4068063159087430135890206e-11).memR (((Hgeo) - (sxR (g2sY ((0 : ℝ) * (Real.pi / 180)) (((-75) : ℝ) * (Real.pi / 180))) (g2sX ((0 : ℝ) * (Real.pi / 180)) (((-75) : ℝ) * (Real.pi / 180))))) * ((Hgeo) - (sxR (g2sY ((0 : ℝ) * (Real.pi / 180)) (((-75) : ℝ) * (Real.pi / 180))) (g2sX ((0 : ℝ) * (Real.pi / 180)) (((-75) : ℝ) * (Real.pi / 180)))))) :=
    IA.mul_mem h96 h96 (by norm_num) (by norm_num) (by norm_num) (by norm_num)
      (by norm_num) (by norm_num) (by norm_num) (by norm_num)
  have h98 : (IA.IQ.mk 7357684135576252233164707e-34 7357684150004931478169935e-34).memR ((syR (g2sY ((0 : ℝ) * (Real.pi / 180)) (((-75) : ℝ) * (Real.pi / 180))) (g2sX ((0 : ℝ) * (Real.pi / 180)) (((-75) : ℝ) * (Real.pi / 180)))) * (syR (g2sY ((0 : ℝ) * (Real.pi / 180)) (((-75) : ℝ) * (Real.pi / 180))) (g2sX ((0 : ℝ) * (Real.pi / 180)) (((-75) : ℝ) * (Real.pi / 180))))) :=
    IA.mul_mem h92 h92 (by norm_num) (by norm_num) (by norm_num) (by norm_num)
      (by norm_num) (by norm_num) (by norm_num) (by norm_num)
  have h99 : (IA.IQ.mk 4068063159066369864109141e-11 406806315908743013589028e-10).memR ((((Hgeo) - (sxR (g2sY ((0 : ℝ) * (Real.pi / 180)) (((-75) : ℝ) * (Real.pi / 180))) (g2sX ((0 : ℝ) * (Real.pi / 180)) (((-75) : ℝ) * (Real.pi / 180))))) * ((Hgeo) - (sxR (g2sY ((0 : ℝ) * (Real.pi / 180)) (((-75) : ℝ) * (Real.pi / 180))) (g2sX ((0 : ℝ) * (Real.pi / 180)) (((-75) : ℝ) * (Real.pi / 180)))))) + ((syR (g2sY ((0 : ℝ) * (Real.pi / 180)) (((-75) : ℝ) * (Real.pi / 180))) (g2sX ((0 : ℝ) * (Real.pi / 180)) (((-75) : ℝ) * (Real.pi / 180)))) * (syR (g2sY ((0 : ℝ) * (Real.pi / 180)) (((-75) : ℝ) * (Real.pi / 180))) (g2sX ((0 : ℝ) * (Real.pi / 180)) (((-75) : ℝ) * (Real.pi / 180)))))) :=
    IA.add_mem h97 h98 (by norm_num) (by norm_num)
  have h100 : (IA.IQ.mk 6378136999991745131932047e-18 6378137000008254868067489e-18).memR (Real.sqrt ((((Hgeo) - (sxR (g2sY ((0 : ℝ) * (Real.pi / 180)) (((-75) : ℝ) * (Real.pi / 180))) (g2sX ((0 : ℝ) * (Real.pi / 180)) (((-75) : ℝ) * (Real.pi / 180))))) * ((Hgeo) - (sxR (g2sY ((0 : ℝ) * (Real.pi / 180)) (((-75) : ℝ) * (Real.pi / 180))) (g2sX ((0 : ℝ) * (Real.pi / 180)) (((-75) : ℝ) * (Real.pi / 180)))))) + ((syR (g2sY ((0 : ℝ) * (Real.pi / 180)) (((-75) : ℝ) * (Real.pi / 180))) (g2sX ((0 : ℝ) * (Real.pi / 180)) (((-75) : ℝ) * (Real.pi / 180)))) * (syR (g2sY ((0 : ℝ) * (Real.pi / 180)) (((-75) : ℝ) * (Real.pi / 180))) (g2sX ((0 : ℝ) * (Real.pi / 180)) (((-75) : ℝ) * (Real.pi / 180))))))) :=
    IA.sqrt_mem h99 (by norm_num) (by norm_num) (by norm_num)
  have h101 : (IA.IQ.mk (-6610732883295516449520568e-38) 6610732883295516449520568e-38).memR ((szR (g2sY ((0 : ℝ) * (Real.pi / 180)) (((-75) : ℝ) * (Real.pi / 180))) (g2sX ((0 : ℝ) * (Real.pi / 180)) (((-75) : ℝ) * (Real.pi / 180)))) / (Real.sqrt ((((Hgeo) - (sxR (g2sY ((0 : ℝ) * (Real.pi / 180)) (((-75) : ℝ) * (Real.pi / 180))) (g2sX ((0 : ℝ) * (Real.pi / 180)) (((-75) : ℝ) * (Real.pi / 180))))) * ((Hgeo) - (sxR (g2sY ((0 : ℝ) * (Real.pi / 180)) (((-75) : ℝ) * (Real.pi / 180))) (g2sX ((0 : ℝ) * (Real.pi / 180)) (((-75) : ℝ) * (Real.pi / 180)))))) + ((syR (g2sY ((0 : ℝ) * (Real.pi / 180)) (((-75) : ℝ) * (Real.pi / 180))) (g2sX ((0 : ℝ) * (Real.pi / 180)) (((-75) : ℝ) * (Real.pi / 180)))) * (syR (g2sY ((0 : ℝ) * (Real.pi / 180)) (((-75) : ℝ) * (Real.pi / 180))) (g2sX ((0 : ℝ) * (Real.pi / 180)) (((-75) : ℝ) * (Real.pi / 180)))))))) :=
    IA.div_mem h94 h100 (by norm_num) (by norm_num) (by norm_num)
      (by norm_num) (by norm_num)
  have h102 : (IA.IQ.mk (-6655285896246784418207759e-38) 6655285896246784418207759e-38).memR ((r_eq * r_eq / (r_pol * r_pol)) * ((szR (g2sY ((0 : ℝ) * (Real.pi / 180)) (((-75) : ℝ) * (Real.pi / 180))) (g2sX ((0 : ℝ) * (Real.pi / 180)) (((-75) : ℝ) * (Real.pi / 180)))) / (Real.sqrt ((((Hgeo) - (sxR (g2sY ((0 : ℝ) * (Real.pi / 180)) (((-75) : ℝ) * (Real.pi / 180))) (g2sX ((0 : ℝ) * (Real.pi / 180)) (((-75) : ℝ) * (Real.pi / 180))))) * ((Hgeo) - (sxR (g2sY ((0 : ℝ) * (Real.pi / 180)) (((-75) : ℝ) * (Real.pi / 180))) (g2sX ((0 : ℝ) * (Real.pi / 180)) (((-75) : ℝ) * (Real.pi / 180)))))) + ((syR (g2sY ((0 : ℝ) * (Real.pi / 180)) (((-75) : ℝ) * (Real.pi / 180))) (g2sX ((0 : ℝ) * (Real.pi / 180)) (((-75) : ℝ) * (Real.pi / 180)))) * (syR (g2sY ((0 : ℝ) * (Real.pi / 180)) (((-75) : ℝ) * (Real.pi / 180))) (g2sX ((0 : ℝ) * (Real.pi / 180)) (((-75) : ℝ) * (Real.pi / 180))))))))) :=
    IA.mul_mem h64 h101 (by norm_num) (by norm_num) (by norm_num) (by norm_num)
      (by norm_num) (by norm_num) (by norm_num) (by norm_num)
  have h103p1 : (IA.IQ.mk (-76552858962467841558e-33) (-76552858962467841558e-33)).memR (((-76552858962467841558e-33) : ℚ) : ℝ) :=
    IA.memR_const le_rfl le_rfl
  have h103p2 : (IA.IQ.mk (-76552858962467841558e-33) (-7655285896246784155799999e-38)).memR (Real.sin (((-76552858962467841558e-33) : ℚ) : ℝ)) :=
    IA.sin_mem 76552858962467841558e-33 h103p1 (by norm_num) (by norm_num) (by norm_num) (by norm_num)
      (by norm_num [IA.sinQ, IA.cosQ, IA.errW, IA.taylErr]) (by norm_num [IA.sinQ, IA.cosQ, IA.errW, IA.taylErr])
  have h103p3 : (IA.IQ.mk 9999999999999999999999999e-25 1).memR (Real.cos (((-76552858962467841558e-33) : ℚ) : ℝ)) :=
    IA.cos_mem 76552858962467841558e-33 h103p1 (by norm_num) (by norm_num) (by norm_num) (by norm_num)
      (by norm_num [IA.sinQ, IA.cosQ, IA.errW, IA.taylErr]) (by norm_num [IA.sinQ, IA.cosQ, IA.errW, IA.taylErr])
  have h103p4 : (IA.IQ.mk (-7655285896246784155800001e-38) (-7655285896246784155799999e-38)).memR (Real.tan (((-76552858962467841558e-33) : ℚ) : ℝ)) :=
    IA.tan_mem h103p2 h103p3 (by norm_num) (by norm_num) (by norm_num)
      (by norm_num) (by norm_num)
  have h103p5 : (IA.IQ.mk 76552858962467841558e-33 76552858962467841558e-33).memR ((76552858962467841558e-33 : ℚ) : ℝ) :=
    IA.memR_const le_rfl le_rfl
  have h103p6 : (IA.IQ.mk 7655285896246784155799999e-38 76552858962467841558e-33).memR (Real.sin ((76552858962467841558e-33 : ℚ) : ℝ)) :=
    IA.sin_mem 76552858962467841558e-33 h103p5 (by norm_num) (by norm_num) (by norm_num) (by norm_num)
      (by norm_num [IA.sinQ, IA.cosQ, IA.errW, IA.taylErr]) (by norm_num [IA.sinQ, IA.cosQ, IA.errW, IA.taylErr])
  have h103p7 : (IA.IQ.mk 9999999999999999999999999e-25 1).memR (Real.cos ((76552858962467841558e-33 : ℚ) : ℝ)) :=
    IA.cos_mem 76552858962467841558e-33 h103p5 (by norm_num) (by norm_num) (by norm_num) (by norm_num)
      (by norm_num [IA.sinQ, IA.cosQ, IA.errW, IA.taylErr]) (by norm_num [IA.sinQ, IA.cosQ, IA.errW, IA.taylErr])
  have h103p8 : (IA.IQ.mk 7655285896246784155799999e-38 7655285896246784155800001e-38).memR (Real.tan ((76552858962467841558e-33 : ℚ) : ℝ)) :=
    IA.tan_mem h103p6 h103p7 (by norm_num) (by norm_num) (by norm_num)
      (by norm_num) (by norm_num)
  have h104 : (IA.IQ.mk (-76552858962467841558e-33) 76552858962467841558e-33).memR (Real.arctan ((r_eq * r_eq / (r_pol * r_pol)) * ((szR (g2sY ((0 : ℝ) * (Real.pi / 180)) (((-75) : ℝ) * (Real.pi / 180))) (g2sX ((0 : ℝ) * (Real.pi / 180)) (((-75) : ℝ) * (Real.pi / 180)))) / (Real.sqrt ((((Hgeo) - (sxR (g2sY ((0 : ℝ) * (Real.pi / 180)) (((-75) : ℝ) * (Real.pi / 180))) (g2sX ((0 : ℝ) * (Real.pi / 180)) (((-75) : ℝ) * (Real.pi / 180))))) * ((Hgeo) - (sxR (g2sY ((0 : ℝ) * (Real.pi / 180)) (((-75) : ℝ) * (Real.pi / 180))) (g2sX ((0 : ℝ) * (Real.pi / 180)) (((-75) : ℝ) * (Real.pi / 180)))))) + ((syR (g2sY ((0 : ℝ) * (Real.pi / 180)) (((-75) : ℝ) * (Real.pi / 180))) (g2sX ((0 : ℝ) * (Real.pi / 180)) (((-75) : ℝ) * (Real.pi / 180)))) * (syR (g2sY ((0 : ℝ) * (Real.pi / 180)) (((-75) : ℝ) * (Real.pi / 180))) (g2sX ((0 : ℝ) * (Real.pi / 180)) (((-75) : ℝ) * (Real.pi / 180)))))))))) :=
    IA.arctan_mem (-76552858962467841558e-33) 76552858962467841558e-33 h102 h103p4 h103p8 (by norm_num)
      (by norm_num) (by norm_num) (by norm_num) (by norm_num) (by norm_num)
  have h105 : (IA.IQ.mk 180 180).memR ((180 : ℝ)) :=
    IA.memR_of_bounds (by norm_num) (by norm_num)
  have h106 : (IA.IQ.mk 5729577951308232087666398e-23 5729577951308232087684637e-23).memR (180 / Real.pi) :=
    IA.div_mem h105 IA.pi_mem20 (by norm_num) (by norm_num) (by norm_num)
      (by norm_num) (by norm_num)
  have h107 : (IA.IQ.mk (-4386155728209645290735074e-36) 4386155728209645290735074e-36).memR ((Real.arctan ((r_eq * r_eq / (r_pol * r_pol)) * ((szR (g2sY ((0 : ℝ) * (Real.pi / 180)) (((-75) : ℝ) * (Real.pi / 180))) (g2sX ((0 : ℝ) * (Real.pi / 180)) (((-75) : ℝ) * (Real.pi / 180)))) / (Real.sqrt ((((Hgeo) - (sxR (g2sY ((0 : ℝ) * (Real.pi / 180)) (((-75) : ℝ) * (Real.pi / 180))) (g2sX ((0 : ℝ) * (Real.pi / 180)) (((-75) : ℝ) * (Real.pi / 180))))) * ((Hgeo) - (sxR (g2sY ((0 : ℝ) * (Real.pi / 180)) (((-75) : ℝ) * (Real.pi / 180))) (g2sX ((0 : ℝ) * (Real.pi / 180)) (((-75) : ℝ) * (Real.pi / 180)))))) + ((syR (g2sY ((0 : ℝ) * (Real.pi / 180)) (((-75) : ℝ) * (Real.pi / 180))) (g2sX ((0 : ℝ) * (Real.pi / 180)) (((-75) : ℝ) * (Real.pi / 180)))) * (syR (g2sY ((0 : ℝ) * (Real.pi / 180)) (((-75) : ℝ) * (Real.pi / 180))) (g2sX ((0 : ℝ) * (Real.pi / 180)) (((-75) : ℝ) * (Real.pi / 180)))))))))) * (180 / Real.pi)) :=
    IA.mul_mem h104 h106 (by norm_num) (by norm_num) (by norm_num) (by norm_num)
      (by norm_num) (by norm_num) (by norm_num) (by norm_num)
  have h108 : (IA.IQ.mk (-4386155728209645290735074e-36) 4386155728209645290735074e-36).memR (s2gLat (g2sY ((0 : ℝ) * (Real.pi / 180)) (((-75) : ℝ) * (Real.pi / 180))) (g2sX ((0 : ℝ) * (Real.pi / 180)) (((-75) : ℝ) * (Real.pi / 180)))) :=
    by unfold s2gLat; exact h107
  have h109 : (IA.IQ.mk (-4252817308340487433138641e-36) (-4252817304159516367840002e-36)).memR ((syR (g2sY ((0 : ℝ) * (Real.pi / 180)) (((-75) : ℝ) * (Real.pi / 180))) (g2sX ((0 : ℝ) * (Real.pi / 180)) (((-75) : ℝ) * (Real.pi / 180)))) / ((Hgeo) - (sxR (g2sY ((0 : ℝ) * (Real.pi / 180)) (((-75) : ℝ) * (Real.pi / 180))) (g2sX ((0 : ℝ) * (Real.pi / 180)) (((-75) : ℝ) * (Real.pi / 180)))))) :=
    IA.div_mem h92 h96 (by norm_num) (by norm_num) (by norm_num)
      (by norm_num) (by norm_num)
  have h110p1 : (IA.IQ.mk (-42628173083404872629e-31) (-42628173083404872629e-31)).memR (((-42628173083404872629e-31) : ℚ) : ℝ) :=
    IA.memR_const le_rfl le_rfl
  have h110p2 : (IA.IQ.mk (-4262817308340487262899988e-36) (-4262817308340487262899987e-36)).memR (Real.sin (((-42628173083404872629e-31) : ℚ) : ℝ)) :=
    IA.sin_mem 42628173083404872629e-31 h110p1 (by norm_num) (by norm_num) (by norm_num) (by norm_num)
      (by norm_num [IA.sinQ, IA.cosQ, IA.errW, IA.taylErr]) (by norm_num [IA.sinQ, IA.cosQ, IA.errW, IA.taylErr])
  have h110p3 : (IA.IQ.mk 9999999999999999999999909e-25 999999999999999999999991e-24).memR (Real.cos (((-42628173083404872629e-31) : ℚ) : ℝ)) :=
    IA.cos_mem 42628173083404872629e-31 h110p1 (by norm_num) (by norm_num) (by norm_num) (by norm_num)
      (by norm_num [IA.sinQ, IA.cosQ, IA.errW, IA.taylErr]) (by norm_num [IA.sinQ, IA.cosQ, IA.errW, IA.taylErr])
  have h110p4 : (IA.IQ.mk (-4262817308340487262900027e-36) (-4262817308340487262900025e-36)).memR (Real.tan (((-42628173083404872629e-31) : ℚ) : ℝ)) :=
    IA.tan_mem h110p2 h110p3 (by norm_num) (by norm_num) (by norm_num)
      (by norm_num) (by norm_num)
  have h110p5 : (IA.IQ.mk (-42428173041595165891e-31) (-42428173041595165891e-31)).memR (((-42428173041595165891e-31) : ℚ) : ℝ) :=
    IA.memR_const le_rfl le_rfl
  have h110p6 : (IA.IQ.mk (-4242817304159516589099988e-36) (-4242817304159516589099987e-36)).memR (Real.sin (((-42428173041595165891e-31) : ℚ) : ℝ)) :=
    IA.sin_mem 42428173041595165891e-31 h110p5 (by norm_num) (by norm_num) (by norm_num) (by norm_num)
      (by norm_num [IA.sinQ, IA.cosQ, IA.errW, IA.taylErr]) (by norm_num [IA.sinQ, IA.cosQ, IA.errW, IA.taylErr])
  have h110p7 : (IA.IQ.mk 9999999999999999999999909e-25 999999999999999999999991e-24).memR (Real.cos (((-42428173041595165891e-31) : ℚ) : ℝ)) :=
    IA.cos_mem 42428173041595165891e-31 h110p5 (by norm_num) (by norm_num) (by norm_num) (by norm_num)
      (by norm_num [IA.sinQ, IA.cosQ, IA.errW, IA.taylErr]) (by norm_num [IA.sinQ, IA.cosQ, IA.errW, IA.taylErr])
  have h110p8 : (IA.IQ.mk (-4242817304159516589100027e-36) (-4242817304159516589100025e-36)).memR (Real.tan (((-42428173041595165891e-31) : ℚ) : ℝ)) :=
    IA.tan_mem h110p6 h110p7 (by norm_num) (by norm_num) (by norm_num)
      (by norm_num) (by norm_num)
  have h111 : (IA.IQ.mk (-42628173083404872629e-31) (-42428173041595165891e-31)).memR (Real.arctan ((syR (g2sY ((0 : ℝ) * (Real.pi / 180)) (((-75) : ℝ) * (Real.pi / 180))) (g2sX ((0 : ℝ) * (Real.pi / 180)) (((-75) : ℝ) * (Real.pi / 180)))) / ((Hgeo) - (sxR (g2sY ((0 : ℝ) * (Real.pi / 180)) (((-75) : ℝ) * (Real.pi / 180))) (g2sX ((0 : ℝ) * (Real.pi / 180)) (((-75) : ℝ) * (Real.pi / 180))))))) :=
    IA.arctan_mem (-42628173083404872629e-31) (-42428173041595165891e-31) h109 h110p4 h110p8 (by norm_num)
      (by norm_num) (by norm_num) (by norm_num) (by norm_num) (by norm_num)
  have h112 : (IA.IQ.mk (-1308996939e-9) (-1308996939e-9)).memR (lambda_0) :=
    IA.memR_of_bounds (by norm_num [lambda_0]) (by norm_num [lambda_0])
  have h113 : (IA.IQ.mk (-1308996938995757182695841e-24) (-1308996938995737182691659e-24)).memR ((lambda_0) - (Real.arctan ((syR (g2sY ((0 : ℝ) * (Real.pi / 180)) (((-75) : ℝ) * (Real.pi / 180))) (g2sX ((0 : ℝ) * (Real.pi / 180)) (((-75) : ℝ) * (Real.pi / 180)))) / ((Hgeo) - (sxR (g2sY ((0 : ℝ) * (Real.pi / 180)) (((-75) : ℝ) * (Real.pi / 180))) (g2sX ((0 : ℝ) * (Real.pi / 180)) (((-75) : ℝ) * (Real.pi / 180)))))))) :=
    IA.sub_mem h112 h111 (by norm_num) (by norm_num)
  have h114 : (IA.IQ.mk (-7500000000000057295803431e-23) (-7499999999999942704196568e-23)).memR (((lambda_0) - (Real.arctan ((syR (g2sY ((0 : ℝ) * (Real.pi / 180)) (((-75) : ℝ) * (Real.pi / 180))) (g2sX ((0 : ℝ) * (Real.pi / 180)) (((-75) : ℝ) * (Real.pi / 180)))) / ((Hgeo) - (sxR (g2sY ((0 : ℝ) * (Real.pi / 180)) (((-75) : ℝ) * (Real.pi / 180))) (g2sX ((0 : ℝ) * (Real.pi / 180)) (((-75) : ℝ) * (Real.pi / 180)))))))) * (180 / Real.pi)) :=
    IA.mul_mem h113 h106 (by norm_num) (by norm_num) (by norm_num) (by norm_num)
      (by norm_num) (by norm_num) (by norm_num) (by norm_num)
  have h115 : (IA.IQ.mk (-7500000000000057295803431e-23) (-7499999999999942704196568e-23)).memR (s2gLon (g2sY ((0 : ℝ) * (Real.pi / 180)) (((-75) : ℝ) * (Real.pi / 180))) (g2sX ((0 : ℝ) * (Real.pi / 180)) (((-75) : ℝ) * (Real.pi / 180)))) :=
    by unfold s2gLon; exact h114
  have h116 : (0:ℝ) ≤ (discR (g2sY ((0 : ℝ) * (Real.pi / 180)) (((-75) : ℝ) * (Real.pi / 180))) (g2sX ((0 : ℝ) * (Real.pi / 180)) (((-75) : ℝ) * (Real.pi / 180)))) :=
    le_trans (by norm_num : (0:ℝ) ≤ ((162722526362744686270385e-9 : ℚ) : ℝ)) h79.1
  have h117 : (aR (g2sY ((0 : ℝ) * (Real.pi / 180)) (((-75) : ℝ) * (Real.pi / 180))) (g2sX ((0 : ℝ) * (Real.pi / 180)) (((-75) : ℝ) * (Real.pi / 180)))) ≠ 0 :=
    ne_of_gt (lt_of_lt_of_le (by norm_num : (0:ℝ) < ((9999999999999764354025426e-25 : ℚ) : ℝ)) h68.1)
  have h118 : ((Hgeo) - (sxR (g2sY ((0 : ℝ) * (Real.pi / 180)) (((-75) : ℝ) * (Real.pi / 180))) (g2sX ((0 : ℝ) * (Real.pi / 180)) (((-75) : ℝ) * (Real.pi / 180))))) ≠ 0 :=
    ne_of_gt (lt_of_lt_of_le (by norm_num : (0:ℝ) < ((637813699999174513193199e-17 : ℚ) : ℝ)) h96.1)
  have h119 : (Real.sqrt ((((Hgeo) - (sxR (g2sY ((0 : ℝ) * (Real.pi / 180)) (((-75) : ℝ) * (Real.pi / 180))) (g2sX ((0 : ℝ) * (Real.pi / 180)) (((-75) : ℝ) * (Real.pi / 180))))) * ((Hgeo) - (sxR (g2sY ((0 : ℝ) * (Real.pi / 180)) (((-75) : ℝ) * (Real.pi / 180))) (g2sX ((0 : ℝ) * (Real.pi / 180)) (((-75) : ℝ) * (Real.pi / 180)))))) + ((syR (g2sY ((0 : ℝ) * (Real.pi / 180)) (((-75) : ℝ) * (Real.pi / 180))) (g2sX ((0 : ℝ) * (Real.pi / 180)) (((-75) : ℝ) * (Real.pi / 180)))) * (syR (g2sY ((0 : ℝ) * (Real.pi / 180)) (((-75) : ℝ) * (Real.pi / 180))) (g2sX ((0 : ℝ) * (Real.pi / 180)) (((-75) : ℝ) * (Real.pi / 180))))))) ≠ 0 :=
    ne_of_gt (lt_of_lt_of_le (by norm_num : (0:ℝ) < ((6378136999991745131932047e-18 : ℚ) : ℝ)) h100.1)
  refine ⟨_, _, _, _,
    geod_to_scan_agree 0 (-75) h54,
    scan_to_geod_agree _ _ h116 h117 h118 h119, ?_⟩
  constructor
  · exact IA.abs_lt_of_rat (IA.abs_sub_lt_of_memR h108 0 1e-4
      (by norm_num) (by norm_num)) (by norm_num) (by norm_num)
  · exact IA.abs_lt_of_rat (IA.abs_sub_lt_of_memR h115 (-75) 1e-4
      (by norm_num) (by norm_num)) (by norm_num) (by norm_num)

end Proj
